import Mathlib

/-!
# Sysrepo: envelope builders and validators, typed values and trees, control tool

A shallow embedding of the message builders and validators of
`src/common/sr_protobuf.c`, of the conversions between typed values, typed
trees and schema descriptors and their wire forms, of the schema conformance
check, the printing of typed values, the copy of data trees, the file names and
the permissions of the socket directory of `src/common/sr_utils.c`, and of the
operations install, uninstall and init of `src/executables/sysrepoctl.c`.  From
`src/common/sr_utils.c` it further covers the namespaces of a path, the
trimming of a string, the bits of a leaf as a string, the search and the sort
of a set of nodes, and the copy of a typed tree into a data tree.

Conventions of the embedding.

* A C pointer that may be `NULL` is an `Option`; a `char *` string is an
  `Option String`.
* A message, value or wire value passed as a plain structure stands for a
  valid (non-`NULL`) pointer to it.
* Out-parameters (`Sr__Msg **msg_p`, `Sr__Value **gpb_value`, ...) are results:
  the value stored through the pointer, `none` when nothing is stored.  The
  embedding covers calls whose out-pointers are valid (non-`NULL`).
* The argument-checking macros come from `sr_common.h`: `CHECK_NULL_ARG*`
  returns `SR_ERR_INVAL_ARG`, `CHECK_NULL_NOMEM_*` yields `SR_ERR_NOMEM`,
  `CHECK_NULL_RETURN(p, rc)` returns `rc`.
* The message records and enumerations are those of the generated header
  `sysrepo.pb-c.h`, with the fields and enumerators that `sr_protobuf.c` uses.
* Every allocation request (`sr_calloc`, `strdup`) consults an allocation
  oracle, so that each `NOMEM` path of the code is reachable in the model.
* The schema records of the YANG library (`struct lys_node`, `struct lys_type`)
  and its data nodes (`struct lyd_node`) are inductive types with the members
  that the code reads; chains of siblings are lists.
* Values of type `size_t` are natural numbers; the operations of the code on
  them wrap around at `2 ^ 64`.
* The control tool runs in a state `World`: the file system as a function from
  paths to files, the dependency graph as stored, and the log of the calls that
  act outside the process, in the order in which they are made.  The C library,
  the YANG library, the module-dependencies library and the daemon answer
  through a record `environment`, so that a statement quantified over the
  environment holds for each of their behaviours.
* File modes are natural numbers with the bit masks of `<sys/stat.h>`.
* Where a function works on bytes in place (`sr_str_trim`,
  `sr_libyang_leaf_copy_bits`), the memory or the buffer is a list of bytes and
  an address is a position in it; an access outside the list has no result, so
  that a result shows that every access was inside.
* A pointer stored in a set `struct ly_set` is its address, a natural number;
  variables of type `int` are integers that wrap around at `2 ^ 32`.  A loop
  whose end is not evident from its form takes fuel, and the statements about
  it give the fuel that is enough.
* Library `qsort` and the calls of the YANG library that build a data tree are
  parameters: `qsort` is any method that sees the elements through the
  comparator only, and the YANG library answers through a record
  `yang_library`, given the creating calls made so far.
-/

namespace Sysrepo

/-! ## Result codes -/

/-- Result codes of `sysrepo.h` that occur in the modelled code. -/
inductive sr_error_t where
  | SR_ERR_OK
  | SR_ERR_INVAL_ARG
  | SR_ERR_NOMEM
  | SR_ERR_NOT_FOUND
  | SR_ERR_INTERNAL
  | SR_ERR_IO
  | SR_ERR_MALFORMED_MSG
  | SR_ERR_UNSUPPORTED
  | SR_ERR_LOCKED
  | SR_ERR_UNAUTHORIZED
  | SR_ERR_RESTART_NEEDED
  | SR_ERR_DATA_EXISTS
  | SR_ERR_DATA_MISSING
  | SR_ERR_OPERATION_FAILED
  deriving DecidableEq, Repr

open sr_error_t

/-! ## Memory: allocation oracle and arenas -/

/-- Modelled from the spec: the arena context `sr_mem_ctx_t` of
`sr_mem_mgmt.c`, a region allocator with a growing high-watermark (`head`,
counted in allocated cells) and an object count. -/
structure sr_mem_ctx_t where
  head : Nat := 0
  obj_count : Nat := 0
  deriving DecidableEq, Repr

/-- The memory state threaded through the code: the number of allocation
requests issued so far (the index consulted in the allocation oracle) and the
state of every arena, addressed by the arena's identity (its pointer). -/
structure MemState where
  allocs : Nat := 0
  arena : Nat → sr_mem_ctx_t := fun _ => {}

/-- Modelled from the spec: the snapshot `sr_mem_snapshot_t` of
`sr_mem_mgmt.c`, which captures the current high-watermark and object count of
an arena; `sr_mem = none` is the zero-initialised snapshot `{ 0, }`. -/
structure sr_mem_snapshot_t where
  sr_mem : Option Nat := none
  head : Nat := 0
  obj_count : Nat := 0
  deriving DecidableEq, Repr

/-- Modelled from the spec: `sr_mem_snapshot(sr_mem, &snapshot)` of
`sr_mem_mgmt.c`, a cheap capture of the arena's head and object count. -/
def sr_mem_snapshot (st : MemState) (sr_mem : Nat) : sr_mem_snapshot_t :=
  { sr_mem := some sr_mem, head := (st.arena sr_mem).head, obj_count := (st.arena sr_mem).obj_count }

/-- Modelled from the spec: `sr_mem_restore(&snapshot)` of `sr_mem_mgmt.c`,
which returns the arena to the captured high-watermark and object count. -/
def sr_mem_restore (st : MemState) (snapshot : sr_mem_snapshot_t) : MemState :=
  match snapshot.sr_mem with
  | none => st
  | some a =>
    { st with arena := Function.update st.arena a { head := snapshot.head, obj_count := snapshot.obj_count } }

/-- Modelled from the spec: `sr_calloc(sr_mem, n, size)` of `sr_mem_mgmt.c`
(`alloc(ctx, n, size) → pointer | NOMEM`).  With an arena the cells are taken
from it and raise its high-watermark, without one they come from the C heap.
The request fails (`NULL`) exactly when the oracle `A` says so for its
sequence number; a failed request leaves the arena as it was. -/
def sr_calloc (A : Nat → Bool) (st : MemState) (sr_mem : Option Nat) (n : Nat) : Bool × MemState :=
  if A st.allocs then
    match sr_mem with
    | none => (true, { st with allocs := st.allocs + 1 })
    | some a =>
      (true, { allocs := st.allocs + 1,
               arena := Function.update st.arena a { st.arena a with head := (st.arena a).head + n } })
  else
    (false, { st with allocs := st.allocs + 1 })

/-- Library `strdup`: a heap allocation that fails when the oracle says so. -/
def strdup (A : Nat → Bool) (st : MemState) (s : String) : Option String × MemState :=
  if A st.allocs then (some s, { st with allocs := st.allocs + 1 })
  else (none, { st with allocs := st.allocs + 1 })

/-- The statement `++sr_mem->obj_count`. -/
def sr_mem_obj_count_incr (st : MemState) (a : Nat) : MemState :=
  { st with arena := Function.update st.arena a { st.arena a with obj_count := (st.arena a).obj_count + 1 } }

/-- Outcome of a function that returns a result code, stores a result through
an out-pointer and changes the memory state. -/
structure Outcome (α : Type) where
  rc : sr_error_t
  out : Option α
  st : MemState

/-! ## Wire enumerations -/

/-- Operation codes `Sr__Operation` (generated header, enumerators as named in
`sr_gpb_operation_name`).  `unrecognized c` stands for an integer `c` that is
not the value of any enumerator. -/
inductive Sr__Operation where
  | SR__OPERATION__SESSION_START
  | SR__OPERATION__SESSION_STOP
  | SR__OPERATION__SESSION_REFRESH
  | SR__OPERATION__SESSION_CHECK
  | SR__OPERATION__SESSION_SWITCH_DS
  | SR__OPERATION__SESSION_SET_OPTS
  | SR__OPERATION__LIST_SCHEMAS
  | SR__OPERATION__GET_SCHEMA
  | SR__OPERATION__MODULE_INSTALL
  | SR__OPERATION__FEATURE_ENABLE
  | SR__OPERATION__GET_ITEM
  | SR__OPERATION__GET_ITEMS
  | SR__OPERATION__GET_SUBTREE
  | SR__OPERATION__GET_SUBTREES
  | SR__OPERATION__GET_SUBTREE_CHUNK
  | SR__OPERATION__SET_ITEM
  | SR__OPERATION__SET_ITEM_STR
  | SR__OPERATION__DELETE_ITEM
  | SR__OPERATION__MOVE_ITEM
  | SR__OPERATION__VALIDATE
  | SR__OPERATION__COMMIT
  | SR__OPERATION__DISCARD_CHANGES
  | SR__OPERATION__COPY_CONFIG
  | SR__OPERATION__LOCK
  | SR__OPERATION__UNLOCK
  | SR__OPERATION__SUBSCRIBE
  | SR__OPERATION__UNSUBSCRIBE
  | SR__OPERATION__CHECK_ENABLED_RUNNING
  | SR__OPERATION__GET_CHANGES
  | SR__OPERATION__DATA_PROVIDE
  | SR__OPERATION__CHECK_EXEC_PERMISSION
  | SR__OPERATION__RPC
  | SR__OPERATION__ACTION
  | SR__OPERATION__UNSUBSCRIBE_DESTINATION
  | SR__OPERATION__COMMIT_TIMEOUT
  | SR__OPERATION__EVENT_NOTIF
  | SR__OPERATION__EVENT_NOTIF_REPLAY
  | SR__OPERATION__OPER_DATA_TIMEOUT
  | SR__OPERATION__INTERNAL_STATE_DATA
  | SR__OPERATION__NOTIF_STORE_CLEANUP
  | SR__OPERATION__DELAYED_MSG
  | _SR__OPERATION_IS_INT_SIZE
  | unrecognized (code : Int)
  deriving DecidableEq, Repr

open Sr__Operation

/-- Message kinds `Sr__Msg__MsgType`. -/
inductive Sr__Msg__MsgType where
  | SR__MSG__MSG_TYPE__REQUEST
  | SR__MSG__MSG_TYPE__RESPONSE
  | SR__MSG__MSG_TYPE__NOTIFICATION
  | SR__MSG__MSG_TYPE__NOTIFICATION_ACK
  | SR__MSG__MSG_TYPE__INTERNAL_REQUEST
  deriving DecidableEq, Repr

open Sr__Msg__MsgType

/-- Subscription types `Sr__SubscriptionType`. -/
inductive Sr__SubscriptionType where
  | SR__SUBSCRIPTION_TYPE__MODULE_INSTALL_SUBS
  | SR__SUBSCRIPTION_TYPE__FEATURE_ENABLE_SUBS
  | SR__SUBSCRIPTION_TYPE__MODULE_CHANGE_SUBS
  | SR__SUBSCRIPTION_TYPE__SUBTREE_CHANGE_SUBS
  | SR__SUBSCRIPTION_TYPE__DP_GET_ITEMS_SUBS
  | SR__SUBSCRIPTION_TYPE__RPC_SUBS
  | SR__SUBSCRIPTION_TYPE__ACTION_SUBS
  | SR__SUBSCRIPTION_TYPE__EVENT_NOTIF_SUBS
  | SR__SUBSCRIPTION_TYPE__HELLO_SUBS
  | SR__SUBSCRIPTION_TYPE__COMMIT_END_SUBS
  deriving DecidableEq, Repr

open Sr__SubscriptionType

/-! ## Envelope records -/

/-- A sub-message as the builders leave it: allocated and set to its
protobuf defaults by the generated `..._init` function.  The builders and the
validators only distinguish an absent slot (`NULL`) from a present one. -/
inductive ProtobufCMessage where
  | init
  deriving DecidableEq, Repr

/-- Request body `Sr__Request`: the operation and one pointer per request payload. -/
structure Sr__Request where
  operation : Sr__Operation := SR__OPERATION__SESSION_START
  session_start_req : Option ProtobufCMessage := none
  session_stop_req : Option ProtobufCMessage := none
  session_refresh_req : Option ProtobufCMessage := none
  session_check_req : Option ProtobufCMessage := none
  session_switch_ds_req : Option ProtobufCMessage := none
  session_set_opts_req : Option ProtobufCMessage := none
  list_schemas_req : Option ProtobufCMessage := none
  get_schema_req : Option ProtobufCMessage := none
  feature_enable_req : Option ProtobufCMessage := none
  module_install_req : Option ProtobufCMessage := none
  get_item_req : Option ProtobufCMessage := none
  get_items_req : Option ProtobufCMessage := none
  get_subtree_req : Option ProtobufCMessage := none
  get_subtrees_req : Option ProtobufCMessage := none
  get_subtree_chunk_req : Option ProtobufCMessage := none
  set_item_req : Option ProtobufCMessage := none
  set_item_str_req : Option ProtobufCMessage := none
  delete_item_req : Option ProtobufCMessage := none
  move_item_req : Option ProtobufCMessage := none
  validate_req : Option ProtobufCMessage := none
  commit_req : Option ProtobufCMessage := none
  discard_changes_req : Option ProtobufCMessage := none
  copy_config_req : Option ProtobufCMessage := none
  lock_req : Option ProtobufCMessage := none
  unlock_req : Option ProtobufCMessage := none
  subscribe_req : Option ProtobufCMessage := none
  unsubscribe_req : Option ProtobufCMessage := none
  check_enabled_running_req : Option ProtobufCMessage := none
  get_changes_req : Option ProtobufCMessage := none
  data_provide_req : Option ProtobufCMessage := none
  check_exec_perm_req : Option ProtobufCMessage := none
  rpc_req : Option ProtobufCMessage := none
  event_notif_req : Option ProtobufCMessage := none
  event_notif_replay_req : Option ProtobufCMessage := none
  deriving DecidableEq, Repr

/-- Response body `Sr__Response`: operation, result code and one pointer per
response payload. -/
structure Sr__Response where
  operation : Sr__Operation := SR__OPERATION__SESSION_START
  result : sr_error_t := SR_ERR_OK
  session_start_resp : Option ProtobufCMessage := none
  session_stop_resp : Option ProtobufCMessage := none
  session_refresh_resp : Option ProtobufCMessage := none
  session_check_resp : Option ProtobufCMessage := none
  session_switch_ds_resp : Option ProtobufCMessage := none
  session_set_opts_resp : Option ProtobufCMessage := none
  list_schemas_resp : Option ProtobufCMessage := none
  get_schema_resp : Option ProtobufCMessage := none
  feature_enable_resp : Option ProtobufCMessage := none
  module_install_resp : Option ProtobufCMessage := none
  get_item_resp : Option ProtobufCMessage := none
  get_items_resp : Option ProtobufCMessage := none
  get_subtree_resp : Option ProtobufCMessage := none
  get_subtrees_resp : Option ProtobufCMessage := none
  get_subtree_chunk_resp : Option ProtobufCMessage := none
  set_item_resp : Option ProtobufCMessage := none
  set_item_str_resp : Option ProtobufCMessage := none
  delete_item_resp : Option ProtobufCMessage := none
  move_item_resp : Option ProtobufCMessage := none
  validate_resp : Option ProtobufCMessage := none
  commit_resp : Option ProtobufCMessage := none
  discard_changes_resp : Option ProtobufCMessage := none
  copy_config_resp : Option ProtobufCMessage := none
  lock_resp : Option ProtobufCMessage := none
  unlock_resp : Option ProtobufCMessage := none
  subscribe_resp : Option ProtobufCMessage := none
  unsubscribe_resp : Option ProtobufCMessage := none
  check_enabled_running_resp : Option ProtobufCMessage := none
  get_changes_resp : Option ProtobufCMessage := none
  data_provide_resp : Option ProtobufCMessage := none
  check_exec_perm_resp : Option ProtobufCMessage := none
  rpc_resp : Option ProtobufCMessage := none
  event_notif_resp : Option ProtobufCMessage := none
  event_notif_replay_resp : Option ProtobufCMessage := none
  deriving DecidableEq, Repr

/-- Notification body `Sr__Notification`. -/
structure Sr__Notification where
  type : Sr__SubscriptionType := SR__SUBSCRIPTION_TYPE__MODULE_INSTALL_SUBS
  destination_address : Option String := none
  subscription_id : Nat := 0
  module_install_notif : Option ProtobufCMessage := none
  feature_enable_notif : Option ProtobufCMessage := none
  module_change_notif : Option ProtobufCMessage := none
  subtree_change_notif : Option ProtobufCMessage := none
  deriving DecidableEq, Repr

/-- Notification acknowledgement `Sr__NotificationAck`. -/
structure Sr__NotificationAck where
  notif : Option Sr__Notification := none
  deriving DecidableEq, Repr

/-- Internal request body `Sr__InternalRequest`. -/
structure Sr__InternalRequest where
  operation : Sr__Operation := SR__OPERATION__SESSION_START
  unsubscribe_dst_req : Option ProtobufCMessage := none
  commit_timeout_req : Option ProtobufCMessage := none
  oper_data_timeout_req : Option ProtobufCMessage := none
  internal_state_data_req : Option ProtobufCMessage := none
  notif_store_cleanup_req : Option ProtobufCMessage := none
  delayed_msg_req : Option ProtobufCMessage := none
  deriving DecidableEq, Repr

/-- The envelope `Sr__Msg`.  `_sysrepo_mem_ctx` is the arena the message is
associated with (`none` for the C value 0). -/
structure Sr__Msg where
  type : Sr__Msg__MsgType := SR__MSG__MSG_TYPE__REQUEST
  session_id : Nat := 0
  request : Option Sr__Request := none
  response : Option Sr__Response := none
  notification : Option Sr__Notification := none
  notification_ack : Option Sr__NotificationAck := none
  internal_request : Option Sr__InternalRequest := none
  _sysrepo_mem_ctx : Option Nat := none
  deriving DecidableEq, Repr

/-- Generated initialiser `sr__msg__init`: every pointer `NULL`. -/
def sr__msg__init : Sr__Msg := {}

/-- Generated initialiser `sr__request__init`: every pointer `NULL`. -/
def sr__request__init : Sr__Request := {}

/-- Generated initialiser `sr__response__init`: every pointer `NULL`. -/
def sr__response__init : Sr__Response := {}

/-- Generated initialiser `sr__notification__init`: every pointer `NULL`. -/
def sr__notification__init : Sr__Notification := {}

/-- Generated initialiser `sr__notification_ack__init`. -/
def sr__notification_ack__init : Sr__NotificationAck := {}

/-- Generated initialiser `sr__internal_request__init`: every pointer `NULL`. -/
def sr__internal_request__init : Sr__InternalRequest := {}

/-! ## Envelope builders -/

/-- The `error:` label shared by the builders: without an arena the partly
built message is released, with an arena the snapshot taken on entry is
restored; nothing is stored through the out-pointer. -/
def alloc_error {α : Type} (st : MemState) (snapshot : sr_mem_snapshot_t) (rc : sr_error_t) : Outcome α :=
  { rc := rc, out := none, st := sr_mem_restore st snapshot }

/-- The snapshot a builder holds after `if (sr_mem) sr_mem_snapshot(sr_mem, &snapshot)`. -/
def entry_snapshot (st : MemState) (sr_mem : Option Nat) : sr_mem_snapshot_t :=
  match sr_mem with
  | none => {}
  | some a => sr_mem_snapshot st a

/-- The tail of every builder: associate the message with the arena
(`++sr_mem->obj_count; msg->_sysrepo_mem_ctx = sr_mem`), store it through
`msg_p` and return `SR_ERR_OK`. -/
def alloc_finish (st : MemState) (sr_mem : Option Nat) (msg : Sr__Msg) : Outcome Sr__Msg :=
  match sr_mem with
  | none => { rc := SR_ERR_OK, out := some msg, st := st }
  | some a =>
    { rc := SR_ERR_OK, out := some { msg with _sysrepo_mem_ctx := some a },
      st := sr_mem_obj_count_incr st a }

/-- The `switch (operation)` of `sr_gpb_req_alloc`: the slot assignment of the
matching `case`, or `none` for `default`. -/
def sr_gpb_req_alloc_switch (operation : Sr__Operation) :
    Option (Sr__Request → ProtobufCMessage → Sr__Request) :=
  match operation with
  | SR__OPERATION__SESSION_START => some fun req sub_msg => { req with session_start_req := some sub_msg }
  | SR__OPERATION__SESSION_STOP => some fun req sub_msg => { req with session_stop_req := some sub_msg }
  | SR__OPERATION__SESSION_REFRESH => some fun req sub_msg => { req with session_refresh_req := some sub_msg }
  | SR__OPERATION__SESSION_CHECK => some fun req sub_msg => { req with session_check_req := some sub_msg }
  | SR__OPERATION__SESSION_SWITCH_DS => some fun req sub_msg => { req with session_switch_ds_req := some sub_msg }
  | SR__OPERATION__SESSION_SET_OPTS => some fun req sub_msg => { req with session_set_opts_req := some sub_msg }
  | SR__OPERATION__LIST_SCHEMAS => some fun req sub_msg => { req with list_schemas_req := some sub_msg }
  | SR__OPERATION__GET_SCHEMA => some fun req sub_msg => { req with get_schema_req := some sub_msg }
  | SR__OPERATION__FEATURE_ENABLE => some fun req sub_msg => { req with feature_enable_req := some sub_msg }
  | SR__OPERATION__MODULE_INSTALL => some fun req sub_msg => { req with module_install_req := some sub_msg }
  | SR__OPERATION__GET_ITEM => some fun req sub_msg => { req with get_item_req := some sub_msg }
  | SR__OPERATION__GET_ITEMS => some fun req sub_msg => { req with get_items_req := some sub_msg }
  | SR__OPERATION__GET_SUBTREE => some fun req sub_msg => { req with get_subtree_req := some sub_msg }
  | SR__OPERATION__GET_SUBTREES => some fun req sub_msg => { req with get_subtrees_req := some sub_msg }
  | SR__OPERATION__GET_SUBTREE_CHUNK => some fun req sub_msg => { req with get_subtree_chunk_req := some sub_msg }
  | SR__OPERATION__SET_ITEM => some fun req sub_msg => { req with set_item_req := some sub_msg }
  | SR__OPERATION__SET_ITEM_STR => some fun req sub_msg => { req with set_item_str_req := some sub_msg }
  | SR__OPERATION__DELETE_ITEM => some fun req sub_msg => { req with delete_item_req := some sub_msg }
  | SR__OPERATION__MOVE_ITEM => some fun req sub_msg => { req with move_item_req := some sub_msg }
  | SR__OPERATION__VALIDATE => some fun req sub_msg => { req with validate_req := some sub_msg }
  | SR__OPERATION__COMMIT => some fun req sub_msg => { req with commit_req := some sub_msg }
  | SR__OPERATION__DISCARD_CHANGES => some fun req sub_msg => { req with discard_changes_req := some sub_msg }
  | SR__OPERATION__COPY_CONFIG => some fun req sub_msg => { req with copy_config_req := some sub_msg }
  | SR__OPERATION__LOCK => some fun req sub_msg => { req with lock_req := some sub_msg }
  | SR__OPERATION__UNLOCK => some fun req sub_msg => { req with unlock_req := some sub_msg }
  | SR__OPERATION__SUBSCRIBE => some fun req sub_msg => { req with subscribe_req := some sub_msg }
  | SR__OPERATION__UNSUBSCRIBE => some fun req sub_msg => { req with unsubscribe_req := some sub_msg }
  | SR__OPERATION__CHECK_ENABLED_RUNNING => some fun req sub_msg => { req with check_enabled_running_req := some sub_msg }
  | SR__OPERATION__GET_CHANGES => some fun req sub_msg => { req with get_changes_req := some sub_msg }
  | SR__OPERATION__DATA_PROVIDE => some fun req sub_msg => { req with data_provide_req := some sub_msg }
  | SR__OPERATION__CHECK_EXEC_PERMISSION => some fun req sub_msg => { req with check_exec_perm_req := some sub_msg }
  | SR__OPERATION__RPC => some fun req sub_msg => { req with rpc_req := some sub_msg }
  | SR__OPERATION__ACTION => some fun req sub_msg => { req with rpc_req := some sub_msg }
  | SR__OPERATION__EVENT_NOTIF => some fun req sub_msg => { req with event_notif_req := some sub_msg }
  | SR__OPERATION__EVENT_NOTIF_REPLAY => some fun req sub_msg => { req with event_notif_replay_req := some sub_msg }
  | _ => none

/-- Builder `sr_gpb_req_alloc(sr_mem, operation, session_id, msg_p)`. -/
def sr_gpb_req_alloc (A : Nat → Bool) (st : MemState) (sr_mem : Option Nat)
    (operation : Sr__Operation) (session_id : Nat) : Outcome Sr__Msg :=
  let snapshot := entry_snapshot st sr_mem
  match sr_calloc A st sr_mem 1 with
  | (false, st1) => alloc_error st1 snapshot SR_ERR_NOMEM
  | (true, st1) =>
    let msg : Sr__Msg :=
      { sr__msg__init with type := SR__MSG__MSG_TYPE__REQUEST, session_id := session_id }
    match sr_calloc A st1 sr_mem 1 with
    | (false, st2) => alloc_error st2 snapshot SR_ERR_NOMEM
    | (true, st2) =>
      let req : Sr__Request := { sr__request__init with operation := operation }
      match sr_gpb_req_alloc_switch operation with
      | none => alloc_error st2 snapshot SR_ERR_UNSUPPORTED
      | some assign =>
        match sr_calloc A st2 sr_mem 1 with
        | (false, st3) => alloc_error st3 snapshot SR_ERR_NOMEM
        | (true, st3) =>
          alloc_finish st3 sr_mem { msg with request := some (assign req ProtobufCMessage.init) }

/-- The `switch (operation)` of `sr_gpb_resp_alloc`: the slot assignment of the
matching `case`, or `none` for `default`. -/
def sr_gpb_resp_alloc_switch (operation : Sr__Operation) :
    Option (Sr__Response → ProtobufCMessage → Sr__Response) :=
  match operation with
  | SR__OPERATION__SESSION_START => some fun resp sub_msg => { resp with session_start_resp := some sub_msg }
  | SR__OPERATION__SESSION_STOP => some fun resp sub_msg => { resp with session_stop_resp := some sub_msg }
  | SR__OPERATION__SESSION_REFRESH => some fun resp sub_msg => { resp with session_refresh_resp := some sub_msg }
  | SR__OPERATION__SESSION_CHECK => some fun resp sub_msg => { resp with session_check_resp := some sub_msg }
  | SR__OPERATION__SESSION_SWITCH_DS => some fun resp sub_msg => { resp with session_switch_ds_resp := some sub_msg }
  | SR__OPERATION__SESSION_SET_OPTS => some fun resp sub_msg => { resp with session_set_opts_resp := some sub_msg }
  | SR__OPERATION__LIST_SCHEMAS => some fun resp sub_msg => { resp with list_schemas_resp := some sub_msg }
  | SR__OPERATION__GET_SCHEMA => some fun resp sub_msg => { resp with get_schema_resp := some sub_msg }
  | SR__OPERATION__FEATURE_ENABLE => some fun resp sub_msg => { resp with feature_enable_resp := some sub_msg }
  | SR__OPERATION__MODULE_INSTALL => some fun resp sub_msg => { resp with module_install_resp := some sub_msg }
  | SR__OPERATION__GET_ITEM => some fun resp sub_msg => { resp with get_item_resp := some sub_msg }
  | SR__OPERATION__GET_ITEMS => some fun resp sub_msg => { resp with get_items_resp := some sub_msg }
  | SR__OPERATION__GET_SUBTREE => some fun resp sub_msg => { resp with get_subtree_resp := some sub_msg }
  | SR__OPERATION__GET_SUBTREES => some fun resp sub_msg => { resp with get_subtrees_resp := some sub_msg }
  | SR__OPERATION__GET_SUBTREE_CHUNK => some fun resp sub_msg => { resp with get_subtree_chunk_resp := some sub_msg }
  | SR__OPERATION__SET_ITEM => some fun resp sub_msg => { resp with set_item_resp := some sub_msg }
  | SR__OPERATION__SET_ITEM_STR => some fun resp sub_msg => { resp with set_item_str_resp := some sub_msg }
  | SR__OPERATION__DELETE_ITEM => some fun resp sub_msg => { resp with delete_item_resp := some sub_msg }
  | SR__OPERATION__MOVE_ITEM => some fun resp sub_msg => { resp with move_item_resp := some sub_msg }
  | SR__OPERATION__VALIDATE => some fun resp sub_msg => { resp with validate_resp := some sub_msg }
  | SR__OPERATION__COMMIT => some fun resp sub_msg => { resp with commit_resp := some sub_msg }
  | SR__OPERATION__DISCARD_CHANGES => some fun resp sub_msg => { resp with discard_changes_resp := some sub_msg }
  | SR__OPERATION__COPY_CONFIG => some fun resp sub_msg => { resp with copy_config_resp := some sub_msg }
  | SR__OPERATION__LOCK => some fun resp sub_msg => { resp with lock_resp := some sub_msg }
  | SR__OPERATION__UNLOCK => some fun resp sub_msg => { resp with unlock_resp := some sub_msg }
  | SR__OPERATION__SUBSCRIBE => some fun resp sub_msg => { resp with subscribe_resp := some sub_msg }
  | SR__OPERATION__UNSUBSCRIBE => some fun resp sub_msg => { resp with unsubscribe_resp := some sub_msg }
  | SR__OPERATION__CHECK_ENABLED_RUNNING => some fun resp sub_msg => { resp with check_enabled_running_resp := some sub_msg }
  | SR__OPERATION__GET_CHANGES => some fun resp sub_msg => { resp with get_changes_resp := some sub_msg }
  | SR__OPERATION__DATA_PROVIDE => some fun resp sub_msg => { resp with data_provide_resp := some sub_msg }
  | SR__OPERATION__CHECK_EXEC_PERMISSION => some fun resp sub_msg => { resp with check_exec_perm_resp := some sub_msg }
  | SR__OPERATION__RPC => some fun resp sub_msg => { resp with rpc_resp := some sub_msg }
  | SR__OPERATION__ACTION => some fun resp sub_msg => { resp with rpc_resp := some sub_msg }
  | SR__OPERATION__EVENT_NOTIF => some fun resp sub_msg => { resp with event_notif_resp := some sub_msg }
  | SR__OPERATION__EVENT_NOTIF_REPLAY => some fun resp sub_msg => { resp with event_notif_replay_resp := some sub_msg }
  | _ => none

/-- Builder `sr_gpb_resp_alloc(sr_mem, operation, session_id, msg_p)`. -/
def sr_gpb_resp_alloc (A : Nat → Bool) (st : MemState) (sr_mem : Option Nat)
    (operation : Sr__Operation) (session_id : Nat) : Outcome Sr__Msg :=
  let snapshot := entry_snapshot st sr_mem
  match sr_calloc A st sr_mem 1 with
  | (false, st1) => alloc_error st1 snapshot SR_ERR_NOMEM
  | (true, st1) =>
    let msg : Sr__Msg :=
      { sr__msg__init with type := SR__MSG__MSG_TYPE__RESPONSE, session_id := session_id }
    match sr_calloc A st1 sr_mem 1 with
    | (false, st2) => alloc_error st2 snapshot SR_ERR_NOMEM
    | (true, st2) =>
      let resp : Sr__Response :=
        { sr__response__init with operation := operation, result := SR_ERR_OK }
      match sr_gpb_resp_alloc_switch operation with
      | none => alloc_error st2 snapshot SR_ERR_UNSUPPORTED
      | some assign =>
        match sr_calloc A st2 sr_mem 1 with
        | (false, st3) => alloc_error st3 snapshot SR_ERR_NOMEM
        | (true, st3) =>
          alloc_finish st3 sr_mem { msg with response := some (assign resp ProtobufCMessage.init) }

/-- The `switch (type)` of `sr_gpb_notif_alloc`: `none` for `default`,
`some none` for the two cases without sub-message, otherwise the slot
assignment of the case. -/
def sr_gpb_notif_alloc_switch (type : Sr__SubscriptionType) :
    Option (Option (Sr__Notification → ProtobufCMessage → Sr__Notification)) :=
  match type with
  | SR__SUBSCRIPTION_TYPE__MODULE_INSTALL_SUBS => some (some fun notif sub_msg => { notif with module_install_notif := some sub_msg })
  | SR__SUBSCRIPTION_TYPE__FEATURE_ENABLE_SUBS => some (some fun notif sub_msg => { notif with feature_enable_notif := some sub_msg })
  | SR__SUBSCRIPTION_TYPE__MODULE_CHANGE_SUBS => some (some fun notif sub_msg => { notif with module_change_notif := some sub_msg })
  | SR__SUBSCRIPTION_TYPE__SUBTREE_CHANGE_SUBS => some (some fun notif sub_msg => { notif with subtree_change_notif := some sub_msg })
  | SR__SUBSCRIPTION_TYPE__HELLO_SUBS => some none
  | SR__SUBSCRIPTION_TYPE__COMMIT_END_SUBS => some none
  | _ => none

/-- Builder `sr_gpb_notif_alloc(sr_mem, type, destination, subscription_id, msg_p)`. -/
def sr_gpb_notif_alloc (A : Nat → Bool) (st : MemState) (sr_mem : Option Nat)
    (type : Sr__SubscriptionType) (destination : String) (subscription_id : Nat) :
    Outcome Sr__Msg :=
  let snapshot := entry_snapshot st sr_mem
  match sr_calloc A st sr_mem 1 with
  | (false, st1) => alloc_error st1 snapshot SR_ERR_NOMEM
  | (true, st1) =>
    let msg : Sr__Msg :=
      { sr__msg__init with type := SR__MSG__MSG_TYPE__NOTIFICATION, session_id := 0 }
    match sr_calloc A st1 sr_mem 1 with
    | (false, st2) => alloc_error st2 snapshot SR_ERR_NOMEM
    | (true, st2) =>
      let notif : Sr__Notification :=
        { sr__notification__init with type := type, subscription_id := subscription_id }
      match strdup A st2 destination with
      | (none, st3) => alloc_error st3 snapshot SR_ERR_NOMEM
      | (some dst, st3) =>
        let notif : Sr__Notification := { notif with destination_address := some dst }
        match sr_gpb_notif_alloc_switch type with
        | none => alloc_error st3 snapshot SR_ERR_UNSUPPORTED
        | some none => alloc_finish st3 sr_mem { msg with notification := some notif }
        | some (some assign) =>
          match sr_calloc A st3 sr_mem 1 with
          | (false, st4) => alloc_error st4 snapshot SR_ERR_NOMEM
          | (true, st4) =>
            alloc_finish st4 sr_mem
              { msg with notification := some (assign notif ProtobufCMessage.init) }

/-- The `switch (operation)` of `sr_gpb_internal_req_alloc`: the slot
assignment of the matching `case`, or `none` for `default`. -/
def sr_gpb_internal_req_alloc_switch (operation : Sr__Operation) :
    Option (Sr__InternalRequest → ProtobufCMessage → Sr__InternalRequest) :=
  match operation with
  | SR__OPERATION__UNSUBSCRIBE_DESTINATION => some fun req sub_msg => { req with unsubscribe_dst_req := some sub_msg }
  | SR__OPERATION__COMMIT_TIMEOUT => some fun req sub_msg => { req with commit_timeout_req := some sub_msg }
  | SR__OPERATION__OPER_DATA_TIMEOUT => some fun req sub_msg => { req with oper_data_timeout_req := some sub_msg }
  | SR__OPERATION__INTERNAL_STATE_DATA => some fun req sub_msg => { req with internal_state_data_req := some sub_msg }
  | SR__OPERATION__NOTIF_STORE_CLEANUP => some fun req sub_msg => { req with notif_store_cleanup_req := some sub_msg }
  | SR__OPERATION__DELAYED_MSG => some fun req sub_msg => { req with delayed_msg_req := some sub_msg }
  | _ => none

/-- Builder `sr_gpb_internal_req_alloc(sr_mem, operation, msg_p)`.  Its
`default:` branch is a plain `break`: the function goes on to its successful
tail without a sub-message. -/
def sr_gpb_internal_req_alloc (A : Nat → Bool) (st : MemState) (sr_mem : Option Nat)
    (operation : Sr__Operation) : Outcome Sr__Msg :=
  let snapshot := entry_snapshot st sr_mem
  match sr_calloc A st sr_mem 1 with
  | (false, st1) => alloc_error st1 snapshot SR_ERR_NOMEM
  | (true, st1) =>
    let msg : Sr__Msg :=
      { sr__msg__init with type := SR__MSG__MSG_TYPE__INTERNAL_REQUEST, session_id := 0 }
    match sr_calloc A st1 sr_mem 1 with
    | (false, st2) => alloc_error st2 snapshot SR_ERR_NOMEM
    | (true, st2) =>
      let req : Sr__InternalRequest := { sr__internal_request__init with operation := operation }
      match sr_gpb_internal_req_alloc_switch operation with
      | none => alloc_finish st2 sr_mem { msg with internal_request := some req }
      | some assign =>
        match sr_calloc A st2 sr_mem 1 with
        | (false, st3) => alloc_error st3 snapshot SR_ERR_NOMEM
        | (true, st3) =>
          alloc_finish st3 sr_mem
            { msg with internal_request := some (assign req ProtobufCMessage.init) }

/-! ## Envelope validators -/

/-- The macro `CHECK_NULL_RETURN(ptr, SR_ERR_MALFORMED_MSG)` followed by `break`
and the final `return SR_ERR_OK` of the validators. -/
def check_slot (slot : Option ProtobufCMessage) : sr_error_t :=
  match slot with
  | none => SR_ERR_MALFORMED_MSG
  | some _ => SR_ERR_OK

/-- Validator `sr_gpb_msg_validate(msg, type, operation)`.  The kind that is
examined is the parameter `type`; the field `msg->type` is not read. -/
def sr_gpb_msg_validate (msg : Sr__Msg) (type : Sr__Msg__MsgType) (operation : Sr__Operation) :
    sr_error_t :=
  if type = SR__MSG__MSG_TYPE__REQUEST then
    match msg.request with
    | none => SR_ERR_MALFORMED_MSG
    | some request =>
      if request.operation ≠ operation then SR_ERR_MALFORMED_MSG
      else
        match operation with
        | SR__OPERATION__SESSION_START => check_slot request.session_start_req
        | SR__OPERATION__SESSION_STOP => check_slot request.session_stop_req
        | SR__OPERATION__SESSION_REFRESH => check_slot request.session_refresh_req
        | SR__OPERATION__SESSION_CHECK => check_slot request.session_check_req
        | SR__OPERATION__SESSION_SWITCH_DS => check_slot request.session_switch_ds_req
        | SR__OPERATION__SESSION_SET_OPTS => check_slot request.session_set_opts_req
        | SR__OPERATION__LIST_SCHEMAS => check_slot request.list_schemas_req
        | SR__OPERATION__GET_SCHEMA => check_slot request.get_schema_req
        | SR__OPERATION__FEATURE_ENABLE => check_slot request.feature_enable_req
        | SR__OPERATION__MODULE_INSTALL => check_slot request.module_install_req
        | SR__OPERATION__GET_ITEM => check_slot request.get_item_req
        | SR__OPERATION__GET_ITEMS => check_slot request.get_items_req
        | SR__OPERATION__GET_SUBTREE => check_slot request.get_subtree_req
        | SR__OPERATION__GET_SUBTREES => check_slot request.get_subtrees_req
        | SR__OPERATION__GET_SUBTREE_CHUNK => check_slot request.get_subtree_chunk_req
        | SR__OPERATION__SET_ITEM => check_slot request.set_item_req
        | SR__OPERATION__SET_ITEM_STR => check_slot request.set_item_str_req
        | SR__OPERATION__DELETE_ITEM => check_slot request.delete_item_req
        | SR__OPERATION__MOVE_ITEM => check_slot request.move_item_req
        | SR__OPERATION__VALIDATE => check_slot request.validate_req
        | SR__OPERATION__COMMIT => check_slot request.commit_req
        | SR__OPERATION__DISCARD_CHANGES => check_slot request.discard_changes_req
        | SR__OPERATION__COPY_CONFIG => check_slot request.copy_config_req
        | SR__OPERATION__LOCK => check_slot request.lock_req
        | SR__OPERATION__UNLOCK => check_slot request.unlock_req
        | SR__OPERATION__SUBSCRIBE => check_slot request.subscribe_req
        | SR__OPERATION__UNSUBSCRIBE => check_slot request.unsubscribe_req
        | SR__OPERATION__CHECK_ENABLED_RUNNING => check_slot request.check_enabled_running_req
        | SR__OPERATION__GET_CHANGES => check_slot request.get_changes_req
        | SR__OPERATION__DATA_PROVIDE => check_slot request.data_provide_req
        | SR__OPERATION__CHECK_EXEC_PERMISSION => check_slot request.check_exec_perm_req
        | SR__OPERATION__RPC => check_slot request.rpc_req
        | SR__OPERATION__ACTION => check_slot request.rpc_req
        | SR__OPERATION__EVENT_NOTIF => check_slot request.event_notif_req
        | SR__OPERATION__EVENT_NOTIF_REPLAY => check_slot request.event_notif_replay_req
        | _ => SR_ERR_MALFORMED_MSG
  else if type = SR__MSG__MSG_TYPE__RESPONSE then
    match msg.response with
    | none => SR_ERR_MALFORMED_MSG
    | some response =>
      if response.operation ≠ operation then SR_ERR_MALFORMED_MSG
      else
        match operation with
        | SR__OPERATION__SESSION_START => check_slot response.session_start_resp
        | SR__OPERATION__SESSION_STOP => check_slot response.session_stop_resp
        | SR__OPERATION__SESSION_REFRESH => check_slot response.session_refresh_resp
        | SR__OPERATION__SESSION_CHECK => check_slot response.session_check_resp
        | SR__OPERATION__SESSION_SWITCH_DS => check_slot response.session_switch_ds_resp
        | SR__OPERATION__SESSION_SET_OPTS => check_slot response.session_set_opts_resp
        | SR__OPERATION__LIST_SCHEMAS => check_slot response.list_schemas_resp
        | SR__OPERATION__GET_SCHEMA => check_slot response.get_schema_resp
        | SR__OPERATION__FEATURE_ENABLE => check_slot response.feature_enable_resp
        | SR__OPERATION__MODULE_INSTALL => check_slot response.module_install_resp
        | SR__OPERATION__GET_ITEM => check_slot response.get_item_resp
        | SR__OPERATION__GET_ITEMS => check_slot response.get_items_resp
        | SR__OPERATION__GET_SUBTREE => check_slot response.get_subtree_resp
        | SR__OPERATION__GET_SUBTREES => check_slot response.get_subtrees_resp
        | SR__OPERATION__GET_SUBTREE_CHUNK => check_slot response.get_subtree_chunk_resp
        | SR__OPERATION__SET_ITEM => check_slot response.set_item_resp
        | SR__OPERATION__SET_ITEM_STR => check_slot response.set_item_str_resp
        | SR__OPERATION__DELETE_ITEM => check_slot response.delete_item_resp
        | SR__OPERATION__MOVE_ITEM => check_slot response.move_item_resp
        | SR__OPERATION__VALIDATE => check_slot response.validate_resp
        | SR__OPERATION__COMMIT => check_slot response.commit_resp
        | SR__OPERATION__DISCARD_CHANGES => check_slot response.discard_changes_resp
        | SR__OPERATION__COPY_CONFIG => check_slot response.copy_config_resp
        | SR__OPERATION__LOCK => check_slot response.lock_resp
        | SR__OPERATION__UNLOCK => check_slot response.unlock_resp
        | SR__OPERATION__SUBSCRIBE => check_slot response.subscribe_resp
        | SR__OPERATION__UNSUBSCRIBE => check_slot response.unsubscribe_resp
        | SR__OPERATION__CHECK_ENABLED_RUNNING => check_slot response.check_enabled_running_resp
        | SR__OPERATION__GET_CHANGES => check_slot response.get_changes_resp
        | SR__OPERATION__DATA_PROVIDE => check_slot response.data_provide_resp
        | SR__OPERATION__CHECK_EXEC_PERMISSION => check_slot response.check_exec_perm_resp
        | SR__OPERATION__RPC => check_slot response.rpc_resp
        | SR__OPERATION__ACTION => check_slot response.rpc_resp
        | SR__OPERATION__EVENT_NOTIF => check_slot response.event_notif_resp
        | SR__OPERATION__EVENT_NOTIF_REPLAY => check_slot response.event_notif_replay_resp
        | _ => SR_ERR_MALFORMED_MSG
  else SR_ERR_MALFORMED_MSG

/-- Validator `sr_gpb_msg_validate_notif(msg, type)`. -/
def sr_gpb_msg_validate_notif (msg : Sr__Msg) (type : Sr__SubscriptionType) : sr_error_t :=
  if msg.type = SR__MSG__MSG_TYPE__NOTIFICATION then
    match msg.notification with
    | none => SR_ERR_MALFORMED_MSG
    | some notification =>
      if notification.type ≠ SR__SUBSCRIPTION_TYPE__HELLO_SUBS ∧
          notification.type ≠ SR__SUBSCRIPTION_TYPE__COMMIT_END_SUBS ∧
          notification.type ≠ type then SR_ERR_MALFORMED_MSG
      else
        match notification.type with
        | SR__SUBSCRIPTION_TYPE__MODULE_INSTALL_SUBS => check_slot notification.module_install_notif
        | SR__SUBSCRIPTION_TYPE__FEATURE_ENABLE_SUBS => check_slot notification.feature_enable_notif
        | SR__SUBSCRIPTION_TYPE__MODULE_CHANGE_SUBS => check_slot notification.module_change_notif
        | SR__SUBSCRIPTION_TYPE__SUBTREE_CHANGE_SUBS => check_slot notification.subtree_change_notif
        | SR__SUBSCRIPTION_TYPE__HELLO_SUBS => SR_ERR_OK
        | SR__SUBSCRIPTION_TYPE__COMMIT_END_SUBS => SR_ERR_OK
        | _ => SR_ERR_MALFORMED_MSG
  else SR_ERR_MALFORMED_MSG

/-! ## Payload slots, by name -/

/-- The payload slots of a request or response body, by the stem of their field
name (`get_item` for `get_item_req` and `get_item_resp`). -/
inductive Slot where
  | session_start
  | session_stop
  | session_refresh
  | session_check
  | session_switch_ds
  | session_set_opts
  | list_schemas
  | get_schema
  | feature_enable
  | module_install
  | get_item
  | get_items
  | get_subtree
  | get_subtrees
  | get_subtree_chunk
  | set_item
  | set_item_str
  | delete_item
  | move_item
  | validate
  | commit
  | discard_changes
  | copy_config
  | lock
  | unlock
  | subscribe
  | unsubscribe
  | check_enabled_running
  | get_changes
  | data_provide
  | check_exec_perm
  | rpc
  | event_notif
  | event_notif_replay
  deriving DecidableEq, Repr

/-- Read a request slot by name. -/
def Sr__Request.slot (req : Sr__Request) : Slot → Option ProtobufCMessage
  | .session_start => req.session_start_req
  | .session_stop => req.session_stop_req
  | .session_refresh => req.session_refresh_req
  | .session_check => req.session_check_req
  | .session_switch_ds => req.session_switch_ds_req
  | .session_set_opts => req.session_set_opts_req
  | .list_schemas => req.list_schemas_req
  | .get_schema => req.get_schema_req
  | .feature_enable => req.feature_enable_req
  | .module_install => req.module_install_req
  | .get_item => req.get_item_req
  | .get_items => req.get_items_req
  | .get_subtree => req.get_subtree_req
  | .get_subtrees => req.get_subtrees_req
  | .get_subtree_chunk => req.get_subtree_chunk_req
  | .set_item => req.set_item_req
  | .set_item_str => req.set_item_str_req
  | .delete_item => req.delete_item_req
  | .move_item => req.move_item_req
  | .validate => req.validate_req
  | .commit => req.commit_req
  | .discard_changes => req.discard_changes_req
  | .copy_config => req.copy_config_req
  | .lock => req.lock_req
  | .unlock => req.unlock_req
  | .subscribe => req.subscribe_req
  | .unsubscribe => req.unsubscribe_req
  | .check_enabled_running => req.check_enabled_running_req
  | .get_changes => req.get_changes_req
  | .data_provide => req.data_provide_req
  | .check_exec_perm => req.check_exec_perm_req
  | .rpc => req.rpc_req
  | .event_notif => req.event_notif_req
  | .event_notif_replay => req.event_notif_replay_req

/-- Read a response slot by name. -/
def Sr__Response.slot (resp : Sr__Response) : Slot → Option ProtobufCMessage
  | .session_start => resp.session_start_resp
  | .session_stop => resp.session_stop_resp
  | .session_refresh => resp.session_refresh_resp
  | .session_check => resp.session_check_resp
  | .session_switch_ds => resp.session_switch_ds_resp
  | .session_set_opts => resp.session_set_opts_resp
  | .list_schemas => resp.list_schemas_resp
  | .get_schema => resp.get_schema_resp
  | .feature_enable => resp.feature_enable_resp
  | .module_install => resp.module_install_resp
  | .get_item => resp.get_item_resp
  | .get_items => resp.get_items_resp
  | .get_subtree => resp.get_subtree_resp
  | .get_subtrees => resp.get_subtrees_resp
  | .get_subtree_chunk => resp.get_subtree_chunk_resp
  | .set_item => resp.set_item_resp
  | .set_item_str => resp.set_item_str_resp
  | .delete_item => resp.delete_item_resp
  | .move_item => resp.move_item_resp
  | .validate => resp.validate_resp
  | .commit => resp.commit_resp
  | .discard_changes => resp.discard_changes_resp
  | .copy_config => resp.copy_config_resp
  | .lock => resp.lock_resp
  | .unlock => resp.unlock_resp
  | .subscribe => resp.subscribe_resp
  | .unsubscribe => resp.unsubscribe_resp
  | .check_enabled_running => resp.check_enabled_running_resp
  | .get_changes => resp.get_changes_resp
  | .data_provide => resp.data_provide_resp
  | .check_exec_perm => resp.check_exec_perm_resp
  | .rpc => resp.rpc_resp
  | .event_notif => resp.event_notif_resp
  | .event_notif_replay => resp.event_notif_replay_resp

/-- The payload slot that belongs to an operation: the slot named after it,
`RPC` and `ACTION` sharing the slot `rpc`.  The six internal operations and
unrecognized codes have no request or response slot. -/
def Sr__Operation.slot : Sr__Operation → Option Slot
  | SR__OPERATION__SESSION_START => some .session_start
  | SR__OPERATION__SESSION_STOP => some .session_stop
  | SR__OPERATION__SESSION_REFRESH => some .session_refresh
  | SR__OPERATION__SESSION_CHECK => some .session_check
  | SR__OPERATION__SESSION_SWITCH_DS => some .session_switch_ds
  | SR__OPERATION__SESSION_SET_OPTS => some .session_set_opts
  | SR__OPERATION__LIST_SCHEMAS => some .list_schemas
  | SR__OPERATION__GET_SCHEMA => some .get_schema
  | SR__OPERATION__FEATURE_ENABLE => some .feature_enable
  | SR__OPERATION__MODULE_INSTALL => some .module_install
  | SR__OPERATION__GET_ITEM => some .get_item
  | SR__OPERATION__GET_ITEMS => some .get_items
  | SR__OPERATION__GET_SUBTREE => some .get_subtree
  | SR__OPERATION__GET_SUBTREES => some .get_subtrees
  | SR__OPERATION__GET_SUBTREE_CHUNK => some .get_subtree_chunk
  | SR__OPERATION__SET_ITEM => some .set_item
  | SR__OPERATION__SET_ITEM_STR => some .set_item_str
  | SR__OPERATION__DELETE_ITEM => some .delete_item
  | SR__OPERATION__MOVE_ITEM => some .move_item
  | SR__OPERATION__VALIDATE => some .validate
  | SR__OPERATION__COMMIT => some .commit
  | SR__OPERATION__DISCARD_CHANGES => some .discard_changes
  | SR__OPERATION__COPY_CONFIG => some .copy_config
  | SR__OPERATION__LOCK => some .lock
  | SR__OPERATION__UNLOCK => some .unlock
  | SR__OPERATION__SUBSCRIBE => some .subscribe
  | SR__OPERATION__UNSUBSCRIBE => some .unsubscribe
  | SR__OPERATION__CHECK_ENABLED_RUNNING => some .check_enabled_running
  | SR__OPERATION__GET_CHANGES => some .get_changes
  | SR__OPERATION__DATA_PROVIDE => some .data_provide
  | SR__OPERATION__CHECK_EXEC_PERMISSION => some .check_exec_perm
  | SR__OPERATION__RPC => some .rpc
  | SR__OPERATION__ACTION => some .rpc
  | SR__OPERATION__EVENT_NOTIF => some .event_notif
  | SR__OPERATION__EVENT_NOTIF_REPLAY => some .event_notif_replay
  | _ => none

/-- The 35 client operations, in the order of the spec (session lifecycle,
schema catalog, data access, mutation, transaction, locking, subscription). -/
def client_operations : List Sr__Operation :=
  [SR__OPERATION__SESSION_START,
   SR__OPERATION__SESSION_STOP,
   SR__OPERATION__SESSION_REFRESH,
   SR__OPERATION__SESSION_CHECK,
   SR__OPERATION__SESSION_SWITCH_DS,
   SR__OPERATION__SESSION_SET_OPTS,
   SR__OPERATION__LIST_SCHEMAS,
   SR__OPERATION__GET_SCHEMA,
   SR__OPERATION__MODULE_INSTALL,
   SR__OPERATION__FEATURE_ENABLE,
   SR__OPERATION__GET_ITEM,
   SR__OPERATION__GET_ITEMS,
   SR__OPERATION__GET_SUBTREE,
   SR__OPERATION__GET_SUBTREES,
   SR__OPERATION__GET_SUBTREE_CHUNK,
   SR__OPERATION__SET_ITEM,
   SR__OPERATION__SET_ITEM_STR,
   SR__OPERATION__DELETE_ITEM,
   SR__OPERATION__MOVE_ITEM,
   SR__OPERATION__VALIDATE,
   SR__OPERATION__COMMIT,
   SR__OPERATION__DISCARD_CHANGES,
   SR__OPERATION__COPY_CONFIG,
   SR__OPERATION__LOCK,
   SR__OPERATION__UNLOCK,
   SR__OPERATION__SUBSCRIBE,
   SR__OPERATION__UNSUBSCRIBE,
   SR__OPERATION__CHECK_ENABLED_RUNNING,
   SR__OPERATION__GET_CHANGES,
   SR__OPERATION__DATA_PROVIDE,
   SR__OPERATION__CHECK_EXEC_PERMISSION,
   SR__OPERATION__RPC,
   SR__OPERATION__ACTION,
   SR__OPERATION__EVENT_NOTIF,
   SR__OPERATION__EVENT_NOTIF_REPLAY]

/-- The six internal operations. -/
def internal_operations : List Sr__Operation :=
  [SR__OPERATION__UNSUBSCRIBE_DESTINATION,
   SR__OPERATION__COMMIT_TIMEOUT,
   SR__OPERATION__OPER_DATA_TIMEOUT,
   SR__OPERATION__INTERNAL_STATE_DATA,
   SR__OPERATION__NOTIF_STORE_CLEANUP,
   SR__OPERATION__DELAYED_MSG]

/-- The payload slots of an internal request body. -/
inductive InternalSlot where
  | unsubscribe_dst_req
  | commit_timeout_req
  | oper_data_timeout_req
  | internal_state_data_req
  | notif_store_cleanup_req
  | delayed_msg_req
  deriving DecidableEq, Repr

/-- Read an internal-request slot by name. -/
def Sr__InternalRequest.slot (req : Sr__InternalRequest) : InternalSlot → Option ProtobufCMessage
  | .unsubscribe_dst_req => req.unsubscribe_dst_req
  | .commit_timeout_req => req.commit_timeout_req
  | .oper_data_timeout_req => req.oper_data_timeout_req
  | .internal_state_data_req => req.internal_state_data_req
  | .notif_store_cleanup_req => req.notif_store_cleanup_req
  | .delayed_msg_req => req.delayed_msg_req

/-- The payload slot that belongs to an internal operation. -/
def Sr__Operation.internal_slot : Sr__Operation → Option InternalSlot
  | SR__OPERATION__UNSUBSCRIBE_DESTINATION => some .unsubscribe_dst_req
  | SR__OPERATION__COMMIT_TIMEOUT => some .commit_timeout_req
  | SR__OPERATION__OPER_DATA_TIMEOUT => some .oper_data_timeout_req
  | SR__OPERATION__INTERNAL_STATE_DATA => some .internal_state_data_req
  | SR__OPERATION__NOTIF_STORE_CLEANUP => some .notif_store_cleanup_req
  | SR__OPERATION__DELAYED_MSG => some .delayed_msg_req
  | _ => none

/-- The payload slots of a notification body. -/
inductive NotifSlot where
  | module_install_notif
  | feature_enable_notif
  | module_change_notif
  | subtree_change_notif
  deriving DecidableEq, Repr

/-- Read a notification slot by name. -/
def Sr__Notification.slot (notif : Sr__Notification) : NotifSlot → Option ProtobufCMessage
  | .module_install_notif => notif.module_install_notif
  | .feature_enable_notif => notif.feature_enable_notif
  | .module_change_notif => notif.module_change_notif
  | .subtree_change_notif => notif.subtree_change_notif

/-- The payload slot that belongs to a subscription type; the notification
body declares a slot for four of the ten types only. -/
def Sr__SubscriptionType.slot : Sr__SubscriptionType → Option NotifSlot
  | SR__SUBSCRIPTION_TYPE__MODULE_INSTALL_SUBS => some .module_install_notif
  | SR__SUBSCRIPTION_TYPE__FEATURE_ENABLE_SUBS => some .feature_enable_notif
  | SR__SUBSCRIPTION_TYPE__MODULE_CHANGE_SUBS => some .module_change_notif
  | SR__SUBSCRIPTION_TYPE__SUBTREE_CHANGE_SUBS => some .subtree_change_notif
  | _ => none

/-- The closed enumeration of subscription types, in the order of the glossary. -/
def subscription_types : List Sr__SubscriptionType :=
  [SR__SUBSCRIPTION_TYPE__MODULE_INSTALL_SUBS,
   SR__SUBSCRIPTION_TYPE__FEATURE_ENABLE_SUBS,
   SR__SUBSCRIPTION_TYPE__MODULE_CHANGE_SUBS,
   SR__SUBSCRIPTION_TYPE__SUBTREE_CHANGE_SUBS,
   SR__SUBSCRIPTION_TYPE__DP_GET_ITEMS_SUBS,
   SR__SUBSCRIPTION_TYPE__RPC_SUBS,
   SR__SUBSCRIPTION_TYPE__ACTION_SUBS,
   SR__SUBSCRIPTION_TYPE__EVENT_NOTIF_SUBS,
   SR__SUBSCRIPTION_TYPE__HELLO_SUBS,
   SR__SUBSCRIPTION_TYPE__COMMIT_END_SUBS]

/-! ## Typed values -/

/-- Value tags `sr_type_t` (`sysrepo.h`): the sentinel `SR_UNKNOWN_T`, the
iterator tag used by the tree code, and the 22 tags that have a wire form.
`unrecognized c` stands for an integer that is not the value of an
enumerator. -/
inductive sr_type_t where
  | SR_UNKNOWN_T
  | SR_TREE_ITERATOR_T
  | SR_LIST_T
  | SR_CONTAINER_T
  | SR_CONTAINER_PRESENCE_T
  | SR_LEAF_EMPTY_T
  | SR_BINARY_T
  | SR_BITS_T
  | SR_BOOL_T
  | SR_DECIMAL64_T
  | SR_ENUM_T
  | SR_IDENTITYREF_T
  | SR_INSTANCEID_T
  | SR_INT8_T
  | SR_INT16_T
  | SR_INT32_T
  | SR_INT64_T
  | SR_STRING_T
  | SR_UINT8_T
  | SR_UINT16_T
  | SR_UINT32_T
  | SR_UINT64_T
  | SR_ANYXML_T
  | SR_ANYDATA_T
  | unrecognized (code : Int)
  deriving DecidableEq, Repr

open sr_type_t

/-- Wire tags `Sr__Value__Types` (generated header).  `unrecognized c` stands
for an integer that is not the value of an enumerator. -/
inductive Sr__Value__Types where
  | SR__VALUE__TYPES__LIST
  | SR__VALUE__TYPES__CONTAINER
  | SR__VALUE__TYPES__CONTAINER_PRESENCE
  | SR__VALUE__TYPES__LEAF_EMPTY
  | SR__VALUE__TYPES__BINARY
  | SR__VALUE__TYPES__BITS
  | SR__VALUE__TYPES__BOOL
  | SR__VALUE__TYPES__DECIMAL64
  | SR__VALUE__TYPES__ENUM
  | SR__VALUE__TYPES__IDENTITYREF
  | SR__VALUE__TYPES__INSTANCEID
  | SR__VALUE__TYPES__INT8
  | SR__VALUE__TYPES__INT16
  | SR__VALUE__TYPES__INT32
  | SR__VALUE__TYPES__INT64
  | SR__VALUE__TYPES__STRING
  | SR__VALUE__TYPES__UINT8
  | SR__VALUE__TYPES__UINT16
  | SR__VALUE__TYPES__UINT32
  | SR__VALUE__TYPES__UINT64
  | SR__VALUE__TYPES__ANYXML
  | SR__VALUE__TYPES__ANYDATA
  | unrecognized (code : Int)
  deriving DecidableEq, Repr

open Sr__Value__Types

/-- A C `double`, kept as its 64-bit pattern; the conversions only copy it. -/
structure c_double where
  bits : Nat := 0
  deriving DecidableEq, Repr

/-- Conversion of an integer to a signed C type of `w` bits. -/
def wrap_signed (w : Nat) (x : Int) : Int := Int.bmod x (2 ^ w)

/-- Conversion of an integer to an unsigned C type of `w` bits. -/
def wrap_unsigned (w : Nat) (x : Nat) : Nat := x % 2 ^ w

/-- The payload union `sr_data_t` of `sr_val_t`.  The members of the C union
overlay each other; the code reads and writes only the member selected by the
tag, and the embedding keeps one field per member. -/
structure sr_data_t where
  binary_val : Option String := none
  bits_val : Option String := none
  bool_val : Bool := false
  decimal64_val : c_double := {}
  enum_val : Option String := none
  identityref_val : Option String := none
  instanceid_val : Option String := none
  int8_val : Int := 0
  int16_val : Int := 0
  int32_val : Int := 0
  int64_val : Int := 0
  string_val : Option String := none
  uint8_val : Nat := 0
  uint16_val : Nat := 0
  uint32_val : Nat := 0
  uint64_val : Nat := 0
  anyxml_val : Option String := none
  anydata_val : Option String := none
  deriving DecidableEq, Repr

/-- The typed value `sr_val_t`; `_sr_mem` is the arena that owns it, if any.
The default is the zero-filled record that `sr_calloc` returns. -/
structure sr_val_t where
  _sr_mem : Option Nat := none
  xpath : Option String := none
  dflt : Bool := false
  type : sr_type_t := SR_UNKNOWN_T
  data : sr_data_t := {}
  deriving DecidableEq, Repr

/-- The wire value `Sr__Value` (generated header): instance path, tag, default
flag, and per tag one optional field; scalar fields carry a presence flag.
The integer fields are 32- or 64-bit protobuf integers, wide enough for every
value of the corresponding `sr_val_t` member. -/
structure Sr__Value where
  xpath : Option String := none
  type : Sr__Value__Types := SR__VALUE__TYPES__LIST
  dflt : Bool := false
  binary_val : Option String := none
  bits_val : Option String := none
  has_bool_val : Bool := false
  bool_val : Bool := false
  has_decimal64_val : Bool := false
  decimal64_val : c_double := {}
  enum_val : Option String := none
  identityref_val : Option String := none
  instanceid_val : Option String := none
  has_int8_val : Bool := false
  int8_val : Int := 0
  has_int16_val : Bool := false
  int16_val : Int := 0
  has_int32_val : Bool := false
  int32_val : Int := 0
  has_int64_val : Bool := false
  int64_val : Int := 0
  string_val : Option String := none
  has_uint8_val : Bool := false
  uint8_val : Nat := 0
  has_uint16_val : Bool := false
  uint16_val : Nat := 0
  has_uint32_val : Bool := false
  uint32_val : Nat := 0
  has_uint64_val : Bool := false
  uint64_val : Nat := 0
  anyxml_val : Option String := none
  anydata_val : Option String := none
  deriving DecidableEq, Repr

/-- Generated initialiser `sr__value__init`. -/
def sr__value__init : Sr__Value := {}

/-- Function `sr_set_val_t_type_in_gpb(value, gpb_value)`. -/
def sr_set_val_t_type_in_gpb (value : sr_val_t) (gpb_value : Sr__Value) :
    sr_error_t × Sr__Value :=
  match value.type with
  | SR_LIST_T => (SR_ERR_OK, { gpb_value with type := SR__VALUE__TYPES__LIST })
  | SR_CONTAINER_T => (SR_ERR_OK, { gpb_value with type := SR__VALUE__TYPES__CONTAINER })
  | SR_CONTAINER_PRESENCE_T => (SR_ERR_OK, { gpb_value with type := SR__VALUE__TYPES__CONTAINER_PRESENCE })
  | SR_LEAF_EMPTY_T => (SR_ERR_OK, { gpb_value with type := SR__VALUE__TYPES__LEAF_EMPTY })
  | SR_BINARY_T => (SR_ERR_OK, { gpb_value with type := SR__VALUE__TYPES__BINARY })
  | SR_BITS_T => (SR_ERR_OK, { gpb_value with type := SR__VALUE__TYPES__BITS })
  | SR_BOOL_T => (SR_ERR_OK, { gpb_value with type := SR__VALUE__TYPES__BOOL })
  | SR_DECIMAL64_T => (SR_ERR_OK, { gpb_value with type := SR__VALUE__TYPES__DECIMAL64 })
  | SR_ENUM_T => (SR_ERR_OK, { gpb_value with type := SR__VALUE__TYPES__ENUM })
  | SR_IDENTITYREF_T => (SR_ERR_OK, { gpb_value with type := SR__VALUE__TYPES__IDENTITYREF })
  | SR_INSTANCEID_T => (SR_ERR_OK, { gpb_value with type := SR__VALUE__TYPES__INSTANCEID })
  | SR_INT8_T => (SR_ERR_OK, { gpb_value with type := SR__VALUE__TYPES__INT8 })
  | SR_INT16_T => (SR_ERR_OK, { gpb_value with type := SR__VALUE__TYPES__INT16 })
  | SR_INT32_T => (SR_ERR_OK, { gpb_value with type := SR__VALUE__TYPES__INT32 })
  | SR_INT64_T => (SR_ERR_OK, { gpb_value with type := SR__VALUE__TYPES__INT64 })
  | SR_STRING_T => (SR_ERR_OK, { gpb_value with type := SR__VALUE__TYPES__STRING })
  | SR_UINT8_T => (SR_ERR_OK, { gpb_value with type := SR__VALUE__TYPES__UINT8 })
  | SR_UINT16_T => (SR_ERR_OK, { gpb_value with type := SR__VALUE__TYPES__UINT16 })
  | SR_UINT32_T => (SR_ERR_OK, { gpb_value with type := SR__VALUE__TYPES__UINT32 })
  | SR_UINT64_T => (SR_ERR_OK, { gpb_value with type := SR__VALUE__TYPES__UINT64 })
  | SR_ANYXML_T => (SR_ERR_OK, { gpb_value with type := SR__VALUE__TYPES__ANYXML })
  | SR_ANYDATA_T => (SR_ERR_OK, { gpb_value with type := SR__VALUE__TYPES__ANYDATA })
  | _ => (SR_ERR_INTERNAL, gpb_value)

/-- The string copy of `sr_set_val_t_value_in_gpb`, for a text member:
```
if (value->_sr_mem) { gpb_value->f = value->data.f; }
else if (NULL != value->data.f) { gpb_value->f = strdup(value->data.f); CHECK_NULL_NOMEM_RETURN(gpb_value->f); }
```
`cur` is the present content of the wire field; the result is its new content. -/
def gpb_store_string (A : Nat → Bool) (st : MemState) (in_arena : Bool)
    (src cur : Option String) : sr_error_t × Option String × MemState :=
  if in_arena then (SR_ERR_OK, src, st)
  else
    match src with
    | none => (SR_ERR_OK, cur, st)
    | some s =>
      match strdup A st s with
      | (none, st1) => (SR_ERR_NOMEM, none, st1)
      | (some d, st1) => (SR_ERR_OK, some d, st1)

/-- The `switch (value->type)` of `sr_set_val_t_value_in_gpb`, entered after the
instance path and the default flag have been copied. -/
def sr_set_val_t_value_in_gpb_switch (A : Nat → Bool) (st : MemState) (value : sr_val_t)
    (gpb_value : Sr__Value) : sr_error_t × Sr__Value × MemState :=
  match value.type with
  | SR_LIST_T => (SR_ERR_OK, gpb_value, st)
  | SR_CONTAINER_T => (SR_ERR_OK, gpb_value, st)
  | SR_CONTAINER_PRESENCE_T => (SR_ERR_OK, gpb_value, st)
  | SR_LEAF_EMPTY_T => (SR_ERR_OK, gpb_value, st)
  | SR_BINARY_T =>
    match gpb_store_string A st value._sr_mem.isSome value.data.binary_val gpb_value.binary_val with
    | (rc, s, st1) => (rc, { gpb_value with binary_val := s }, st1)
  | SR_BITS_T =>
    match gpb_store_string A st value._sr_mem.isSome value.data.bits_val gpb_value.bits_val with
    | (rc, s, st1) => (rc, { gpb_value with bits_val := s }, st1)
  | SR_BOOL_T =>
    (SR_ERR_OK, { gpb_value with bool_val := value.data.bool_val, has_bool_val := true }, st)
  | SR_DECIMAL64_T =>
    (SR_ERR_OK, { gpb_value with decimal64_val := value.data.decimal64_val, has_decimal64_val := true }, st)
  | SR_ENUM_T =>
    match gpb_store_string A st value._sr_mem.isSome value.data.enum_val gpb_value.enum_val with
    | (rc, s, st1) => (rc, { gpb_value with enum_val := s }, st1)
  | SR_IDENTITYREF_T =>
    match gpb_store_string A st value._sr_mem.isSome value.data.identityref_val gpb_value.identityref_val with
    | (rc, s, st1) => (rc, { gpb_value with identityref_val := s }, st1)
  | SR_INSTANCEID_T =>
    match gpb_store_string A st value._sr_mem.isSome value.data.instanceid_val gpb_value.instanceid_val with
    | (rc, s, st1) => (rc, { gpb_value with instanceid_val := s }, st1)
  | SR_INT8_T =>
    (SR_ERR_OK, { gpb_value with int8_val := value.data.int8_val, has_int8_val := true }, st)
  | SR_INT16_T =>
    (SR_ERR_OK, { gpb_value with int16_val := value.data.int16_val, has_int16_val := true }, st)
  | SR_INT32_T =>
    (SR_ERR_OK, { gpb_value with int32_val := value.data.int32_val, has_int32_val := true }, st)
  | SR_INT64_T =>
    (SR_ERR_OK, { gpb_value with int64_val := value.data.int64_val, has_int64_val := true }, st)
  | SR_STRING_T =>
    match gpb_store_string A st value._sr_mem.isSome value.data.string_val gpb_value.string_val with
    | (rc, s, st1) => (rc, { gpb_value with string_val := s }, st1)
  | SR_UINT8_T =>
    (SR_ERR_OK, { gpb_value with uint8_val := value.data.uint8_val, has_uint8_val := true }, st)
  | SR_UINT16_T =>
    (SR_ERR_OK, { gpb_value with uint16_val := value.data.uint16_val, has_uint16_val := true }, st)
  | SR_UINT32_T =>
    (SR_ERR_OK, { gpb_value with uint32_val := value.data.uint32_val, has_uint32_val := true }, st)
  | SR_UINT64_T =>
    (SR_ERR_OK, { gpb_value with uint64_val := value.data.uint64_val, has_uint64_val := true }, st)
  | SR_ANYXML_T =>
    match gpb_store_string A st value._sr_mem.isSome value.data.anyxml_val gpb_value.anyxml_val with
    | (rc, s, st1) => (rc, { gpb_value with anyxml_val := s }, st1)
  | SR_ANYDATA_T =>
    match gpb_store_string A st value._sr_mem.isSome value.data.anydata_val gpb_value.anydata_val with
    | (rc, s, st1) => (rc, { gpb_value with anydata_val := s }, st1)
  | _ => (SR_ERR_INTERNAL, gpb_value, st)

/-- Function `sr_set_val_t_value_in_gpb(value, gpb_value)`: shallow copy when
the value lives in an arena, deep copy otherwise. -/
def sr_set_val_t_value_in_gpb (A : Nat → Bool) (st : MemState) (value : sr_val_t)
    (gpb_value : Sr__Value) : sr_error_t × Sr__Value × MemState :=
  match value.xpath with
  | none =>
    sr_set_val_t_value_in_gpb_switch A st value { gpb_value with dflt := value.dflt }
  | some x =>
    if value._sr_mem.isSome then
      sr_set_val_t_value_in_gpb_switch A st value
        { gpb_value with xpath := value.xpath, dflt := value.dflt }
    else
      match strdup A st x with
      | (none, st1) => (SR_ERR_NOMEM, { gpb_value with xpath := none }, st1)
      | (some d, st1) =>
        sr_set_val_t_value_in_gpb_switch A st1 value
          { gpb_value with xpath := some d, dflt := value.dflt }

/-- Function `sr_dup_val_t_to_gpb(value, gpb_value)`: encode a typed value.
A failed allocation of the wire record returns at once; a failure afterwards
goes through `cleanup:`, which restores the snapshot of the value's arena or
releases the record. -/
def sr_dup_val_t_to_gpb (A : Nat → Bool) (st : MemState) (value : sr_val_t) :
    Outcome Sr__Value :=
  let snapshot := entry_snapshot st value._sr_mem
  match sr_calloc A st value._sr_mem 1 with
  | (false, st1) => { rc := SR_ERR_NOMEM, out := none, st := st1 }
  | (true, st1) =>
    match sr_set_val_t_type_in_gpb value sr__value__init with
    | (SR_ERR_OK, gpb) =>
      match sr_set_val_t_value_in_gpb A st1 value gpb with
      | (SR_ERR_OK, gpb1, st2) => { rc := SR_ERR_OK, out := some gpb1, st := st2 }
      | (rc, _, st2) => { rc := rc, out := none, st := sr_mem_restore st2 snapshot }
    | (rc, _) => { rc := rc, out := none, st := sr_mem_restore st1 snapshot }

/-- Function `sr_set_gpb_type_in_val_t(gpb_value, value)`. -/
def sr_set_gpb_type_in_val_t (gpb_value : Sr__Value) (value : sr_val_t) :
    sr_error_t × sr_val_t :=
  match gpb_value.type with
  | SR__VALUE__TYPES__LIST => (SR_ERR_OK, { value with type := SR_LIST_T })
  | SR__VALUE__TYPES__CONTAINER => (SR_ERR_OK, { value with type := SR_CONTAINER_T })
  | SR__VALUE__TYPES__CONTAINER_PRESENCE => (SR_ERR_OK, { value with type := SR_CONTAINER_PRESENCE_T })
  | SR__VALUE__TYPES__LEAF_EMPTY => (SR_ERR_OK, { value with type := SR_LEAF_EMPTY_T })
  | SR__VALUE__TYPES__BINARY => (SR_ERR_OK, { value with type := SR_BINARY_T })
  | SR__VALUE__TYPES__BITS => (SR_ERR_OK, { value with type := SR_BITS_T })
  | SR__VALUE__TYPES__BOOL => (SR_ERR_OK, { value with type := SR_BOOL_T })
  | SR__VALUE__TYPES__DECIMAL64 => (SR_ERR_OK, { value with type := SR_DECIMAL64_T })
  | SR__VALUE__TYPES__ENUM => (SR_ERR_OK, { value with type := SR_ENUM_T })
  | SR__VALUE__TYPES__IDENTITYREF => (SR_ERR_OK, { value with type := SR_IDENTITYREF_T })
  | SR__VALUE__TYPES__INSTANCEID => (SR_ERR_OK, { value with type := SR_INSTANCEID_T })
  | SR__VALUE__TYPES__INT8 => (SR_ERR_OK, { value with type := SR_INT8_T })
  | SR__VALUE__TYPES__INT16 => (SR_ERR_OK, { value with type := SR_INT16_T })
  | SR__VALUE__TYPES__INT32 => (SR_ERR_OK, { value with type := SR_INT32_T })
  | SR__VALUE__TYPES__INT64 => (SR_ERR_OK, { value with type := SR_INT64_T })
  | SR__VALUE__TYPES__STRING => (SR_ERR_OK, { value with type := SR_STRING_T })
  | SR__VALUE__TYPES__UINT8 => (SR_ERR_OK, { value with type := SR_UINT8_T })
  | SR__VALUE__TYPES__UINT16 => (SR_ERR_OK, { value with type := SR_UINT16_T })
  | SR__VALUE__TYPES__UINT32 => (SR_ERR_OK, { value with type := SR_UINT32_T })
  | SR__VALUE__TYPES__UINT64 => (SR_ERR_OK, { value with type := SR_UINT64_T })
  | SR__VALUE__TYPES__ANYXML => (SR_ERR_OK, { value with type := SR_ANYXML_T })
  | SR__VALUE__TYPES__ANYDATA => (SR_ERR_OK, { value with type := SR_ANYDATA_T })
  | _ => (SR_ERR_INTERNAL, value)

/-- The string copy of `sr_set_gpb_value_in_val_t`, for a text member:
```
if (value->_sr_mem) { value->data.f = gpb_value->f; }
else { value->data.f = strdup(gpb_value->f); CHECK_NULL_NOMEM_RETURN(gpb_value->f); }
```
The check examines the source pointer `gpb_value->f`, not the copy: a failed
`strdup` of a present string leaves the member `NULL` and is not reported.
`strdup(NULL)` is undefined in C; the embedding lets it return `NULL`, after
which the check reports `SR_ERR_NOMEM`. -/
def val_load_string (A : Nat → Bool) (st : MemState) (in_arena : Bool)
    (src : Option String) : sr_error_t × Option String × MemState :=
  if in_arena then (SR_ERR_OK, src, st)
  else
    match src with
    | none => (SR_ERR_NOMEM, none, st)
    | some s =>
      match strdup A st s with
      | (d, st1) => (SR_ERR_OK, d, st1)

/-- The `switch (gpb_value->type)` of `sr_set_gpb_value_in_val_t`, entered after
the instance path and the default flag have been copied.  Integer members are
converted to the width of the `sr_val_t` member. -/
def sr_set_gpb_value_in_val_t_switch (A : Nat → Bool) (st : MemState) (gpb_value : Sr__Value)
    (value : sr_val_t) : sr_error_t × sr_val_t × MemState :=
  match gpb_value.type with
  | SR__VALUE__TYPES__LIST => (SR_ERR_OK, value, st)
  | SR__VALUE__TYPES__CONTAINER => (SR_ERR_OK, value, st)
  | SR__VALUE__TYPES__CONTAINER_PRESENCE => (SR_ERR_OK, value, st)
  | SR__VALUE__TYPES__LEAF_EMPTY => (SR_ERR_OK, value, st)
  | SR__VALUE__TYPES__BINARY =>
    match val_load_string A st value._sr_mem.isSome gpb_value.binary_val with
    | (rc, s, st1) => (rc, { value with data := { value.data with binary_val := s } }, st1)
  | SR__VALUE__TYPES__BITS =>
    match val_load_string A st value._sr_mem.isSome gpb_value.bits_val with
    | (rc, s, st1) => (rc, { value with data := { value.data with bits_val := s } }, st1)
  | SR__VALUE__TYPES__BOOL =>
    (SR_ERR_OK, { value with data := { value.data with bool_val := gpb_value.bool_val } }, st)
  | SR__VALUE__TYPES__DECIMAL64 =>
    (SR_ERR_OK, { value with data := { value.data with decimal64_val := gpb_value.decimal64_val } }, st)
  | SR__VALUE__TYPES__ENUM =>
    match val_load_string A st value._sr_mem.isSome gpb_value.enum_val with
    | (rc, s, st1) => (rc, { value with data := { value.data with enum_val := s } }, st1)
  | SR__VALUE__TYPES__IDENTITYREF =>
    match val_load_string A st value._sr_mem.isSome gpb_value.identityref_val with
    | (rc, s, st1) => (rc, { value with data := { value.data with identityref_val := s } }, st1)
  | SR__VALUE__TYPES__INSTANCEID =>
    match val_load_string A st value._sr_mem.isSome gpb_value.instanceid_val with
    | (rc, s, st1) => (rc, { value with data := { value.data with instanceid_val := s } }, st1)
  | SR__VALUE__TYPES__INT8 =>
    (SR_ERR_OK, { value with data := { value.data with int8_val := wrap_signed 8 gpb_value.int8_val } }, st)
  | SR__VALUE__TYPES__INT16 =>
    (SR_ERR_OK, { value with data := { value.data with int16_val := wrap_signed 16 gpb_value.int16_val } }, st)
  | SR__VALUE__TYPES__INT32 =>
    (SR_ERR_OK, { value with data := { value.data with int32_val := wrap_signed 32 gpb_value.int32_val } }, st)
  | SR__VALUE__TYPES__INT64 =>
    (SR_ERR_OK, { value with data := { value.data with int64_val := wrap_signed 64 gpb_value.int64_val } }, st)
  | SR__VALUE__TYPES__STRING =>
    match val_load_string A st value._sr_mem.isSome gpb_value.string_val with
    | (rc, s, st1) => (rc, { value with data := { value.data with string_val := s } }, st1)
  | SR__VALUE__TYPES__UINT8 =>
    (SR_ERR_OK, { value with data := { value.data with uint8_val := wrap_unsigned 8 gpb_value.uint8_val } }, st)
  | SR__VALUE__TYPES__UINT16 =>
    (SR_ERR_OK, { value with data := { value.data with uint16_val := wrap_unsigned 16 gpb_value.uint16_val } }, st)
  | SR__VALUE__TYPES__UINT32 =>
    (SR_ERR_OK, { value with data := { value.data with uint32_val := wrap_unsigned 32 gpb_value.uint32_val } }, st)
  | SR__VALUE__TYPES__UINT64 =>
    (SR_ERR_OK, { value with data := { value.data with uint64_val := wrap_unsigned 64 gpb_value.uint64_val } }, st)
  | SR__VALUE__TYPES__ANYXML =>
    match val_load_string A st value._sr_mem.isSome gpb_value.anyxml_val with
    | (rc, s, st1) => (rc, { value with data := { value.data with anyxml_val := s } }, st1)
  | SR__VALUE__TYPES__ANYDATA =>
    match val_load_string A st value._sr_mem.isSome gpb_value.anydata_val with
    | (rc, s, st1) => (rc, { value with data := { value.data with anydata_val := s } }, st1)
  | _ => (SR_ERR_INTERNAL, value, st)

/-- Function `sr_set_gpb_value_in_val_t(gpb_value, value)`: shallow copy when
the value lives in an arena, deep copy otherwise.  A wire value without
instance path is rejected by `CHECK_NULL_ARG3`. -/
def sr_set_gpb_value_in_val_t (A : Nat → Bool) (st : MemState) (gpb_value : Sr__Value)
    (value : sr_val_t) : sr_error_t × sr_val_t × MemState :=
  match gpb_value.xpath with
  | none => (SR_ERR_INVAL_ARG, value, st)
  | some x =>
    if value._sr_mem.isSome then
      sr_set_gpb_value_in_val_t_switch A st gpb_value
        { value with xpath := gpb_value.xpath, dflt := gpb_value.dflt }
    else
      match strdup A st x with
      | (none, st1) => (SR_ERR_NOMEM, { value with xpath := none }, st1)
      | (some d, st1) =>
        sr_set_gpb_value_in_val_t_switch A st1 gpb_value
          { value with xpath := some d, dflt := gpb_value.dflt }

/-- Function `sr_copy_gpb_to_val_t(gpb_value, value)`; a `NULL` wire value is
rejected by `CHECK_NULL_ARG2`. -/
def sr_copy_gpb_to_val_t (A : Nat → Bool) (st : MemState) (gpb_value : Option Sr__Value)
    (value : sr_val_t) : sr_error_t × sr_val_t × MemState :=
  match gpb_value with
  | none => (SR_ERR_INVAL_ARG, value, st)
  | some gpb =>
    match sr_set_gpb_type_in_val_t gpb value with
    | (SR_ERR_OK, value1) => sr_set_gpb_value_in_val_t A st gpb value1
    | (rc, value1) => (rc, value1, st)

/-- Function `sr_dup_gpb_to_val_t(sr_mem, gpb_value, value)`: decode a wire
value into a freshly allocated typed value. -/
def sr_dup_gpb_to_val_t (A : Nat → Bool) (st : MemState) (sr_mem : Option Nat)
    (gpb_value : Option Sr__Value) : Outcome sr_val_t :=
  match gpb_value with
  | none => { rc := SR_ERR_INVAL_ARG, out := none, st := st }
  | some _ =>
    let snapshot := entry_snapshot st sr_mem
    match sr_calloc A st sr_mem 1 with
    | (false, st1) => { rc := SR_ERR_NOMEM, out := none, st := st1 }
    | (true, st1) =>
      let val : sr_val_t := { _sr_mem := sr_mem }
      match sr_copy_gpb_to_val_t A st1 gpb_value val with
      | (SR_ERR_OK, val1, st2) =>
        { rc := SR_ERR_OK, out := some val1,
          st := match sr_mem with
                | none => st2
                | some a => sr_mem_obj_count_incr st2 a }
      | (rc, _, st2) => { rc := rc, out := none, st := sr_mem_restore st2 snapshot }

/-- The conversion loop of `sr_values_sr_to_gpb` over the elements still to
convert: the wire values produced so far, and the first failure if any. -/
def sr_values_sr_to_gpb_loop (A : Nat → Bool) (st : MemState) :
    List sr_val_t → sr_error_t × List (Option Sr__Value) × MemState
  | [] => (SR_ERR_OK, [], st)
  | v :: vs =>
    match sr_dup_val_t_to_gpb A st v with
    | { rc := SR_ERR_OK, out := gpb, st := st1 } =>
      match sr_values_sr_to_gpb_loop A st1 vs with
      | (rc, gpbs, st2) => (rc, gpb :: gpbs, st2)
    | { rc := rc, out := _, st := st1 } => (rc, [], st1)

/-- An array handed over as pointer and element count: the pointer (`none` for
`NULL`) with the elements it points to, and the count stored beside it. -/
structure CArray (α : Type) where
  ptr : Option (List α)
  cnt : Nat

/-- Function `sr_values_sr_to_gpb(sr_values, sr_value_cnt, gpb_values_p, gpb_value_cnt_p)`.
The array `sr_values` is read at the indices below `sr_value_cnt` (a non-`NULL`
array is expected to hold that many elements); the arena of the result array
is the one of the first value, `sr_values[0]._sr_mem`. -/
def sr_values_sr_to_gpb (A : Nat → Bool) (st : MemState) (sr_values : Option (List sr_val_t))
    (sr_value_cnt : Nat) : Outcome (CArray (Option Sr__Value)) :=
  match sr_values with
  | none => { rc := SR_ERR_OK, out := some { ptr := none, cnt := sr_value_cnt }, st := st }
  | some vals =>
    if sr_value_cnt > 0 then
      let sr_mem := (vals.headD {})._sr_mem
      let snapshot := entry_snapshot st sr_mem
      match sr_calloc A st sr_mem sr_value_cnt with
      | (false, st1) => { rc := SR_ERR_NOMEM, out := none, st := st1 }
      | (true, st1) =>
        match sr_values_sr_to_gpb_loop A st1 (vals.take sr_value_cnt) with
        | (SR_ERR_OK, gpb_values, st2) =>
          { rc := SR_ERR_OK, out := some { ptr := some gpb_values, cnt := sr_value_cnt },
            st := st2 }
        | (rc, _, st2) => { rc := rc, out := none, st := sr_mem_restore st2 snapshot }
    else { rc := SR_ERR_OK, out := some { ptr := none, cnt := sr_value_cnt }, st := st }

/-- The conversion loop of `sr_values_gpb_to_sr` over the wire values still to
convert; every element of the result array starts zero-filled with `_sr_mem`
set to the arena. -/
def sr_values_gpb_to_sr_loop (A : Nat → Bool) (st : MemState) (sr_mem : Option Nat) :
    List (Option Sr__Value) → sr_error_t × List sr_val_t × MemState
  | [] => (SR_ERR_OK, [], st)
  | g :: gs =>
    match sr_copy_gpb_to_val_t A st g { _sr_mem := sr_mem } with
    | (SR_ERR_OK, val, st1) =>
      match sr_values_gpb_to_sr_loop A st1 sr_mem gs with
      | (rc, vals, st2) => (rc, val :: vals, st2)
    | (rc, _, st1) => (rc, [], st1)

/-- Function `sr_values_gpb_to_sr(sr_mem, gpb_values, gpb_value_cnt, sr_values_p, sr_value_cnt_p)`.
The array `gpb_values` is read at the indices below `gpb_value_cnt`. -/
def sr_values_gpb_to_sr (A : Nat → Bool) (st : MemState) (sr_mem : Option Nat)
    (gpb_values : Option (List (Option Sr__Value))) (gpb_value_cnt : Nat) :
    Outcome (CArray sr_val_t) :=
  match gpb_values with
  | none => { rc := SR_ERR_OK, out := some { ptr := none, cnt := gpb_value_cnt }, st := st }
  | some gpbs =>
    if gpb_value_cnt > 0 then
      let snapshot := entry_snapshot st sr_mem
      match sr_calloc A st sr_mem gpb_value_cnt with
      | (false, st1) => { rc := SR_ERR_NOMEM, out := none, st := st1 }
      | (true, st1) =>
        match sr_values_gpb_to_sr_loop A st1 sr_mem (gpbs.take gpb_value_cnt) with
        | (SR_ERR_OK, sr_values, st2) =>
          { rc := SR_ERR_OK, out := some { ptr := some sr_values, cnt := gpb_value_cnt },
            st := match sr_mem with
                  | none => st2
                  | some a => sr_mem_obj_count_incr st2 a }
        | (rc, _, st2) => { rc := rc, out := none, st := sr_mem_restore st2 snapshot }
    else { rc := SR_ERR_OK, out := some { ptr := none, cnt := gpb_value_cnt }, st := st }

/-! ## Payload of a typed value -/

/-- The payload of a typed value as its tag selects it from the union. -/
inductive sr_payload where
  | empty
  | text (s : Option String)
  | bool (b : Bool)
  | decimal64 (d : c_double)
  | sint (i : Int)
  | uint (n : Nat)
  deriving DecidableEq, Repr

/-- The union member selected by the tag of the value. -/
def sr_val_t.payload (v : sr_val_t) : sr_payload :=
  match v.type with
  | SR_BINARY_T => .text v.data.binary_val
  | SR_BITS_T => .text v.data.bits_val
  | SR_BOOL_T => .bool v.data.bool_val
  | SR_DECIMAL64_T => .decimal64 v.data.decimal64_val
  | SR_ENUM_T => .text v.data.enum_val
  | SR_IDENTITYREF_T => .text v.data.identityref_val
  | SR_INSTANCEID_T => .text v.data.instanceid_val
  | SR_INT8_T => .sint v.data.int8_val
  | SR_INT16_T => .sint v.data.int16_val
  | SR_INT32_T => .sint v.data.int32_val
  | SR_INT64_T => .sint v.data.int64_val
  | SR_STRING_T => .text v.data.string_val
  | SR_UINT8_T => .uint v.data.uint8_val
  | SR_UINT16_T => .uint v.data.uint16_val
  | SR_UINT32_T => .uint v.data.uint32_val
  | SR_UINT64_T => .uint v.data.uint64_val
  | SR_ANYXML_T => .text v.data.anyxml_val
  | SR_ANYDATA_T => .text v.data.anydata_val
  | _ => .empty

/-- The 22 tags that have a wire form. -/
def supported_types : List sr_type_t :=
  [SR_LIST_T,
   SR_CONTAINER_T,
   SR_CONTAINER_PRESENCE_T,
   SR_LEAF_EMPTY_T,
   SR_BINARY_T,
   SR_BITS_T,
   SR_BOOL_T,
   SR_DECIMAL64_T,
   SR_ENUM_T,
   SR_IDENTITYREF_T,
   SR_INSTANCEID_T,
   SR_INT8_T,
   SR_INT16_T,
   SR_INT32_T,
   SR_INT64_T,
   SR_STRING_T,
   SR_UINT8_T,
   SR_UINT16_T,
   SR_UINT32_T,
   SR_UINT64_T,
   SR_ANYXML_T,
   SR_ANYDATA_T]

/-- The text-like tags, whose payload is a string buffer. -/
def text_types : List sr_type_t :=
  [SR_BINARY_T, SR_BITS_T, SR_ENUM_T, SR_IDENTITYREF_T, SR_INSTANCEID_T, SR_STRING_T, SR_ANYXML_T, SR_ANYDATA_T]

/-- The payload of the value fits the C type of the member its tag selects
(`int8_t` ... `int64_t`, `uint8_t` ... `uint64_t`). -/
def sr_val_t.in_range (v : sr_val_t) : Prop :=
  match v.type with
  | SR_INT8_T => -(2 ^ 7 : Int) ≤ v.data.int8_val ∧ v.data.int8_val < (2 ^ 7 : Int)
  | SR_INT16_T => -(2 ^ 15 : Int) ≤ v.data.int16_val ∧ v.data.int16_val < (2 ^ 15 : Int)
  | SR_INT32_T => -(2 ^ 31 : Int) ≤ v.data.int32_val ∧ v.data.int32_val < (2 ^ 31 : Int)
  | SR_INT64_T => -(2 ^ 63 : Int) ≤ v.data.int64_val ∧ v.data.int64_val < (2 ^ 63 : Int)
  | SR_UINT8_T => v.data.uint8_val < 2 ^ 8
  | SR_UINT16_T => v.data.uint16_val < 2 ^ 16
  | SR_UINT32_T => v.data.uint32_val < 2 ^ 32
  | SR_UINT64_T => v.data.uint64_val < 2 ^ 64
  | _ => True

/-- Two typed values agree in instance path, tag, default flag and payload
(they may differ in the arena that owns them). -/
def sr_val_t.same (v w : sr_val_t) : Prop :=
  w.xpath = v.xpath ∧ w.type = v.type ∧ w.dflt = v.dflt ∧ w.payload = v.payload

/-- The elements of an array handed over as pointer and count: the elements
below the count, none for a `NULL` pointer. -/
def CArray.elems {α : Type} (a : CArray α) : List α :=
  match a.ptr with
  | none => []
  | some l => l.take a.cnt


/-- The string payload of a text-like value is present (not `NULL`). -/
def sr_val_t.text_present (v : sr_val_t) : Prop :=
  match v.type with
  | SR_BINARY_T => ∃ s, v.data.binary_val = some s
  | SR_BITS_T => ∃ s, v.data.bits_val = some s
  | SR_ENUM_T => ∃ s, v.data.enum_val = some s
  | SR_IDENTITYREF_T => ∃ s, v.data.identityref_val = some s
  | SR_INSTANCEID_T => ∃ s, v.data.instanceid_val = some s
  | SR_STRING_T => ∃ s, v.data.string_val = some s
  | SR_ANYXML_T => ∃ s, v.data.anyxml_val = some s
  | SR_ANYDATA_T => ∃ s, v.data.anydata_val = some s
  | _ => True

/-- The typed values of the round-trip claim: an instance path, one of the 22
supported tags, a present string for the text-like tags, and a payload that
fits the C type of its member. -/
def sr_val_t.encodable (v : sr_val_t) : Prop :=
  v.xpath ≠ none ∧ v.type ∈ supported_types ∧ v.text_present ∧ v.in_range

/-- The operation field of the body that belongs to a message kind, `none` when
that body is absent. -/
def Sr__Msg.body_operation (msg : Sr__Msg) : Sr__Msg__MsgType → Option Sr__Operation
  | SR__MSG__MSG_TYPE__REQUEST => msg.request.map fun req => req.operation
  | SR__MSG__MSG_TYPE__RESPONSE => msg.response.map fun resp => resp.operation
  | _ => none

/-- A payload slot of the body that belongs to a message kind, `none` when the
body or the slot is absent. -/
def Sr__Msg.body_slot (msg : Sr__Msg) : Sr__Msg__MsgType → Slot → Option ProtobufCMessage
  | SR__MSG__MSG_TYPE__REQUEST, s => msg.request.bind fun req => req.slot s
  | SR__MSG__MSG_TYPE__RESPONSE, s => msg.response.bind fun resp => resp.slot s
  | _, _ => none

/-- The wire value that the spec prescribes for a typed value with a supported
tag: the corresponding wire tag, the instance path and the default flag, and
only the payload field of the tag, with its presence flag for a scalar; every
other field as `sr__value__init` leaves it. -/
def wire_value_spec (v : sr_val_t) : Sr__Value :=
  match v.type with
  | SR_LIST_T => { xpath := v.xpath, dflt := v.dflt, type := SR__VALUE__TYPES__LIST }
  | SR_CONTAINER_T => { xpath := v.xpath, dflt := v.dflt, type := SR__VALUE__TYPES__CONTAINER }
  | SR_CONTAINER_PRESENCE_T => { xpath := v.xpath, dflt := v.dflt, type := SR__VALUE__TYPES__CONTAINER_PRESENCE }
  | SR_LEAF_EMPTY_T => { xpath := v.xpath, dflt := v.dflt, type := SR__VALUE__TYPES__LEAF_EMPTY }
  | SR_BINARY_T => { xpath := v.xpath, dflt := v.dflt, type := SR__VALUE__TYPES__BINARY, binary_val := v.data.binary_val }
  | SR_BITS_T => { xpath := v.xpath, dflt := v.dflt, type := SR__VALUE__TYPES__BITS, bits_val := v.data.bits_val }
  | SR_BOOL_T =>
    { xpath := v.xpath, dflt := v.dflt, type := SR__VALUE__TYPES__BOOL, bool_val := v.data.bool_val, has_bool_val := true }
  | SR_DECIMAL64_T =>
    { xpath := v.xpath, dflt := v.dflt, type := SR__VALUE__TYPES__DECIMAL64, decimal64_val := v.data.decimal64_val, has_decimal64_val := true }
  | SR_ENUM_T => { xpath := v.xpath, dflt := v.dflt, type := SR__VALUE__TYPES__ENUM, enum_val := v.data.enum_val }
  | SR_IDENTITYREF_T => { xpath := v.xpath, dflt := v.dflt, type := SR__VALUE__TYPES__IDENTITYREF, identityref_val := v.data.identityref_val }
  | SR_INSTANCEID_T => { xpath := v.xpath, dflt := v.dflt, type := SR__VALUE__TYPES__INSTANCEID, instanceid_val := v.data.instanceid_val }
  | SR_INT8_T =>
    { xpath := v.xpath, dflt := v.dflt, type := SR__VALUE__TYPES__INT8, int8_val := v.data.int8_val, has_int8_val := true }
  | SR_INT16_T =>
    { xpath := v.xpath, dflt := v.dflt, type := SR__VALUE__TYPES__INT16, int16_val := v.data.int16_val, has_int16_val := true }
  | SR_INT32_T =>
    { xpath := v.xpath, dflt := v.dflt, type := SR__VALUE__TYPES__INT32, int32_val := v.data.int32_val, has_int32_val := true }
  | SR_INT64_T =>
    { xpath := v.xpath, dflt := v.dflt, type := SR__VALUE__TYPES__INT64, int64_val := v.data.int64_val, has_int64_val := true }
  | SR_STRING_T => { xpath := v.xpath, dflt := v.dflt, type := SR__VALUE__TYPES__STRING, string_val := v.data.string_val }
  | SR_UINT8_T =>
    { xpath := v.xpath, dflt := v.dflt, type := SR__VALUE__TYPES__UINT8, uint8_val := v.data.uint8_val, has_uint8_val := true }
  | SR_UINT16_T =>
    { xpath := v.xpath, dflt := v.dflt, type := SR__VALUE__TYPES__UINT16, uint16_val := v.data.uint16_val, has_uint16_val := true }
  | SR_UINT32_T =>
    { xpath := v.xpath, dflt := v.dflt, type := SR__VALUE__TYPES__UINT32, uint32_val := v.data.uint32_val, has_uint32_val := true }
  | SR_UINT64_T =>
    { xpath := v.xpath, dflt := v.dflt, type := SR__VALUE__TYPES__UINT64, uint64_val := v.data.uint64_val, has_uint64_val := true }
  | SR_ANYXML_T => { xpath := v.xpath, dflt := v.dflt, type := SR__VALUE__TYPES__ANYXML, anyxml_val := v.data.anyxml_val }
  | SR_ANYDATA_T => { xpath := v.xpath, dflt := v.dflt, type := SR__VALUE__TYPES__ANYDATA, anydata_val := v.data.anydata_val }
  | _ => {}

/-- The wire tags that have a typed-value counterpart. -/
def known_wire_types : List Sr__Value__Types :=
  [SR__VALUE__TYPES__LIST,
   SR__VALUE__TYPES__CONTAINER,
   SR__VALUE__TYPES__CONTAINER_PRESENCE,
   SR__VALUE__TYPES__LEAF_EMPTY,
   SR__VALUE__TYPES__BINARY,
   SR__VALUE__TYPES__BITS,
   SR__VALUE__TYPES__BOOL,
   SR__VALUE__TYPES__DECIMAL64,
   SR__VALUE__TYPES__ENUM,
   SR__VALUE__TYPES__IDENTITYREF,
   SR__VALUE__TYPES__INSTANCEID,
   SR__VALUE__TYPES__INT8,
   SR__VALUE__TYPES__INT16,
   SR__VALUE__TYPES__INT32,
   SR__VALUE__TYPES__INT64,
   SR__VALUE__TYPES__STRING,
   SR__VALUE__TYPES__UINT8,
   SR__VALUE__TYPES__UINT16,
   SR__VALUE__TYPES__UINT32,
   SR__VALUE__TYPES__UINT64,
   SR__VALUE__TYPES__ANYXML,
   SR__VALUE__TYPES__ANYDATA]


/-! ## Schema nodes and types (libyang)

The schema is the compiled schema tree of the YANG library.  Its records are
kept as far as the code reads them.  Pointers between schema records (typedef
chain, leafref target, union members) form a finite acyclic structure in a
compiled schema and are embedded as an inductive type. -/

/-- Base types `LY_DATA_TYPE` of the YANG library; `LY_TYPE_DER` is the value
that none of the `case` labels of the code names. -/
inductive LY_DATA_TYPE where
  | LY_TYPE_DER
  | LY_TYPE_BINARY
  | LY_TYPE_BITS
  | LY_TYPE_BOOL
  | LY_TYPE_DEC64
  | LY_TYPE_EMPTY
  | LY_TYPE_ENUM
  | LY_TYPE_IDENT
  | LY_TYPE_INST
  | LY_TYPE_LEAFREF
  | LY_TYPE_STRING
  | LY_TYPE_UNION
  | LY_TYPE_INT8
  | LY_TYPE_UINT8
  | LY_TYPE_INT16
  | LY_TYPE_UINT16
  | LY_TYPE_INT32
  | LY_TYPE_UINT32
  | LY_TYPE_INT64
  | LY_TYPE_UINT64
  deriving DecidableEq, Repr

open LY_DATA_TYPE

/-- Schema node kinds `LYS_NODE` of the YANG library. -/
inductive LYS_NODE where
  | LYS_UNKNOWN
  | LYS_CONTAINER
  | LYS_CHOICE
  | LYS_LEAF
  | LYS_LEAFLIST
  | LYS_LIST
  | LYS_ANYXML
  | LYS_CASE
  | LYS_NOTIF
  | LYS_RPC
  | LYS_INPUT
  | LYS_OUTPUT
  | LYS_GROUPING
  | LYS_USES
  | LYS_AUGMENT
  | LYS_ACTION
  | LYS_ANYDATA
  | LYS_EXT
  deriving DecidableEq, Repr

open LYS_NODE

/-- The numeric value of a node kind; the code tests kinds with `&`, and
`LYS_ANYDATA` (0x8020) contains the bit of `LYS_ANYXML` (0x0020). -/
def LYS_NODE.code : LYS_NODE → Nat
  | LYS_UNKNOWN => 0x0000
  | LYS_CONTAINER => 0x0001
  | LYS_CHOICE => 0x0002
  | LYS_LEAF => 0x0004
  | LYS_LEAFLIST => 0x0008
  | LYS_LIST => 0x0010
  | LYS_ANYXML => 0x0020
  | LYS_CASE => 0x0040
  | LYS_NOTIF => 0x0080
  | LYS_RPC => 0x0100
  | LYS_INPUT => 0x0200
  | LYS_OUTPUT => 0x0400
  | LYS_GROUPING => 0x0800
  | LYS_USES => 0x1000
  | LYS_AUGMENT => 0x2000
  | LYS_ACTION => 0x4000
  | LYS_ANYDATA => 0x8020
  | LYS_EXT => 0x10000

/-- The C test `mask & nodetype` for a mask given as a sum of kinds. -/
def LYS_NODE.has_bit (mask : Nat) (nodetype : LYS_NODE) : Bool :=
  mask &&& nodetype.code != 0

/-- A schema module `struct lys_module`, identified by its name. -/
structure lys_module where
  name : String := ""
  deriving DecidableEq, Repr

mutual
/-- A type record `struct lys_type`: the base type, the type of the typedef it
derives from (`der->type`), and of the `info` union the members the code
reads: `info.dec64.dig`, `info.lref.target`, and `info.uni.types` (whose
length is `info.uni.count`). -/
inductive lys_type where
  | mk (base : LY_DATA_TYPE) (der : Option lys_type) (dec64_dig : Nat)
       (lref_target : Option lys_node) (uni_types : List lys_type)
/-- A schema node `struct lys_node` with the members of its leaf and container
variants: kind, name, module, the presence statement of a container and the
type of a leaf or leaf-list. -/
inductive lys_node where
  | mk (nodetype : LYS_NODE) (name : String) (module : lys_module)
       (presence : Option String) (type : lys_type)
end

/-- Member `base` of a type record. -/
def lys_type.base : lys_type → LY_DATA_TYPE
  | .mk b _ _ _ _ => b

/-- Member `der->type` of a type record. -/
def lys_type.der : lys_type → Option lys_type
  | .mk _ d _ _ _ => d

/-- Member `info.dec64.dig` of a type record. -/
def lys_type.dec64_dig : lys_type → Nat
  | .mk _ _ d _ _ => d

/-- Member `info.lref.target` of a type record. -/
def lys_type.lref_target : lys_type → Option lys_node
  | .mk _ _ _ t _ => t

/-- Member `info.uni.types` of a type record. -/
def lys_type.uni_types : lys_type → List lys_type
  | .mk _ _ _ _ u => u

/-- Member `nodetype` of a schema node. -/
def lys_node.nodetype : lys_node → LYS_NODE
  | .mk k _ _ _ _ => k

/-- Member `name` of a schema node. -/
def lys_node.name : lys_node → String
  | .mk _ n _ _ _ => n

/-- Member `module` of a schema node. -/
def lys_node.module : lys_node → lys_module
  | .mk _ _ m _ _ => m

/-- Member `presence` of a container schema node. -/
def lys_node.presence : lys_node → Option String
  | .mk _ _ _ p _ => p

/-- Member `type` of a leaf or leaf-list schema node. -/
def lys_node.type : lys_node → lys_type
  | .mk _ _ _ _ t => t

/-- A type record without information, for schema nodes that are not leaves. -/
def lys_type.none : lys_type := .mk LY_TYPE_DER Option.none 0 Option.none []

mutual
/-- Number of records reachable from a type record. -/
def lys_type.size : lys_type → Nat
  | .mk _ der _ tgt uni =>
    1 + lys_type.size_opt der + lys_node.size_opt tgt + lys_type.size_list uni
/-- Number of records reachable from an optional type record. -/
def lys_type.size_opt : Option lys_type → Nat
  | Option.none => 0
  | some t => t.size
/-- Number of records reachable from a list of type records. -/
def lys_type.size_list : List lys_type → Nat
  | [] => 0
  | t :: ts => t.size + lys_type.size_list ts
/-- Number of records reachable from a schema node. -/
def lys_node.size : lys_node → Nat
  | .mk _ _ _ _ type => 1 + type.size
/-- Number of records reachable from an optional schema node. -/
def lys_node.size_opt : Option lys_node → Nat
  | Option.none => 0
  | some n => n.size
end

/-- The loop `while (0 == actual_type->info.uni.count) actual_type = &actual_type->der->type;`
followed by the member array of the type it stops at.  A union without
members and without a typedef to follow does not occur in a compiled schema
(the loop would read through `NULL`); the embedding gives it no members. -/
def lys_type.union_members : lys_type → List lys_type
  | .mk _ (some d) _ _ [] => d.union_members
  | .mk _ Option.none _ _ [] => []
  | .mk _ _ _ _ (t :: ts) => t :: ts

/-- Function `sr_ly_data_type_to_sr(type)`. -/
def sr_ly_data_type_to_sr (type : LY_DATA_TYPE) : sr_type_t :=
  match type with
  | LY_TYPE_BINARY => SR_BINARY_T
  | LY_TYPE_BITS => SR_BITS_T
  | LY_TYPE_BOOL => SR_BOOL_T
  | LY_TYPE_DEC64 => SR_DECIMAL64_T
  | LY_TYPE_EMPTY => SR_LEAF_EMPTY_T
  | LY_TYPE_ENUM => SR_ENUM_T
  | LY_TYPE_IDENT => SR_IDENTITYREF_T
  | LY_TYPE_INST => SR_INSTANCEID_T
  | LY_TYPE_STRING => SR_STRING_T
  | LY_TYPE_INT8 => SR_INT8_T
  | LY_TYPE_UINT8 => SR_UINT8_T
  | LY_TYPE_INT16 => SR_INT16_T
  | LY_TYPE_UINT16 => SR_UINT16_T
  | LY_TYPE_INT32 => SR_INT32_T
  | LY_TYPE_UINT32 => SR_UINT32_T
  | LY_TYPE_INT64 => SR_INT64_T
  | LY_TYPE_UINT64 => SR_UINT64_T
  | _ => SR_UNKNOWN_T

/-- Modelled from the spec: `sr_list_init` and `sr_list_add` of
`sr_data_structs.c`, utility helpers outside the specified core: creating a
list and appending to it each take memory from the C heap and fail when the
allocation oracle says so. -/
def sr_list_alloc (A : Nat → Bool) (st : MemState) : Bool × MemState :=
  if A st.allocs then (true, { st with allocs := st.allocs + 1 })
  else (false, { st with allocs := st.allocs + 1 })

/-- The label `matching_done:` of `sr_check_value_conform_to_schema`:
`return type == value->type ? SR_ERR_OK : SR_ERR_INVAL_ARG`. -/
def matching_done (type : sr_type_t) (value : sr_val_t) : sr_error_t :=
  if type = value.type then SR_ERR_OK else SR_ERR_INVAL_ARG

mutual
/-- Function `sr_check_value_conform_to_schema(node, value)`.  The work list
`union_list` of the union case is a list of type records. -/
def sr_check_value_conform_to_schema (A : Nat → Bool) (st : MemState) (node : lys_node)
    (value : sr_val_t) : sr_error_t × MemState :=
  match node with
  | .mk nodetype _ _ presence type =>
    if LYS_NODE.has_bit LYS_CONTAINER.code nodetype then
      (matching_done (if presence.isSome then SR_CONTAINER_PRESENCE_T else SR_CONTAINER_T) value, st)
    else if LYS_NODE.has_bit LYS_LIST.code nodetype then
      (matching_done SR_LIST_T value, st)
    else if LYS_NODE.has_bit (LYS_LEAF.code ||| LYS_LEAFLIST.code) nodetype then
      match type with
      | .mk base der0 dig0 lref_target uni0 =>
        match base with
        | LY_TYPE_BINARY => (matching_done SR_BINARY_T value, st)
        | LY_TYPE_BITS => (matching_done SR_BITS_T value, st)
        | LY_TYPE_BOOL => (matching_done SR_BOOL_T value, st)
        | LY_TYPE_DEC64 => (matching_done SR_DECIMAL64_T value, st)
        | LY_TYPE_EMPTY => (matching_done SR_LEAF_EMPTY_T value, st)
        | LY_TYPE_ENUM => (matching_done SR_ENUM_T value, st)
        | LY_TYPE_IDENT => (matching_done SR_IDENTITYREF_T value, st)
        | LY_TYPE_INST => (matching_done SR_INSTANCEID_T value, st)
        | LY_TYPE_LEAFREF =>
          match lref_target with
          | some leafref =>
            if LYS_NODE.has_bit (LYS_LEAF.code ||| LYS_LEAFLIST.code) leafref.nodetype then
              sr_check_value_conform_to_schema A st leafref value
            else (matching_done SR_UNKNOWN_T value, st)
          | Option.none => (matching_done SR_UNKNOWN_T value, st)
        | LY_TYPE_STRING => (matching_done SR_STRING_T value, st)
        | LY_TYPE_UNION =>
          match sr_list_alloc A st with
          | (false, st1) => (SR_ERR_NOMEM, st1)
          | (true, st1) =>
            match sr_list_alloc A st1 with
            | (false, st2) => (matching_done SR_UNKNOWN_T value, st2)
            | (true, st2) =>
              union_list_while A st2 value [.mk base der0 dig0 lref_target uni0] SR_UNKNOWN_T
        | LY_TYPE_INT8 => (matching_done SR_INT8_T value, st)
        | LY_TYPE_UINT8 => (matching_done SR_UINT8_T value, st)
        | LY_TYPE_INT16 => (matching_done SR_INT16_T value, st)
        | LY_TYPE_UINT16 => (matching_done SR_UINT16_T value, st)
        | LY_TYPE_INT32 => (matching_done SR_INT32_T value, st)
        | LY_TYPE_UINT32 => (matching_done SR_UINT32_T value, st)
        | LY_TYPE_INT64 => (matching_done SR_INT64_T value, st)
        | LY_TYPE_UINT64 => (matching_done SR_UINT64_T value, st)
        | LY_TYPE_DER => (matching_done SR_UNKNOWN_T value, st)
    else if nodetype = LYS_ANYXML then (matching_done SR_ANYXML_T value, st)
    else if LYS_NODE.has_bit LYS_ANYDATA.code nodetype then (matching_done SR_ANYDATA_T value, st)
    else (matching_done SR_UNKNOWN_T value, st)
termination_by (node.size, 0)
decreasing_by
  all_goals simp only [lys_node.size, lys_type.size, lys_node.size_opt, lys_type.size_list]
  · (rw [Prod.lex_def]; simp only; omega)
  · (rw [Prod.lex_def]; simp only; omega)
/-- The loop `while (union_list->count > 0)` of the union case; `type` is the
current content of the variable `type`. -/
def union_list_while (A : Nat → Bool) (st : MemState) (value : sr_val_t)
    (union_list : List lys_type) (type : sr_type_t) : sr_error_t × MemState :=
  match union_list with
  | [] => (matching_done type value, st)
  | actual_type :: rest =>
    union_list_resolve A st value (actual_type :: rest) actual_type type
termination_by (lys_type.size_list union_list, 5)
decreasing_by
  all_goals simp_wf
  all_goals simp only [lys_type.size_list, List.tail_cons]
  (rw [Prod.lex_def]; simp only; omega)
/-- The loop `while (0 == actual_type->info.uni.count) actual_type = &actual_type->der->type;`
on the type taken from the head of the work list.  A union without members
and without a typedef to follow does not occur in a compiled schema (the loop
would read through `NULL`); the embedding treats it as a union without
members. -/
def union_list_resolve (A : Nat → Bool) (st : MemState) (value : sr_val_t)
    (union_list : List lys_type) (actual_type : lys_type) (type : sr_type_t) :
    sr_error_t × MemState :=
  match actual_type with
  | .mk _ (some d) _ _ [] => union_list_resolve A st value union_list d type
  | .mk _ Option.none _ _ [] => union_list_for A st value union_list [] type
  | .mk _ _ _ _ (t :: ts) => union_list_for A st value union_list (t :: ts) type
termination_by (lys_type.size_list union_list.tail + actual_type.size, 4)
decreasing_by
  all_goals simp_wf
  all_goals simp only [lys_type.size, lys_type.size_opt, lys_type.size_list]
  · (rw [Prod.lex_def]; simp only; omega)
  · (rw [Prod.lex_def]; simp only; omega)
  · (rw [Prod.lex_def]; simp only; omega)
/-- The loop `for (i = 0; i < actual_type->info.uni.count; i++)` over the
members still to examine, followed by `sr_list_rm_at(union_list, 0)`. -/
def union_list_for (A : Nat → Bool) (st : MemState) (value : sr_val_t)
    (union_list : List lys_type) (members : List lys_type) (type : sr_type_t) :
    sr_error_t × MemState :=
  match members with
  | [] => union_list_while A st value union_list.tail type
  | m :: ms =>
    if m.base = LY_TYPE_LEAFREF then
      match h : m.lref_target with
      | Option.none =>
        union_list_for A st value union_list ms (sr_ly_data_type_to_sr m.base)
      | some leafref =>
        match sr_check_value_conform_to_schema A st leafref value with
        | (SR_ERR_OK, st1) => (SR_ERR_OK, st1)
        | (_, st1) => union_list_for A st1 value union_list ms (sr_ly_data_type_to_sr m.base)
    else if m.base = LY_TYPE_UNION then
      match sr_list_alloc A st with
      | (false, st1) => (matching_done (sr_ly_data_type_to_sr m.base) value, st1)
      | (true, st1) =>
        union_list_for A st1 value (union_list ++ [m]) ms (sr_ly_data_type_to_sr m.base)
    else if value.type = sr_ly_data_type_to_sr m.base then
      (matching_done (sr_ly_data_type_to_sr m.base) value, st)
    else union_list_for A st value union_list ms (sr_ly_data_type_to_sr m.base)
termination_by (lys_type.size_list union_list.tail + lys_type.size_list members,
  6 + members.length)
decreasing_by
  all_goals simp_wf
  all_goals simp only [lys_type.size_list]
  all_goals
    have hp : ∀ x : lys_type, 0 < x.size := by
      intro x; cases x; simp only [lys_type.size]; omega
    have hl : ∀ (x : lys_type) (n : lys_node), x.lref_target = some n → n.size < x.size := by
      intro x n hx
      cases x
      simp only [lys_type.lref_target] at hx
      subst hx
      simp only [lys_type.size, lys_node.size_opt]
      omega
    have happ0 : ∀ (l : List lys_type) (x : lys_type),
        lys_type.size_list (l ++ [x]) = lys_type.size_list l + x.size := by
      intro l x
      induction l with
      | nil => simp [lys_type.size_list]
      | cons b l ih =>
        rw [List.cons_append]
        simp only [lys_type.size_list]
        rw [ih]
        omega
    have happ : ∀ (l : List lys_type) (x : lys_type),
        lys_type.size_list (l ++ [x]).tail ≤ lys_type.size_list l.tail + x.size := by
      intro l x
      cases l with
      | nil => simp [lys_type.size_list]
      | cons a l =>
        rw [List.cons_append, List.tail_cons, List.tail_cons, happ0]
  · rw [Prod.lex_def]; simp only; omega
  · have := hp t
    rw [Prod.lex_def]; simp only; omega
  · have := hl t leafref h
    rw [Prod.lex_def]; simp only; omega
  · have := hp t
    rw [Prod.lex_def]; simp only; omega
  · have := happ union_list t
    rw [Prod.lex_def]; simp only; omega
  · have := hp t
    rw [Prod.lex_def]; simp only; omega
end

/-! ## Conforming tags of a schema node, after the words of the specification

The specification describes conformance by the tag that a schema node
resolves to: the tag of the node kind or of the base type of a leaf, with
leaf-refs followed to their target and, for unions, the tags of all member
types reachable through nested unions.  The definitions below state this
directly on the schema, without the work list of the code. -/

mutual
/-- Tags a value may carry to conform to a schema node: one tag for a
container, list, anyxml, anydata or a leaf of a plain base type; the tags of
the target leaf for a leaf-ref; the tags of the reachable members for a union;
none when the node resolves to nothing. -/
def lys_node.conforming_tags : lys_node → List sr_type_t
  | .mk nodetype _ _ presence (.mk base der _ tgt uni) =>
    if LYS_NODE.has_bit LYS_CONTAINER.code nodetype then
      [if presence.isSome then SR_CONTAINER_PRESENCE_T else SR_CONTAINER_T]
    else if LYS_NODE.has_bit LYS_LIST.code nodetype then [SR_LIST_T]
    else if LYS_NODE.has_bit (LYS_LEAF.code ||| LYS_LEAFLIST.code) nodetype then
      if base = LY_TYPE_LEAFREF then lys_node.leaf_tags_opt tgt
      else if base = LY_TYPE_UNION then
        (if uni.isEmpty then lys_type.union_tags_opt der else lys_type.member_tags uni)
      else [sr_ly_data_type_to_sr base]
    else if nodetype = LYS_ANYXML then [SR_ANYXML_T]
    else if LYS_NODE.has_bit LYS_ANYDATA.code nodetype then [SR_ANYDATA_T]
    else []
/-- Conforming tags of the target of a leaf-ref leaf: those of the target when
it is a leaf or leaf-list, none for a missing target or another node kind. -/
def lys_node.leaf_tags_opt : Option lys_node → List sr_type_t
  | Option.none => []
  | some n =>
    match n with
    | .mk nodetype name module presence type =>
      if LYS_NODE.has_bit (LYS_LEAF.code ||| LYS_LEAFLIST.code) nodetype then
        lys_node.conforming_tags (.mk nodetype name module presence type)
      else []
/-- Conforming tags of the target of a leaf-ref that is a member of a union;
none for a missing target. -/
def lys_node.conforming_tags_opt : Option lys_node → List sr_type_t
  | Option.none => []
  | some n => n.conforming_tags
/-- Tags of the member types reachable from a union type: the members are
those of the type itself or, when it lists none, of the typedef it derives
from. -/
def lys_type.union_tags : lys_type → List sr_type_t
  | .mk _ der _ _ uni =>
    if uni.isEmpty then lys_type.union_tags_opt der else lys_type.member_tags uni
/-- Tags reachable from the typedef a union derives from. -/
def lys_type.union_tags_opt : Option lys_type → List sr_type_t
  | Option.none => []
  | some d => d.union_tags
/-- Tags of a list of member types: a leaf-ref member contributes the tags of
its target, a union member the tags reachable from it (nesting to any depth),
any other member the tag of its base type. -/
def lys_type.member_tags : List lys_type → List sr_type_t
  | [] => []
  | (.mk base der _ tgt uni) :: ms =>
    (if base = LY_TYPE_LEAFREF then lys_node.conforming_tags_opt tgt
     else if base = LY_TYPE_UNION then
       (if uni.isEmpty then lys_type.union_tags_opt der else lys_type.member_tags uni)
     else [sr_ly_data_type_to_sr base]) ++ lys_type.member_tags ms
end

/-- Tags reachable from the unions waiting in a work list. -/
def worklist_tags : List lys_type → List sr_type_t
  | [] => []
  | u :: us => u.union_tags ++ worklist_tags us

/-- The result code `rc` is `SR_ERR_OK` when `P` holds and
`SR_ERR_INVAL_ARG` when it does not. -/
def conform_verdict (rc : sr_error_t) (P : Prop) : Prop :=
  (P → rc = SR_ERR_OK) ∧ (¬ P → rc = SR_ERR_INVAL_ARG)

/-- A leaf `c` of type `string`. -/
def schema_leaf_c : lys_node :=
  .mk LYS_LEAF "c" { name := "m" } Option.none (.mk LY_TYPE_STRING Option.none 0 Option.none [])

/-- A leaf `b` of type `union { string; leafref -> c }`. -/
def schema_leaf_b : lys_node :=
  .mk LYS_LEAF "b" { name := "m" } Option.none
    (.mk LY_TYPE_UNION Option.none 0 Option.none
      [.mk LY_TYPE_STRING Option.none 0 Option.none [],
       .mk LY_TYPE_LEAFREF Option.none 0 (some schema_leaf_c) []])

/-- A leaf `a` of type `leafref -> b`. -/
def schema_leaf_a : lys_node :=
  .mk LYS_LEAF "a" { name := "m" } Option.none
    (.mk LY_TYPE_LEAFREF Option.none 0 (some schema_leaf_b) [])

/-- A leaf `u` of type `union { int8; union { uint16; leafref -> c } }`. -/
def schema_leaf_u : lys_node :=
  .mk LYS_LEAF "u" { name := "m" } Option.none
    (.mk LY_TYPE_UNION Option.none 0 Option.none
      [.mk LY_TYPE_INT8 Option.none 0 Option.none [],
       .mk LY_TYPE_UNION Option.none 0 Option.none
         [.mk LY_TYPE_UINT16 Option.none 0 Option.none [],
          .mk LY_TYPE_LEAFREF Option.none 0 (some schema_leaf_c) []]])

/-! ## Printing a typed value by its schema -/

/-- Library `calloc` on the C heap: fails when the allocation oracle says so. -/
def calloc (A : Nat → Bool) (st : MemState) : Bool × MemState :=
  if A st.allocs then (true, { st with allocs := st.allocs + 1 })
  else (false, { st with allocs := st.allocs + 1 })

/-- Function `sr_vasprintf(strp, fmt, ap)`.  The argument `formatted` is what
the library `vsnprintf` produces for `fmt` and `ap`: the text, or nothing when
it reports an error (negative return). -/
def sr_vasprintf (A : Nat → Bool) (st : MemState) (formatted : Option String) : Outcome String :=
  match calloc A st with
  | (false, st1) => { rc := SR_ERR_NOMEM, out := none, st := st1 }
  | (true, st1) =>
    match formatted with
    | some buffer => { rc := SR_ERR_OK, out := some buffer, st := st1 }
    | none => { rc := SR_ERR_INTERNAL, out := none, st := st1 }

/-- Function `sr_asprintf(strp, fmt, ...)`. -/
def sr_asprintf (A : Nat → Bool) (st : MemState) (formatted : Option String) : Outcome String :=
  sr_vasprintf A st formatted

/-- Library `printf` conversion `%d` (`PRId8` ... `PRId64`): the decimal digits
of the argument, preceded by `-` when it is negative. -/
def printf_d (x : Int) : Option String :=
  some (if x < 0 then "-" ++ Nat.repr x.natAbs else Nat.repr x.natAbs)

/-- Library `printf` conversion `%u` (`PRIu8` ... `PRIu64`): the decimal digits
of the argument. -/
def printf_u (x : Nat) : Option String :=
  some (Nat.repr x)

/-- Sign bit of a `double` (IEEE 754 binary64). -/
def c_double.sign (x : c_double) : Bool := x.bits / 2 ^ 63 % 2 = 1

/-- Biased exponent field of a `double`. -/
def c_double.exponent (x : c_double) : Nat := x.bits / 2 ^ 52 % 2 ^ 11

/-- Fraction field of a `double`. -/
def c_double.fraction (x : c_double) : Nat := x.bits % 2 ^ 52

/-- The `double` is a number (neither an infinity nor a NaN). -/
def c_double.finite (x : c_double) : Bool := x.exponent != 2047

/-- Numerator of the magnitude of a finite `double`, as a fraction with
denominator `c_double.den`. -/
def c_double.num (x : c_double) : Nat :=
  if x.exponent = 0 then x.fraction
  else (2 ^ 52 + x.fraction) * 2 ^ (x.exponent - 1075)

/-- Denominator of the magnitude of a finite `double`. -/
def c_double.den (x : c_double) : Nat :=
  if x.exponent = 0 then 2 ^ 1074
  else 2 ^ (1075 - x.exponent)

/-- The last `d` decimal digits of `n`, padded with zeros on the left. -/
def decimal_digits : Nat → Nat → List Char
  | 0, _ => []
  | d + 1, n => decimal_digits d (n / 10) ++ [Nat.digitChar (n % 10)]

/-- The magnitude of a finite `double` times `10 ^ d`, rounded to the nearest
integer, ties to even (the default rounding direction). -/
def c_double.scaled (x : c_double) (d : Nat) : Nat :=
  let q := x.num * 10 ^ d / x.den
  let r := x.num * 10 ^ d % x.den
  if 2 * r > x.den ∨ (2 * r = x.den ∧ q % 2 = 1) then q + 1 else q

/-- Library `printf` conversion `%.<d>f` of a `double`: sign, integer part, and
for `d > 0` the decimal point and `d` digits of the value rounded to `d`
places; an infinity or NaN prints as `inf` or `nan`. -/
def printf_f (d : Nat) (x : c_double) : String :=
  String.mk
    ((if x.sign then ['-'] else []) ++
      (if x.exponent = 2047 then (if x.fraction = 0 then ['i', 'n', 'f'] else ['n', 'a', 'n'])
       else if d = 0 then Nat.toDigits 10 (x.scaled 0)
       else Nat.toDigits 10 (x.scaled d / 10 ^ d) ++ ['.'] ++
         decimal_digits d (x.scaled d % 10 ^ d)))

/-- The statement `snprintf(format_string, MAX_FMT_LEN, "%%.%zuf", fraction_digits)`
with `MAX_FMT_LEN` 6: at most five characters are stored. -/
def dec64_format_string (fraction_digits : Nat) : List Char :=
  (['%', '.'] ++ Nat.toDigits 10 fraction_digits ++ ['f']).take 5

/-- Reads a precision: the decimal number spelled by the digits. -/
def read_precision (digits : List Char) : Nat :=
  digits.foldl (fun n c => 10 * n + (c.toNat - '0'.toNat)) 0

/-- Library `vsnprintf` for a format string and one `double` argument, for the
format strings of the shape `%.<digits>f` that `sr_dec64_to_str` builds.  A
format string cut short is an incomplete conversion specification, for which
the library defines no result; the embedding reports an error for it. -/
def vsnprintf_double (format : List Char) (val : c_double) : Option String :=
  match format with
  | '%' :: '.' :: rest =>
    if rest.getLast? = some 'f' ∧ rest.dropLast.all Char.isDigit ∧ rest.dropLast ≠ [] then
      some (printf_f (read_precision rest.dropLast) val)
    else none
  | _ => none

mutual
/-- Function `sr_libyang_get_actual_leaf_type(base_info, type)`: the first
type record with base `type` in depth-first order. -/
def sr_libyang_get_actual_leaf_type (base_info : lys_type) (type : LY_DATA_TYPE) :
    Option lys_type :=
  match base_info with
  | .mk base der dig lref_target uni =>
    if base = type then some (.mk base der dig lref_target uni)
    else if base = LY_TYPE_LEAFREF then
      match h : lref_target with
      | some target => sr_libyang_get_actual_leaf_type target.type type
      | Option.none => Option.none
    else if base = LY_TYPE_UNION then
      get_actual_resolve (.mk base der dig lref_target uni) type
    else Option.none
termination_by (base_info.size, 2)
decreasing_by
  · subst h
    have hn : ∀ n : lys_node, n.type.size < n.size := by
      intro n; cases n; simp only [lys_node.type, lys_node.size]; omega
    have := hn target
    simp only [lys_type.size, lys_node.size_opt]
    rw [Prod.lex_def]; simp only; omega
  · exact Prod.Lex.right _ (by decide)
/-- The loop `while (0 == base_info->info.uni.count) base_info = &base_info->der->type;`
of `sr_libyang_get_actual_leaf_type`.  A union without members and without a
typedef to follow does not occur in a compiled schema; the embedding gives it
no members. -/
def get_actual_resolve (base_info : lys_type) (type : LY_DATA_TYPE) : Option lys_type :=
  match base_info with
  | .mk _ (some d) _ _ [] => get_actual_resolve d type
  | .mk _ Option.none _ _ [] => Option.none
  | .mk _ _ _ _ (t :: ts) => get_actual_for (t :: ts) type
termination_by (base_info.size, 1)
decreasing_by
  all_goals simp only [lys_type.size, lys_type.size_opt, lys_type.size_list]
  · (rw [Prod.lex_def]; simp only; omega)
  · (rw [Prod.lex_def]; simp only; omega)
/-- The loop `for (int i = 0; i < base_info->info.uni.count; ++i)` of
`sr_libyang_get_actual_leaf_type`. -/
def get_actual_for (members : List lys_type) (type : LY_DATA_TYPE) : Option lys_type :=
  match members with
  | [] => Option.none
  | m :: ms =>
    match sr_libyang_get_actual_leaf_type m type with
    | some actual_info => some actual_info
    | Option.none => get_actual_for ms type
termination_by (lys_type.size_list members, 3)
decreasing_by
  all_goals simp only [lys_type.size_list]
  all_goals
    have hp : ∀ x : lys_type, 0 < x.size := by
      intro x; cases x; simp only [lys_type.size]; omega
  · rw [Prod.lex_def]; simp only; omega
  · have := hp t
    rw [Prod.lex_def]; simp only; omega
end

/-- Function `sr_dec64_to_str(val, schema_node, out)`. -/
def sr_dec64_to_str (A : Nat → Bool) (st : MemState) (val : c_double) (schema_node : lys_node) :
    Outcome String :=
  if schema_node.nodetype = LYS_LEAF ∨ schema_node.nodetype = LYS_LEAFLIST then
    match sr_libyang_get_actual_leaf_type schema_node.type LY_TYPE_DEC64 with
    | Option.none => { rc := SR_ERR_INTERNAL, out := none, st := st }
    | some actual_type =>
      sr_asprintf A st (vsnprintf_double (dec64_format_string actual_type.dec64_dig) val)
  else { rc := SR_ERR_INVAL_ARG, out := none, st := st }

/-- One of the text cases of `sr_val_to_str_with_schema`:
`if (NULL != val) { *out = strdup(val); CHECK_NULL_NOMEM_RETURN(*out); } break;`. -/
def val_to_str_text (A : Nat → Bool) (st : MemState) (val : Option String) : Outcome String :=
  match val with
  | some s =>
    match strdup A st s with
    | (some o, st1) => { rc := SR_ERR_OK, out := some o, st := st1 }
    | (Option.none, st1) => { rc := SR_ERR_NOMEM, out := none, st := st1 }
  | Option.none => { rc := SR_ERR_OK, out := none, st := st }

/-- The `switch (value->type)` of `sr_val_to_str_with_schema`. -/
def sr_val_to_str_with_schema_switch (A : Nat → Bool) (st : MemState) (value : sr_val_t)
    (schema_node : lys_node) : Outcome String :=
  match value.type with
  | SR_BINARY_T => val_to_str_text A st value.data.binary_val
  | SR_BITS_T => val_to_str_text A st value.data.bits_val
  | SR_BOOL_T => val_to_str_text A st (some (if value.data.bool_val then "true" else "false"))
  | SR_DECIMAL64_T => sr_dec64_to_str A st value.data.decimal64_val schema_node
  | SR_ENUM_T => val_to_str_text A st value.data.enum_val
  | SR_LIST_T => val_to_str_text A st (some "")
  | SR_CONTAINER_T => val_to_str_text A st (some "")
  | SR_CONTAINER_PRESENCE_T => val_to_str_text A st (some "")
  | SR_LEAF_EMPTY_T => val_to_str_text A st (some "")
  | SR_IDENTITYREF_T => val_to_str_text A st value.data.identityref_val
  | SR_INSTANCEID_T => val_to_str_text A st value.data.instanceid_val
  | SR_INT8_T => sr_asprintf A st (printf_d value.data.int8_val)
  | SR_INT16_T => sr_asprintf A st (printf_d value.data.int16_val)
  | SR_INT32_T => sr_asprintf A st (printf_d value.data.int32_val)
  | SR_INT64_T => sr_asprintf A st (printf_d value.data.int64_val)
  | SR_STRING_T => val_to_str_text A st value.data.string_val
  | SR_UINT8_T => sr_asprintf A st (printf_u value.data.uint8_val)
  | SR_UINT16_T => sr_asprintf A st (printf_u value.data.uint16_val)
  | SR_UINT32_T => sr_asprintf A st (printf_u value.data.uint32_val)
  | SR_UINT64_T => sr_asprintf A st (printf_u value.data.uint64_val)
  | SR_ANYXML_T => val_to_str_text A st value.data.anyxml_val
  | SR_ANYDATA_T => val_to_str_text A st value.data.anydata_val
  | _ => { rc := SR_ERR_OK, out := none, st := st }

/-- Function `sr_val_to_str_with_schema(value, schema_node, out)`. -/
def sr_val_to_str_with_schema (A : Nat → Bool) (st : MemState) (value : sr_val_t)
    (schema_node : lys_node) : Outcome String :=
  if (sr_check_value_conform_to_schema A st schema_node value).1 = SR_ERR_OK then
    sr_val_to_str_with_schema_switch A (sr_check_value_conform_to_schema A st schema_node value).2
      value schema_node
  else
    { rc := (sr_check_value_conform_to_schema A st schema_node value).1, out := none,
      st := (sr_check_value_conform_to_schema A st schema_node value).2 }

/-- A text is in fixed-point notation with exactly `d` digits after the
decimal point: an optional `-`, one or more digits, the point, `d` digits. -/
def fixed_point (d : Nat) (s : String) : Prop :=
  ∃ (neg : Bool) (int_part frac : List Char),
    s = String.mk ((if neg then ['-'] else []) ++ int_part ++ ['.'] ++ frac) ∧
    int_part ≠ [] ∧ (∀ c ∈ int_part, c.isDigit = true) ∧
    frac.length = d ∧ (∀ c ∈ frac, c.isDigit = true)

/-- A leaf `pi` of type `decimal64 { fraction-digits 2; }`. -/
def schema_leaf_pi : lys_node :=
  .mk LYS_LEAF "pi" { name := "m" } Option.none (.mk LY_TYPE_DEC64 Option.none 2 Option.none [])

/-! ## Typed trees -/

/-- The tree node `sr_node_t`.  Its first members are those of `sr_val_t`
(`_sr_mem`, `name` in the place of `xpath`, `type`, `dflt`, `data`), which the
code reaches through the cast `(sr_val_t *)sr_tree`; then come the module
qualifier and the children (the chain `first_child`, `next`), in order. -/
inductive sr_node_t where
  | mk (val : sr_val_t) (module_name : Option String) (children : List sr_node_t)

/-- The members shared with `sr_val_t`. -/
def sr_node_t.val : sr_node_t → sr_val_t
  | .mk v _ _ => v

/-- Member `module_name`. -/
def sr_node_t.module_name : sr_node_t → Option String
  | .mk _ m _ => m

/-- The children, first to last. -/
def sr_node_t.children : sr_node_t → List sr_node_t
  | .mk _ _ c => c

/-- Member `name`, stored where `sr_val_t` keeps the instance path. -/
def sr_node_t.name (t : sr_node_t) : Option String := t.val.xpath

/-- Modelled from the spec: `sr_node_add_child(parent, NULL, NULL, &child)` of
`sr_trees.c` (`add_child(parent) → child`): a zero-filled node taken from the
arena of the parent, or from the C heap, linked as the last child.  The
embedding hands back the fresh child; the caller appends it once it is filled. -/
def sr_node_add_child (A : Nat → Bool) (st : MemState) (parent : sr_node_t) :
    sr_error_t × sr_node_t × MemState :=
  match sr_calloc A st parent.val._sr_mem 1 with
  | (false, st1) => (SR_ERR_NOMEM, .mk {} none [], st1)
  | (true, st1) => (SR_ERR_OK, .mk { _sr_mem := parent.val._sr_mem } none [], st1)

/-- The tree after the filled child has taken its place as the last child. -/
def sr_node_t.with_child (t child : sr_node_t) : sr_node_t :=
  .mk t.val t.module_name (t.children ++ [child])

/-- Modelled from the spec: `sr_mem_edit_string(sr_mem, &str, value)` of
`sr_mem_mgmt.c`: store a copy of the text in the arena, or on the C heap;
`NULL` when the allocation fails. -/
def sr_mem_edit_string (A : Nat → Bool) (st : MemState) (sr_mem : Option Nat) (s : String) :
    Option String × MemState :=
  match sr_calloc A st sr_mem (s.length + 1) with
  | (false, st1) => (none, st1)
  | (true, st1) => (some s, st1)

/-- Modelled from the spec: `sr_node_set_name(node, name)` of `sr_trees.c`. -/
def sr_node_set_name (A : Nat → Bool) (st : MemState) (node : sr_node_t) (name : String) :
    sr_error_t × sr_node_t × MemState :=
  match sr_mem_edit_string A st node.val._sr_mem name with
  | (none, st1) => (SR_ERR_NOMEM, node, st1)
  | (some s, st1) => (SR_ERR_OK, .mk { node.val with xpath := some s } node.module_name node.children, st1)

/-- Modelled from the spec: `sr_node_set_module(node, module_name)` of
`sr_trees.c` (`set_module(node, name)`). -/
def sr_node_set_module (A : Nat → Bool) (st : MemState) (node : sr_node_t) (module_name : String) :
    sr_error_t × sr_node_t × MemState :=
  match sr_mem_edit_string A st node.val._sr_mem module_name with
  | (none, st1) => (SR_ERR_NOMEM, node, st1)
  | (some s, st1) => (SR_ERR_OK, .mk node.val (some s) node.children, st1)

/-- Modelled from the spec: `sr_free_tree_content(tree)` of `sr_trees.c`, which
releases name, module qualifier, payload and children of the node. -/
def sr_free_tree_content (tree : sr_node_t) : sr_node_t :=
  .mk { _sr_mem := tree.val._sr_mem } none []

/-! ## Copying a data tree of the YANG library into a typed tree -/

/-- A data node `struct lyd_node` of the YANG library: its schema node, the
default flag, the value of a leaf or anydata node in its text form
(`value_str`), and the children (the chain `child`, `next`), in order. -/
inductive lyd_node where
  | mk (schema : lys_node) (dflt : Bool) (value_str : Option String) (child : List lyd_node)

/-- Member `schema`. -/
def lyd_node.schema : lyd_node → lys_node
  | .mk s _ _ _ => s

/-- Member `dflt`. -/
def lyd_node.dflt : lyd_node → Bool
  | .mk _ d _ _ => d

/-- The children, first to last. -/
def lyd_node.child : lyd_node → List lyd_node
  | .mk _ _ _ c => c

/-- Library function `lyd_node_module(node)`: the module of the schema node. -/
def lyd_node_module (node : lyd_node) : lys_module := node.schema.module

/-- The conversion of the value a leaf or anydata node carries
(`sr_libyang_leaf_get_type`, `sr_libyang_leaf_copy_value`,
`sr_libyang_anydata_copy_value`).  These functions read the data node and the
members `_sr_mem` and `type` of the node under construction and write its
member `data` only; they take no part in the choice of the nodes to copy.  They
are parameters of the embedding, so that every statement about the copy holds
for each behaviour of the conversion. -/
structure value_conversion where
  sr_libyang_leaf_get_type : lyd_node → sr_type_t
  sr_libyang_leaf_copy_value : MemState → lyd_node → sr_val_t → sr_error_t × sr_data_t × MemState
  sr_libyang_anydata_copy_value : MemState → lyd_node → sr_val_t → sr_error_t × sr_data_t × MemState

/-- The callback type `sr_tree_pruning_cb`, its context bound: for a data node
a result code and the verdict stored through `bool *prune`. -/
abbrev sr_tree_pruning_cb := lyd_node → sr_error_t × Bool

/-- The constant `SIZE_MAX` of a 64-bit platform. -/
def SIZE_MAX : Nat := 2 ^ 64 - 1

/-- Subtraction of `size_t` values, which wraps around. -/
def size_sub (a b : Nat) : Nat := (a + 2 ^ 64 - b % 2 ^ 64) % 2 ^ 64

/-- Increment of a `size_t` value, which wraps around. -/
def size_succ (a : Nat) : Nat := (a + 1) % 2 ^ 64

/-- The statements `/* copy value and type */` of
`sr_copy_node_to_tree_internal`: the `switch (node->schema->nodetype)`. -/
def copy_value_and_type (C : value_conversion) (st : MemState) (node : lyd_node)
    (sr_tree : sr_node_t) : sr_error_t × sr_node_t × MemState :=
  match node.schema.nodetype with
  | LYS_LEAF | LYS_LEAFLIST =>
    let v : sr_val_t := { sr_tree.val with type := C.sr_libyang_leaf_get_type node }
    match C.sr_libyang_leaf_copy_value st node v with
    | (rc, data, st1) => (rc, .mk { v with data := data } sr_tree.module_name sr_tree.children, st1)
  | LYS_CONTAINER =>
    (SR_ERR_OK,
      .mk { sr_tree.val with
            type := if node.schema.presence.isSome then SR_CONTAINER_PRESENCE_T else SR_CONTAINER_T }
        sr_tree.module_name sr_tree.children, st)
  | LYS_LIST =>
    (SR_ERR_OK, .mk { sr_tree.val with type := SR_LIST_T } sr_tree.module_name sr_tree.children, st)
  | LYS_ANYXML | LYS_ANYDATA =>
    let v : sr_val_t :=
      { sr_tree.val with
        type := if node.schema.nodetype = LYS_ANYXML then SR_ANYXML_T else SR_ANYDATA_T }
    match C.sr_libyang_anydata_copy_value st node v with
    | (rc, data, st1) => (rc, .mk { v with data := data } sr_tree.module_name sr_tree.children, st1)
  | _ => (SR_ERR_UNSUPPORTED, sr_tree, st)

/-- The statements of `sr_copy_node_to_tree_internal` up to `/* copy children */`:
name, value and type, default flag, module qualifier.  A failure leaves through
`cleanup:`. -/
def copy_node_head (A : Nat → Bool) (C : value_conversion) (st : MemState)
    (parent : Option lyd_node) (node : lyd_node) (sr_tree : sr_node_t) :
    sr_error_t × sr_node_t × MemState :=
  match sr_node_set_name A st sr_tree node.schema.name with
  | (SR_ERR_OK, t1, st1) =>
    match copy_value_and_type C st1 node t1 with
    | (SR_ERR_OK, t2, st2) =>
      let t3 : sr_node_t := .mk { t2.val with dflt := node.dflt } t2.module_name t2.children
      if parent.isNone ∨ parent.map lyd_node_module ≠ some (lyd_node_module node) then
        sr_node_set_module A st2 t3 (lyd_node_module node).name
      else (SR_ERR_OK, t3, st2)
    | (rc, t2, st2) => (rc, t2, st2)
  | (rc, t1, st1) => (rc, t1, st1)

/-- The condition of the `if` in the loop over the children: slice offset,
slice width, child limit and depth limit, in `size_t` arithmetic. -/
def chunk_condition (slice_offset slice_width child_limit depth_limit depth idx : Nat) : Bool :=
  (decide (0 < depth) || decide (slice_offset ≤ idx)) &&
  (decide (0 < depth) || decide (slice_width > size_sub idx slice_offset)) &&
  (decide (0 = depth) || decide (child_limit > idx)) &&
  decide (depth_limit > size_succ depth)

/-- The statements `prune = false; if (NULL != pruning_cb) { rc = pruning_cb(pruning_ctx, child, &prune); }`:
the result code and the content of `prune` afterwards. -/
def call_pruning_cb (pruning_cb : Option sr_tree_pruning_cb) (child : lyd_node) :
    sr_error_t × Bool :=
  match pruning_cb with
  | none => (SR_ERR_OK, false)
  | some cb => cb child

/-- The label `cleanup:` of `sr_copy_node_to_tree_internal`. -/
def copy_cleanup (r : sr_error_t × sr_node_t × MemState) : sr_error_t × sr_node_t × MemState :=
  if r.1 = SR_ERR_OK then r else (r.1, sr_free_tree_content r.2.1, r.2.2)

mutual
/-- Function `sr_copy_node_to_tree_internal(parent, node, depth, slice_offset,
slice_width, child_limit, depth_limit, pruning_cb, pruning_ctx, sr_tree)`. -/
def sr_copy_node_to_tree_internal (A : Nat → Bool) (C : value_conversion)
    (pruning_cb : Option sr_tree_pruning_cb)
    (slice_offset slice_width child_limit depth_limit : Nat) (st : MemState)
    (parent : Option lyd_node) (node : lyd_node) (depth : Nat) (sr_tree : sr_node_t) :
    sr_error_t × sr_node_t × MemState :=
  match node with
  | .mk schema dflt value_str child =>
    if (copy_node_head A C st parent (.mk schema dflt value_str child) sr_tree).1 = SR_ERR_OK then
      if LYS_NODE.has_bit (LYS_CONTAINER.code ||| LYS_LIST.code) schema.nodetype then
        copy_cleanup
          (copy_children A C pruning_cb slice_offset slice_width child_limit depth_limit
            (copy_node_head A C st parent (.mk schema dflt value_str child) sr_tree).2.2
            (.mk schema dflt value_str child) depth child 0
            (copy_node_head A C st parent (.mk schema dflt value_str child) sr_tree).2.1)
      else copy_node_head A C st parent (.mk schema dflt value_str child) sr_tree
    else copy_cleanup (copy_node_head A C st parent (.mk schema dflt value_str child) sr_tree)
/-- The loop `while (child)` of `sr_copy_node_to_tree_internal` over the
children still to visit; `idx` is the counter of the loop. -/
def copy_children (A : Nat → Bool) (C : value_conversion)
    (pruning_cb : Option sr_tree_pruning_cb)
    (slice_offset slice_width child_limit depth_limit : Nat) (st : MemState)
    (node : lyd_node) (depth : Nat) (children : List lyd_node) (idx : Nat) (sr_tree : sr_node_t) :
    sr_error_t × sr_node_t × MemState :=
  match children with
  | [] => (SR_ERR_OK, sr_tree, st)
  | child :: rest =>
    if chunk_condition slice_offset slice_width child_limit depth_limit depth idx then
      if (call_pruning_cb pruning_cb child).1 = SR_ERR_OK then
        if (call_pruning_cb pruning_cb child).2 = true then
          copy_children A C pruning_cb slice_offset slice_width child_limit depth_limit st node
            depth rest idx sr_tree
        else if (sr_node_add_child A st sr_tree).1 = SR_ERR_OK then
          if (sr_copy_node_to_tree_internal A C pruning_cb slice_offset slice_width child_limit
                depth_limit (sr_node_add_child A st sr_tree).2.2 (some node) child (size_succ depth)
                (sr_node_add_child A st sr_tree).2.1).1 = SR_ERR_OK then
            copy_children A C pruning_cb slice_offset slice_width child_limit depth_limit
              (sr_copy_node_to_tree_internal A C pruning_cb slice_offset slice_width child_limit
                depth_limit (sr_node_add_child A st sr_tree).2.2 (some node) child (size_succ depth)
                (sr_node_add_child A st sr_tree).2.1).2.2
              node depth rest (size_succ idx)
              (sr_tree.with_child
                (sr_copy_node_to_tree_internal A C pruning_cb slice_offset slice_width child_limit
                  depth_limit (sr_node_add_child A st sr_tree).2.2 (some node) child
                  (size_succ depth) (sr_node_add_child A st sr_tree).2.1).2.1)
          else
            ((sr_copy_node_to_tree_internal A C pruning_cb slice_offset slice_width child_limit
                depth_limit (sr_node_add_child A st sr_tree).2.2 (some node) child (size_succ depth)
                (sr_node_add_child A st sr_tree).2.1).1,
             sr_tree,
             (sr_copy_node_to_tree_internal A C pruning_cb slice_offset slice_width child_limit
                depth_limit (sr_node_add_child A st sr_tree).2.2 (some node) child (size_succ depth)
                (sr_node_add_child A st sr_tree).2.1).2.2)
        else ((sr_node_add_child A st sr_tree).1, sr_tree, (sr_node_add_child A st sr_tree).2.2)
      else ((call_pruning_cb pruning_cb child).1, sr_tree, st)
    else
      copy_children A C pruning_cb slice_offset slice_width child_limit depth_limit st node depth
        rest (size_succ idx) sr_tree
end

/-- Function `sr_copy_node_to_tree(node, pruning_cb, pruning_ctx, sr_tree)`. -/
def sr_copy_node_to_tree (A : Nat → Bool) (C : value_conversion) (st : MemState)
    (node : lyd_node) (pruning_cb : Option sr_tree_pruning_cb) (sr_tree : sr_node_t) :
    sr_error_t × sr_node_t × MemState :=
  sr_copy_node_to_tree_internal A C pruning_cb 0 SIZE_MAX SIZE_MAX SIZE_MAX st none node 0 sr_tree

/-- Function `sr_copy_node_to_tree_chunk(node, slice_offset, slice_width,
child_limit, depth_limit, pruning_cb, pruning_ctx, sr_tree)`. -/
def sr_copy_node_to_tree_chunk (A : Nat → Bool) (C : value_conversion) (st : MemState)
    (node : lyd_node) (slice_offset slice_width child_limit depth_limit : Nat)
    (pruning_cb : Option sr_tree_pruning_cb) (sr_tree : sr_node_t) :
    sr_error_t × sr_node_t × MemState :=
  sr_copy_node_to_tree_internal A C pruning_cb slice_offset slice_width child_limit depth_limit st
    none node 0 sr_tree

/-! ## The chunk of a data tree, after the words of the specification -/

/-- The child with index `i` of a node of depth `depth` is to be emitted: its
depth is below the depth limit, and its index lies in
`[slice_offset, slice_offset + slice_width)` under the root or below
`child_limit` under any other node, in unbounded arithmetic. -/
def chunk_selected (slice_offset slice_width child_limit depth_limit depth i : Nat) : Bool :=
  decide (depth + 1 < depth_limit) &&
    (if depth = 0 then decide (slice_offset ≤ i ∧ i < slice_offset + slice_width)
     else decide (i < child_limit))

mutual
/-- The typed tree `e` is the chunk of the data node of depth `depth`: it
carries the name of the node, and its children are the chunks of the selected
children that `P` does not prune, in order. -/
def lyd_node.emitted_as (P : lyd_node → Bool)
    (slice_offset slice_width child_limit depth_limit : Nat) :
    Nat → lyd_node → sr_node_t → Bool
  | depth, .mk schema _ _ child, e =>
    decide (e.name = some schema.name) &&
      lyd_node.children_emitted_as P slice_offset slice_width child_limit depth_limit depth 0
        child e.children
/-- The typed trees `es` are the chunks of the children that are selected and
not pruned, where `i` is the index of the first child of the list; a pruned
child inside the selection does not take up an index. -/
def lyd_node.children_emitted_as (P : lyd_node → Bool)
    (slice_offset slice_width child_limit depth_limit : Nat) :
    Nat → Nat → List lyd_node → List sr_node_t → Bool
  | _, _, [], es => es.isEmpty
  | depth, i, c :: cs, es =>
    if chunk_selected slice_offset slice_width child_limit depth_limit depth i then
      if P c then
        lyd_node.children_emitted_as P slice_offset slice_width child_limit depth_limit depth i
          cs es
      else
        match es with
        | [] => false
        | e :: es1 =>
          lyd_node.emitted_as P slice_offset slice_width child_limit depth_limit (depth + 1) c e &&
            lyd_node.children_emitted_as P slice_offset slice_width child_limit depth_limit depth
              (i + 1) cs es1
    else
      lyd_node.children_emitted_as P slice_offset slice_width child_limit depth_limit depth (i + 1)
        cs es
end

mutual
/-- The data tree fits a 64-bit address space and is a tree of YANG data:
every node has fewer than `2 ^ 64` children, only containers and lists have
children, and no node lies at depth `SIZE_MAX` or deeper. -/
def lyd_node.fits : Nat → lyd_node → Prop
  | depth, .mk schema _ _ child =>
    child.length < 2 ^ 64 ∧
    (child ≠ [] →
      (schema.nodetype = LYS_CONTAINER ∨ schema.nodetype = LYS_LIST) ∧ depth + 1 < SIZE_MAX) ∧
    lyd_node.fits_list depth child
/-- Every node of the list fits, as a child of a node of depth `depth`. -/
def lyd_node.fits_list : Nat → List lyd_node → Prop
  | _, [] => True
  | depth, c :: cs => lyd_node.fits (depth + 1) c ∧ lyd_node.fits_list depth cs
end

mutual
/-- The typed tree `e` is a copy of the whole data tree: same name, and the
children are copies of all the children, in order. -/
def lyd_node.copied_as : lyd_node → sr_node_t → Bool
  | .mk schema _ _ child, e =>
    decide (e.name = some schema.name) && lyd_node.copied_list child e.children
/-- The typed trees `es` are copies of the data trees, one by one. -/
def lyd_node.copied_list : List lyd_node → List sr_node_t → Bool
  | [], es => es.isEmpty
  | c :: cs, es =>
    match es with
    | [] => false
    | e :: es1 => lyd_node.copied_as c e && lyd_node.copied_list cs es1
end

/-- The children that the bounds and the pruning predicate leave of the
children of a node of depth `depth`: under the root the first `slice_offset`
children are skipped, pruned or not, and of the rest the first `slice_width`
children that are not pruned remain; under any other node the first
`child_limit` children that are not pruned remain; no child remains at or
beyond the depth limit. -/
def chunk_children (P : lyd_node → Bool)
    (slice_offset slice_width child_limit depth_limit depth : Nat)
    (children : List lyd_node) : List lyd_node :=
  if depth + 1 < depth_limit then
    if depth = 0 then ((children.drop slice_offset).filter (fun c => !P c)).take slice_width
    else (children.filter (fun c => !P c)).take child_limit
  else []

/-- A conversion of leaf values for the examples: every leaf is a string whose
payload is the text form of the value; anydata nodes carry no payload. -/
def example_conversion : value_conversion where
  sr_libyang_leaf_get_type := fun _ => SR_STRING_T
  sr_libyang_leaf_copy_value := fun st node v =>
    (SR_ERR_OK, { v.data with string_val := match node with | .mk _ _ s _ => s }, st)
  sr_libyang_anydata_copy_value := fun st _ v => (SR_ERR_OK, v.data, st)

/-- A string leaf `name` of module `m` with the value `name`. -/
def example_leaf (name : String) : lyd_node :=
  .mk (.mk LYS_LEAF name { name := "m" } Option.none (.mk LY_TYPE_STRING Option.none 0 Option.none []))
    false (some name) []

mutual
/-- The typed tree is the chunk of the data node of depth `depth` under the
bounds and the pruning predicate `P`: it carries the name of the node, and its
children are, one by one and in order, the chunks of the children that
`chunk_children` leaves. -/
def sr_node_t.is_chunk_of (P : lyd_node → Bool)
    (slice_offset slice_width child_limit depth_limit : Nat) :
    Nat → sr_node_t → lyd_node → Bool
  | depth, .mk val _ es, node =>
    decide (val.xpath = some node.schema.name) &&
      sr_node_t.are_chunks_of P slice_offset slice_width child_limit depth_limit (depth + 1) es
        (chunk_children P slice_offset slice_width child_limit depth_limit depth node.child)
/-- The typed trees are, one by one and in order, the chunks of the data nodes
of depth `depth`. -/
def sr_node_t.are_chunks_of (P : lyd_node → Bool)
    (slice_offset slice_width child_limit depth_limit : Nat) :
    Nat → List sr_node_t → List lyd_node → Bool
  | _, [], ns => ns.isEmpty
  | depth, e :: es, ns =>
    match ns with
    | [] => false
    | n :: ns1 =>
      sr_node_t.is_chunk_of P slice_offset slice_width child_limit depth_limit depth e n &&
        sr_node_t.are_chunks_of P slice_offset slice_width child_limit depth_limit depth es ns1
end

/-- The wire node `Sr__Node` (generated header): the wire value, the module
qualifier, and the array of children with its element count. -/
inductive Sr__Node where
  | mk (value : Option Sr__Value) (module_name : Option String) (n_children : Nat)
       (children : List Sr__Node)

/-- Member `value`. -/
def Sr__Node.value : Sr__Node → Option Sr__Value
  | .mk v _ _ _ => v

/-- Member `module_name`. -/
def Sr__Node.module_name : Sr__Node → Option String
  | .mk _ m _ _ => m

/-- Member `n_children`. -/
def Sr__Node.n_children : Sr__Node → Nat
  | .mk _ _ n _ => n

/-- Member `children`. -/
def Sr__Node.children : Sr__Node → List Sr__Node
  | .mk _ _ _ c => c

/-- The statements `/* module_name */` of `sr_dup_tree_to_gpb`: the pointer is
shared inside an arena and duplicated otherwise. -/
def tree_module_to_gpb (A : Nat → Bool) (st : MemState) (in_arena : Bool)
    (module_name : Option String) : sr_error_t × Option String × MemState :=
  match module_name with
  | none => (SR_ERR_OK, none, st)
  | some m =>
    if in_arena then (SR_ERR_OK, some m, st)
    else
      match strdup A st m with
      | (none, st1) => (SR_ERR_NOMEM, none, st1)
      | (some d, st1) => (SR_ERR_OK, some d, st1)

mutual
/-- Function `sr_dup_tree_to_gpb(sr_tree, gpb_tree)`: encode a typed tree.  A
failed allocation of the wire node returns at once; a failure afterwards goes
through `cleanup:`, which restores the snapshot of the arena or releases the
wire node. -/
def sr_dup_tree_to_gpb (A : Nat → Bool) (st : MemState) : sr_node_t → Outcome Sr__Node
  | .mk val module_name children =>
    match sr_calloc A st val._sr_mem 1 with
    | (false, st1) => { rc := SR_ERR_NOMEM, out := none, st := st1 }
    | (true, st1) =>
      match sr_calloc A st1 val._sr_mem 1 with
      | (false, st2) => alloc_error st2 (entry_snapshot st val._sr_mem) SR_ERR_NOMEM
      | (true, st2) =>
        match sr_set_val_t_type_in_gpb val sr__value__init with
        | (SR_ERR_OK, value) =>
          match sr_set_val_t_value_in_gpb A st2 val value with
          | (SR_ERR_OK, value1, st3) =>
            match tree_module_to_gpb A st3 val._sr_mem.isSome module_name with
            | (SR_ERR_OK, gpb_module, st4) =>
              if 0 < children.length then
                match sr_calloc A st4 val._sr_mem children.length with
                | (false, st5) => alloc_error st5 (entry_snapshot st val._sr_mem) SR_ERR_NOMEM
                | (true, st5) =>
                  match sr_dup_tree_to_gpb_children A st5 children with
                  | (SR_ERR_OK, gpb_children, st6) =>
                    { rc := SR_ERR_OK,
                      out := some (.mk (some value1) gpb_module gpb_children.length gpb_children),
                      st := st6 }
                  | (rc, _, st6) => alloc_error st6 (entry_snapshot st val._sr_mem) rc
              else
                { rc := SR_ERR_OK, out := some (.mk (some value1) gpb_module 0 []), st := st4 }
            | (rc, _, st4) => alloc_error st4 (entry_snapshot st val._sr_mem) rc
          | (rc, _, st3) => alloc_error st3 (entry_snapshot st val._sr_mem) rc
        | (rc, _) => alloc_error st2 (entry_snapshot st val._sr_mem) rc
/-- The second loop `while (sr_subtree)` of `sr_dup_tree_to_gpb` over the
children still to encode: the wire nodes stored so far (as many as
`n_children` counts), and the first failure if any. -/
def sr_dup_tree_to_gpb_children (A : Nat → Bool) (st : MemState) :
    List sr_node_t → sr_error_t × List Sr__Node × MemState
  | [] => (SR_ERR_OK, [], st)
  | sr_subtree :: rest =>
    match sr_dup_tree_to_gpb A st sr_subtree with
    | { rc := SR_ERR_OK, out := some gpb, st := st1 } =>
      match sr_dup_tree_to_gpb_children A st1 rest with
      | (rc, gpbs, st2) => (rc, gpb :: gpbs, st2)
    | { rc := rc, out := _, st := st1 } => (rc, [], st1)
end

/-- The statements `/* module_name */` of `sr_copy_gpb_to_tree`: a present and
non-empty qualifier is shared inside an arena and duplicated otherwise; an
absent or empty one becomes `NULL`. -/
def gpb_module_to_tree (A : Nat → Bool) (st : MemState) (in_arena : Bool)
    (module_name : Option String) : sr_error_t × Option String × MemState :=
  match module_name with
  | none => (SR_ERR_OK, none, st)
  | some m =>
    if m.length ≠ 0 then
      if in_arena then (SR_ERR_OK, some m, st)
      else
        match strdup A st m with
        | (none, st1) => (SR_ERR_NOMEM, none, st1)
        | (some d, st1) => (SR_ERR_OK, some d, st1)
    else (SR_ERR_OK, none, st)

/-- The label `cleanup:` of `sr_copy_gpb_to_tree`. -/
def copy_gpb_cleanup (r : sr_error_t × sr_node_t × MemState) : sr_error_t × sr_node_t × MemState :=
  if r.1 = SR_ERR_OK then r else (r.1, sr_free_tree_content r.2.1, r.2.2)

mutual
/-- Function `sr_copy_gpb_to_tree(gpb_tree, sr_tree)`: decode a wire node into
the node `sr_tree`, whose arena is set.  A `NULL` wire value is rejected by the
`CHECK_NULL_ARG2` of `sr_set_gpb_type_in_val_t`. -/
def sr_copy_gpb_to_tree (A : Nat → Bool) (st : MemState) :
    Sr__Node → sr_node_t → sr_error_t × sr_node_t × MemState
  | .mk value module_name n_children children, sr_tree =>
    match value with
    | none => (SR_ERR_INVAL_ARG, sr_tree, st)
    | some gpb_value =>
      match sr_set_gpb_type_in_val_t gpb_value sr_tree.val with
      | (SR_ERR_OK, val1) =>
        match sr_set_gpb_value_in_val_t A st gpb_value val1 with
        | (SR_ERR_OK, val2, st1) =>
          match gpb_module_to_tree A st1 val2._sr_mem.isSome module_name with
          | (SR_ERR_OK, tree_module, st2) =>
            copy_gpb_cleanup
              (sr_copy_gpb_to_tree_children A st2 children n_children (.mk val2 tree_module []))
          | (rc, _, st2) => copy_gpb_cleanup (rc, .mk val2 none sr_tree.children, st2)
        | (rc, val2, st1) => (rc, .mk val2 sr_tree.module_name sr_tree.children, st1)
      | (rc, val1) => (rc, .mk val1 sr_tree.module_name sr_tree.children, st)
/-- The loop `for (size_t i = 0; i < gpb_tree->n_children; ++i)` of
`sr_copy_gpb_to_tree` over the array elements still to decode, `n` of which the
count announces.  Reading past the end of the array is undefined in C; the
embedding treats a missing element as a `NULL` pointer, which
`CHECK_NULL_ARG2` rejects after the child has been added. -/
def sr_copy_gpb_to_tree_children (A : Nat → Bool) (st : MemState) :
    List Sr__Node → Nat → sr_node_t → sr_error_t × sr_node_t × MemState
  | _, 0, sr_tree => (SR_ERR_OK, sr_tree, st)
  | [], _ + 1, sr_tree =>
    match sr_node_add_child A st sr_tree with
    | (SR_ERR_OK, _, st1) => (SR_ERR_INVAL_ARG, sr_tree, st1)
    | (rc, _, st1) => (rc, sr_tree, st1)
  | gpb :: gpbs, n + 1, sr_tree =>
    match sr_node_add_child A st sr_tree with
    | (SR_ERR_OK, sr_subtree, st1) =>
      match sr_copy_gpb_to_tree A st1 gpb sr_subtree with
      | (SR_ERR_OK, sr_subtree1, st2) =>
        sr_copy_gpb_to_tree_children A st2 gpbs n (sr_tree.with_child sr_subtree1)
      | (rc, _, st2) => (rc, sr_tree, st2)
    | (rc, _, st1) => (rc, sr_tree, st1)
end

/-- Function `sr_dup_gpb_to_tree(sr_mem, gpb_tree, sr_tree)`: decode a wire
node into a freshly allocated typed tree. -/
def sr_dup_gpb_to_tree (A : Nat → Bool) (st : MemState) (sr_mem : Option Nat)
    (gpb_tree : Option Sr__Node) : Outcome sr_node_t :=
  match gpb_tree with
  | none => { rc := SR_ERR_INVAL_ARG, out := none, st := st }
  | some gpb =>
    match sr_calloc A st sr_mem 1 with
    | (false, st1) => { rc := SR_ERR_NOMEM, out := none, st := st1 }
    | (true, st1) =>
      match sr_copy_gpb_to_tree A st1 gpb (.mk { _sr_mem := sr_mem } none []) with
      | (SR_ERR_OK, tree, st2) =>
        { rc := SR_ERR_OK, out := some tree,
          st := match sr_mem with
                | none => st2
                | some a => sr_mem_obj_count_incr st2 a }
      | (rc, _, st2) => alloc_error st2 (entry_snapshot st sr_mem) rc

mutual
/-- Every node of the tree can be encoded: it has a name, one of the supported
tags, a present string payload if its tag is text-like, a payload that fits its
C type, and a module qualifier that is absent or not empty. -/
def sr_node_t.encodable : sr_node_t → Prop
  | .mk val module_name children =>
    val.encodable ∧ module_name ≠ some "" ∧ sr_node_t.encodable_list children
/-- Every tree of the list can be encoded. -/
def sr_node_t.encodable_list : List sr_node_t → Prop
  | [] => True
  | t :: ts => t.encodable ∧ sr_node_t.encodable_list ts
end

mutual
/-- Two typed trees agree: same name, tag, default flag, payload and module
qualifier at the root, and the children agree one by one, in order and
number. -/
def sr_node_t.same : sr_node_t → sr_node_t → Prop
  | .mk val module_name children, w =>
    val.same w.val ∧ w.module_name = module_name ∧ sr_node_t.same_list children w.children
/-- Two lists of typed trees agree one by one. -/
def sr_node_t.same_list : List sr_node_t → List sr_node_t → Prop
  | [], ws => ws = []
  | t :: ts, ws =>
    match ws with
    | [] => False
    | w :: ws1 => t.same w ∧ sr_node_t.same_list ts ws1
end

/-! ## Schema descriptors -/

/-- The revision triple `sr_sch_revision_t`: revision date and the paths of
the yang and the yin file. -/
structure sr_sch_revision_t where
  revision : Option String := none
  file_path_yang : Option String := none
  file_path_yin : Option String := none
  deriving DecidableEq, Repr

/-- The submodule record `sr_sch_submodule_t`. -/
structure sr_sch_submodule_t where
  submodule_name : Option String := none
  revision : sr_sch_revision_t := {}
  deriving DecidableEq, Repr

/-- The schema descriptor `sr_schema_t`.  The member `prefix` of the C record
is spelled `prefix_`; the arrays are kept as pointer (`none` for `NULL`) and
count. -/
structure sr_schema_t where
  _sr_mem : Option Nat := none
  module_name : Option String := none
  ns : Option String := none
  prefix_ : Option String := none
  revision : sr_sch_revision_t := {}
  submodules : Option (List sr_sch_submodule_t) := none
  submodule_count : Nat := 0
  enabled_features : Option (List (Option String)) := none
  enabled_feature_cnt : Nat := 0
  deriving DecidableEq, Repr

/-- The wire record `Sr__SchemaRevision` (generated header). -/
structure Sr__SchemaRevision where
  revision : Option String := none
  file_path_yang : Option String := none
  file_path_yin : Option String := none
  deriving DecidableEq, Repr

/-- The wire record `Sr__SchemaSubmodule` (generated header). -/
structure Sr__SchemaSubmodule where
  submodule_name : Option String := none
  revision : Option Sr__SchemaRevision := none
  deriving DecidableEq, Repr

/-- The wire record `Sr__Schema` (generated header); the default is what
`sr__schema__init` leaves.  The member `prefix` is spelled `prefix_`. -/
structure Sr__Schema where
  module_name : Option String := none
  ns : Option String := none
  prefix_ : Option String := none
  revision : Option Sr__SchemaRevision := none
  n_submodules : Nat := 0
  submodules : Option (List Sr__SchemaSubmodule) := none
  n_enabled_features : Nat := 0
  enabled_features : Option (List (Option String)) := none
  deriving DecidableEq, Repr

/-- The string copy of the schema converters:
```
if (NULL != src) {
    if (sr_mem) { dst = src; } else { dst = strdup(src); CHECK_NULL_NOMEM_GOTO(checked, rc, cleanup); }
}
```
`check_copy` tells whether the check examines the copy; for the module name
and the namespace `sr_schemas_sr_to_gpb` examines the source, which is present,
so that a failed `strdup` goes unreported there. -/
def schema_copy_string (A : Nat → Bool) (st : MemState) (in_arena : Bool) (check_copy : Bool)
    (src : Option String) : sr_error_t × Option String × MemState :=
  match src with
  | none => (SR_ERR_OK, none, st)
  | some s =>
    if in_arena then (SR_ERR_OK, some s, st)
    else
      match strdup A st s with
      | (some d, st1) => (SR_ERR_OK, some d, st1)
      | (none, st1) => if check_copy then (SR_ERR_NOMEM, none, st1) else (SR_ERR_OK, none, st1)

/-- The loop over the names of the enabled features, which has the same
statements in both converters: every name is copied, and the count of the
target grows by one per name. -/
def schema_copy_features (A : Nat → Bool) (st : MemState) (in_arena : Bool) :
    List (Option String) → sr_error_t × List (Option String) × MemState
  | [] => (SR_ERR_OK, [], st)
  | f :: fs =>
    match schema_copy_string A st in_arena true f with
    | (SR_ERR_OK, d, st1) =>
      match schema_copy_features A st1 in_arena fs with
      | (rc, ds, st2) => (rc, d :: ds, st2)
    | (rc, _, st1) => (rc, [], st1)

/-- The statements of `sr_schemas_sr_to_gpb` that allocate and fill a wire
revision triple. -/
def schema_revision_to_gpb (A : Nat → Bool) (st : MemState) (sr_mem : Option Nat)
    (rev : sr_sch_revision_t) : sr_error_t × Option Sr__SchemaRevision × MemState :=
  match sr_calloc A st sr_mem 1 with
  | (false, st1) => (SR_ERR_NOMEM, none, st1)
  | (true, st1) =>
    match schema_copy_string A st1 sr_mem.isSome true rev.revision with
    | (SR_ERR_OK, r, st2) =>
      match schema_copy_string A st2 sr_mem.isSome true rev.file_path_yang with
      | (SR_ERR_OK, y, st3) =>
        match schema_copy_string A st3 sr_mem.isSome true rev.file_path_yin with
        | (SR_ERR_OK, n, st4) =>
          (SR_ERR_OK, some { revision := r, file_path_yang := y, file_path_yin := n }, st4)
        | (rc, _, st4) => (rc, none, st4)
      | (rc, _, st3) => (rc, none, st3)
    | (rc, _, st2) => (rc, none, st2)

/-- The body of the loop over the submodules in `sr_schemas_sr_to_gpb`. -/
def schema_submodule_to_gpb (A : Nat → Bool) (st : MemState) (sr_mem : Option Nat)
    (sub : sr_sch_submodule_t) : sr_error_t × Option Sr__SchemaSubmodule × MemState :=
  match sr_calloc A st sr_mem 1 with
  | (false, st1) => (SR_ERR_NOMEM, none, st1)
  | (true, st1) =>
    match schema_copy_string A st1 sr_mem.isSome true sub.submodule_name with
    | (SR_ERR_OK, name, st2) =>
      match schema_revision_to_gpb A st2 sr_mem sub.revision with
      | (SR_ERR_OK, rev, st3) => (SR_ERR_OK, some { submodule_name := name, revision := rev }, st3)
      | (rc, _, st3) => (rc, none, st3)
    | (rc, _, st2) => (rc, none, st2)

/-- The loop over the submodules in `sr_schemas_sr_to_gpb`. -/
def schema_submodules_to_gpb (A : Nat → Bool) (st : MemState) (sr_mem : Option Nat) :
    List sr_sch_submodule_t → sr_error_t × List Sr__SchemaSubmodule × MemState
  | [] => (SR_ERR_OK, [], st)
  | s :: ss =>
    match schema_submodule_to_gpb A st sr_mem s with
    | (SR_ERR_OK, some g, st1) =>
      match schema_submodules_to_gpb A st1 sr_mem ss with
      | (rc, gs, st2) => (rc, g :: gs, st2)
    | (rc, _, st1) => (rc, [], st1)

/-- The body of the loop `for (i = 0; i < schema_cnt; i++)` of
`sr_schemas_sr_to_gpb`: the wire record of one descriptor.  The arrays of the
descriptor are read at the indices below their counts (a non-`NULL` array is
expected to hold that many elements). -/
def schema_to_gpb (A : Nat → Bool) (st : MemState) (sr_mem : Option Nat) (s : sr_schema_t) :
    sr_error_t × Option Sr__Schema × MemState :=
  match sr_calloc A st sr_mem 1 with
  | (false, st1) => (SR_ERR_NOMEM, none, st1)
  | (true, st1) =>
    match schema_copy_string A st1 sr_mem.isSome false s.module_name with
    | (SR_ERR_OK, module_name, st2) =>
      match schema_copy_string A st2 sr_mem.isSome false s.ns with
      | (SR_ERR_OK, ns, st3) =>
        match schema_copy_string A st3 sr_mem.isSome true s.prefix_ with
        | (SR_ERR_OK, pfx, st4) =>
          match schema_revision_to_gpb A st4 sr_mem s.revision with
          | (SR_ERR_OK, revision, st5) =>
            match (if 0 < s.enabled_feature_cnt then sr_calloc A st5 sr_mem s.enabled_feature_cnt
                   else (true, st5)) with
            | (false, st6) => (SR_ERR_NOMEM, none, st6)
            | (true, st6) =>
              match schema_copy_features A st6 sr_mem.isSome
                  ((s.enabled_features.getD []).take s.enabled_feature_cnt) with
              | (SR_ERR_OK, features, st7) =>
                match (if 0 < s.submodule_count then sr_calloc A st7 sr_mem s.submodule_count
                       else (true, st7)) with
                | (false, st8) => (SR_ERR_NOMEM, none, st8)
                | (true, st8) =>
                  match schema_submodules_to_gpb A st8 sr_mem
                      ((s.submodules.getD []).take s.submodule_count) with
                  | (SR_ERR_OK, submodules, st9) =>
                    (SR_ERR_OK,
                     some { module_name := module_name, ns := ns, prefix_ := pfx,
                            revision := revision,
                            n_submodules := s.submodule_count,
                            submodules := if 0 < s.submodule_count then some submodules else none,
                            n_enabled_features := features.length,
                            enabled_features :=
                              if 0 < s.enabled_feature_cnt then some features else none },
                     st9)
                  | (rc, _, st9) => (rc, none, st9)
              | (rc, _, st7) => (rc, none, st7)
          | (rc, _, st5) => (rc, none, st5)
        | (rc, _, st4) => (rc, none, st4)
      | (rc, _, st3) => (rc, none, st3)
    | (rc, _, st2) => (rc, none, st2)

/-- The loop `for (i = 0; i < schema_cnt; i++)` of `sr_schemas_sr_to_gpb`. -/
def sr_schemas_sr_to_gpb_loop (A : Nat → Bool) (st : MemState) (sr_mem : Option Nat) :
    List sr_schema_t → sr_error_t × List Sr__Schema × MemState
  | [] => (SR_ERR_OK, [], st)
  | s :: ss =>
    match schema_to_gpb A st sr_mem s with
    | (SR_ERR_OK, some g, st1) =>
      match sr_schemas_sr_to_gpb_loop A st1 sr_mem ss with
      | (rc, gs, st2) => (rc, g :: gs, st2)
    | (rc, _, st1) => (rc, [], st1)

/-- Function `sr_schemas_sr_to_gpb(sr_schemas, schema_cnt, gpb_schemas)`.  The
result is the pointer stored through `gpb_schemas`, `NULL` for a count of
zero.  The arena is the one of the first descriptor, `sr_schemas->_sr_mem`. -/
def sr_schemas_sr_to_gpb (A : Nat → Bool) (st : MemState) (sr_schemas : Option (List sr_schema_t))
    (schema_cnt : Nat) : Outcome (Option (List Sr__Schema)) :=
  match sr_schemas with
  | none => { rc := SR_ERR_INVAL_ARG, out := none, st := st }
  | some schemas =>
    if schema_cnt = 0 then { rc := SR_ERR_OK, out := some none, st := st }
    else
      let sr_mem := (schemas.headD {})._sr_mem
      match sr_calloc A st sr_mem schema_cnt with
      | (false, st1) => { rc := SR_ERR_NOMEM, out := none, st := st1 }
      | (true, st1) =>
        match sr_schemas_sr_to_gpb_loop A st1 sr_mem (schemas.take schema_cnt) with
        | (SR_ERR_OK, gpbs, st2) => { rc := SR_ERR_OK, out := some (some gpbs), st := st2 }
        | (rc, _, st2) => alloc_error st2 (entry_snapshot st sr_mem) rc

/-- The statements of `sr_schemas_gpb_to_sr` that fill a revision triple from
its wire record.  The wire record is read without a check for `NULL`;
`sr_schemas_sr_to_gpb` always provides it, and the embedding reads an absent
record as an empty one. -/
def gpb_revision_to_schema (A : Nat → Bool) (st : MemState) (sr_mem : Option Nat)
    (rev : Option Sr__SchemaRevision) : sr_error_t × sr_sch_revision_t × MemState :=
  match schema_copy_string A st sr_mem.isSome true (rev.getD {}).revision with
  | (SR_ERR_OK, r, st1) =>
    match schema_copy_string A st1 sr_mem.isSome true (rev.getD {}).file_path_yang with
    | (SR_ERR_OK, y, st2) =>
      match schema_copy_string A st2 sr_mem.isSome true (rev.getD {}).file_path_yin with
      | (SR_ERR_OK, n, st3) =>
        (SR_ERR_OK, { revision := r, file_path_yang := y, file_path_yin := n }, st3)
      | (rc, _, st3) => (rc, {}, st3)
    | (rc, _, st2) => (rc, {}, st2)
  | (rc, _, st1) => (rc, {}, st1)

/-- The body of the loop over the submodules in `sr_schemas_gpb_to_sr`. -/
def gpb_submodule_to_schema (A : Nat → Bool) (st : MemState) (sr_mem : Option Nat)
    (sub : Sr__SchemaSubmodule) : sr_error_t × sr_sch_submodule_t × MemState :=
  match schema_copy_string A st sr_mem.isSome true sub.submodule_name with
  | (SR_ERR_OK, name, st1) =>
    match gpb_revision_to_schema A st1 sr_mem sub.revision with
    | (SR_ERR_OK, rev, st2) => (SR_ERR_OK, { submodule_name := name, revision := rev }, st2)
    | (rc, _, st2) => (rc, {}, st2)
  | (rc, _, st1) => (rc, {}, st1)

/-- The loop over the submodules in `sr_schemas_gpb_to_sr`; the submodule count
of the target grows by one per submodule. -/
def gpb_submodules_to_schema (A : Nat → Bool) (st : MemState) (sr_mem : Option Nat) :
    List Sr__SchemaSubmodule → sr_error_t × List sr_sch_submodule_t × MemState
  | [] => (SR_ERR_OK, [], st)
  | g :: gs =>
    match gpb_submodule_to_schema A st sr_mem g with
    | (SR_ERR_OK, s, st1) =>
      match gpb_submodules_to_schema A st1 sr_mem gs with
      | (rc, ss, st2) => (rc, s :: ss, st2)
    | (rc, _, st1) => (rc, [], st1)

/-- The body of the second loop `for (i = 0; i < schema_cnt; i++)` of
`sr_schemas_gpb_to_sr`: the descriptor of one wire record.  The arrays of the
wire record are read at the indices below their counts. -/
def gpb_to_schema (A : Nat → Bool) (st : MemState) (sr_mem : Option Nat) (g : Sr__Schema) :
    sr_error_t × sr_schema_t × MemState :=
  match schema_copy_string A st sr_mem.isSome true g.module_name with
  | (SR_ERR_OK, module_name, st1) =>
    match schema_copy_string A st1 sr_mem.isSome true g.ns with
    | (SR_ERR_OK, ns, st2) =>
      match schema_copy_string A st2 sr_mem.isSome true g.prefix_ with
      | (SR_ERR_OK, pfx, st3) =>
        match gpb_revision_to_schema A st3 sr_mem g.revision with
        | (SR_ERR_OK, revision, st4) =>
          match (if 0 < g.n_enabled_features then sr_calloc A st4 sr_mem g.n_enabled_features
                 else (true, st4)) with
          | (false, st5) => (SR_ERR_NOMEM, { _sr_mem := sr_mem }, st5)
          | (true, st5) =>
            match schema_copy_features A st5 sr_mem.isSome
                ((g.enabled_features.getD []).take g.n_enabled_features) with
            | (SR_ERR_OK, features, st6) =>
              match (if 0 < g.n_submodules then sr_calloc A st6 sr_mem g.n_submodules
                     else (true, st6)) with
              | (false, st7) => (SR_ERR_NOMEM, { _sr_mem := sr_mem }, st7)
              | (true, st7) =>
                match gpb_submodules_to_schema A st7 sr_mem
                    ((g.submodules.getD []).take g.n_submodules) with
                | (SR_ERR_OK, submodules, st8) =>
                  (SR_ERR_OK,
                   { _sr_mem := sr_mem, module_name := module_name, ns := ns, prefix_ := pfx,
                     revision := revision,
                     submodules := if 0 < g.n_submodules then some submodules else none,
                     submodule_count := submodules.length,
                     enabled_features := if 0 < g.n_enabled_features then some features else none,
                     enabled_feature_cnt := features.length },
                   st8)
                | (rc, _, st8) => (rc, { _sr_mem := sr_mem }, st8)
            | (rc, _, st6) => (rc, { _sr_mem := sr_mem }, st6)
        | (rc, _, st4) => (rc, { _sr_mem := sr_mem }, st4)
      | (rc, _, st3) => (rc, { _sr_mem := sr_mem }, st3)
    | (rc, _, st2) => (rc, { _sr_mem := sr_mem }, st2)
  | (rc, _, st1) => (rc, { _sr_mem := sr_mem }, st1)

/-- The second loop `for (i = 0; i < schema_cnt; i++)` of `sr_schemas_gpb_to_sr`. -/
def sr_schemas_gpb_to_sr_loop (A : Nat → Bool) (st : MemState) (sr_mem : Option Nat) :
    List Sr__Schema → sr_error_t × List sr_schema_t × MemState
  | [] => (SR_ERR_OK, [], st)
  | g :: gs =>
    match gpb_to_schema A st sr_mem g with
    | (SR_ERR_OK, s, st1) =>
      match sr_schemas_gpb_to_sr_loop A st1 sr_mem gs with
      | (rc, ss, st2) => (rc, s :: ss, st2)
    | (rc, _, st1) => (rc, [], st1)

/-- Function `sr_schemas_gpb_to_sr(sr_mem, gpb_schemas, schema_cnt, sr_schemas)`.
The result is the pointer stored through `sr_schemas`, `NULL` for a count of
zero.  The elements of `gpb_schemas` are read without a check for `NULL`, as
`sr_schemas_sr_to_gpb` provides them. -/
def sr_schemas_gpb_to_sr (A : Nat → Bool) (st : MemState) (sr_mem : Option Nat)
    (gpb_schemas : Option (List Sr__Schema)) (schema_cnt : Nat) :
    Outcome (Option (List sr_schema_t)) :=
  match gpb_schemas with
  | none => { rc := SR_ERR_INVAL_ARG, out := none, st := st }
  | some gpbs =>
    if schema_cnt = 0 then { rc := SR_ERR_OK, out := some none, st := st }
    else
      match sr_calloc A st sr_mem schema_cnt with
      | (false, st1) => { rc := SR_ERR_NOMEM, out := none, st := st1 }
      | (true, st1) =>
        match sr_schemas_gpb_to_sr_loop A st1 sr_mem (gpbs.take schema_cnt) with
        | (SR_ERR_OK, schemas, st2) =>
          { rc := SR_ERR_OK, out := some (some schemas),
            st := match sr_mem with
                  | none => st2
                  | some a => sr_mem_obj_count_incr st2 a }
        | (rc, _, st2) => alloc_error st2 (entry_snapshot st sr_mem) rc

/-- The submodules of a descriptor: the array elements below the count. -/
def sr_schema_t.submodule_elems (s : sr_schema_t) : List sr_sch_submodule_t :=
  (s.submodules.getD []).take s.submodule_count

/-- The names of the enabled features of a descriptor: the array elements
below the count. -/
def sr_schema_t.feature_elems (s : sr_schema_t) : List (Option String) :=
  (s.enabled_features.getD []).take s.enabled_feature_cnt

/-- The arrays of the descriptor hold as many elements as their counts say. -/
def sr_schema_t.well_formed (s : sr_schema_t) : Prop :=
  s.submodule_elems.length = s.submodule_count ∧ s.feature_elems.length = s.enabled_feature_cnt

/-- Two schema descriptors agree: module name, namespace, prefix, the primary
revision triple, the submodules in order and number, and the names of the
enabled features in order and number; an array of no elements is absent in the
second. -/
def sr_schema_t.same (s w : sr_schema_t) : Prop :=
  w.module_name = s.module_name ∧ w.ns = s.ns ∧ w.prefix_ = s.prefix_ ∧
  w.revision = s.revision ∧
  w.submodule_count = s.submodule_count ∧ w.submodule_elems = s.submodule_elems ∧
  w.enabled_feature_cnt = s.enabled_feature_cnt ∧ w.feature_elems = s.feature_elems ∧
  (s.submodule_count = 0 → w.submodules = none) ∧
  (s.enabled_feature_cnt = 0 → w.enabled_features = none)

/-- The wire form of a revision triple. -/
def sr_sch_revision_t.wire (rev : sr_sch_revision_t) : Sr__SchemaRevision :=
  { revision := rev.revision, file_path_yang := rev.file_path_yang,
    file_path_yin := rev.file_path_yin }

/-- The wire form of a submodule record. -/
def sr_sch_submodule_t.wire (sub : sr_sch_submodule_t) : Sr__SchemaSubmodule :=
  { submodule_name := sub.submodule_name, revision := some sub.revision.wire }

/-- The wire form of a schema descriptor: the strings as they are, the
revision triple, and the submodules and feature names below their counts; an
array of no elements is absent. -/
def sr_schema_t.wire (s : sr_schema_t) : Sr__Schema :=
  { module_name := s.module_name, ns := s.ns, prefix_ := s.prefix_,
    revision := some s.revision.wire,
    n_submodules := s.submodule_count,
    submodules :=
      if 0 < s.submodule_count then some (s.submodule_elems.map sr_sch_submodule_t.wire) else none,
    n_enabled_features := s.feature_elems.length,
    enabled_features := if 0 < s.enabled_feature_cnt then some s.feature_elems else none }

mutual
/-- Every node of the data tree is of a kind that
`sr_copy_node_to_tree_internal` converts: leaf, leaf-list, container, list,
anyxml or anydata. -/
def lyd_node.supported : lyd_node → Prop
  | .mk schema _ _ child =>
    (schema.nodetype = LYS_LEAF ∨ schema.nodetype = LYS_LEAFLIST ∨
      schema.nodetype = LYS_CONTAINER ∨ schema.nodetype = LYS_LIST ∨
      schema.nodetype = LYS_ANYXML ∨ schema.nodetype = LYS_ANYDATA) ∧
    lyd_node.supported_list child
/-- Every data tree of the list is made of nodes of a supported kind. -/
def lyd_node.supported_list : List lyd_node → Prop
  | [] => True
  | c :: cs => c.supported ∧ lyd_node.supported_list cs
end

/-- Datastores `sr_datastore_t` of `sysrepo.h`.  In each enumeration of this
section `unrecognized c` stands for an integer that is not the value of an
enumerator. -/
inductive sr_datastore_t where
  | SR_DS_STARTUP
  | SR_DS_RUNNING
  | SR_DS_CANDIDATE
  | unrecognized (code : Int)
  deriving DecidableEq, Repr

/-- Wire codes `Sr__DataStore` (generated header). -/
inductive Sr__DataStore where
  | SR__DATA_STORE__STARTUP
  | SR__DATA_STORE__RUNNING
  | SR__DATA_STORE__CANDIDATE
  | unrecognized (code : Int)
  deriving DecidableEq, Repr

/-- Change operations `sr_change_oper_t` of `sysrepo.h`. -/
inductive sr_change_oper_t where
  | SR_OP_CREATED
  | SR_OP_MODIFIED
  | SR_OP_DELETED
  | SR_OP_MOVED
  | unrecognized (code : Int)
  deriving DecidableEq, Repr

/-- Wire codes `Sr__ChangeOperation` (generated header). -/
inductive Sr__ChangeOperation where
  | SR__CHANGE_OPERATION__CREATED
  | SR__CHANGE_OPERATION__MODIFIED
  | SR__CHANGE_OPERATION__DELETED
  | SR__CHANGE_OPERATION__MOVED
  | unrecognized (code : Int)
  deriving DecidableEq, Repr

/-- Positions `sr_move_position_t` of `sysrepo.h` for the move of a list
item. -/
inductive sr_move_position_t where
  | SR_MOVE_BEFORE
  | SR_MOVE_AFTER
  | SR_MOVE_FIRST
  | SR_MOVE_LAST
  | unrecognized (code : Int)
  deriving DecidableEq, Repr

/-- Wire codes `Sr__MoveItemReq__MovePosition` (generated header). -/
inductive Sr__MoveItemReq__MovePosition where
  | SR__MOVE_ITEM_REQ__MOVE_POSITION__BEFORE
  | SR__MOVE_ITEM_REQ__MOVE_POSITION__AFTER
  | SR__MOVE_ITEM_REQ__MOVE_POSITION__FIRST
  | SR__MOVE_ITEM_REQ__MOVE_POSITION__LAST
  | unrecognized (code : Int)
  deriving DecidableEq, Repr

/-- API variants `sr_api_variant_t` of `sr_common.h`. -/
inductive sr_api_variant_t where
  | SR_API_VALUES
  | SR_API_TREES
  | unrecognized (code : Int)
  deriving DecidableEq, Repr

/-- Wire codes `Sr__ApiVariant` (generated header). -/
inductive Sr__ApiVariant where
  | SR__API_VARIANT__VALUES
  | SR__API_VARIANT__TREES
  | unrecognized (code : Int)
  deriving DecidableEq, Repr

open sr_datastore_t Sr__DataStore sr_change_oper_t Sr__ChangeOperation sr_move_position_t
  Sr__MoveItemReq__MovePosition sr_api_variant_t Sr__ApiVariant

/-- Function `sr_datastore_sr_to_gpb(sr_ds)`. -/
def sr_datastore_sr_to_gpb (sr_ds : sr_datastore_t) : Sr__DataStore :=
  match sr_ds with
  | SR_DS_CANDIDATE => SR__DATA_STORE__CANDIDATE
  | SR_DS_RUNNING => SR__DATA_STORE__RUNNING
  | SR_DS_STARTUP => SR__DATA_STORE__STARTUP
  | _ => SR__DATA_STORE__STARTUP

/-- Function `sr_datastore_gpb_to_sr(gpb_ds)`. -/
def sr_datastore_gpb_to_sr (gpb_ds : Sr__DataStore) : sr_datastore_t :=
  match gpb_ds with
  | SR__DATA_STORE__CANDIDATE => SR_DS_CANDIDATE
  | SR__DATA_STORE__RUNNING => SR_DS_RUNNING
  | SR__DATA_STORE__STARTUP => SR_DS_STARTUP
  | _ => SR_DS_STARTUP

/-- Function `sr_change_op_gpb_to_sr(gpb_ch)`. -/
def sr_change_op_gpb_to_sr (gpb_ch : Sr__ChangeOperation) : sr_change_oper_t :=
  match gpb_ch with
  | SR__CHANGE_OPERATION__CREATED => SR_OP_CREATED
  | SR__CHANGE_OPERATION__DELETED => SR_OP_DELETED
  | SR__CHANGE_OPERATION__MOVED => SR_OP_MOVED
  | SR__CHANGE_OPERATION__MODIFIED => SR_OP_MODIFIED
  | _ => SR_OP_MODIFIED

/-- Function `sr_change_op_sr_to_gpb(sr_ch)`. -/
def sr_change_op_sr_to_gpb (sr_ch : sr_change_oper_t) : Sr__ChangeOperation :=
  match sr_ch with
  | SR_OP_CREATED => SR__CHANGE_OPERATION__CREATED
  | SR_OP_DELETED => SR__CHANGE_OPERATION__DELETED
  | SR_OP_MOVED => SR__CHANGE_OPERATION__MOVED
  | SR_OP_MODIFIED => SR__CHANGE_OPERATION__MODIFIED
  | _ => SR__CHANGE_OPERATION__MODIFIED

/-- Function `sr_move_position_sr_to_gpb(sr_position)`. -/
def sr_move_position_sr_to_gpb (sr_position : sr_move_position_t) :
    Sr__MoveItemReq__MovePosition :=
  match sr_position with
  | SR_MOVE_BEFORE => SR__MOVE_ITEM_REQ__MOVE_POSITION__BEFORE
  | SR_MOVE_AFTER => SR__MOVE_ITEM_REQ__MOVE_POSITION__AFTER
  | SR_MOVE_FIRST => SR__MOVE_ITEM_REQ__MOVE_POSITION__FIRST
  | SR_MOVE_LAST => SR__MOVE_ITEM_REQ__MOVE_POSITION__LAST
  | _ => SR__MOVE_ITEM_REQ__MOVE_POSITION__LAST

/-- Function `sr_move_direction_gpb_to_sr(gpb_position)`. -/
def sr_move_direction_gpb_to_sr (gpb_position : Sr__MoveItemReq__MovePosition) :
    sr_move_position_t :=
  match gpb_position with
  | SR__MOVE_ITEM_REQ__MOVE_POSITION__BEFORE => SR_MOVE_BEFORE
  | SR__MOVE_ITEM_REQ__MOVE_POSITION__AFTER => SR_MOVE_AFTER
  | SR__MOVE_ITEM_REQ__MOVE_POSITION__FIRST => SR_MOVE_FIRST
  | SR__MOVE_ITEM_REQ__MOVE_POSITION__LAST => SR_MOVE_LAST
  | _ => SR_MOVE_LAST

/-- Function `sr_api_variant_sr_to_gpb(api_variant)`. -/
def sr_api_variant_sr_to_gpb (api_variant : sr_api_variant_t) : Sr__ApiVariant :=
  match api_variant with
  | SR_API_VALUES => SR__API_VARIANT__VALUES
  | SR_API_TREES => SR__API_VARIANT__TREES
  | _ => SR__API_VARIANT__VALUES

/-- Function `sr_api_variant_gpb_to_sr(api_variant_gpb)`. -/
def sr_api_variant_gpb_to_sr (api_variant_gpb : Sr__ApiVariant) : sr_api_variant_t :=
  match api_variant_gpb with
  | SR__API_VARIANT__VALUES => SR_API_VALUES
  | SR__API_VARIANT__TREES => SR_API_TREES
  | _ => SR_API_VALUES

/-! ## File names

A C string is a Lean string whose characters stand for the bytes of the C
string. -/

/-- The constant `PATH_MAX` of `<limits.h>` on Linux. -/
def PATH_MAX : Nat := 4096

/-- Modelled from the spec: the extension `SR_SCHEMA_YANG_FILE_EXT` of
`sr_constants.h` (file-system layout, `{name}[@{revision}].{yang|yin}`). -/
def SR_SCHEMA_YANG_FILE_EXT : String := ".yang"

/-- Modelled from the spec: the extension `SR_SCHEMA_YIN_FILE_EXT` of
`sr_constants.h`. -/
def SR_SCHEMA_YIN_FILE_EXT : String := ".yin"

/-- Modelled from the spec: the extension `SR_STARTUP_FILE_EXT` of
`sr_constants.h` (file-system layout of the data directory). -/
def SR_STARTUP_FILE_EXT : String := ".startup"

/-- Modelled from the spec: the extension `SR_RUNNING_FILE_EXT` of
`sr_constants.h`. -/
def SR_RUNNING_FILE_EXT : String := ".running"

/-- Modelled from the spec: the extension `SR_CANDIDATE_FILE_EXT` of
`sr_constants.h`. -/
def SR_CANDIDATE_FILE_EXT : String := ".candidate"

/-- Modelled from the spec: the extension `SR_PERSIST_FILE_EXT` of
`sr_constants.h`. -/
def SR_PERSIST_FILE_EXT : String := ".persist"

/-- Modelled from the spec: the extension `SR_LOCK_FILE_EXT` of
`sr_constants.h`. -/
def SR_LOCK_FILE_EXT : String := ".lock"

/-- Library `snprintf(buf, size, ...)` for a text that the format yields: at
most `size - 1` bytes are stored. -/
def snprintf (size : Nat) (formatted : String) : String :=
  String.mk (formatted.data.take (size - 1))

/-- Function `sr_str_ends_with(str, suffix)`. -/
def sr_str_ends_with (str suffix : Option String) : Bool :=
  match str, suffix with
  | some s, some x =>
    if x.length > s.length then false
    else decide (s.data.drop (s.length - x.length) = x.data)
  | _, _ => false

/-- Function `sr_str_join(str1, str2, result)`. -/
def sr_str_join (A : Nat → Bool) (st : MemState) (str1 str2 : Option String) : Outcome String :=
  match str1, str2 with
  | some s1, some s2 =>
    match calloc A st with
    | (false, st1) => { rc := SR_ERR_NOMEM, out := none, st := st1 }
    | (true, st1) => { rc := SR_ERR_OK, out := some (s1 ++ s2), st := st1 }
  | _, _ => { rc := SR_ERR_INVAL_ARG, out := none, st := st }

/-- The `switch (ds)` of `sr_get_data_file_name`. -/
def data_file_suffix (ds : sr_datastore_t) : String :=
  match ds with
  | SR_DS_CANDIDATE => SR_CANDIDATE_FILE_EXT
  | SR_DS_RUNNING => SR_RUNNING_FILE_EXT
  | SR_DS_STARTUP => SR_STARTUP_FILE_EXT
  | _ => SR_STARTUP_FILE_EXT

/-- Function `sr_get_data_file_name(data_search_dir, module_name, ds, file_name)`. -/
def sr_get_data_file_name (A : Nat → Bool) (st : MemState) (data_search_dir : Option String)
    (module_name : Option String) (ds : sr_datastore_t) : Outcome String :=
  match module_name with
  | none => { rc := SR_ERR_INVAL_ARG, out := none, st := st }
  | some _ =>
    match sr_str_join A st data_search_dir module_name with
    | { rc := SR_ERR_OK, out := tmp, st := st1 } =>
      sr_str_join A st1 tmp (some (data_file_suffix ds))
    | { rc := _, out := _, st := st1 } => { rc := SR_ERR_NOMEM, out := none, st := st1 }

/-- Function `sr_get_lock_data_file_name(data_search_dir, module_name, ds, file_name)`. -/
def sr_get_lock_data_file_name (A : Nat → Bool) (st : MemState) (data_search_dir : Option String)
    (module_name : Option String) (ds : sr_datastore_t) : Outcome String :=
  match data_search_dir, module_name with
  | some _, some _ =>
    match sr_get_data_file_name A st data_search_dir module_name ds with
    | { rc := SR_ERR_OK, out := tmp, st := st1 } => sr_str_join A st1 tmp (some SR_LOCK_FILE_EXT)
    | r => { rc := r.rc, out := none, st := r.st }
  | _, _ => { rc := SR_ERR_INVAL_ARG, out := none, st := st }

/-- Function `sr_get_schema_file_name(schema_search_dir, module_name, rev_date,
yang_format, file_name)`. -/
def sr_get_schema_file_name (A : Nat → Bool) (st : MemState) (schema_search_dir : Option String)
    (module_name : Option String) (rev_date : Option String) (yang_format : Bool) :
    Outcome String :=
  match module_name with
  | none => { rc := SR_ERR_INVAL_ARG, out := none, st := st }
  | some _ =>
    let ext := if yang_format then SR_SCHEMA_YANG_FILE_EXT else SR_SCHEMA_YIN_FILE_EXT
    let r := sr_str_join A st schema_search_dir module_name
    if rev_date.isSome ∧ rev_date ≠ some "" then
      if r.rc ≠ SR_ERR_OK then { rc := r.rc, out := none, st := r.st }
      else
        let r2 := sr_str_join A r.st r.out (some "@")
        if r2.rc ≠ SR_ERR_OK then { rc := r2.rc, out := none, st := r2.st }
        else
          let r3 := sr_str_join A r2.st r2.out rev_date
          if r3.rc = SR_ERR_OK then sr_str_join A r3.st r3.out (some ext)
          else { rc := SR_ERR_NOMEM, out := none, st := r3.st }
    else if r.rc = SR_ERR_OK then sr_str_join A r.st r.out (some ext)
    else { rc := SR_ERR_NOMEM, out := none, st := r.st }

/-- Function `srctl_get_yang_path(module_name, revision_date, yang_path,
path_max_len)` of `sysrepoctl.c`; `srctl_schema_search_dir` is the file-level
variable of that name. -/
def srctl_get_yang_path (srctl_schema_search_dir : String) (module_name : String)
    (revision_date : Option String) (path_max_len : Nat) : String :=
  match revision_date with
  | some rev =>
    snprintf path_max_len
      (srctl_schema_search_dir ++ module_name ++ "@" ++ rev ++ SR_SCHEMA_YANG_FILE_EXT)
  | none => snprintf path_max_len (srctl_schema_search_dir ++ module_name ++ SR_SCHEMA_YANG_FILE_EXT)

/-- Function `srctl_get_yin_path(module_name, revision_date, yin_path,
path_max_len)` of `sysrepoctl.c`, which passes `PATH_MAX` to `snprintf`
whatever `path_max_len` is. -/
def srctl_get_yin_path (srctl_schema_search_dir : String) (module_name : String)
    (revision_date : Option String) (_path_max_len : Nat) : String :=
  match revision_date with
  | some rev =>
    snprintf PATH_MAX
      (srctl_schema_search_dir ++ module_name ++ "@" ++ rev ++ SR_SCHEMA_YIN_FILE_EXT)
  | none => snprintf PATH_MAX (srctl_schema_search_dir ++ module_name ++ SR_SCHEMA_YIN_FILE_EXT)

/-- The revision part of a schema file name: `@` and the revision when a
non-empty revision is given, nothing otherwise. -/
def revision_part (rev_date : Option String) : String :=
  match rev_date with
  | some rev => if rev = "" then "" else "@" ++ rev
  | none => ""

/-- The extension of a schema file of the format. -/
def schema_ext (yang_format : Bool) : String :=
  if yang_format then SR_SCHEMA_YANG_FILE_EXT else SR_SCHEMA_YIN_FILE_EXT

mutual
/-- The typed tree `t` is a chunk of the data node with the module qualifiers
in their places: it carries the name of the node; it carries a module
qualifier exactly when the node has no parent (`parent = none`, the root of
the emitted tree) or its module differs from the module `parent` of its parent
node, and the qualifier is then the name of the module of the node; and its
children are, in order, such chunks of some of the children of the node. -/
def lyd_node.qualified_as : Option lys_module → lyd_node → sr_node_t → Prop
  | parent, .mk schema _ _ child, t =>
    t.name = some schema.name ∧
    t.module_name
      = (if parent = none ∨ parent ≠ some schema.module then some schema.module.name else none) ∧
    lyd_node.children_qualified_as schema.module child t.children
/-- The typed trees are, in order, chunks with their module qualifiers of some
of the data nodes, which are the children of a node of module `parent`. -/
def lyd_node.children_qualified_as : lys_module → List lyd_node → List sr_node_t → Prop
  | _, [], ts => ts = []
  | parent, c :: cs, ts =>
    (∃ t ts1, ts = t :: ts1 ∧ lyd_node.qualified_as (some parent) c t ∧
      lyd_node.children_qualified_as parent cs ts1) ∨
    lyd_node.children_qualified_as parent cs ts
end

/-- A container `r` of module `m` with a leaf `a` of module `m` and a leaf `x`
that the module `n` adds. -/
def example_augmented : lyd_node :=
  .mk (.mk LYS_CONTAINER "r" { name := "m" } Option.none lys_type.none) false Option.none
    [example_leaf "a",
     .mk (.mk LYS_LEAF "x" { name := "n" } Option.none
        (.mk LY_TYPE_STRING Option.none 0 Option.none [])) false (some "x") []]

/-! ## Builders and decoders of the remaining envelopes and arrays -/

/-- Builder `sr_gpb_notif_ack_alloc(sr_mem, notification, msg_p)`; a `NULL`
notification message, or one without notification body, is rejected by
`CHECK_NULL_ARG3`. -/
def sr_gpb_notif_ack_alloc (A : Nat → Bool) (st : MemState) (sr_mem : Option Nat)
    (notification : Option Sr__Msg) : Outcome Sr__Msg :=
  match notification with
  | none => { rc := SR_ERR_INVAL_ARG, out := none, st := st }
  | some n =>
    match n.notification with
    | none => { rc := SR_ERR_INVAL_ARG, out := none, st := st }
    | some body =>
      let snapshot := entry_snapshot st sr_mem
      match sr_calloc A st sr_mem 1 with
      | (false, st1) => alloc_error st1 snapshot SR_ERR_NOMEM
      | (true, st1) =>
        let msg : Sr__Msg :=
          { sr__msg__init with type := SR__MSG__MSG_TYPE__NOTIFICATION_ACK, session_id := 0 }
        match sr_calloc A st1 sr_mem 1 with
        | (false, st2) => alloc_error st2 snapshot SR_ERR_NOMEM
        | (true, st2) =>
          let notif_ack : Sr__NotificationAck :=
            { sr__notification_ack__init with notif := some body }
          alloc_finish st2 sr_mem { msg with notification_ack := some notif_ack }

/-- The conversion loop of `sr_trees_gpb_to_sr` over the wire trees still to
convert; every element of the result array starts zero-filled with `_sr_mem`
set to the arena, and a `NULL` element of the wire array is rejected by the
`CHECK_NULL_ARG2` of `sr_copy_gpb_to_tree`. -/
def sr_trees_gpb_to_sr_loop (A : Nat → Bool) (st : MemState) (sr_mem : Option Nat) :
    List (Option Sr__Node) → sr_error_t × List sr_node_t × MemState
  | [] => (SR_ERR_OK, [], st)
  | none :: _ => (SR_ERR_INVAL_ARG, [], st)
  | some g :: gs =>
    match sr_copy_gpb_to_tree A st g (.mk { _sr_mem := sr_mem } none []) with
    | (SR_ERR_OK, tree, st1) =>
      match sr_trees_gpb_to_sr_loop A st1 sr_mem gs with
      | (rc, trees, st2) => (rc, tree :: trees, st2)
    | (rc, _, st1) => (rc, [], st1)

/-- Function `sr_trees_gpb_to_sr(sr_mem, gpb_trees, gpb_tree_cnt, sr_trees_p, sr_tree_cnt_p)`.
The array `gpb_trees` is read at the indices below `gpb_tree_cnt`. -/
def sr_trees_gpb_to_sr (A : Nat → Bool) (st : MemState) (sr_mem : Option Nat)
    (gpb_trees : Option (List (Option Sr__Node))) (gpb_tree_cnt : Nat) :
    Outcome (CArray sr_node_t) :=
  match gpb_trees with
  | none => { rc := SR_ERR_OK, out := some { ptr := none, cnt := gpb_tree_cnt }, st := st }
  | some gpbs =>
    if gpb_tree_cnt > 0 then
      let snapshot := entry_snapshot st sr_mem
      match sr_calloc A st sr_mem gpb_tree_cnt with
      | (false, st1) => { rc := SR_ERR_NOMEM, out := none, st := st1 }
      | (true, st1) =>
        match sr_trees_gpb_to_sr_loop A st1 sr_mem (gpbs.take gpb_tree_cnt) with
        | (SR_ERR_OK, sr_trees, st2) =>
          { rc := SR_ERR_OK, out := some { ptr := some sr_trees, cnt := gpb_tree_cnt },
            st := match sr_mem with
                  | none => st2
                  | some a => sr_mem_obj_count_incr st2 a }
        | (rc, _, st2) => { rc := rc, out := none, st := sr_mem_restore st2 snapshot }
    else { rc := SR_ERR_OK, out := some { ptr := none, cnt := gpb_tree_cnt }, st := st }

/-- The accounting of the arena `a` over a call that started in the state `st`
and ended with the result code `rc` in the state `st1`: a success with a
non-empty result has raised the object count by exactly one, and after a
failure the high-watermark and the object count are what they were. -/
def arena_accounted (a : Nat) (st : MemState) (rc : sr_error_t) (nonempty : Bool)
    (st1 : MemState) : Prop :=
  (rc = SR_ERR_OK → nonempty = true →
    (st1.arena a).obj_count = (st.arena a).obj_count + 1) ∧
  (rc ≠ SR_ERR_OK →
    (st1.arena a).head = (st.arena a).head ∧ (st1.arena a).obj_count = (st.arena a).obj_count)

/-- The object count of the arena `a` is the same in both states. -/
def same_obj_count (a : Nat) (st st1 : MemState) : Prop :=
  (st1.arena a).obj_count = (st.arena a).obj_count

/-! ## The repository on disk and the environment of the control tool

The control tool `sysrepoctl` acts on the file system, on the dependency graph
of the module-dependencies library, on the YANG library and on the daemon.
The file system is embedded with its state; the other collaborators answer
through an environment, so that every statement about the tool holds for each
of their behaviours.  Every call that changes something outside the process is
recorded, in order, in a log. -/

/-- Permission bit `S_IRUSR` of `<sys/stat.h>`. -/
def S_IRUSR : Nat := 0o400
/-- Permission bit `S_IWUSR` of `<sys/stat.h>`. -/
def S_IWUSR : Nat := 0o200
/-- Permission bit `S_IXUSR` of `<sys/stat.h>`. -/
def S_IXUSR : Nat := 0o100
/-- Permission bit `S_IRGRP` of `<sys/stat.h>`. -/
def S_IRGRP : Nat := 0o040
/-- Permission bit `S_IWGRP` of `<sys/stat.h>`. -/
def S_IWGRP : Nat := 0o020
/-- Permission bit `S_IXGRP` of `<sys/stat.h>`. -/
def S_IXGRP : Nat := 0o010
/-- Permission bit `S_IROTH` of `<sys/stat.h>`. -/
def S_IROTH : Nat := 0o004
/-- Permission bit `S_IWOTH` of `<sys/stat.h>`. -/
def S_IWOTH : Nat := 0o002
/-- Permission bit `S_IXOTH` of `<sys/stat.h>`. -/
def S_IXOTH : Nat := 0o001
/-- File type mask `S_IFMT` of `<sys/stat.h>` on Linux. -/
def S_IFMT : Nat := 0o170000
/-- File type `S_IFREG` of `<sys/stat.h>` on Linux. -/
def S_IFREG : Nat := 0o100000
/-- File type `S_IFDIR` of `<sys/stat.h>` on Linux. -/
def S_IFDIR : Nat := 0o040000
/-- The bits of a mode that `chmod` sets: permissions, set-id and sticky bits. -/
def S_IALLUGO : Nat := 0o7777

/-- A file or directory of the file system: its content and the members of
`struct stat` that the code reads. -/
structure sys_file where
  content : String := ""
  st_mode : Nat := 0
  st_uid : Nat := 0
  st_gid : Nat := 0
  st_dev : Nat := 0
  st_ino : Nat := 0
  deriving DecidableEq, Repr

/-- The calls of the control tool that act outside the process: commands run
through `system`, system calls that change the file system, calls of the
module-dependencies library and of the client library. -/
inductive sys_call where
  | cp (src dst : String)
  | open_creat (path : String)
  | chown (path : String) (owner group : Option Nat)
  | chmod_command (permissions path : String)
  | chmod (path : String) (mode : Nat)
  | mkdir (path : String) (mode : Nat)
  | unlink (path : String)
  | md_init
  | md_insert_module (filepath : Option String)
  | md_remove_module (name : String) (revision : Option String)
  | md_flush
  | md_destroy
  | sr_connect
  | sr_session_start
  | sr_module_install (module_name : String) (revision : Option String)
      (file_name : Option String) (enabled : Bool)
  | sr_disconnect
  deriving DecidableEq, Repr

/-- Modelled from the spec: a vertex of the dependency graph, `md_module_t` of
`module_dependencies.h`, with the members that `sysrepoctl.c` reads: a module
is identified by its name and primary revision and carries the path to its
schema file. -/
structure md_module_t where
  name : String := ""
  revision_date : String := ""
  filepath : String := ""
  deriving DecidableEq, Repr

/-- Modelled from the spec: an entry `md_module_key_t` of the implicitly
installed or removed set. -/
structure md_module_key_t where
  name : String := ""
  revision_date : String := ""
  filepath : String := ""
  deriving DecidableEq, Repr

/-- The state outside the process: the file system, the dependency graph as the
internal data file stores it, the log of the calls made so far, the next free
inode number and the memory state of the process. -/
structure World where
  files : String → Option sys_file := fun _ => none
  md_data : List md_module_t := []
  log : List sys_call := []
  next_ino : Nat := 1
  mem : MemState := {}

/-- A top-level schema node of a module, with the members that
`sr_lys_module_has_data` reads. -/
structure lys_top_node where
  flags : Nat := 0
  nodetype : LYS_NODE := LYS_UNKNOWN
  deriving DecidableEq, Repr

/-- A parsed module `struct lys_module` (or submodule, which the code casts to
it) of the YANG library with the members that `sysrepoctl.c` and
`sr_lys_module_has_data` read: name, the submodule flag `type`, the revision
dates (`rev[i].date`, whose count is `rev_size`), the path of the schema file,
the included submodules (`inc[i].submodule`), the imported modules
(`imp[i].module`), the number of features and the top-level schema nodes
(`data`).  The record `lys_module` above carries the name only.  Imports and
includes form a finite acyclic structure and are embedded as a tree. -/
inductive lys_module_full where
  | mk (name : String) (type : Nat) (rev : List String) (filepath : Option String)
       (inc : List lys_module_full) (imp : List lys_module_full) (features_size : Nat)
       (data : List lys_top_node)

/-- Member `name`. -/
def lys_module_full.name : lys_module_full → String
  | .mk n _ _ _ _ _ _ _ => n

/-- Member `type`, non-zero for a submodule. -/
def lys_module_full.type : lys_module_full → Nat
  | .mk _ t _ _ _ _ _ _ => t

/-- The revision dates `rev[i].date`, latest first. -/
def lys_module_full.rev : lys_module_full → List String
  | .mk _ _ r _ _ _ _ _ => r

/-- The expression `module->rev[0].date`.  The date is the first member of the
revision record, so that for a module without revisions (`rev == NULL`) the
expression is a `NULL` pointer. -/
def lys_module_full.rev0_date (m : lys_module_full) : Option String := m.rev.head?

/-- Member `filepath`. -/
def lys_module_full.filepath : lys_module_full → Option String
  | .mk _ _ _ f _ _ _ _ => f

/-- The included submodules `inc[i].submodule`. -/
def lys_module_full.inc : lys_module_full → List lys_module_full
  | .mk _ _ _ _ i _ _ _ => i

/-- The imported modules `imp[i].module`. -/
def lys_module_full.imp : lys_module_full → List lys_module_full
  | .mk _ _ _ _ _ i _ _ => i

/-- Member `features_size`. -/
def lys_module_full.features_size : lys_module_full → Nat
  | .mk _ _ _ _ _ _ f _ => f

/-- The top-level schema nodes, the chain `data`, `next`. -/
def lys_module_full.data : lys_module_full → List lys_top_node
  | .mk _ _ _ _ _ _ _ d => d

/-- The environment of the control tool.

* `A` is the allocation oracle.
* `fault w c` tells that the call `c`, made in the state `w`, fails for a
  reason outside the embedding (permissions, a full disk, ...).
* `uid`, `gid` are the effective user and group of the process.
* `getgrnam`, `getpwnam` are the lookups of the C library.
* `chmod_command p m` is the mode that the command `chmod p` gives a file of
  mode `m`, nothing when the command rejects `p`.
* `readdir w dir` lists the directory, `none` when `opendir` fails.
* `ly_ctx_new w dir` is the list of the modules of a new context of the YANG
  library (its internal modules), `none` when the library fails.
* `lys_parse_path w ctx path yin` is the module parsed from the file together
  with the modules of the context afterwards, in the order in which
  `ly_ctx_get_module_iter` visits them.
* `md_init`, `md_get_module_info`, `md_insert_module`, `md_remove_module`,
  `md_flush` are the answers of the module-dependencies library (modelled from
  the spec: lookup, insert, remove with the implicitly removed set, flush), the
  graph held in memory being passed and returned.
* `sr_connect`, `sr_session_start`, `sr_module_install` are the answers of the
  client library, that is of the daemon. -/
structure environment where
  A : Nat → Bool := fun _ => true
  fault : World → sys_call → Bool := fun _ _ => false
  uid : Nat := 0
  gid : Nat := 0
  getgrnam : String → Option Nat := fun _ => none
  getpwnam : String → Option Nat := fun _ => none
  chmod_command : String → Nat → Option Nat := fun _ _ => none
  readdir : World → String → Option (List String) := fun _ _ => none
  ly_ctx_new : World → String → Option (List lys_module_full) := fun _ _ => some []
  lys_parse_path : World → List lys_module_full → String → Bool →
    Option lys_module_full × List lys_module_full := fun _ ctx _ _ => (none, ctx)
  md_init : World → sr_error_t := fun _ => SR_ERR_OK
  md_get_module_info : World → List md_module_t → String → Option String →
    sr_error_t × md_module_t := fun _ _ _ _ => (SR_ERR_NOT_FOUND, {})
  md_insert_module : World → List md_module_t → Option String →
    sr_error_t × List md_module_t :=
    fun _ g _ => (SR_ERR_OK, g)
  md_remove_module : World → List md_module_t → String → Option String →
    sr_error_t × List md_module_t × List md_module_key_t := fun _ g _ _ => (SR_ERR_OK, g, [])
  md_flush : World → List md_module_t → sr_error_t := fun _ _ => SR_ERR_OK
  sr_connect : World → sr_error_t := fun _ => SR_ERR_OK
  sr_session_start : World → sr_error_t := fun _ => SR_ERR_OK
  sr_module_install : World → String → Option String → Option String → Bool → sr_error_t :=
    fun _ _ _ _ _ => SR_ERR_OK

/-- The file-level variables of `sysrepoctl.c` (`srctl_schema_search_dir`,
`srctl_data_search_dir`, `custom_repository`; the hidden option `-0` sets
them) and the constants of `sr_constants.h` that the build fixes and that are
not part of the material (`SR_SUBSCRIPTIONS_SOCKET_DIR`,
`SR_GLOBAL_SUBSCRIPTIONS_SUBDIR`).  The directories of the internal schema and
data, which the code passes to `md_init` only, are left to the environment. -/
structure settings where
  srctl_schema_search_dir : String := "/etc/sysrepo/yang/"
  srctl_data_search_dir : String := "/etc/sysrepo/data/"
  custom_repository : Bool := false
  SR_SUBSCRIPTIONS_SOCKET_DIR : String := "/var/run/sysrepo-subscriptions"
  SR_GLOBAL_SUBSCRIPTIONS_SUBDIR : String := "__global"

/-- The state after the call has been recorded in the log. -/
def World.record (w : World) (c : sys_call) : World := { w with log := w.log ++ [c] }

/-- The state after the file at the path has been replaced (`some`) or removed
(`none`). -/
def World.store (w : World) (path : String) (f : Option sys_file) : World :=
  { w with files := fun p => if p = path then f else w.files p }

/-- A new regular file or directory of the process, with the next free inode
number. -/
def World.create (w : World) (E : environment) (path : String) (content : String)
    (mode : Nat) : World :=
  { w.store path
      (some { content := content, st_mode := mode, st_uid := E.uid, st_gid := E.gid,
              st_ino := w.next_ino }) with next_ino := w.next_ino + 1 }

/-- The test `-1 != access(path, F_OK)`. -/
def access_ok (w : World) (path : String) : Bool := (w.files path).isSome

/-- The command `cp src dst` run through `system`: the return value.  The
content of the source replaces the content of the target, which is created
when it is missing.  The command line, which the code cuts at `PATH_MAX`, is
taken to reach the shell whole and free of characters special to it. -/
def system_cp (E : environment) (w : World) (src dst : String) : Int × World :=
  if E.fault w (.cp src dst) then (1, w.record (.cp src dst))
  else
    match w.files src with
    | none => (1, w.record (.cp src dst))
    | some f =>
      match w.files dst with
      | some g => (0, (w.record (.cp src dst)).store dst (some { g with content := f.content }))
      | none =>
        (0, (w.record (.cp src dst)).create E dst f.content (S_IFREG ||| (f.st_mode &&& 0o777)))

/-- The command `chmod permissions path` run through `system`: the return
value. -/
def system_chmod (E : environment) (w : World) (permissions path : String) : Int × World :=
  if E.fault w (.chmod_command permissions path) then
    (1, w.record (.chmod_command permissions path))
  else
    match w.files path with
    | none => (1, w.record (.chmod_command permissions path))
    | some f =>
      match E.chmod_command permissions f.st_mode with
      | none => (1, w.record (.chmod_command permissions path))
      | some mode =>
        (0, (w.record (.chmod_command permissions path)).store path
          (some { f with st_mode := (f.st_mode &&& S_IFMT) ||| (mode &&& S_IALLUGO) }))

/-- Library `open(path, O_WRONLY | O_CREAT, mode)` followed by `close`, under
`umask(0)`: the value that `srctl_file_create` returns. -/
def open_creat (E : environment) (w : World) (path : String) (mode : Nat) : Int × World :=
  if E.fault w (.open_creat path) then (-1, w.record (.open_creat path))
  else
    match w.files path with
    | some _ => (0, w.record (.open_creat path))
    | none => (0, (w.record (.open_creat path)).create E path "" (S_IFREG ||| mode))

/-- Library `chown(path, owner, group)`, where `none` stands for the id `-1`,
which leaves the owner or the group as it is. -/
def chown (E : environment) (w : World) (path : String) (owner group : Option Nat) :
    Int × World :=
  if E.fault w (.chown path owner group) then (-1, w.record (.chown path owner group))
  else
    match w.files path with
    | none => (-1, w.record (.chown path owner group))
    | some f =>
      (0, (w.record (.chown path owner group)).store path
        (some { f with st_uid := owner.getD f.st_uid, st_gid := group.getD f.st_gid }))

/-- Library `chmod(path, mode)`: the bits of `mode` outside `S_IALLUGO` are
ignored and the file type stays. -/
def chmod (E : environment) (w : World) (path : String) (mode : Nat) : Int × World :=
  if E.fault w (.chmod path mode) then (-1, w.record (.chmod path mode))
  else
    match w.files path with
    | none => (-1, w.record (.chmod path mode))
    | some f =>
      (0, (w.record (.chmod path mode)).store path
        (some { f with st_mode := (f.st_mode &&& S_IFMT) ||| (mode &&& S_IALLUGO) }))

/-- Library `mkdir(path, mode)` under `umask(0)`. -/
def mkdir (E : environment) (w : World) (path : String) (mode : Nat) : Int × World :=
  if E.fault w (.mkdir path mode) then (-1, w.record (.mkdir path mode))
  else
    match w.files path with
    | some _ => (-1, w.record (.mkdir path mode))
    | none => (0, (w.record (.mkdir path mode)).create E path "" (S_IFDIR ||| mode))

/-- Library `unlink(path)`: the return value and whether `errno` is `ENOENT`
after it. -/
def unlink (E : environment) (w : World) (path : String) : Int × Bool × World :=
  match w.files path with
  | none => (-1, true, w.record (.unlink path))
  | some _ =>
    if E.fault w (.unlink path) then (-1, false, w.record (.unlink path))
    else (0, false, (w.record (.unlink path)).store path none)

/-! ## Permissions of data files and of the socket directory -/

/-- The statements `mode = data_file_stat.st_mode; if (target_is_dir) { ... }`
of `sr_set_data_file_permissions`: the mode passed to `chmod`. -/
def applied_mode (target_is_dir : Bool) (st_mode : Nat) : Nat :=
  if target_is_dir then
    let mode1 := if st_mode &&& S_IWUSR ≠ 0 then st_mode ||| S_IXUSR else st_mode
    let mode2 := if mode1 &&& S_IWGRP ≠ 0 then mode1 ||| S_IXGRP else mode1
    if mode2 &&& S_IWOTH ≠ 0 then mode2 ||| S_IXOTH else mode2
  else st_mode

/-- Function `sr_set_data_file_permissions(target_file, target_is_dir,
data_serach_dir, module_name, strict)` of `sr_utils.c`. -/
def sr_set_data_file_permissions (E : environment) (G : settings) (w : World)
    (target_file : String) (target_is_dir : Bool) (data_serach_dir : String)
    (module_name : String) (strict : Bool) : sr_error_t × World :=
  if module_name = G.SR_GLOBAL_SUBSCRIPTIONS_SUBDIR then (SR_ERR_OK, w)
  else
    match sr_get_data_file_name E.A w.mem (some data_serach_dir) (some module_name)
        SR_DS_STARTUP with
    | { rc := SR_ERR_OK, out := some data_file_name, st := mem1 } =>
      match w.files data_file_name with
      | none => (SR_ERR_INTERNAL, { w with mem := mem1 })
      | some data_file_stat =>
        match chmod E { w with mem := mem1 } target_file
            (applied_mode target_is_dir data_file_stat.st_mode) with
        | (ret, w2) =>
          if ret ≠ 0 then (SR_ERR_UNAUTHORIZED, w2)
          else
            match chown E w2 target_file (some data_file_stat.st_uid)
                (some data_file_stat.st_gid) with
            | (ret, w3) =>
              if ret ≠ 0 then
                if strict then (SR_ERR_INTERNAL, w3) else (SR_ERR_OK, w3)
              else (SR_ERR_OK, w3)
    | r => (r.rc, { w with mem := r.st })

/-- Flag `LYS_CONFIG_R` of the YANG library. -/
def LYS_CONFIG_R : Nat := 0x02

/-- Function `sr_lys_module_has_data(module)` of `sr_utils.c`. -/
def sr_lys_module_has_data (module : Option lys_module_full) : Bool :=
  match module with
  | none => false
  | some m =>
    if m.type ≠ 0 then false
    else
      m.data.any fun iter =>
        (LYS_CONFIG_R &&& iter.flags != 0) ||
        LYS_NODE.has_bit
          (LYS_CONTAINER.code ||| LYS_LIST.code ||| LYS_LEAF.code ||| LYS_LEAFLIST.code |||
            LYS_CHOICE.code ||| LYS_RPC.code ||| LYS_NOTIF.code ||| LYS_ACTION.code |||
            LYS_USES.code) iter.nodetype

/-! ## The control tool `sysrepoctl` -/

/-- The array `data_files_ext` of `sysrepoctl.c`. -/
def data_files_ext : List String :=
  [SR_STARTUP_FILE_EXT, SR_RUNNING_FILE_EXT, SR_STARTUP_FILE_EXT ++ SR_LOCK_FILE_EXT,
   SR_RUNNING_FILE_EXT ++ SR_LOCK_FILE_EXT, SR_PERSIST_FILE_EXT,
   SR_CANDIDATE_FILE_EXT ++ SR_LOCK_FILE_EXT]

/-- Structure `srctl_module_owner_t`: the ids of owner and group, `none` for
the value `-1` that leaves the id as it is. -/
structure srctl_module_owner_t where
  owner : Option Nat := none
  group : Option Nat := none
  deriving DecidableEq, Repr

/-- Function `srctl_open_session(daemon_required, connection_p, session_p)`:
the result code and whether a connection has been stored. -/
def srctl_open_session (E : environment) (w : World) : sr_error_t × Bool × World :=
  if E.sr_connect w = SR_ERR_OK then
    (E.sr_session_start (w.record .sr_connect), true,
      (w.record .sr_connect).record .sr_session_start)
  else (E.sr_connect w, false, w.record .sr_connect)

/-- Library `strrchr(s, c)`: the text before the last occurrence of `c`,
nothing when `c` does not occur. -/
def before_last (c : Char) (s : String) : Option String :=
  if c ∈ s.data then
    some (String.mk ((s.data.reverse.dropWhile (fun x => x != c)).drop 1).reverse)
  else none

/-- Function `srctl_get_dir_path(file_path)`. -/
def srctl_get_dir_path (E : environment) (w : World) (file_path : String) :
    Option String × World :=
  match strdup E.A w.mem file_path with
  | (none, mem1) => (none, { w with mem := mem1 })
  | (some result, mem1) =>
    match before_last '/' result with
    | some dir => (some dir, { w with mem := mem1 })
    | none =>
      if result.length > 0 then (some ".", { w with mem := mem1 })
      else (none, { w with mem := mem1 })

/-- Function `srctl_file_create(path, arg)`. -/
def srctl_file_create (E : environment) (w : World) (path : String) : Int × World :=
  open_creat E w path 0o666

/-- Function `srctl_file_chown(path, arg)`. -/
def srctl_file_chown (E : environment) (owner_id : srctl_module_owner_t) (w : World)
    (path : String) : Int × World :=
  chown E w path owner_id.owner owner_id.group

/-- Function `srctl_file_chmod(path, arg)`. -/
def srctl_file_chmod (E : environment) (arg : String) (w : World) (path : String) :
    Int × World :=
  system_chmod E w arg path

/-- Function `srctl_file_remove(path, arg)`. -/
def srctl_file_remove (E : environment) (w : World) (path : String) : Int × World :=
  if (unlink E w path).1 ≠ 0 then
    (if (unlink E w path).2.1 then 0 else (unlink E w path).1, (unlink E w path).2.2)
  else (0, (unlink E w path).2.2)

/-- The loop of `srctl_data_files_apply` over the extensions still to visit;
`rc` is the value of the variable of that name. -/
def srctl_data_files_apply_loop (G : settings) (module_name : String)
    (command : World → String → Int × World) (continue_on_error : Bool) :
    List String → Int → World → Int × World
  | [], rc, w => (rc, w)
  | ext :: exts, rc, w =>
    if (command w (snprintf PATH_MAX (G.srctl_data_search_dir ++ module_name ++ ext))).1 ≠ 0 then
      if continue_on_error then
        srctl_data_files_apply_loop G module_name command continue_on_error exts
          (command w (snprintf PATH_MAX (G.srctl_data_search_dir ++ module_name ++ ext))).1
          (command w (snprintf PATH_MAX (G.srctl_data_search_dir ++ module_name ++ ext))).2
      else command w (snprintf PATH_MAX (G.srctl_data_search_dir ++ module_name ++ ext))
    else
      srctl_data_files_apply_loop G module_name command continue_on_error exts rc
        (command w (snprintf PATH_MAX (G.srctl_data_search_dir ++ module_name ++ ext))).2

/-- Function `srctl_data_files_apply(module_name, command, arg,
continue_on_error)`; the argument `arg` is bound in `command`. -/
def srctl_data_files_apply (G : settings) (w : World) (module_name : String)
    (command : World → String → Int × World) (continue_on_error : Bool) : Int × World :=
  srctl_data_files_apply_loop G module_name command continue_on_error data_files_ext 0 w

/-- Function `srctl_update_socket_dir_permissions(module_name)`. -/
def srctl_update_socket_dir_permissions (E : environment) (G : settings) (w : World)
    (module_name : String) : sr_error_t × World :=
  let parent := snprintf PATH_MAX (G.SR_SUBSCRIPTIONS_SOCKET_DIR ++ "/")
  let path := snprintf PATH_MAX (parent ++ module_name ++ "/")
  let r1 : Int × World :=
    if access_ok w parent then (0, w) else mkdir E w parent 0o777
  if r1.1 ≠ 0 then (SR_ERR_INTERNAL, r1.2)
  else
    let r2 : Int × World :=
      if access_ok r1.2 path then (0, r1.2) else mkdir E r1.2 path 0o777
    if r2.1 ≠ 0 then (SR_ERR_INTERNAL, r2.2)
    else sr_set_data_file_permissions E G r2.2 path true G.srctl_data_search_dir module_name true

/-- The text before the first occurrence of the character and the text after
it, nothing when the character does not occur (`strchr`). -/
def split_at_first (c : Char) (s : String) : Option (String × String) :=
  if c ∈ s.data then
    some (String.mk (s.data.takeWhile (fun x => x != c)),
          String.mk ((s.data.dropWhile (fun x => x != c)).drop 1))
  else none

/-- The statements `/* update owner if requested */` of
`srctl_module_change_permissions` up to the change of the owner: the ids to
set, and the text that `owner` points to afterwards, which is cut at the colon
by `*colon = '\0'`; `none` for `goto fail`. -/
def owner_ids (E : environment) (owner : String) : Option srctl_module_owner_t × String :=
  match split_at_first ':' owner with
  | none =>
    match E.getpwnam owner with
    | none => (none, owner)
    | some uid => (some { owner := some uid }, owner)
  | some (user, group) =>
    match (if group.length ≠ 0 then (E.getgrnam group).map some else some none) with
    | none => (none, owner)
    | some gid =>
      if user.length ≠ 0 then
        match E.getpwnam user with
        | none => (none, user)
        | some uid => (some { owner := some uid, group := gid }, user)
      else (some { group := gid }, user)

/-- Function `srctl_module_change_permissions(module_name, owner,
permissions)`: the result code, the text that `owner` points to afterwards, and
the state. -/
def srctl_module_change_permissions (E : environment) (G : settings) (w : World)
    (module_name : String) (owner permissions : Option String) :
    sr_error_t × Option String × World :=
  let r1 : Bool × Option String × World :=
    match owner with
    | none => (true, owner, w)
    | some o =>
      match owner_ids E o with
      | (none, o1) => (false, some o1, w)
      | (some owner_id, o1) =>
        if (srctl_data_files_apply G w module_name (srctl_file_chown E owner_id) true).1 ≠ 0 then
          (false, some o,
            (srctl_data_files_apply G w module_name (srctl_file_chown E owner_id) true).2)
        else
          (true, some o1,
            (srctl_data_files_apply G w module_name (srctl_file_chown E owner_id) true).2)
  if r1.1 = false then (SR_ERR_INTERNAL, r1.2.1, r1.2.2)
  else
    let r2 : Int × World :=
      match permissions with
      | none => (0, r1.2.2)
      | some p => srctl_data_files_apply G r1.2.2 module_name (srctl_file_chmod E p) true
    if r2.1 ≠ 0 then (SR_ERR_INTERNAL, r1.2.1, r2.2)
    else if G.custom_repository then (SR_ERR_OK, r1.2.1, r2.2)
    else if (srctl_update_socket_dir_permissions E G r2.2 module_name).1 ≠ SR_ERR_OK then
      (SR_ERR_INTERNAL, r1.2.1, (srctl_update_socket_dir_permissions E G r2.2 module_name).2)
    else (SR_ERR_OK, r1.2.1, (srctl_update_socket_dir_permissions E G r2.2 module_name).2)

/-- Function `srctl_get_compl_schema_file(orig_filepath)`: the path with the
extension after the last dot replaced by the one of the other format.  The
result of `calloc` is used unchecked; the embedding takes the allocation to
succeed. -/
def srctl_get_compl_schema_file (orig_filepath : String) : String :=
  match before_last '.' orig_filepath with
  | none => orig_filepath
  | some stem =>
    stem ++ (if sr_str_ends_with (some orig_filepath) (some SR_SCHEMA_YIN_FILE_EXT)
             then SR_SCHEMA_YANG_FILE_EXT else SR_SCHEMA_YIN_FILE_EXT)

/-- The statements `ret = unlink(file); if (0 != ret) { if (errno != ENOENT) { ...
rc = SR_ERR_INTERNAL; } }` of `srctl_schema_file_delete`. -/
def schema_file_unlink (E : environment) (w : World) (file : String) (rc : sr_error_t) :
    sr_error_t × World :=
  if (unlink E w file).1 ≠ 0 ∧ (unlink E w file).2.1 = false then
    (SR_ERR_INTERNAL, (unlink E w file).2.2)
  else (rc, (unlink E w file).2.2)

/-- Function `srctl_schema_file_delete(schema_file)`. -/
def srctl_schema_file_delete (E : environment) (w : World) (schema_file : String) :
    sr_error_t × World :=
  schema_file_unlink E (schema_file_unlink E w schema_file SR_ERR_OK).2
    (srctl_get_compl_schema_file schema_file) (schema_file_unlink E w schema_file SR_ERR_OK).1

/-- Function `srctl_data_uninstall(module_name)`. -/
def srctl_data_uninstall (E : environment) (G : settings) (w : World) (module_name : String) :
    sr_error_t × World :=
  if (srctl_data_files_apply G w module_name (srctl_file_remove E) true).1 ≠ 0 then
    (SR_ERR_INTERNAL, (srctl_data_files_apply G w module_name (srctl_file_remove E) true).2)
  else (SR_ERR_OK, (srctl_data_files_apply G w module_name (srctl_file_remove E) true).2)

/-- Function `srctl_same_file(file1, file2)`. -/
def srctl_same_file (w : World) (file1 file2 : String) : Bool :=
  match w.files file1, w.files file2 with
  | some stat1, some stat2 => stat1.st_dev = stat2.st_dev ∧ stat1.st_ino = stat2.st_ino
  | _, _ => false

/-- The source paths that `srctl_schema_install` passes on for a dependency
with the schema file `filepath`: the YANG source and the YIN source. -/
def dependency_sources (filepath : Option String) : Option String × Option String :=
  if sr_str_ends_with filepath (some SR_SCHEMA_YANG_FILE_EXT) then (filepath, none)
  else (none, filepath)

/-- The statements `/* install YANG */` or `/* install YIN */` of
`srctl_schema_install` for the source `src` and the target `dst`, which
`srctl_get_yang_path` or `srctl_get_yin_path` has computed: whether the code
goes on (`false` for `goto fail`), the content of the target buffer afterwards
(empty when nothing is to be reverted), and the state. -/
def install_schema_file (E : environment) (w : World) (src : Option String) (dst : String) :
    Bool × String × World :=
  match src with
  | none => (true, "", w)
  | some s =>
    if access_ok w s then
      if srctl_same_file w s dst then (true, dst, w)
      else
        match system_cp E w s dst with
        | (ret, w1) => if ret ≠ 0 then (false, "", w1) else (true, dst, w1)
    else (true, "", w)

/-- The statements of `srctl_schema_install` that install the schema files of
the module itself: whether the code goes on (`false` for `goto fail`), the
content of the buffers `yang_dst` and `yin_dst` afterwards, and the state. -/
def install_own_schema (E : environment) (G : settings) (w : World) (name : String)
    (rev0_date : Option String) (yang_src yin_src : Option String) :
    Bool × String × String × World :=
  match install_schema_file E w yang_src
      (srctl_get_yang_path G.srctl_schema_search_dir name rev0_date PATH_MAX) with
  | (false, yang_dst, w1) => (false, yang_dst, "", w1)
  | (true, yang_dst, w1) =>
    match install_schema_file E w1 yin_src
        (srctl_get_yin_path G.srctl_schema_search_dir name rev0_date PATH_MAX) with
    | (ok, yin_dst, w2) => (ok, yang_dst, yin_dst, w2)

/-- The statements `if ('\0' != dst[0]) { ret = unlink(dst); ... }` under the
label `fail:` of `srctl_schema_install`. -/
def revert_schema_file (E : environment) (w : World) (dst : String) : World :=
  if dst.length ≠ 0 then (unlink E w dst).2.2 else w

/-- The label `fail:` of `srctl_schema_install`. -/
def schema_install_fail (E : environment) (w : World) (yang_dst yin_dst : String) :
    sr_error_t × World :=
  (SR_ERR_INTERNAL, revert_schema_file E (revert_schema_file E w yang_dst) yin_dst)

mutual
/-- Function `srctl_schema_install(module, yang_src, yin_src)`. -/
def srctl_schema_install (E : environment) (G : settings) (w : World) :
    lys_module_full → Option String → Option String → sr_error_t × World
  | .mk name _ rev _ inc imp _ _, yang_src, yin_src =>
    match install_own_schema E G w name rev.head? yang_src yin_src with
    | (false, yang_dst, yin_dst, w1) => schema_install_fail E w1 yang_dst yin_dst
    | (true, yang_dst, yin_dst, w1) =>
      match srctl_schema_install_deps E G w1 false inc with
      | (SR_ERR_OK, w2) =>
        match srctl_schema_install_deps E G w2 true imp with
        | (SR_ERR_OK, w3) => (SR_ERR_OK, w3)
        | (_, w3) => schema_install_fail E w3 yang_dst yin_dst
      | (_, w2) => schema_install_fail E w2 yang_dst yin_dst
/-- The loops `/* install dependent YANG / YIN files */` of
`srctl_schema_install` over the dependencies still to visit: the included
submodules (`imports = false`) or the imported modules (`imports = true`),
among which the modules without schema file, internal to the library, are
skipped.  The result code is `SR_ERR_OK` when the loop has run to its end. -/
def srctl_schema_install_deps (E : environment) (G : settings) (w : World) (imports : Bool) :
    List lys_module_full → sr_error_t × World
  | [] => (SR_ERR_OK, w)
  | dep :: deps =>
    if imports = true ∧ dep.filepath = none then srctl_schema_install_deps E G w imports deps
    else
      match srctl_schema_install E G w dep (dependency_sources dep.filepath).1
          (dependency_sources dep.filepath).2 with
      | (SR_ERR_OK, w1) => srctl_schema_install_deps E G w1 imports deps
      | (rc, w1) => (rc, w1)
end

/-- The statements of `srctl_data_install` that install the data files of the
module itself: the result code (not `SR_ERR_OK` for `goto fail`), the text that
`owner` points to afterwards, and the state. -/
def install_own_data (E : environment) (G : settings) (w : World) (module : lys_module_full)
    (owner permissions : Option String) : sr_error_t × Option String × World :=
  if sr_lys_module_has_data (some module) then
    match srctl_data_files_apply G w module.name (srctl_file_create E) false with
    | (ret, w1) =>
      if ret ≠ 0 then (SR_ERR_INTERNAL, owner, w1)
      else srctl_module_change_permissions E G w1 module.name owner permissions
  else if module.features_size > 0 then
    match srctl_file_create E w
        (snprintf PATH_MAX (G.srctl_data_search_dir ++ module.name ++ SR_PERSIST_FILE_EXT)) with
    | (ret, w1) => if ret ≠ 0 then (SR_ERR_INTERNAL, owner, w1) else (SR_ERR_OK, owner, w1)
  else (SR_ERR_OK, owner, w)

/-- The label `fail:` of `srctl_data_install`. -/
def data_install_fail (E : environment) (G : settings) (w : World) (name : String)
    (rc : sr_error_t) (owner : Option String) : sr_error_t × Option String × World :=
  (rc, owner, (srctl_data_uninstall E G w name).2)

mutual
/-- Function `srctl_data_install(module, owner, permissions)`: the result code,
the text that `owner` points to afterwards, and the state. -/
def srctl_data_install (E : environment) (G : settings) (w : World) :
    lys_module_full → Option String → Option String → sr_error_t × Option String × World
  | .mk name type rev filepath inc imp features_size data, owner, permissions =>
    match install_own_data E G w (.mk name type rev filepath inc imp features_size data)
        owner permissions with
    | (SR_ERR_OK, owner1, w1) =>
      match srctl_data_install_imp E G w1 owner1 permissions imp with
      | (SR_ERR_OK, owner2, w2) => (SR_ERR_OK, owner2, w2)
      | (rc, owner2, w2) => data_install_fail E G w2 name rc owner2
    | (rc, owner1, w1) => data_install_fail E G w1 name rc owner1
/-- The loop `/* install data files for imported module */` of
`srctl_data_install` over the imported modules still to visit.  The result
code is `SR_ERR_OK` when the loop has run to its end. -/
def srctl_data_install_imp (E : environment) (G : settings) (w : World)
    (owner permissions : Option String) :
    List lys_module_full → sr_error_t × Option String × World
  | [] => (SR_ERR_OK, owner, w)
  | dep :: deps =>
    if dep.filepath = none then srctl_data_install_imp E G w owner permissions deps
    else
      match srctl_data_install E G w dep owner permissions with
      | (SR_ERR_OK, owner1, w1) => srctl_data_install_imp E G w1 owner1 permissions deps
      | (rc, owner1, w1) => (rc, owner1, w1)
end

/-- Library `md_init(...)` as the control tool sees it: the result code.  After
a success the context holds the dependency graph read from the internal data
file, `md_data`; after a failure the pointer to the context is `NULL`. -/
def md_init (E : environment) (w : World) : sr_error_t × World :=
  (E.md_init w, w.record .md_init)

/-- Library `md_flush(md_ctx)`: a successful flush stores the graph of the
context in the internal data file. -/
def md_flush (E : environment) (w : World) (md_ctx : List md_module_t) : sr_error_t × World :=
  if E.md_flush w md_ctx = SR_ERR_OK then
    (SR_ERR_OK, { w.record .md_flush with md_data := md_ctx })
  else (E.md_flush w md_ctx, w.record .md_flush)

/-- Library `md_destroy(md_ctx)`, which releases the context and the lock on the
internal data file; nothing happens for a `NULL` context. -/
def md_destroy (w : World) (md_ctx : Option (List md_module_t)) : World :=
  match md_ctx with
  | none => w
  | some _ => w.record .md_destroy

/-- The label `cleanup:` of `srctl_install`. -/
def install_cleanup (w : World) (connection : Bool) (md_ctx : Option (List md_module_t))
    (rc : sr_error_t) : sr_error_t × World :=
  (rc, md_destroy (if connection then w.record .sr_disconnect else w) md_ctx)

/-- The statements `if (NULL != src) { srctl_get_..._path(...); ret = unlink(schema_dst); ... }`
under the label `fail_data:` of `srctl_install`. -/
def install_unlink (E : environment) (w : World) (src : Option String) (schema_dst : String) :
    World :=
  match src with
  | none => w
  | some _ => (unlink E w schema_dst).2.2

/-- The statements `if (md_installed) { ... }` under the label `fail_data:` of
`srctl_install`, which store in `rc` the result of `md_init` and then of
`md_remove_module`: the value of `rc` afterwards, and the state. -/
def install_md_revert (E : environment) (w : World) (module : lys_module_full)
    (md_installed : Bool) (rc : sr_error_t) : sr_error_t × World :=
  if md_installed then
    match md_init E w with
    | (SR_ERR_OK, w1) =>
      match E.md_remove_module w1 w1.md_data module.name module.rev0_date with
      | (SR_ERR_OK, md_ctx1, _) =>
        (SR_ERR_OK,
          md_destroy
            (md_flush E (w1.record (.md_remove_module module.name module.rev0_date)) md_ctx1).2
            (some md_ctx1))
      | (rc1, md_ctx1, _) =>
        (rc1,
          md_destroy (w1.record (.md_remove_module module.name module.rev0_date)) (some md_ctx1))
    | (rc1, w1) => (rc1, w1)
  else (rc, w)

/-- The labels `fail_data:` and `fail:` of `srctl_install`, followed by
`cleanup:`. -/
def install_fail_data (E : environment) (G : settings) (w : World) (module : lys_module_full)
    (yang yin : Option String) (md_installed : Bool) (connection : Bool)
    (md_ctx : Option (List md_module_t)) (rc : sr_error_t) : sr_error_t × World :=
  match install_md_revert E
      (install_unlink E
        (install_unlink E w yang
          (srctl_get_yang_path G.srctl_schema_search_dir module.name module.rev0_date PATH_MAX))
        yin (srctl_get_yin_path G.srctl_schema_search_dir module.name module.rev0_date PATH_MAX))
      module md_installed rc with
  | (rc1, w1) => install_cleanup w1 connection md_ctx rc1

/-- The labels `fail_notif:` and `fail_dep_update:` of `srctl_install`, which
fall through to `fail_data:`. -/
def install_fail_dep_update (E : environment) (G : settings) (w : World)
    (module : lys_module_full) (yang yin : Option String) (md_installed : Bool)
    (connection : Bool) (md_ctx : Option (List md_module_t)) (rc : sr_error_t) :
    sr_error_t × World :=
  install_fail_data E G (srctl_data_uninstall E G w module.name).2 module yang yin md_installed
    connection md_ctx rc

/-- The statements `/* Notify sysrepo about the change */` of `srctl_install`
and what follows them. -/
def install_notify (E : environment) (G : settings) (w : World) (module : lys_module_full)
    (yang yin : Option String) : sr_error_t × World :=
  if G.custom_repository then install_cleanup w false none SR_ERR_OK
  else
    match srctl_open_session E w with
    | (SR_ERR_OK, connection, w1) =>
      if E.sr_module_install w1 module.name module.rev0_date module.filepath true = SR_ERR_OK then
        install_cleanup
          (w1.record (.sr_module_install module.name module.rev0_date module.filepath true))
          connection none SR_ERR_OK
      else
        install_fail_dep_update E G
          (w1.record (.sr_module_install module.name module.rev0_date module.filepath true))
          module yang yin true connection none
          (E.sr_module_install w1 module.name module.rev0_date module.filepath true)
    | (_, connection, w1) => install_cleanup w1 connection none SR_ERR_OK

/-- The statements `/* Update dependencies */` of `srctl_install` that fill the
buffer `schema_dst`, an array that the code has reached only with `yang` or
`yin` given: the path of the installed YIN file when `yin` is given, else the
path of the installed YANG file. -/
def install_schema_dst (G : settings) (module : lys_module_full) (yin : Option String) :
    String :=
  if yin.isSome then
    srctl_get_yin_path G.srctl_schema_search_dir module.name module.rev0_date PATH_MAX
  else srctl_get_yang_path G.srctl_schema_search_dir module.name module.rev0_date PATH_MAX

/-- The statements `/* extract the search directory path */` of `srctl_install`:
the search directory, nothing for `goto fail`, and the state; `file` is the
schema file that is given, the YIN file when both are. -/
def install_search_dir (E : environment) (w : World) (yang : Option String) (file : String)
    (search_dir : Option String) : Option String × World :=
  match search_dir with
  | some dir => (some dir, w)
  | none => srctl_get_dir_path E w (yang.getD file)

/-- The statements of `srctl_install` from `/* Install schema files */` on, for
the module that the YANG library has parsed and the context `md_ctx` of the
dependency graph. -/
def install_module (E : environment) (G : settings) (w : World) (module : lys_module_full)
    (md_ctx : List md_module_t) (yang yin owner permissions : Option String) :
    sr_error_t × World :=
  match srctl_schema_install E G w module yang yin with
  | (SR_ERR_OK, w1) =>
    match srctl_data_install E G w1 module owner permissions with
    | (SR_ERR_OK, _, w2) =>
      match E.md_insert_module w2 md_ctx (some (install_schema_dst G module yin)) with
      | (SR_ERR_DATA_EXISTS, _) =>
        install_cleanup (w2.record (.md_insert_module (some (install_schema_dst G module yin))))
          false (some md_ctx) SR_ERR_OK
      | (SR_ERR_OK, md_ctx1) =>
        match md_flush E (w2.record (.md_insert_module (some (install_schema_dst G module yin))))
            md_ctx1 with
        | (SR_ERR_OK, w3) => install_notify E G (md_destroy w3 (some md_ctx1)) module yang yin
        | (rc, w3) =>
          install_fail_dep_update E G w3 module yang yin false false (some md_ctx1) rc
      | (rc, md_ctx1) =>
        install_fail_dep_update E G
          (w2.record (.md_insert_module (some (install_schema_dst G module yin)))) module
          yang yin false false (some md_ctx1) rc
    | (rc, _, w2) => install_fail_data E G w2 module yang yin false false (some md_ctx) rc
  | (rc, w1) => install_cleanup w1 false (some md_ctx) rc

/-- Function `srctl_install(yang, yin, owner, permissions, search_dir)`. -/
def srctl_install (E : environment) (G : settings) (w : World)
    (yang yin owner permissions search_dir : Option String) : sr_error_t × World :=
  match (if yin.isSome then yin else yang) with
  | none => (SR_ERR_INTERNAL, w)
  | some file =>
    match install_search_dir E w yang file search_dir with
    | (none, w1) => (SR_ERR_INTERNAL, w1)
    | (some dir, w1) =>
      match E.ly_ctx_new w1 dir with
      | none => (SR_ERR_INTERNAL, w1)
      | some ly_ctx =>
        match md_init E w1 with
        | (SR_ERR_OK, w2) =>
          match (E.lys_parse_path w2 ly_ctx file yin.isSome).1 with
          | none => install_cleanup w2 false (some w2.md_data) SR_ERR_INTERNAL
          | some module => install_module E G w2 module w2.md_data yang yin owner permissions
        | (_, w2) => (SR_ERR_INTERNAL, w2)

/-- The statement `return (SR_ERR_OK == rc) ? EXIT_SUCCESS : EXIT_FAILURE` of
`main`. -/
def exit_status (rc : sr_error_t) : Nat := if rc = SR_ERR_OK then 0 else 1

/-- The statements `/* uninstall the module */` of `srctl_uninstall` and what
follows them up to the end of the loop over the implicitly removed modules;
the result codes are reported as warnings only. -/
def uninstall_files (E : environment) (G : settings) (w : World) (filepath module_name : String)
    (implicitly_removed : List md_module_key_t) : World :=
  implicitly_removed.foldl
    (fun w1 module_key =>
      (srctl_data_uninstall E G (srctl_schema_file_delete E w1 module_key.filepath).2
        module_key.name).2)
    (srctl_data_uninstall E G (srctl_schema_file_delete E w filepath).2 module_name).2

/-- The statements `/* notify sysrepo about the change */` of `srctl_uninstall`:
the value of `rc` that `CHECK_RC_LOG_GOTO` tests, `SR_ERR_OK` when the daemon
is not asked or cannot be reached, and the state. -/
def uninstall_notify (E : environment) (G : settings) (w : World) (module_name : String)
    (revision : Option String) : sr_error_t × World :=
  if G.custom_repository then (SR_ERR_OK, w)
  else
    match srctl_open_session E w with
    | (SR_ERR_OK, _, w1) =>
      (E.sr_module_install w1 module_name revision none false,
        (w1.record (.sr_module_install module_name revision none false)).record .sr_disconnect)
    | (_, _, w1) => (SR_ERR_OK, w1)

/-- Function `srctl_uninstall(module_name, revision)`. -/
def srctl_uninstall (E : environment) (G : settings) (w : World) (module_name : Option String)
    (revision : Option String) : sr_error_t × World :=
  match module_name with
  | none => (SR_ERR_INVAL_ARG, w)
  | some name =>
    match E.ly_ctx_new w G.srctl_schema_search_dir with
    | none => (SR_ERR_INTERNAL, w)
    | some _ =>
      match md_init E w with
      | (SR_ERR_OK, w1) =>
        match E.md_get_module_info w1 w1.md_data name revision with
        | (SR_ERR_OK, module) =>
          match strdup E.A w1.mem module.filepath with
          | (none, mem1) => (SR_ERR_NOMEM, md_destroy { w1 with mem := mem1 } (some w1.md_data))
          | (some filepath, mem1) =>
            match E.md_remove_module { w1 with mem := mem1 } w1.md_data name revision with
            | (SR_ERR_OK, md_ctx1, implicitly_removed) =>
              match uninstall_notify E G
                  ({ w1 with mem := mem1 }.record (.md_remove_module name revision)) name
                  revision with
              | (SR_ERR_OK, w2) =>
                match md_flush E w2 md_ctx1 with
                | (SR_ERR_OK, w3) =>
                  (SR_ERR_OK,
                    uninstall_files E G (md_destroy w3 (some md_ctx1)) filepath name
                      implicitly_removed)
                | (rc, w3) => (rc, md_destroy w3 (some md_ctx1))
              | (rc, w2) => (rc, md_destroy w2 (some md_ctx1))
            | (rc, md_ctx1, _) =>
              (rc,
                md_destroy ({ w1 with mem := mem1 }.record (.md_remove_module name revision))
                  (some md_ctx1))
        | (rc, _) => (rc, md_destroy w1 (some w1.md_data))
      | (rc, w1) => (rc, w1)

/-- The loop `/* load all schemas present in the repository */` of
`srctl_init` over the directory entries still to read: the modules of the
context afterwards. -/
def init_load_schemas (E : environment) (G : settings) (w : World) :
    List String → List lys_module_full → List lys_module_full
  | [], ly_ctx => ly_ctx
  | d_name :: entries, ly_ctx =>
    if sr_str_ends_with (some d_name) (some SR_SCHEMA_YIN_FILE_EXT) ∨
        sr_str_ends_with (some d_name) (some SR_SCHEMA_YANG_FILE_EXT) then
      init_load_schemas E G w entries
        (E.lys_parse_path w ly_ctx (snprintf PATH_MAX (G.srctl_schema_search_dir ++ d_name))
          (sr_str_ends_with (some d_name) (some SR_SCHEMA_YIN_FILE_EXT))).2
    else init_load_schemas E G w entries ly_ctx

/-- The test of the loop `/* find matching module to initialize */` of
`srctl_init` on a module of the context. -/
def init_matches (module_name : String) (revision : Option String) (module : lys_module_full) :
    Bool :=
  module.name = module_name ∧
    (revision = none ∨ (module.rev.length > 0 ∧ module.rev0_date = revision))

/-- The loop `/* find matching module to initialize */` of `srctl_init`, which
visits the modules of the context in the order of `ly_ctx_get_module_iter` and
stops at the first match. -/
def init_find_module (module_name : String) (revision : Option String) :
    List lys_module_full → Option lys_module_full
  | [] => none
  | module :: modules =>
    if init_matches module_name revision module then some module
    else init_find_module module_name revision modules

/-- The statements `/* update dependencies */` of `srctl_init` and what follows
them. -/
def init_update_dependencies (E : environment) (w : World) (module : lys_module_full)
    (md_ctx : List md_module_t) : sr_error_t × World :=
  match E.md_insert_module w md_ctx module.filepath with
  | (SR_ERR_DATA_EXISTS, md_ctx1) =>
    (SR_ERR_OK, md_destroy (w.record (.md_insert_module module.filepath)) (some md_ctx1))
  | (SR_ERR_OK, md_ctx1) =>
    match md_flush E (w.record (.md_insert_module module.filepath)) md_ctx1 with
    | (SR_ERR_OK, w1) => (SR_ERR_OK, md_destroy w1 (some md_ctx1))
    | (rc, w1) => (rc, md_destroy w1 (some md_ctx1))
  | (rc, md_ctx1) =>
    (rc, md_destroy (w.record (.md_insert_module module.filepath)) (some md_ctx1))

/-- Function `srctl_init(module_name, revision, owner, permissions)`. -/
def srctl_init (E : environment) (G : settings) (w : World) (module_name : Option String)
    (revision owner permissions : Option String) : sr_error_t × World :=
  match module_name with
  | none => (SR_ERR_INVAL_ARG, w)
  | some name =>
    match E.ly_ctx_new w G.srctl_schema_search_dir with
    | none => (SR_ERR_INTERNAL, w)
    | some ly_ctx =>
      match md_init E w with
      | (SR_ERR_OK, w1) =>
        match E.readdir w1 G.srctl_schema_search_dir with
        | none => (SR_ERR_INTERNAL, md_destroy w1 (some w1.md_data))
        | some entries =>
          match init_find_module name revision (init_load_schemas E G w1 entries ly_ctx) with
          | none => (SR_ERR_INVAL_ARG, md_destroy w1 (some w1.md_data))
          | some module =>
            match srctl_data_install E G w1 module owner permissions with
            | (SR_ERR_OK, _, w2) => init_update_dependencies E w2 module w1.md_data
            | (rc, _, w2) => (rc, md_destroy w2 (some w1.md_data))
      | (rc, w1) => (rc, w1)

/-- The module `m` of revision `2016-01-01`, read from `/home/user/m.yang`,
with a top-level container and the imported modules `imp`. -/
def example_module (imp : List lys_module_full) : lys_module_full :=
  .mk "m" 0 ["2016-01-01"] (some "/home/user/m.yang") [] imp 0 [{ nodetype := LYS_CONTAINER }]

/-- The module `d` without revision and without data, read from
`/home/user/d.yang`. -/
def example_dependency : lys_module_full :=
  .mk "d" 0 [] (some "/home/user/d.yang") [] [] 0 []

/-- A file system that holds the two schema files in `/home/user/`. -/
def example_world : World :=
  { files := fun p =>
      if p = "/home/user/m.yang" then
        some { content := "module m", st_mode := 0o100644, st_ino := 11 }
      else if p = "/home/user/d.yang" then
        some { content := "module d", st_mode := 0o100644, st_ino := 12 }
      else none,
    next_ino := 100 }

/-- An environment in which every call succeeds, the YANG library parses the
given module and the daemon answers the request to install a module with
`answer`. -/
def example_environment (module : lys_module_full) (answer : sr_error_t) : environment :=
  { lys_parse_path := fun _ ctx _ _ => (some module, ctx ++ [module]),
    sr_module_install := fun _ _ _ _ _ => answer }

/-! ## What a run of the control tool has done, read from the log -/

/-- The call removes a file. -/
def sys_call.is_unlink : sys_call → Bool
  | .unlink _ => true
  | _ => false

/-- The call is a rollback step of an install: the removal of a file or of a
module from the dependency graph. -/
def sys_call.is_rollback : sys_call → Bool
  | .unlink _ => true
  | .md_remove_module _ _ => true
  | _ => false

/-- The call flushes the dependency graph. -/
def sys_call.is_flush : sys_call → Bool
  | .md_flush => true
  | _ => false

/-- The call notifies the daemon of an install or uninstall. -/
def sys_call.is_notify : sys_call → Bool
  | .sr_module_install _ _ _ _ => true
  | _ => false

/-- The call inserts a module into the dependency graph. -/
def sys_call.is_insert : sys_call → Bool
  | .md_insert_module _ => true
  | _ => false

/-- The call creates or changes a file or directory and removes none. -/
def sys_call.installs : sys_call → Bool
  | .cp _ _ => true
  | .open_creat _ => true
  | .chown _ _ _ => true
  | .chmod_command _ _ => true
  | .chmod _ _ => true
  | .mkdir _ _ => true
  | _ => false

/-- The call acts on the file system. -/
def sys_call.on_files (c : sys_call) : Bool := c.installs || c.is_unlink

/-- From the state `w` the state `w1` has been reached by calls that all
satisfy `P`, and the dependency graph as stored is the same. -/
def World.reaches (P : sys_call → Bool) (w w1 : World) : Prop :=
  (∃ calls, w1.log = w.log ++ calls ∧ ∀ c ∈ calls, P c = true) ∧ w1.md_data = w.md_data

/-- Every file of the state `w` is still there in the state `w1`. -/
def World.keeps_files (w w1 : World) : Prop :=
  ∀ p, (w.files p).isSome = true → (w1.files p).isSome = true

/-- The calls that unlink the data files of a module, in the order of
`data_files_ext`. -/
def data_unlinks (G : settings) (module_name : String) : List sys_call :=
  data_files_ext.map fun ext =>
    sys_call.unlink (snprintf PATH_MAX (G.srctl_data_search_dir ++ module_name ++ ext))

/-- The read and write bits of a mode. -/
def S_IRWUGO : Nat := S_IRUSR ||| S_IWUSR ||| S_IRGRP ||| S_IWGRP ||| S_IROTH ||| S_IWOTH

/-- A repository in which the module `m` has a startup file of the given mode
and owner, and its socket directory exists. -/
def example_sockets (mode : Nat) : World :=
  { files := fun p =>
      if p = "/etc/sysrepo/data/m.startup" then
        some { st_mode := S_IFREG ||| mode, st_uid := 7, st_gid := 8, st_ino := 21 }
      else if p = "/var/run/sysrepo-subscriptions/m/" then
        some { st_mode := S_IFDIR ||| 0o777, st_ino := 22 }
      else none,
    next_ino := 100 }

/-- The module `m` of the given primary revision, with a top-level container,
read from the schema file of that revision in the repository. -/
def example_revision (date : String) : lys_module_full :=
  .mk "m" 0 [date] (some ("/etc/sysrepo/yang/m@" ++ date ++ ".yang")) [] [] 0
    [{ nodetype := LYS_CONTAINER }]

/-- An environment in which every call succeeds and the schema directory lists
two revisions of the module `m`, the older one first; the YANG library parses
each file into the module of its revision and appends it to the context. -/
def example_schema_dir : environment :=
  { readdir := fun _ _ => some ["m@2016-01-01.yang", "m@2017-01-01.yang"],
    lys_parse_path := fun _ ctx path _ =>
      if path = "/etc/sysrepo/yang/m@2016-01-01.yang" then
        (some (example_revision "2016-01-01"), ctx ++ [example_revision "2016-01-01"])
      else if path = "/etc/sysrepo/yang/m@2017-01-01.yang" then
        (some (example_revision "2017-01-01"), ctx ++ [example_revision "2017-01-01"])
      else (none, ctx) }

/-- From the state `w` the state `w1` has been reached without a call that
removes a file and without a flush of the dependency graph, and the files and
the stored graph are the same. -/
def World.untouched (w w1 : World) : Prop :=
  (∃ calls, w1.log = w.log ++ calls ∧ ∀ c ∈ calls, c.is_unlink = false ∧ c.is_flush = false) ∧
    w1.files = w.files ∧ w1.md_data = w.md_data

/-- A dependency graph with the modules `a` and `b`. -/
def example_graph : List md_module_t :=
  [{ name := "a", filepath := "/etc/sysrepo/yang/a.yang" },
   { name := "b", filepath := "/etc/sysrepo/yang/b.yang" }]

/-- A repository with the modules `a` and `b` installed, where `b` imports
`a`. -/
def example_installed : World :=
  { files := fun p =>
      if p = "/etc/sysrepo/yang/a.yang" ∨ p = "/etc/sysrepo/yang/b.yang" ∨
          p = "/etc/sysrepo/data/a.startup" ∨ p = "/etc/sysrepo/data/b.startup" then
        some { st_mode := S_IFREG ||| 0o644 }
      else none,
    md_data := example_graph,
    next_ino := 100 }

/-- An environment in which the graph library finds every module of the graph
and rejects the removal of the module `a` with `SR_ERR_INVAL_ARG`, since `b`
depends on it, and in which the daemon answers a request on a module with
`answer`. -/
def example_dependent (answer : sr_error_t) : environment :=
  { md_get_module_info := fun _ g name _ =>
      match g.find? (fun m => m.name = name) with
      | some m => (SR_ERR_OK, m)
      | none => (SR_ERR_NOT_FOUND, {}),
    md_remove_module := fun _ g name _ =>
      if name = "a" then (SR_ERR_INVAL_ARG, g, [])
      else (SR_ERR_OK, g.filter (fun m => m.name ≠ name), []),
    sr_module_install := fun _ _ _ _ _ => answer }

/-- From the state `w` the state `w1` has been reached by calls that create or
change files and directories only: no file of `w` is missing in `w1` and the
stored dependency graph is the same. -/
def World.installs_to (w w1 : World) : Prop :=
  w.reaches sys_call.installs w1 ∧ w.keeps_files w1

/-- The calls with which the rollback of `srctl_install` removes the schema
files of the module itself: the YANG file when `yang` is given and the YIN file
when `yin` is given. -/
def schema_unlinks (G : settings) (module : lys_module_full) (yang yin : Option String) :
    List sys_call :=
  (if yang.isSome then
    [sys_call.unlink
      (srctl_get_yang_path G.srctl_schema_search_dir module.name module.rev0_date PATH_MAX)]
   else []) ++
  (if yin.isSome then
    [sys_call.unlink
      (srctl_get_yin_path G.srctl_schema_search_dir module.name module.rev0_date PATH_MAX)]
   else [])

/-- An environment in which the YANG library parses the module `m`, which
imports `d`, the daemon accepts every request, and the graph library answers
an insertion with `answer` and a flush with `flushed`. -/
def example_graph_failure (answer flushed : sr_error_t) : environment :=
  { example_environment (example_module [example_dependency]) SR_ERR_OK with
    md_insert_module := fun _ g _ => (answer, g),
    md_flush := fun _ _ => flushed }

/-- An environment in which every call succeeds, the YANG library parses the
module `m` without imports, the command `chmod 600` sets the mode `0600`, and
the graph library reports `SR_ERR_DATA_EXISTS` for a schema file that the graph
already holds. -/
def example_tracking : environment :=
  { example_environment (example_module []) SR_ERR_OK with
    chmod_command := fun p _ => if p = "600" then some 0o600 else none,
    md_insert_module := fun _ g path =>
      if g.any (fun m => some m.filepath = path) then (SR_ERR_DATA_EXISTS, g)
      else
        (SR_ERR_OK,
          g ++ [{ name := "m", revision_date := "2016-01-01", filepath := path.getD "" }]) }

/-- The repository after the module `m` has been installed from
`/home/user/m.yang` without owner and permissions. -/
def example_once_installed : World :=
  (srctl_install example_tracking {} example_world (some "/home/user/m.yang") none none none
    none).2

/-! ## Strings of `sr_utils.c`: namespaces of a path, trimming

A C string is the list of its bytes up to the terminator, which is not part of
the list. -/

/-- Library `strncmp(s1, s2, n)`: the difference of the first two bytes that
differ among the first `n`, and 0 when there are none.  The terminator takes
part in the comparison as the byte 0, and nothing after it is compared. -/
def strncmp : List Char → List Char → Nat → Int
  | _, _, 0 => 0
  | [], [], _ + 1 => 0
  | [], c :: _, _ + 1 => 0 - (c.toNat : Int)
  | c :: _, [], _ + 1 => (c.toNat : Int)
  | c1 :: s1, c2 :: s2, n + 1 =>
    if c1 = c2 then strncmp s1 s2 n else (c1.toNat : Int) - (c2.toNat : Int)

/-- Library `strndup(s, n)`. -/
def strndup (A : Nat → Bool) (st : MemState) (s : List Char) (n : Nat) :
    Option String × MemState :=
  if A st.allocs then (some (String.mk (s.take n)), { st with allocs := st.allocs + 1 })
  else (none, { st with allocs := st.allocs + 1 })

/-- The expression `colon_pos - xpath` for `colon_pos = strchr(xpath, ':')`,
nothing when the colon does not occur. -/
def colon_pos (xpath : List Char) : Option Nat :=
  if ':' ∈ xpath then some (xpath.takeWhile (fun c => c != ':')).length else none

/-- Function `sr_copy_first_ns(xpath, namespace)`. -/
def sr_copy_first_ns (A : Nat → Bool) (st : MemState) (xpath : Option String) :
    Outcome String :=
  match xpath with
  | none => { rc := SR_ERR_INVAL_ARG, out := none, st := st }
  | some x =>
    match colon_pos x.data with
    | none => { rc := SR_ERR_INVAL_ARG, out := none, st := st }
    | some pos =>
      if x.data.head? ≠ some '/' then { rc := SR_ERR_INVAL_ARG, out := none, st := st }
      else
        match strndup A st (x.data.drop 1) (pos - 1) with
        | (none, st1) => { rc := SR_ERR_NOMEM, out := none, st := st1 }
        | (some ns, st1) => { rc := SR_ERR_OK, out := some ns, st := st1 }

/-- Function `sr_cmp_first_ns(xpath, ns)`. -/
def sr_cmp_first_ns (xpath ns : Option String) : Int :=
  match xpath with
  | none => strncmp [] (ns.getD "").data 0
  | some x =>
    if x.data.head? ≠ some '/' then strncmp [] (ns.getD "").data 0
    else
      match colon_pos x.data with
      | some pos => strncmp (x.data.drop 1) (ns.getD "").data (pos - 1)
      | none => strncmp x.data (ns.getD "").data 0

/-- The first namespace of a path, in the words of the claim: the text between
the leading `/` and the first `:`, when both are there. -/
def first_namespace (xpath : String) : Option String :=
  match xpath.data with
  | '/' :: rest =>
    if ':' ∈ rest then some (String.mk (rest.takeWhile (fun c => c != ':'))) else none
  | _ => none

/-- Library `isspace(c)` in the C locale. -/
def isspace (c : Char) : Bool := c = ' ' || (9 ≤ c.toNat && c.toNat ≤ 13)

/-- The variables of the loop of `sr_copy_first_ns_from_expr`: the position `ns`
in the expression, the flag `ignore`, the array `namespaces` up to
`namespace_cnt`, and its capacity `namespace_size`. -/
structure first_ns_state where
  ns : Nat := 0
  ignore : Bool := false
  namespaces : List String := []
  namespace_size : Nat := 0
  deriving DecidableEq, Repr

/-- The loop `for (size_t i = 0; i < namespace_cnt; ++i)` of
`sr_copy_first_ns_from_expr`: whether one of the namespaces copied so far
agrees with the text at `ns` in its first `cur - ns` bytes. -/
def first_ns_copied (namespaces : List String) (at_ns : List Char) (len : Nat) : Bool :=
  namespaces.any fun x => strncmp x.data at_ns len = 0

/-- The statements `if (false == copied) { ... }` of `sr_copy_first_ns_from_expr`:
the array is enlarged when it is full and the namespace is copied; nothing for a
failed allocation. -/
def first_ns_append (A : Nat → Bool) (st : MemState) (s : first_ns_state) (at_ns : List Char)
    (len : Nat) : Option first_ns_state × MemState :=
  match (if s.namespaces.length = s.namespace_size then
           (if A st.allocs then
              (some (if s.namespace_size = 0 then 2 else s.namespace_size * 2),
                { st with allocs := st.allocs + 1 })
            else (none, { st with allocs := st.allocs + 1 }))
         else (some s.namespace_size, st)) with
  | (none, st1) => (none, st1)
  | (some size, st1) =>
    match strndup A st1 at_ns len with
    | (none, st2) => (none, st2)
    | (some name, st2) =>
      (some { s with namespaces := s.namespaces ++ [name], namespace_size := size }, st2)

/-- The body of the loop `while ('\0' != *cur)` of `sr_copy_first_ns_from_expr`
for the byte `c` at the position `cur`; `at_ns` is the expression from the
position `ns` on.  Nothing for `goto cleanup` after a failed allocation. -/
def first_ns_step (A : Nat → Bool) (st : MemState) (expr : List Char) (cur : Nat) (c : Char)
    (s : first_ns_state) : Option first_ns_state × MemState :=
  if isspace c ∨ c ∈ "[<>=+@$&|".data then (some { s with ignore := false, ns := cur + 1 }, st)
  else if c = '\'' ∨ c = '"' then
    (some (if s.ignore then s else { s with ns := cur + 1 }), st)
  else if c = '/' then
    (some (if s.ns < cur then { s with ignore := true } else { s with ns := cur + 1 }), st)
  else if c = ']' then (some { s with ignore := true }, st)
  else if c = ':' then
    if ¬ s.ignore ∧ s.ns < cur then
      if first_ns_copied s.namespaces (expr.drop s.ns) (cur - s.ns) then
        (some { s with ignore := true }, st)
      else
        match first_ns_append A st s (expr.drop s.ns) (cur - s.ns) with
        | (none, st1) => (none, st1)
        | (some s1, st1) => (some { s1 with ignore := true }, st1)
    else (some { s with ignore := true }, st)
  else (some s, st)

/-- The loop `while ('\0' != *cur)` of `sr_copy_first_ns_from_expr` over the
bytes still to read, `cur` being the position of the first of them. -/
def first_ns_loop (A : Nat → Bool) (expr : List Char) :
    List Char → Nat → first_ns_state → MemState → Option first_ns_state × MemState
  | [], _, s, st => (some s, st)
  | c :: rest, cur, s, st =>
    match first_ns_step A st expr cur c s with
    | (none, st1) => (none, st1)
    | (some s1, st1) => first_ns_loop A expr rest (cur + 1) s1 st1

/-- Function `sr_copy_first_ns_from_expr(expr, namespaces_p, namespace_cnt_p)`:
the result code and the namespaces stored, `namespace_cnt` being their
number. -/
def sr_copy_first_ns_from_expr (A : Nat → Bool) (st : MemState) (expr : Option String) :
    Outcome (List String) :=
  match expr with
  | none => { rc := SR_ERR_INVAL_ARG, out := none, st := st }
  | some e =>
    match first_ns_loop A e.data e.data 0 {} st with
    | (none, st1) => { rc := SR_ERR_NOMEM, out := none, st := st1 }
    | (some s, st1) => { rc := SR_ERR_OK, out := some s.namespaces, st := st1 }

/-! ## Trimming a string in place

The function `sr_str_trim` works on the memory around the string.  The memory
is a list of bytes, an address is a position in it, and an access at an address
outside the list is outside the embedding: the function has no result then. -/

/-- The byte 0, which terminates a string. -/
def NUL : Char := Char.ofNat 0

/-- Library `strlen(p)` on the memory: nothing when no terminator follows. -/
def strlen (mem : List Char) (p : Nat) : Option Nat :=
  if NUL ∈ mem.drop p then some ((mem.drop p).takeWhile (fun c => c != NUL)).length
  else none

/-- The loop `while(isspace(ptr[len - 1])) ptr[--len] = 0;` of `sr_str_trim`, where
`top` is the address of `ptr[len]`: the value of `top` and the memory after the
loop.  The byte read is the one at the address `top - 1`; with `len = 0` this
is the byte in front of the string.  Nothing when `top` is 0, since the byte to
read is outside the memory. -/
def trim_trailing : Nat → List Char → Option (Nat × List Char)
  | 0, _ => none
  | a + 1, mem =>
    if isspace (mem.getD a NUL) then trim_trailing a (mem.set a NUL) else some (a + 1, mem)

/-- The loop `while(*ptr && isspace(*ptr)) ++ptr, --len;` of `sr_str_trim` on the
bytes from `str` on: the number of its rounds. -/
def trim_leading : List Char → Nat
  | [] => 0
  | c :: cs => if c ≠ NUL ∧ isspace c = true then trim_leading cs + 1 else 0

/-- Library `memmove(dst, src, n)` on the memory: nothing when one of the two
regions is not inside the memory. -/
def memmove (mem : List Char) (dst src n : Nat) : Option (List Char) :=
  if src + n ≤ mem.length ∧ dst + n ≤ mem.length then
    some (mem.take dst ++ (mem.drop src).take n ++ mem.drop (dst + n))
  else none

/-- What a call of `sr_str_trim` leaves: the memory, and the lowest address that
it has read or written, nothing when it has accessed no byte. -/
structure trim_result where
  mem : List Char
  lowest : Option Nat
  deriving DecidableEq, Repr

/-- Function `sr_str_trim(str)` on the memory `mem`, where `str` is the address
of the string.  The variable `len` is of type `size_t`; after the first loop
`ptr + len` is the address `top`. -/
def sr_str_trim (mem : List Char) (str : Option Nat) : Option trim_result :=
  match str with
  | none => some { mem := mem, lowest := none }
  | some p =>
    match strlen mem p with
    | none => none
    | some len =>
      if len = 0 then some { mem := mem, lowest := some p }
      else
        match trim_trailing (p + len) mem with
        | none => none
        | some (top, mem1) =>
          match memmove mem1 p (p + trim_leading (mem1.drop p))
              (size_succ (size_sub (size_sub top p) (trim_leading (mem1.drop p)))) with
          | none => none
          | some mem2 => some { mem := mem2, lowest := some (min p (top - 1)) }

/-- The string at an address of the memory. -/
def string_at (mem : List Char) (p : Nat) : List Char :=
  (mem.drop p).takeWhile (fun c => c != NUL)

/-- The string without its leading and trailing whitespace, in the words of the
claim. -/
def trimmed (s : List Char) : List Char :=
  ((s.reverse.dropWhile isspace).reverse).dropWhile isspace

/-! ## Wire values without their string -/

/-- The wire value has a text-like tag and the field of that tag is absent
(`NULL`). -/
def Sr__Value.text_absent (g : Sr__Value) : Bool :=
  match g.type with
  | SR__VALUE__TYPES__BINARY => g.binary_val.isNone
  | SR__VALUE__TYPES__BITS => g.bits_val.isNone
  | SR__VALUE__TYPES__ENUM => g.enum_val.isNone
  | SR__VALUE__TYPES__IDENTITYREF => g.identityref_val.isNone
  | SR__VALUE__TYPES__INSTANCEID => g.instanceid_val.isNone
  | SR__VALUE__TYPES__STRING => g.string_val.isNone
  | SR__VALUE__TYPES__ANYXML => g.anyxml_val.isNone
  | SR__VALUE__TYPES__ANYDATA => g.anydata_val.isNone
  | _ => false

/-! ## Arrays of trees, encoder side; what a converter reports -/

/-- The conversion loop of `sr_trees_sr_to_gpb` over the trees still to
encode: the wire nodes produced so far, and the first failure if any. -/
def sr_trees_sr_to_gpb_loop (A : Nat → Bool) (st : MemState) :
    List sr_node_t → sr_error_t × List (Option Sr__Node) × MemState
  | [] => (SR_ERR_OK, [], st)
  | t :: ts =>
    match sr_dup_tree_to_gpb A st t with
    | { rc := SR_ERR_OK, out := gpb, st := st1 } =>
      match sr_trees_sr_to_gpb_loop A st1 ts with
      | (rc, gpbs, st2) => (rc, gpb :: gpbs, st2)
    | { rc := rc, out := _, st := st1 } => (rc, [], st1)

/-- Function `sr_trees_sr_to_gpb(sr_trees, sr_tree_cnt, gpb_trees_p, gpb_tree_cnt_p)`.
The array `sr_trees` is read at the indices below `sr_tree_cnt`; the arena of
the result array is the one of the first tree, `sr_trees[0]._sr_mem`. -/
def sr_trees_sr_to_gpb (A : Nat → Bool) (st : MemState) (sr_trees : Option (List sr_node_t))
    (sr_tree_cnt : Nat) : Outcome (CArray (Option Sr__Node)) :=
  match sr_trees with
  | none => { rc := SR_ERR_OK, out := some { ptr := none, cnt := sr_tree_cnt }, st := st }
  | some trees =>
    if sr_tree_cnt > 0 then
      let sr_mem := (trees.headD (.mk {} none [])).val._sr_mem
      let snapshot := entry_snapshot st sr_mem
      match sr_calloc A st sr_mem sr_tree_cnt with
      | (false, st1) => { rc := SR_ERR_NOMEM, out := none, st := st1 }
      | (true, st1) =>
        match sr_trees_sr_to_gpb_loop A st1 (trees.take sr_tree_cnt) with
        | (SR_ERR_OK, gpb_trees, st2) =>
          { rc := SR_ERR_OK, out := some { ptr := some gpb_trees, cnt := sr_tree_cnt },
            st := st2 }
        | (rc, _, st2) => { rc := rc, out := none, st := sr_mem_restore st2 snapshot }
    else { rc := SR_ERR_OK, out := some { ptr := none, cnt := sr_tree_cnt }, st := st }

/-- The number of elements of an array handed back as a pointer: the elements
allocated for it, none for a `NULL` pointer. -/
def CArray.allocated {α : Type} (a : CArray α) : Nat :=
  match a.ptr with
  | none => 0
  | some l => l.length

/-- An input array is absent, or holds at least the `cnt` elements that the
count beside it announces. -/
def holds_count {α : Type} (input : Option (List α)) (cnt : Nat) : Prop :=
  ∀ l, input = some l → cnt ≤ l.length

/-- What an array converter that was given the array `input` with the count
`cnt` hands back when it returns `SR_ERR_OK`: the count it reports is `cnt`;
the array is absent exactly when the input array is absent or `cnt` is 0, and
holds `cnt` elements otherwise; so the count is the number of elements of the
array unless the input array was absent with a positive count. -/
def reports_input_count {α β : Type} (input : Option (List α)) (cnt : Nat)
    (r : Outcome (CArray β)) : Prop :=
  r.rc = SR_ERR_OK →
    ∃ arr, r.out = some arr ∧ arr.cnt = cnt ∧
      (arr.ptr = none ↔ (input = none ∨ cnt = 0)) ∧
      (∀ l, arr.ptr = some l → l.length = cnt) ∧
      ((input ≠ none ∨ cnt = 0) → arr.cnt = arr.allocated)

/-! ## The data files of a module, visited in order -/

/-- The names that `srctl_data_files_apply` formats for a module, one per
entry of `data_files_ext`, in the order of that array. -/
def data_file_names (G : settings) (module_name : String) : List String :=
  data_files_ext.map fun ext =>
    snprintf PATH_MAX (G.srctl_data_search_dir ++ module_name ++ ext)

/-- The claim's words, "the command is applied to the files in this order":
the successive applications of `command` to the paths, first to last, starting
in the world `w`; every application is listed with its path, the code it
returned and the world it left, and starts in the world the one before left. -/
def applications (command : World → String → Int × World) :
    List String → World → List (String × Int × World)
  | [], _ => []
  | p :: ps, w => (p, (command w p).1, (command w p).2) :: applications command ps (command w p).2

/-- The world that a sequence of applications started in `w` has left: the
one left by the last application. -/
def applications_world : List (String × Int × World) → World → World
  | [], w => w
  | a :: apps, _ => applications_world apps a.2.2

/-- The code of the last failed application of a sequence, `rc` if none
failed. -/
def last_failure : List (String × Int × World) → Int → Int
  | [], rc => rc
  | a :: apps, rc => last_failure apps (if a.2.1 ≠ 0 then a.2.1 else rc)

/-- The first failed application of a sequence, if any. -/
def first_failure (apps : List (String × Int × World)) : Option (String × Int × World) :=
  apps.find? fun a => a.2.1 != 0

/-! ## The bits of a leaf as a string

The function `sr_libyang_leaf_copy_bits` fills a buffer of its own.  The buffer
is a list of bytes, and a store outside it is outside the embedding: the
function has no result then. -/

/-- The members of `struct ly_set` that the functions read: the count `number`
(an `unsigned int`) and the array `set.g`, of which the first `number` entries
are the elements of the set. -/
structure ly_set where
  number : Nat
  g : List Nat
  deriving DecidableEq, Repr

/-- What a search leaves: the value returned and the indices at which it has
read the array, in the order of the reads. -/
structure search_result where
  ret : Int
  reads : List Int
  deriving DecidableEq, Repr

/-- The loop `while (lo <= hi)` of `sr_ly_set_contains` with the variables
`lo` and `hi` of type `int`, for at most `fuel` rounds.  Nothing when the fuel
is used up or when the read `set->set.g[mid]` is outside the array. -/
def sr_ly_set_contains_loop (g : List Nat) (node : Nat) :
    Nat → Int → Int → List Int → Option search_result
  | fuel, lo, hi, reads =>
    if lo ≤ hi then
      match fuel with
      | 0 => none
      | fuel + 1 =>
        if 0 ≤ wrap_signed 32 (lo + wrap_signed 32 (hi - lo) / 2) ∧
            (wrap_signed 32 (lo + wrap_signed 32 (hi - lo) / 2)).toNat < g.length then
          if g.getD (wrap_signed 32 (lo + wrap_signed 32 (hi - lo) / 2)).toNat 0 = node then
            some { ret := wrap_signed 32 (lo + wrap_signed 32 (hi - lo) / 2),
                   reads := reads ++ [wrap_signed 32 (lo + wrap_signed 32 (hi - lo) / 2)] }
          else if g.getD (wrap_signed 32 (lo + wrap_signed 32 (hi - lo) / 2)).toNat 0 < node then
            sr_ly_set_contains_loop g node fuel
              (wrap_signed 32 (wrap_signed 32 (lo + wrap_signed 32 (hi - lo) / 2) + 1)) hi
              (reads ++ [wrap_signed 32 (lo + wrap_signed 32 (hi - lo) / 2)])
          else
            sr_ly_set_contains_loop g node fuel lo
              (wrap_signed 32 (wrap_signed 32 (lo + wrap_signed 32 (hi - lo) / 2) - 1))
              (reads ++ [wrap_signed 32 (lo + wrap_signed 32 (hi - lo) / 2)])
        else none
    else some { ret := -1, reads := reads }

/-- Modelled from the spec: library function `ly_set_contains(set, node)` of the
YANG library, the index of the first element equal to `node`, or -1. -/
def ly_set_contains (set : ly_set) (node : Nat) : search_result :=
  if (set.g.take set.number).indexOf node < (set.g.take set.number).length then
    { ret := (set.g.take set.number).indexOf node,
      reads := (List.range ((set.g.take set.number).indexOf node + 1)).map Int.ofNat }
  else { ret := -1, reads := (List.range (set.g.take set.number).length).map Int.ofNat }

/-- Function `sr_ly_set_contains(set, node, sorted)`.  The initial value of
`hi` is `set->number-1`, computed in `unsigned int` and converted to `int`. -/
def sr_ly_set_contains (fuel : Nat) (set : Option ly_set) (node : Nat) (sorted : Bool) :
    Option search_result :=
  match set with
  | none => some { ret := -1, reads := [] }
  | some set =>
    if node = 0 then some { ret := -1, reads := [] }
    else if sorted then
      sr_ly_set_contains_loop set.g node fuel 0
        (wrap_signed 32 (wrap_unsigned 32 (set.number + 2 ^ 32 - 1))) []
    else some (ly_set_contains set node)

/-- The elements of the set are in ascending order. -/
def ly_set.ascending (set : ly_set) : Prop :=
  (set.g.take set.number).Pairwise (fun a b => a ≤ b)

/-- The node occurs in the set. -/
def ly_set.holds (set : ly_set) (node : Nat) : Prop :=
  node ∈ set.g.take set.number

/-- Function `sr_ly_set_cmp(item1, item2)` on the two pointers stored in the
items: their difference as pointers to `int`, which counts in units of
`sizeof(int)` = 4 bytes and has the type `ptrdiff_t` of 64 bits, converted to
the `int` that the function returns. -/
def sr_ly_set_cmp (item1 item2 : Nat) : Int :=
  wrap_signed 32 (wrap_signed 64 ((item1 : Int) - (item2 : Int)) / 4)

/-- The loop `while (j >= 0 && set->set.g[j] > key)` of `sr_ly_set_sort`.  The
first argument is `j + 1`; the result is the value of `j + 1` after the loop,
and the array. -/
def sort_shift (key : Nat) : Nat → List Nat → Nat × List Nat
  | 0, g => (0, g)
  | j + 1, g =>
    if g.getD j 0 > key then sort_shift key j (g.set (j + 1) (g.getD j 0)) else (j + 1, g)

/-- The loop `for (int i = 1; i < set->number; ++i)` of `sr_ly_set_sort` with
`rounds` rounds to go, the next one for the index `i`. -/
def sort_insert : Nat → Nat → List Nat → List Nat
  | 0, _, g => g
  | rounds + 1, i, g =>
    sort_insert rounds (i + 1)
      ((sort_shift (g.getD i 0) i g).2.set (sort_shift (g.getD i 0) i g).1 (g.getD i 0))

/-- Library `qsort(base, nmemb, size, compar)`.  The C library leaves the
method open, so the embedding takes it from the environment: `Q` is given the
number of elements and the answer of the comparator for the elements at any two
positions of the array as it was handed in, and yields the positions of that
array in the order in which `qsort` leaves their elements.  The order that is
left thus depends on the elements only through the answers of the comparator. -/
def qsort (Q : Nat → (Nat → Nat → Int) → List Nat) (base : List Nat) (nmemb : Nat)
    (compar : Nat → Nat → Int) : List Nat :=
  (Q nmemb fun i j => compar (base.getD i 0) (base.getD j 0)).map (fun i => base.getD i 0)
    ++ base.drop nmemb

/-- Function `sr_ly_set_sort(set)`. -/
def sr_ly_set_sort (Q : Nat → (Nat → Nat → Int) → List Nat) (set : Option ly_set) :
    sr_error_t × Option ly_set :=
  match set with
  | none => (SR_ERR_INVAL_ARG, none)
  | some set =>
    if set.number ≤ 16 then
      (SR_ERR_OK, some { set with g := sort_insert (set.number - 1) 1 set.g })
    else (SR_ERR_OK, some { set with g := qsort Q set.g set.number sr_ly_set_cmp })

/-- The claim's words: the element array `after` is a permutation of the
elements of `before`, arranged in non-decreasing address order. -/
def ly_set.sorted_from (before : ly_set) (after : Option ly_set) : Prop :=
  ∃ s, after = some s ∧ s.number = before.number ∧
    (s.g.take s.number).Perm (before.g.take before.number) ∧ s.ascending

/-- Seventeen addresses that lie 2^34 bytes (16 GiB) apart, in ascending
order. -/
def far_apart : List Nat := (List.range 17).map fun i => 2 ^ 34 * (i + 1)

/-! ## Copying a typed tree into a data tree of the YANG library

The functions `sr_subtree_to_dt` and `sr_tree_to_dt` build the data tree by
calls to the YANG library.  The embedding records the calls that create a
node, in order; what the library answers may depend on the calls recorded so
far. -/

/-- A call to the YANG library that creates a data node. -/
inductive dt_call where
  | lyd_new_path (xpath : String) (value : Option String) (output : Bool)
  | lyd_new (module : lys_module) (name : Option String)
  | lyd_new_leaf (module : lys_module) (name : Option String) (value : Option String)

/-- The name or path of the node that a call creates. -/
def dt_call.target : dt_call → Option String
  | .lyd_new_path xpath _ _ => some xpath
  | .lyd_new _ name => name
  | .lyd_new_leaf _ name _ => name

/-- The state that the copy works on: the memory, the root `*data_tree` of the
data tree, and the creating calls made so far. -/
structure dt_state where
  mem : MemState := {}
  data_tree : Option lyd_node := none
  log : List dt_call := []

/-- The YANG library and the context `ly_ctx` as the copy meets them:
the allocation oracle, the modules of the context by name
(`ly_ctx_get_module`), the member `data` of a module, and the answers of
`lyd_new_path`, `lyd_find_xpath`, `lyd_new`, `lyd_new_leaf` (each given the
calls recorded so far; `none` is the answer `NULL`) and of `lys_find_xpath`
(start node, expression, whether `LYS_FIND_OUTPUT` is set). -/
structure yang_library where
  A : Nat → Bool
  ly_ctx_get_module : String → Option lys_module
  module_data : lys_module → Option lys_node
  lyd_new_path : List dt_call → String → Option String → Bool → Option lyd_node
  lyd_find_xpath : List dt_call → String → Option (List lyd_node)
  lyd_new : List dt_call → lyd_node → lys_module → Option String → Option lyd_node
  lyd_new_leaf :
    List dt_call → lyd_node → lys_module → Option String → Option String → Option lyd_node
  lys_find_xpath : Option lys_node → String → Bool → Option (List lys_node)

/-- Function `sr_find_schema_node(node, expr, options)`: the node that
`lys_find_xpath` finds, if it finds exactly one. -/
def sr_find_schema_node (L : yang_library) (node : Option lys_node) (expr : String)
    (output : Bool) : Option lys_node :=
  match L.lys_find_xpath node expr output with
  | some [result] => some result
  | _ => none

/-- The statements of `sr_subtree_to_dt` that store the node created by
`lyd_new_path`: the call is recorded, and `*data_tree` is set if it was
`NULL`. -/
def dt_state.created (s : dt_state) (c : dt_call) (node : Option lyd_node) : dt_state :=
  { s with log := s.log ++ [c],
           data_tree := match s.data_tree with
                        | none => node
                        | some t => some t }

/-- The labels `case SR_LIST_T: case SR_CONTAINER_T: case SR_CONTAINER_PRESENCE_T:`
of the `switch (sr_tree->type)` of `sr_subtree_to_dt`. -/
def dt_inner_type (t : sr_type_t) : Bool :=
  match t with
  | SR_LIST_T | SR_CONTAINER_T | SR_CONTAINER_PRESENCE_T => true
  | _ => false

/-- The statements `/* get module */` of `sr_subtree_to_dt` for a node below
the data node `parent`. -/
def subtree_module (L : yang_library) (module_name : Option String) (parent : lyd_node) :
    Option lys_module :=
  match module_name with
  | some m => L.ly_ctx_get_module m
  | none => some (lyd_node_module parent)

/-- The cases `SR_UNKNOWN_T` and `default` of the `switch (sr_tree->type)` of
`sr_subtree_to_dt` for a node below the data node `parent`.  The name of the
node is read through `strlen` and `strcat`; for a node without name the
embedding reads the empty string. -/
def subtree_leaf_below (L : yang_library) (output : Bool) (val : sr_val_t) (parent : lyd_node)
    (module : lys_module) (s : dt_state) : sr_error_t × dt_state :=
  if val.type = SR_UNKNOWN_T then (SR_ERR_UNSUPPORTED, s)
  else if val.dflt then (SR_ERR_OK, s)
  else
    match sr_calloc L.A s.mem none (module.name.length + (val.xpath.getD "").length + 2) with
    | (false, mem1) => (SR_ERR_NOMEM, { s with mem := mem1 })
    | (true, mem1) =>
      match sr_find_schema_node L (some parent.schema)
          (module.name ++ ":" ++ val.xpath.getD "") output with
      | none => (SR_ERR_INTERNAL, { s with mem := mem1 })
      | some sch_node =>
        if (sr_val_to_str_with_schema L.A mem1 val sch_node).rc = SR_ERR_OK then
          match L.lyd_new_leaf s.log parent module val.xpath
              (sr_val_to_str_with_schema L.A mem1 val sch_node).out with
          | none =>
            (SR_ERR_INTERNAL,
              { s with mem := (sr_val_to_str_with_schema L.A mem1 val sch_node).st,
                       log := s.log ++ [.lyd_new_leaf module val.xpath
                         (sr_val_to_str_with_schema L.A mem1 val sch_node).out] })
          | some _ =>
            (SR_ERR_OK,
              { s with mem := (sr_val_to_str_with_schema L.A mem1 val sch_node).st,
                       log := s.log ++ [.lyd_new_leaf module val.xpath
                         (sr_val_to_str_with_schema L.A mem1 val sch_node).out] })
        else
          ((sr_val_to_str_with_schema L.A mem1 val sch_node).rc,
            { s with mem := (sr_val_to_str_with_schema L.A mem1 val sch_node).st })

/-- The cases `SR_UNKNOWN_T` and `default` of the `switch (sr_tree->type)` of
`sr_subtree_to_dt` for the node at the path `xpath`, without parent;
`start_node` is the member `data` of the module of the first namespace of the
path, if the context has that module. -/
def subtree_leaf_at (L : yang_library) (output : Bool) (val : sr_val_t) (xpath : String)
    (start_node : Option lys_node) (s : dt_state) : sr_error_t × dt_state :=
  if val.type = SR_UNKNOWN_T then (SR_ERR_UNSUPPORTED, s)
  else if val.dflt then (SR_ERR_OK, s)
  else
    match sr_find_schema_node L start_node xpath output with
    | none => (SR_ERR_INTERNAL, s)
    | some sch_node =>
      if (sr_val_to_str_with_schema L.A s.mem val sch_node).rc = SR_ERR_OK then
        (match L.lyd_new_path s.log xpath
            (sr_val_to_str_with_schema L.A s.mem val sch_node).out output with
         | none => SR_ERR_INTERNAL
         | some _ => SR_ERR_OK,
         ({ s with mem := (sr_val_to_str_with_schema L.A s.mem val sch_node).st } : dt_state).created
           (.lyd_new_path xpath (sr_val_to_str_with_schema L.A s.mem val sch_node).out output)
           (L.lyd_new_path s.log xpath
             (sr_val_to_str_with_schema L.A s.mem val sch_node).out output))
      else
        ((sr_val_to_str_with_schema L.A s.mem val sch_node).rc,
          { s with mem := (sr_val_to_str_with_schema L.A s.mem val sch_node).st })

/-- The node that `sr_subtree_to_dt` takes from `lyd_find_xpath` after it has
created the root of the tree: the only node of the node set. -/
def subtree_root_node (L : yang_library) (log : List dt_call) (xpath : String) :
    Option lyd_node :=
  match L.lyd_find_xpath log xpath with
  | some [node] => some node
  | _ => none

mutual
/-- Function `sr_subtree_to_dt(ly_ctx, sr_tree, output, parent, xpath,
data_tree)`. -/
def sr_subtree_to_dt (L : yang_library) (output : Bool) :
    sr_node_t → Option lyd_node → Option String → dt_state → sr_error_t × dt_state
  | .mk val module_name children, parent, xpath, s =>
    match parent with
    | some p =>
      match subtree_module L module_name p with
      | none => (SR_ERR_INTERNAL, s)
      | some module =>
        if dt_inner_type val.type then
          sr_subtree_to_dt_children L output children
            (L.lyd_new s.log p module val.xpath) SR_ERR_OK
            { s with log := s.log ++ [.lyd_new module val.xpath] }
        else subtree_leaf_below L output val p module s
    | none =>
      match xpath with
      | none => (SR_ERR_INVAL_ARG, s)
      | some x =>
        if (sr_copy_first_ns L.A s.mem (some x)).rc = SR_ERR_OK then
          if dt_inner_type val.type then
            match L.lyd_new_path s.log x none output with
            | none =>
              (SR_ERR_INTERNAL,
                ({ s with mem := (sr_copy_first_ns L.A s.mem (some x)).st } : dt_state).created
                  (.lyd_new_path x none output) none)
            | some created =>
              match subtree_root_node L (s.log ++ [.lyd_new_path x none output]) x with
              | none =>
                (SR_ERR_INTERNAL,
                  ({ s with mem := (sr_copy_first_ns L.A s.mem (some x)).st } : dt_state).created
                    (.lyd_new_path x none output) (some created))
              | some node =>
                sr_subtree_to_dt_children L output children (some node) SR_ERR_OK
                  (({ s with mem := (sr_copy_first_ns L.A s.mem (some x)).st } : dt_state).created
                    (.lyd_new_path x none output) (some created))
          else
            subtree_leaf_at L output val x
              ((L.ly_ctx_get_module ((sr_copy_first_ns L.A s.mem (some x)).out.getD "")).bind
                L.module_data)
              { s with mem := (sr_copy_first_ns L.A s.mem (some x)).st }
        else
          ((sr_copy_first_ns L.A s.mem (some x)).rc,
            { s with mem := (sr_copy_first_ns L.A s.mem (some x)).st })
/-- The loop `while (sr_subtree)` of `sr_subtree_to_dt` over the children still
to visit, below the data node `node` (`NULL` when `lyd_new` has failed);
`ret` is the value of the variable of that name, which the loop overwrites in
every round and the function returns after it. -/
def sr_subtree_to_dt_children (L : yang_library) (output : Bool) :
    List sr_node_t → Option lyd_node → sr_error_t → dt_state → sr_error_t × dt_state
  | [], _, ret, s => (ret, s)
  | sr_subtree :: rest, node, _, s =>
    sr_subtree_to_dt_children L output rest node
      (sr_subtree_to_dt L output sr_subtree node none s).1
      (sr_subtree_to_dt L output sr_subtree node none s).2
end

/-- Function `sr_tree_to_dt(ly_ctx, sr_tree, root_xpath, output, data_tree)`. -/
def sr_tree_to_dt (L : yang_library) (sr_tree : Option sr_node_t) (root_xpath : Option String)
    (output : Bool) (s : dt_state) : sr_error_t × dt_state :=
  match sr_tree with
  | none => (SR_ERR_OK, s)
  | some tree =>
    match root_xpath with
    | some x => sr_subtree_to_dt L output tree none (some x) s
    | none =>
      match tree.module_name with
      | none => (SR_ERR_INVAL_ARG, s)
      | some m =>
        match sr_calloc L.A s.mem none ((tree.val.xpath.getD "").length + m.length + 3) with
        | (false, mem1) => (SR_ERR_NOMEM, { s with mem := mem1 })
        | (true, mem1) =>
          sr_subtree_to_dt L output tree none (some ("/" ++ m ++ ":" ++ tree.val.xpath.getD ""))
            { s with mem := mem1 }

/-- A library for the examples: every module asked for exists, every schema
lookup finds one leaf of type `string`, and every node is created, except that
`lyd_new` answers `NULL` when `inner` is false. -/
def example_library (inner : Bool) : yang_library where
  A := fun _ => true
  ly_ctx_get_module := fun name => some { name := name }
  module_data := fun m => some (.mk LYS_CONTAINER "c" m none (.mk LY_TYPE_DER none 0 none []))
  lyd_new_path := fun _ _ value _ =>
    some (.mk (.mk LYS_CONTAINER "c" { name := "m" } none (.mk LY_TYPE_DER none 0 none []))
      false value [])
  lyd_find_xpath := fun _ _ =>
    some [.mk (.mk LYS_CONTAINER "c" { name := "m" } none (.mk LY_TYPE_DER none 0 none []))
      false none []]
  lyd_new := fun _ _ m name =>
    if inner then
      some (.mk (.mk LYS_CONTAINER (name.getD "") m none (.mk LY_TYPE_DER none 0 none []))
        false none [])
    else none
  lyd_new_leaf := fun _ _ m name value =>
    some (.mk (.mk LYS_LEAF (name.getD "") m none (.mk LY_TYPE_STRING none 0 none []))
      false value [])
  lys_find_xpath := fun _ expr _ =>
    some [.mk LYS_LEAF expr { name := "m" } none (.mk LY_TYPE_STRING none 0 none [])]

/-- A container `c` of the module `m` with the given children. -/
def example_container (children : List sr_node_t) : sr_node_t :=
  .mk { xpath := some "c", type := SR_CONTAINER_T } (some "m") children

/-- A child `a` whose tag is `SR_UNKNOWN_T`. -/
def example_unknown : sr_node_t := .mk { xpath := some "a", type := SR_UNKNOWN_T } none []

/-- A child `b`, a leaf with the string `x`. -/
def example_string : sr_node_t :=
  .mk { xpath := some "b", type := SR_STRING_T, data := { string_val := some "x" } } none []

/-- A child `d`, a container without children. -/
def example_inner : sr_node_t := .mk { xpath := some "d", type := SR_CONTAINER_T } none []

/-- The revision part that `srctl_get_yang_path` and `srctl_get_yin_path`
format: `@` and the revision when a revision is given (the pointer is not
`NULL`), be it empty or not, nothing otherwise. -/
def given_revision_part (revision_date : Option String) : String :=
  match revision_date with
  | some rev => "@" ++ rev
  | none => ""

/-- The schema search directory of a repository whose location, given with
option `-0`, has 4084 bytes: the location followed by `/yang/`. -/
def example_long_dir : String :=
  "/" ++ String.mk (List.replicate 4083 'r') ++ "/yang/"

/-- The call, made on the file system `files`, leaves every file as it is: the
target of `cp` has the content of the source already, the file to create or
the directory to make is there, the file has the owner, the group or the mode
that the call sets, the file to remove is missing, or the call fails since its
file is missing or the command `chmod` rejects the permissions.  The calls of
the libraries act on no file. -/
def sys_call.leaves (E : environment) (files : String → Option sys_file) : sys_call → Bool
  | .cp src dst =>
    match files src, files dst with
    | none, _ => true
    | some f, some g => g.content = f.content
    | some _, none => false
  | .open_creat path => (files path).isSome
  | .chown path owner group =>
    match files path with
    | none => true
    | some f => owner.getD f.st_uid = f.st_uid ∧ group.getD f.st_gid = f.st_gid
  | .chmod_command permissions path =>
    match files path with
    | none => true
    | some f =>
      match E.chmod_command permissions f.st_mode with
      | none => true
      | some mode => (f.st_mode &&& S_IFMT) ||| (mode &&& S_IALLUGO) = f.st_mode
  | .chmod path mode =>
    match files path with
    | none => true
    | some f => (f.st_mode &&& S_IFMT) ||| (mode &&& S_IALLUGO) = f.st_mode
  | .mkdir path _ => (files path).isSome
  | .unlink path => (files path).isNone
  | _ => true

/-- From the state `w` the state `w1` has been reached by calls such that the
files of `w1` are those of `w` when each of the calls leaves the files of `w`
as they are. -/
def World.steady_to (w : World) (E : environment) (w1 : World) : Prop :=
  ∃ calls, w1.log = w.log ++ calls ∧
    ((∀ c ∈ calls, c.leaves E w.files = true) → w1.files = w.files)

/-- The environment `example_tracking` in which the command `chmod` knows the
symbolic permissions `u=g,g-rw` and applies them to a regular file: the
permission bits of the user become those of the group, the set-user-id bit
being cleared, then the read and write bits of the group are cleared. -/
def example_symbolic : environment :=
  { example_tracking with
    chmod_command := fun p m =>
      if p = "u=g,g-rw" then some (((m &&& 0o3077) ||| ((m &&& 0o070) <<< 3)) &&& 0o7717)
      else none }

/-- The repository after the module `m` has been installed from
`/home/user/m.yang` with the permissions `u=g,g-rw` and without owner. -/
def example_installed_symbolic : World :=
  (srctl_install example_symbolic {} example_world (some "/home/user/m.yang") none none
    (some "u=g,g-rw") none).2

/-! ## Shared lemmas on the builders -/


theorem alloc_error_rc {α : Type} (st : MemState) (snap : sr_mem_snapshot_t) (rc : sr_error_t) :
    (alloc_error st snap rc : Outcome α).rc = rc := rfl

theorem alloc_error_out {α : Type} (st : MemState) (snap : sr_mem_snapshot_t) (rc : sr_error_t) :
    (alloc_error st snap rc : Outcome α).out = none := rfl

theorem alloc_finish_rc (st : MemState) (sr_mem : Option Nat) (msg : Sr__Msg) :
    (alloc_finish st sr_mem msg).rc = SR_ERR_OK := by
  cases sr_mem <;> rfl

theorem alloc_finish_out (st : MemState) (sr_mem : Option Nat) (msg : Sr__Msg)
    (h : msg._sysrepo_mem_ctx = none) :
    (alloc_finish st sr_mem msg).out = some { msg with _sysrepo_mem_ctx := sr_mem } := by
  cases sr_mem with
  | none => cases msg; simp_all [alloc_finish]
  | some a => rfl

/-- Every run of `sr_gpb_req_alloc` ends in one of three ways: an allocation
failed, the `default` branch was taken, or the message was completed. -/
theorem sr_gpb_req_alloc_cases (A : Nat → Bool) (st : MemState) (sr_mem : Option Nat)
    (op : Sr__Operation) (sid : Nat) :
    ((∃ k, A k = false) ∧
      ∃ st1 snap, sr_gpb_req_alloc A st sr_mem op sid = alloc_error st1 snap SR_ERR_NOMEM) ∨
    (A st.allocs = true ∧ A (st.allocs + 1) = true ∧ sr_gpb_req_alloc_switch op = none ∧
      ∃ st1 snap, sr_gpb_req_alloc A st sr_mem op sid = alloc_error st1 snap SR_ERR_UNSUPPORTED) ∨
    (∃ assign st1, sr_gpb_req_alloc_switch op = some assign ∧
      sr_gpb_req_alloc A st sr_mem op sid =
        alloc_finish st1 sr_mem
          { type := SR__MSG__MSG_TYPE__REQUEST, session_id := sid,
            request := some (assign { operation := op } ProtobufCMessage.init) }) := by
  unfold sr_gpb_req_alloc
  cases h0 : A st.allocs with
  | false =>
    left; refine ⟨⟨_, h0⟩, ?_⟩
    cases sr_mem <;> simp [sr_calloc, h0] <;> exact ⟨_, _, rfl⟩
  | true =>
    cases h1 : A (st.allocs + 1) with
    | false =>
      left; refine ⟨⟨_, h1⟩, ?_⟩
      cases sr_mem <;> simp [sr_calloc, h0, h1] <;> exact ⟨_, _, rfl⟩
    | true =>
      cases hs : sr_gpb_req_alloc_switch op with
      | none =>
        right; left
        cases sr_mem <;> simp [sr_calloc, h0, h1] <;> exact ⟨_, _, rfl⟩
      | some assign =>
        cases h2 : A (st.allocs + 1 + 1) with
        | false =>
          left; refine ⟨⟨_, h2⟩, ?_⟩
          cases sr_mem <;> simp [sr_calloc, h0, h1, h2] <;> exact ⟨_, _, rfl⟩
        | true =>
          right; right
          refine ⟨assign, ?_⟩
          cases sr_mem <;> simp [sr_calloc, h0, h1, h2, sr__msg__init, sr__request__init] <;>
            exact ⟨_, rfl⟩

/-- Every run of `sr_gpb_resp_alloc` ends in one of three ways: an allocation
failed, the `default` branch was taken, or the message was completed. -/
theorem sr_gpb_resp_alloc_cases (A : Nat → Bool) (st : MemState) (sr_mem : Option Nat)
    (op : Sr__Operation) (sid : Nat) :
    ((∃ k, A k = false) ∧
      ∃ st1 snap, sr_gpb_resp_alloc A st sr_mem op sid = alloc_error st1 snap SR_ERR_NOMEM) ∨
    (A st.allocs = true ∧ A (st.allocs + 1) = true ∧ sr_gpb_resp_alloc_switch op = none ∧
      ∃ st1 snap, sr_gpb_resp_alloc A st sr_mem op sid = alloc_error st1 snap SR_ERR_UNSUPPORTED) ∨
    (∃ assign st1, sr_gpb_resp_alloc_switch op = some assign ∧
      sr_gpb_resp_alloc A st sr_mem op sid =
        alloc_finish st1 sr_mem
          { type := SR__MSG__MSG_TYPE__RESPONSE, session_id := sid,
            response := some (assign { operation := op, result := SR_ERR_OK }
              ProtobufCMessage.init) }) := by
  unfold sr_gpb_resp_alloc
  cases h0 : A st.allocs with
  | false =>
    left; refine ⟨⟨_, h0⟩, ?_⟩
    cases sr_mem <;> simp [sr_calloc, h0] <;> exact ⟨_, _, rfl⟩
  | true =>
    cases h1 : A (st.allocs + 1) with
    | false =>
      left; refine ⟨⟨_, h1⟩, ?_⟩
      cases sr_mem <;> simp [sr_calloc, h0, h1] <;> exact ⟨_, _, rfl⟩
    | true =>
      cases hs : sr_gpb_resp_alloc_switch op with
      | none =>
        right; left
        cases sr_mem <;> simp [sr_calloc, h0, h1] <;> exact ⟨_, _, rfl⟩
      | some assign =>
        cases h2 : A (st.allocs + 1 + 1) with
        | false =>
          left; refine ⟨⟨_, h2⟩, ?_⟩
          cases sr_mem <;> simp [sr_calloc, h0, h1, h2] <;> exact ⟨_, _, rfl⟩
        | true =>
          right; right
          refine ⟨assign, ?_⟩
          cases sr_mem <;> simp [sr_calloc, h0, h1, h2, sr__msg__init, sr__response__init] <;>
            exact ⟨_, rfl⟩

/-- Every run of `sr_gpb_notif_alloc` ends in one of four ways: an allocation
failed, the `default` branch was taken, the message was completed without a
sub-message, or it was completed with one. -/
theorem sr_gpb_notif_alloc_cases (A : Nat → Bool) (st : MemState) (sr_mem : Option Nat)
    (t : Sr__SubscriptionType) (dst : String) (id : Nat) :
    ((∃ k, A k = false) ∧
      ∃ st1 snap, sr_gpb_notif_alloc A st sr_mem t dst id = alloc_error st1 snap SR_ERR_NOMEM) ∨
    (sr_gpb_notif_alloc_switch t = none ∧
      ∃ st1 snap, sr_gpb_notif_alloc A st sr_mem t dst id =
        alloc_error st1 snap SR_ERR_UNSUPPORTED) ∨
    (sr_gpb_notif_alloc_switch t = some none ∧
      ∃ st1, sr_gpb_notif_alloc A st sr_mem t dst id =
        alloc_finish st1 sr_mem
          { type := SR__MSG__MSG_TYPE__NOTIFICATION, session_id := 0,
            notification := some { type := t, subscription_id := id,
                                   destination_address := some dst } }) ∨
    (∃ assign st1, sr_gpb_notif_alloc_switch t = some (some assign) ∧
      sr_gpb_notif_alloc A st sr_mem t dst id =
        alloc_finish st1 sr_mem
          { type := SR__MSG__MSG_TYPE__NOTIFICATION, session_id := 0,
            notification := some (assign { type := t, subscription_id := id,
                                           destination_address := some dst }
                                    ProtobufCMessage.init) }) := by
  unfold sr_gpb_notif_alloc
  cases h0 : A st.allocs with
  | false =>
    left; refine ⟨⟨_, h0⟩, ?_⟩
    cases sr_mem <;> simp [sr_calloc, h0] <;> exact ⟨_, _, rfl⟩
  | true =>
    cases h1 : A (st.allocs + 1) with
    | false =>
      left; refine ⟨⟨_, h1⟩, ?_⟩
      cases sr_mem <;> simp [sr_calloc, h0, h1] <;> exact ⟨_, _, rfl⟩
    | true =>
      cases h2 : A (st.allocs + 1 + 1) with
      | false =>
        left; refine ⟨⟨_, h2⟩, ?_⟩
        cases sr_mem <;> simp [sr_calloc, strdup, h0, h1, h2] <;> exact ⟨_, _, rfl⟩
      | true =>
        cases hs : sr_gpb_notif_alloc_switch t with
        | none =>
          right; left
          cases sr_mem <;> simp [sr_calloc, strdup, h0, h1, h2] <;> exact ⟨_, _, rfl⟩
        | some c =>
          cases c with
          | none =>
            right; right; left
            cases sr_mem <;>
              simp [sr_calloc, strdup, h0, h1, h2, sr__msg__init, sr__notification__init] <;>
              exact ⟨_, rfl⟩
          | some assign =>
            cases h3 : A (st.allocs + 1 + 1 + 1) with
            | false =>
              left; refine ⟨⟨_, h3⟩, ?_⟩
              cases sr_mem <;> simp [sr_calloc, strdup, h0, h1, h2, h3] <;> exact ⟨_, _, rfl⟩
            | true =>
              right; right; right
              refine ⟨assign, ?_⟩
              cases sr_mem <;>
                simp [sr_calloc, strdup, h0, h1, h2, h3, sr__msg__init,
                  sr__notification__init] <;>
                exact ⟨_, rfl⟩

/-- Every run of `sr_gpb_internal_req_alloc` ends in one of three ways: an
allocation failed, the `default` branch was taken and the message completed
without a sub-message, or the message was completed with one. -/
theorem sr_gpb_internal_req_alloc_cases (A : Nat → Bool) (st : MemState) (sr_mem : Option Nat)
    (op : Sr__Operation) :
    ((∃ k, A k = false) ∧
      ∃ st1 snap, sr_gpb_internal_req_alloc A st sr_mem op = alloc_error st1 snap SR_ERR_NOMEM) ∨
    (A st.allocs = true ∧ A (st.allocs + 1) = true ∧ sr_gpb_internal_req_alloc_switch op = none ∧
      ∃ st1, sr_gpb_internal_req_alloc A st sr_mem op =
        alloc_finish st1 sr_mem
          { type := SR__MSG__MSG_TYPE__INTERNAL_REQUEST, session_id := 0,
            internal_request := some { operation := op } }) ∨
    (∃ assign st1, sr_gpb_internal_req_alloc_switch op = some assign ∧
      sr_gpb_internal_req_alloc A st sr_mem op =
        alloc_finish st1 sr_mem
          { type := SR__MSG__MSG_TYPE__INTERNAL_REQUEST, session_id := 0,
            internal_request := some (assign { operation := op } ProtobufCMessage.init) }) := by
  unfold sr_gpb_internal_req_alloc
  cases h0 : A st.allocs with
  | false =>
    left; refine ⟨⟨_, h0⟩, ?_⟩
    cases sr_mem <;> simp [sr_calloc, h0] <;> exact ⟨_, _, rfl⟩
  | true =>
    cases h1 : A (st.allocs + 1) with
    | false =>
      left; refine ⟨⟨_, h1⟩, ?_⟩
      cases sr_mem <;> simp [sr_calloc, h0, h1] <;> exact ⟨_, _, rfl⟩
    | true =>
      cases hs : sr_gpb_internal_req_alloc_switch op with
      | none =>
        right; left
        refine ⟨rfl, rfl, rfl, ?_⟩
        cases sr_mem <;>
          simp [sr_calloc, h0, h1, sr__msg__init, sr__internal_request__init] <;>
          exact ⟨_, rfl⟩
      | some assign =>
        cases h2 : A (st.allocs + 1 + 1) with
        | false =>
          left; refine ⟨⟨_, h2⟩, ?_⟩
          cases sr_mem <;> simp [sr_calloc, h0, h1, h2] <;> exact ⟨_, _, rfl⟩
        | true =>
          right; right
          refine ⟨assign, ?_⟩
          cases sr_mem <;>
            simp [sr_calloc, h0, h1, h2, sr__msg__init, sr__internal_request__init] <;>
            exact ⟨_, rfl⟩

/-- The request switch has a case exactly for the client operations. -/
theorem sr_gpb_req_alloc_switch_isSome (op : Sr__Operation) :
    (sr_gpb_req_alloc_switch op).isSome = true ↔ op ∈ client_operations := by
  cases op <;> simp [sr_gpb_req_alloc_switch, client_operations]

/-- The response switch has a case exactly for the client operations. -/
theorem sr_gpb_resp_alloc_switch_isSome (op : Sr__Operation) :
    (sr_gpb_resp_alloc_switch op).isSome = true ↔ op ∈ client_operations := by
  cases op <;> simp [sr_gpb_resp_alloc_switch, client_operations]

/-- A request completed by a case of the builder passes the validator. -/
theorem sr_gpb_req_alloc_switch_validate (op : Sr__Operation) (sid : Nat) (m : Option Nat)
    (assign : Sr__Request → ProtobufCMessage → Sr__Request)
    (h : sr_gpb_req_alloc_switch op = some assign) :
    sr_gpb_msg_validate
      { type := SR__MSG__MSG_TYPE__REQUEST, session_id := sid,
        request := some (assign { operation := op } ProtobufCMessage.init),
        _sysrepo_mem_ctx := m }
      SR__MSG__MSG_TYPE__REQUEST op = SR_ERR_OK := by
  cases op <;> simp [sr_gpb_req_alloc_switch] at h <;> subst h <;> rfl

/-- A response completed by a case of the builder passes the validator. -/
theorem sr_gpb_resp_alloc_switch_validate (op : Sr__Operation) (sid : Nat) (m : Option Nat)
    (assign : Sr__Response → ProtobufCMessage → Sr__Response)
    (h : sr_gpb_resp_alloc_switch op = some assign) :
    sr_gpb_msg_validate
      { type := SR__MSG__MSG_TYPE__RESPONSE, session_id := sid,
        response := some (assign { operation := op, result := SR_ERR_OK } ProtobufCMessage.init),
        _sysrepo_mem_ctx := m }
      SR__MSG__MSG_TYPE__RESPONSE op = SR_ERR_OK := by
  cases op <;> simp [sr_gpb_resp_alloc_switch] at h <;> subst h <;> rfl

/-! ## Envelope claims -/

/-- C1: for each of the 35 client operations, every session id, with and
without an arena: if no allocation fails, `sr_gpb_req_alloc` returns OK and the
message it hands back passes `sr_gpb_msg_validate` as a REQUEST of that
operation; likewise `sr_gpb_resp_alloc` and RESPONSE. -/
theorem alloc_then_validate_ok (A : Nat → Bool) (hA : ∀ k, A k = true) (st : MemState)
    (sr_mem : Option Nat) (op : Sr__Operation) (hop : op ∈ client_operations) (sid : Nat) :
    client_operations.length = 35 ∧
    (sr_gpb_req_alloc A st sr_mem op sid).rc = SR_ERR_OK ∧
    (∃ msg, (sr_gpb_req_alloc A st sr_mem op sid).out = some msg ∧
      sr_gpb_msg_validate msg SR__MSG__MSG_TYPE__REQUEST op = SR_ERR_OK) ∧
    (sr_gpb_resp_alloc A st sr_mem op sid).rc = SR_ERR_OK ∧
    (∃ msg, (sr_gpb_resp_alloc A st sr_mem op sid).out = some msg ∧
      sr_gpb_msg_validate msg SR__MSG__MSG_TYPE__RESPONSE op = SR_ERR_OK) := by
  refine ⟨rfl, ?_⟩
  have hreq : (sr_gpb_req_alloc A st sr_mem op sid).rc = SR_ERR_OK ∧
      ∃ msg, (sr_gpb_req_alloc A st sr_mem op sid).out = some msg ∧
        sr_gpb_msg_validate msg SR__MSG__MSG_TYPE__REQUEST op = SR_ERR_OK := by
    rcases sr_gpb_req_alloc_cases A st sr_mem op sid with
      ⟨⟨k, hk⟩, _⟩ | ⟨_, _, hs, _⟩ | ⟨assign, st1, hs, h⟩
    · simp [hA k] at hk
    · have := (sr_gpb_req_alloc_switch_isSome op).2 hop
      simp [hs] at this
    · rw [h]
      refine ⟨alloc_finish_rc _ _ _, _, alloc_finish_out _ _ _ rfl, ?_⟩
      exact sr_gpb_req_alloc_switch_validate op sid sr_mem assign hs
  have hresp : (sr_gpb_resp_alloc A st sr_mem op sid).rc = SR_ERR_OK ∧
      ∃ msg, (sr_gpb_resp_alloc A st sr_mem op sid).out = some msg ∧
        sr_gpb_msg_validate msg SR__MSG__MSG_TYPE__RESPONSE op = SR_ERR_OK := by
    rcases sr_gpb_resp_alloc_cases A st sr_mem op sid with
      ⟨⟨k, hk⟩, _⟩ | ⟨_, _, hs, _⟩ | ⟨assign, st1, hs, h⟩
    · simp [hA k] at hk
    · have := (sr_gpb_resp_alloc_switch_isSome op).2 hop
      simp [hs] at this
    · rw [h]
      refine ⟨alloc_finish_rc _ _ _, _, alloc_finish_out _ _ _ rfl, ?_⟩
      exact sr_gpb_resp_alloc_switch_validate op sid sr_mem assign hs
  exact ⟨hreq.1, hreq.2, hresp.1, hresp.2⟩

/-- Witness of C1: a `GET_ITEMS` request and response with session id 42, built
without an arena while every allocation succeeds. -/
theorem alloc_then_validate_ok_witness :
    SR__OPERATION__GET_ITEMS ∈ client_operations ∧
    (sr_gpb_req_alloc (fun _ => true) {} none SR__OPERATION__GET_ITEMS 42).rc = SR_ERR_OK ∧
    (∃ msg, (sr_gpb_req_alloc (fun _ => true) {} none SR__OPERATION__GET_ITEMS 42).out
        = some msg ∧
      sr_gpb_msg_validate msg SR__MSG__MSG_TYPE__REQUEST SR__OPERATION__GET_ITEMS
        = SR_ERR_OK) :=
  have h : SR__OPERATION__GET_ITEMS ∈ client_operations := by decide
  ⟨h, (alloc_then_validate_ok (fun _ => true) (fun _ => rfl) {} none
        SR__OPERATION__GET_ITEMS h 42).2.1,
      (alloc_then_validate_ok (fun _ => true) (fun _ => rfl) {} none
        SR__OPERATION__GET_ITEMS h 42).2.2.1⟩

/-- C2: for every message, expected kind REQUEST or RESPONSE and operation: if
the body of that kind is absent, or its operation field differs from the
expected operation, or the payload slot belonging to the operation (RPC and
ACTION sharing the slot `rpc`) is absent, `sr_gpb_msg_validate` returns
MALFORMED_MSG. -/
theorem validate_strict (E : Sr__Msg) (kind : Sr__Msg__MsgType) (op : Sr__Operation)
    (hk : kind = SR__MSG__MSG_TYPE__REQUEST ∨ kind = SR__MSG__MSG_TYPE__RESPONSE)
    (h : E.body_operation kind = none ∨
         (∃ o, E.body_operation kind = some o ∧ o ≠ op) ∨
         (∃ s, op.slot = some s ∧ E.body_slot kind s = none)) :
    SR__OPERATION__RPC.slot = some Slot.rpc ∧ SR__OPERATION__ACTION.slot = some Slot.rpc ∧
    sr_gpb_msg_validate E kind op = SR_ERR_MALFORMED_MSG := by
  refine ⟨rfl, rfl, ?_⟩
  rcases hk with rfl | rfl
  · cases hreq : E.request with
    | none => simp [sr_gpb_msg_validate, hreq]
    | some req =>
      by_cases ho : req.operation = op
      · rcases h with h | ⟨o, h, hne⟩ | ⟨s, hs, h⟩
        · simp [Sr__Msg.body_operation, hreq] at h
        · simp [Sr__Msg.body_operation, hreq] at h
          exact absurd (h ▸ ho) hne
        · simp only [Sr__Msg.body_slot, hreq, Option.some_bind] at h
          cases op <;> simp [Sr__Operation.slot] at hs <;> subst hs <;>
            simp [sr_gpb_msg_validate, hreq, ho, check_slot, Sr__Request.slot] at h ⊢ <;>
            simp [h]
      · simp [sr_gpb_msg_validate, hreq, ho]
  · cases hresp : E.response with
    | none => simp [sr_gpb_msg_validate, hresp]
    | some resp =>
      by_cases ho : resp.operation = op
      · rcases h with h | ⟨o, h, hne⟩ | ⟨s, hs, h⟩
        · simp [Sr__Msg.body_operation, hresp] at h
        · simp [Sr__Msg.body_operation, hresp] at h
          exact absurd (h ▸ ho) hne
        · simp only [Sr__Msg.body_slot, hresp, Option.some_bind] at h
          cases op <;> simp [Sr__Operation.slot] at hs <;> subst hs <;>
            simp [sr_gpb_msg_validate, hresp, ho, check_slot, Sr__Response.slot] at h ⊢ <;>
            simp [h]
      · simp [sr_gpb_msg_validate, hresp, ho]

/-- Witness of C2: a `GET_ITEMS` request validated against `GET_ITEM`. -/
theorem validate_strict_witness :
    sr_gpb_msg_validate
      { type := SR__MSG__MSG_TYPE__REQUEST, session_id := 42,
        request := some { operation := SR__OPERATION__GET_ITEMS,
                          get_items_req := some ProtobufCMessage.init } }
      SR__MSG__MSG_TYPE__REQUEST SR__OPERATION__GET_ITEM = SR_ERR_MALFORMED_MSG :=
  (validate_strict
      { type := SR__MSG__MSG_TYPE__REQUEST, session_id := 42,
        request := some { operation := SR__OPERATION__GET_ITEMS,
                          get_items_req := some ProtobufCMessage.init } }
      SR__MSG__MSG_TYPE__REQUEST SR__OPERATION__GET_ITEM (Or.inl rfl)
      (Or.inr (Or.inl ⟨SR__OPERATION__GET_ITEMS, rfl, by decide⟩))).2.2

/-- C3: `sr_gpb_msg_validate` never reads the kind field of the envelope: a
message whose kind is NOTIFICATION, but which carries a request body with
operation `GET_ITEM` and the slot `get_item_req`, is accepted as a REQUEST. -/
theorem validate_ignores_msg_type :
    sr_gpb_msg_validate
      { type := SR__MSG__MSG_TYPE__NOTIFICATION,
        request := some { operation := SR__OPERATION__GET_ITEM,
                          get_item_req := some ProtobufCMessage.init } }
      SR__MSG__MSG_TYPE__REQUEST SR__OPERATION__GET_ITEM = SR_ERR_OK ∧
    (SR__MSG__MSG_TYPE__NOTIFICATION ≠ SR__MSG__MSG_TYPE__REQUEST) := by
  decide

/-- C4: a message of kind NOTIFICATION whose body has subscription type HELLO
or COMMIT_END passes `sr_gpb_msg_validate_notif` for every expected
subscription type, whatever its payload slots hold. -/
theorem validate_notif_carve_out (msg : Sr__Msg) (notif : Sr__Notification)
    (t : Sr__SubscriptionType)
    (hk : msg.type = SR__MSG__MSG_TYPE__NOTIFICATION)
    (hb : msg.notification = some notif)
    (ht : notif.type = SR__SUBSCRIPTION_TYPE__HELLO_SUBS ∨
          notif.type = SR__SUBSCRIPTION_TYPE__COMMIT_END_SUBS) :
    sr_gpb_msg_validate_notif msg t = SR_ERR_OK := by
  rcases ht with ht | ht <;> simp [sr_gpb_msg_validate_notif, hk, hb, ht]

/-- Witness of C4: a HELLO notification without payload, validated against
`MODULE_CHANGE_SUBS`. -/
theorem validate_notif_carve_out_witness :
    sr_gpb_msg_validate_notif
      { type := SR__MSG__MSG_TYPE__NOTIFICATION,
        notification := some { type := SR__SUBSCRIPTION_TYPE__HELLO_SUBS } }
      SR__SUBSCRIPTION_TYPE__MODULE_CHANGE_SUBS = SR_ERR_OK :=
  validate_notif_carve_out
    { type := SR__MSG__MSG_TYPE__NOTIFICATION,
      notification := some { type := SR__SUBSCRIPTION_TYPE__HELLO_SUBS } }
    { type := SR__SUBSCRIPTION_TYPE__HELLO_SUBS }
    SR__SUBSCRIPTION_TYPE__MODULE_CHANGE_SUBS rfl rfl (Or.inl rfl)

/-- C5: `sr_gpb_msg_validate_notif` returns MALFORMED_MSG whenever the message
kind is not NOTIFICATION, or the notification body is absent, or the body's
subscription type is neither HELLO nor COMMIT_END and differs from the
expected type, or the payload slot belonging to the body's type is absent; and
whenever it accepts a body whose type differs from the expected one, that type
is HELLO or COMMIT_END. -/
theorem validate_notif_strict (msg : Sr__Msg) (t : Sr__SubscriptionType) :
    ((msg.type ≠ SR__MSG__MSG_TYPE__NOTIFICATION ∨
      msg.notification = none ∨
      (∃ notif, msg.notification = some notif ∧
        ((notif.type ≠ SR__SUBSCRIPTION_TYPE__HELLO_SUBS ∧
          notif.type ≠ SR__SUBSCRIPTION_TYPE__COMMIT_END_SUBS ∧ notif.type ≠ t) ∨
         (∃ s, notif.type.slot = some s ∧ notif.slot s = none)))) →
      sr_gpb_msg_validate_notif msg t = SR_ERR_MALFORMED_MSG) ∧
    (sr_gpb_msg_validate_notif msg t = SR_ERR_OK →
      ∀ notif, msg.notification = some notif → notif.type ≠ t →
        notif.type = SR__SUBSCRIPTION_TYPE__HELLO_SUBS ∨
        notif.type = SR__SUBSCRIPTION_TYPE__COMMIT_END_SUBS) := by
  constructor
  · intro h
    by_cases hk : msg.type = SR__MSG__MSG_TYPE__NOTIFICATION
    · cases hb : msg.notification with
      | none => simp [sr_gpb_msg_validate_notif, hk, hb]
      | some notif =>
        rcases h with h | h | ⟨n, hn, h⟩
        · exact absurd hk h
        · simp [hb] at h
        · simp only [hb, Option.some.injEq] at hn
          subst hn
          rcases h with ⟨h1, h2, h3⟩ | ⟨s, hs, h⟩
          · simp [sr_gpb_msg_validate_notif, hk, hb, h1, h2, h3]
          · simp only [sr_gpb_msg_validate_notif, hk, hb, if_true]
            split
            · rfl
            · cases hty : notif.type <;> rw [hty] at hs <;>
                simp [Sr__SubscriptionType.slot] at hs <;> subst hs <;>
                simp [Sr__Notification.slot] at h <;> simp [check_slot, h]
    · simp [sr_gpb_msg_validate_notif, hk]
  · intro hok notif hb hne
    by_cases hk : msg.type = SR__MSG__MSG_TYPE__NOTIFICATION
    · simp only [sr_gpb_msg_validate_notif, hk, hb, if_true] at hok
      by_contra hcon
      simp only [not_or] at hcon
      simp [hcon.1, hcon.2, hne] at hok
    · simp [sr_gpb_msg_validate_notif, hk] at hok

/-- Witness of C5: a module-change notification validated against
`SUBTREE_CHANGE_SUBS` is malformed. -/
theorem validate_notif_strict_witness :
    sr_gpb_msg_validate_notif
      { type := SR__MSG__MSG_TYPE__NOTIFICATION,
        notification := some { type := SR__SUBSCRIPTION_TYPE__MODULE_CHANGE_SUBS,
                               module_change_notif := some ProtobufCMessage.init } }
      SR__SUBSCRIPTION_TYPE__SUBTREE_CHANGE_SUBS = SR_ERR_MALFORMED_MSG :=
  (validate_notif_strict
    { type := SR__MSG__MSG_TYPE__NOTIFICATION,
      notification := some { type := SR__SUBSCRIPTION_TYPE__MODULE_CHANGE_SUBS,
                             module_change_notif := some ProtobufCMessage.init } }
    SR__SUBSCRIPTION_TYPE__SUBTREE_CHANGE_SUBS).1
    (Or.inr (Or.inr ⟨_, rfl, Or.inl ⟨by decide, by decide, by decide⟩⟩))

/-- The notification switch of the builder, case by case. -/
theorem sr_gpb_notif_alloc_switch_none (t : Sr__SubscriptionType) :
    sr_gpb_notif_alloc_switch t = none ↔
      t ∈ [SR__SUBSCRIPTION_TYPE__DP_GET_ITEMS_SUBS, SR__SUBSCRIPTION_TYPE__RPC_SUBS,
           SR__SUBSCRIPTION_TYPE__ACTION_SUBS, SR__SUBSCRIPTION_TYPE__EVENT_NOTIF_SUBS] := by
  cases t <;> simp [sr_gpb_notif_alloc_switch]

/-- A notification completed without sub-message is of type HELLO or
COMMIT_END, has no payload slot, and passes the validator. -/
theorem sr_gpb_notif_alloc_switch_plain (t : Sr__SubscriptionType) (dst : String) (id : Nat)
    (m : Option Nat) (h : sr_gpb_notif_alloc_switch t = some none) :
    (t = SR__SUBSCRIPTION_TYPE__HELLO_SUBS ∨ t = SR__SUBSCRIPTION_TYPE__COMMIT_END_SUBS) ∧
    sr_gpb_msg_validate_notif
      { type := SR__MSG__MSG_TYPE__NOTIFICATION, session_id := 0,
        notification := some { type := t, subscription_id := id,
                               destination_address := some dst },
        _sysrepo_mem_ctx := m } t = SR_ERR_OK := by
  cases t <;> simp [sr_gpb_notif_alloc_switch] at h <;>
    simp [sr_gpb_msg_validate_notif]

/-- A notification completed by a case with sub-message has the slot of its
type populated and passes the validator. -/
theorem sr_gpb_notif_alloc_switch_slot (t : Sr__SubscriptionType) (dst : String) (id : Nat)
    (m : Option Nat) (assign : Sr__Notification → ProtobufCMessage → Sr__Notification)
    (h : sr_gpb_notif_alloc_switch t = some (some assign)) :
    (∃ s, t.slot = some s ∧
      ((assign { type := t, subscription_id := id, destination_address := some dst }
          ProtobufCMessage.init).slot s).isSome = true) ∧
    sr_gpb_msg_validate_notif
      { type := SR__MSG__MSG_TYPE__NOTIFICATION, session_id := 0,
        notification := some (assign { type := t, subscription_id := id,
                                       destination_address := some dst }
                                ProtobufCMessage.init),
        _sysrepo_mem_ctx := m } t = SR_ERR_OK := by
  cases t <;> simp [sr_gpb_notif_alloc_switch] at h <;> subst h <;>
    simp [sr_gpb_msg_validate_notif, check_slot, Sr__SubscriptionType.slot,
      Sr__Notification.slot]

/-- C6, as the code has it: for a subscription type among module-install,
feature-enable, module-change, subtree-change, hello and commit-end, every
destination and subscription id, if no allocation fails `sr_gpb_notif_alloc`
returns OK, the slot of the type is populated unless the type is hello or
commit-end, and the message passes `sr_gpb_msg_validate_notif`; for
dp-get-items, rpc, action and event-notification it returns UNSUPPORTED and
hands no message back. -/
theorem notif_alloc_then_validate (A : Nat → Bool) (hA : ∀ k, A k = true) (st : MemState)
    (sr_mem : Option Nat) (t : Sr__SubscriptionType) (dst : String) (id : Nat) :
    (t ∈ [SR__SUBSCRIPTION_TYPE__DP_GET_ITEMS_SUBS, SR__SUBSCRIPTION_TYPE__RPC_SUBS,
          SR__SUBSCRIPTION_TYPE__ACTION_SUBS, SR__SUBSCRIPTION_TYPE__EVENT_NOTIF_SUBS] →
      (sr_gpb_notif_alloc A st sr_mem t dst id).rc = SR_ERR_UNSUPPORTED ∧
      (sr_gpb_notif_alloc A st sr_mem t dst id).out = none) ∧
    (t ∈ [SR__SUBSCRIPTION_TYPE__MODULE_INSTALL_SUBS, SR__SUBSCRIPTION_TYPE__FEATURE_ENABLE_SUBS,
          SR__SUBSCRIPTION_TYPE__MODULE_CHANGE_SUBS, SR__SUBSCRIPTION_TYPE__SUBTREE_CHANGE_SUBS,
          SR__SUBSCRIPTION_TYPE__HELLO_SUBS, SR__SUBSCRIPTION_TYPE__COMMIT_END_SUBS] →
      (sr_gpb_notif_alloc A st sr_mem t dst id).rc = SR_ERR_OK ∧
      ∃ msg notif, (sr_gpb_notif_alloc A st sr_mem t dst id).out = some msg ∧
        msg.notification = some notif ∧
        (t ≠ SR__SUBSCRIPTION_TYPE__HELLO_SUBS → t ≠ SR__SUBSCRIPTION_TYPE__COMMIT_END_SUBS →
          ∃ s, t.slot = some s ∧ (notif.slot s).isSome = true) ∧
        sr_gpb_msg_validate_notif msg t = SR_ERR_OK) := by
  rcases sr_gpb_notif_alloc_cases A st sr_mem t dst id with
    ⟨⟨k, hk⟩, _⟩ | ⟨hs, st1, snap, h⟩ | ⟨hs, st1, h⟩ | ⟨assign, st1, hs, h⟩
  · simp [hA k] at hk
  · constructor
    · intro _
      rw [h]
      exact ⟨rfl, rfl⟩
    · intro ht
      have := (sr_gpb_notif_alloc_switch_none t).1 hs
      revert ht this
      cases t <;> simp
  · constructor
    · intro ht
      have := (sr_gpb_notif_alloc_switch_none t).2 ht
      simp [hs] at this
    · intro _
      rw [h]
      have hp := sr_gpb_notif_alloc_switch_plain t dst id sr_mem hs
      refine ⟨alloc_finish_rc _ _ _, _, _, alloc_finish_out _ _ _ rfl, rfl, ?_, hp.2⟩
      intro h1 h2
      rcases hp.1 with h3 | h3
      · exact absurd h3 h1
      · exact absurd h3 h2
  · constructor
    · intro ht
      have := (sr_gpb_notif_alloc_switch_none t).2 ht
      simp [hs] at this
    · intro _
      rw [h]
      have hp := sr_gpb_notif_alloc_switch_slot t dst id sr_mem assign hs
      exact ⟨alloc_finish_rc _ _ _, _, _, alloc_finish_out _ _ _ rfl, rfl, fun _ _ => hp.1, hp.2⟩

/-- Witness of C6 as amended: a module-change notification built without an
arena while every allocation succeeds. -/
theorem notif_alloc_then_validate_witness :
    (sr_gpb_notif_alloc (fun _ => true) {} none SR__SUBSCRIPTION_TYPE__MODULE_CHANGE_SUBS
        "/tmp/sub.sock" 7).rc = SR_ERR_OK ∧
    ∃ msg notif,
      (sr_gpb_notif_alloc (fun _ => true) {} none SR__SUBSCRIPTION_TYPE__MODULE_CHANGE_SUBS
        "/tmp/sub.sock" 7).out = some msg ∧
      msg.notification = some notif ∧
      (SR__SUBSCRIPTION_TYPE__MODULE_CHANGE_SUBS ≠ SR__SUBSCRIPTION_TYPE__HELLO_SUBS →
        SR__SUBSCRIPTION_TYPE__MODULE_CHANGE_SUBS ≠ SR__SUBSCRIPTION_TYPE__COMMIT_END_SUBS →
        ∃ s, SR__SUBSCRIPTION_TYPE__MODULE_CHANGE_SUBS.slot = some s ∧
          (notif.slot s).isSome = true) ∧
      sr_gpb_msg_validate_notif msg SR__SUBSCRIPTION_TYPE__MODULE_CHANGE_SUBS = SR_ERR_OK :=
  (notif_alloc_then_validate (fun _ => true) (fun _ => rfl) {} none
    SR__SUBSCRIPTION_TYPE__MODULE_CHANGE_SUBS "/tmp/sub.sock" 7).2 (by decide)

/-- Counterexample to C6 as stated: for the subscription type dp-get-items,
with every allocation succeeding, `sr_gpb_notif_alloc` does not return OK: it
returns UNSUPPORTED and hands no message back. -/
theorem notif_alloc_dp_get_items_unsupported :
    SR__SUBSCRIPTION_TYPE__DP_GET_ITEMS_SUBS ∈ subscription_types ∧
    (sr_gpb_notif_alloc (fun _ => true) {} none SR__SUBSCRIPTION_TYPE__DP_GET_ITEMS_SUBS
        "/tmp/sub.sock" 7).rc = SR_ERR_UNSUPPORTED ∧
    (sr_gpb_notif_alloc (fun _ => true) {} none SR__SUBSCRIPTION_TYPE__DP_GET_ITEMS_SUBS
        "/tmp/sub.sock" 7).rc ≠ SR_ERR_OK ∧
    (sr_gpb_notif_alloc (fun _ => true) {} none SR__SUBSCRIPTION_TYPE__DP_GET_ITEMS_SUBS
        "/tmp/sub.sock" 7).out = none := by
  refine ⟨by decide, rfl, ?_, rfl⟩
  decide

/-- A request completed by a case of the builder carries the operation and
exactly the slot that belongs to it. -/
theorem sr_gpb_req_alloc_switch_shape (op : Sr__Operation)
    (assign : Sr__Request → ProtobufCMessage → Sr__Request)
    (h : sr_gpb_req_alloc_switch op = some assign) :
    (assign { operation := op } ProtobufCMessage.init).operation = op ∧
    ∃ s, op.slot = some s ∧
      ∀ s1, ((assign { operation := op } ProtobufCMessage.init).slot s1).isSome = true ↔ s1 = s := by
  cases op <;> simp [sr_gpb_req_alloc_switch] at h <;> subst h <;>
    refine ⟨rfl, _, rfl, ?_⟩ <;> intro s1 <;> cases s1 <;> simp [Sr__Request.slot]

/-- A response completed by a case of the builder carries the operation, the
result OK and exactly the slot that belongs to the operation. -/
theorem sr_gpb_resp_alloc_switch_shape (op : Sr__Operation)
    (assign : Sr__Response → ProtobufCMessage → Sr__Response)
    (h : sr_gpb_resp_alloc_switch op = some assign) :
    (assign { operation := op, result := SR_ERR_OK } ProtobufCMessage.init).operation = op ∧
    (assign { operation := op, result := SR_ERR_OK } ProtobufCMessage.init).result = SR_ERR_OK ∧
    ∃ s, op.slot = some s ∧
      ∀ s1, ((assign { operation := op, result := SR_ERR_OK } ProtobufCMessage.init).slot s1).isSome
        = true ↔ s1 = s := by
  cases op <;> simp [sr_gpb_resp_alloc_switch] at h <;> subst h <;>
    refine ⟨rfl, rfl, _, rfl, ?_⟩ <;> intro s1 <;> cases s1 <;> simp [Sr__Response.slot]

/-- C7: whenever `sr_gpb_req_alloc` returns OK, the message handed back has kind
REQUEST, the given session id, a request body whose operation field is the
given operation, and exactly one payload slot present, the one belonging to
the operation; whenever `sr_gpb_resp_alloc` returns OK the same holds for kind
RESPONSE and the response body, whose result is OK.  RPC and ACTION both
belong to the slot `rpc`. -/
theorem alloc_ok_shape (A : Nat → Bool) (st : MemState) (sr_mem : Option Nat)
    (op : Sr__Operation) (sid : Nat) :
    ((sr_gpb_req_alloc A st sr_mem op sid).rc = SR_ERR_OK →
      ∃ msg req s, (sr_gpb_req_alloc A st sr_mem op sid).out = some msg ∧
        msg.type = SR__MSG__MSG_TYPE__REQUEST ∧ msg.session_id = sid ∧
        msg.request = some req ∧ req.operation = op ∧
        op.slot = some s ∧ (∀ s1, (req.slot s1).isSome = true ↔ s1 = s)) ∧
    ((sr_gpb_resp_alloc A st sr_mem op sid).rc = SR_ERR_OK →
      ∃ msg resp s, (sr_gpb_resp_alloc A st sr_mem op sid).out = some msg ∧
        msg.type = SR__MSG__MSG_TYPE__RESPONSE ∧ msg.session_id = sid ∧
        msg.response = some resp ∧ resp.operation = op ∧ resp.result = SR_ERR_OK ∧
        op.slot = some s ∧ (∀ s1, (resp.slot s1).isSome = true ↔ s1 = s)) ∧
    SR__OPERATION__RPC.slot = some Slot.rpc ∧ SR__OPERATION__ACTION.slot = some Slot.rpc := by
  refine ⟨?_, ?_, rfl, rfl⟩
  · intro hok
    rcases sr_gpb_req_alloc_cases A st sr_mem op sid with
      ⟨_, st1, snap, h⟩ | ⟨_, _, _, st1, snap, h⟩ | ⟨assign, st1, hs, h⟩
    · rw [h] at hok; cases hok
    · rw [h] at hok; cases hok
    · obtain ⟨h1, s, h2, h3⟩ := sr_gpb_req_alloc_switch_shape op assign hs
      rw [h]
      exact ⟨_, _, s, alloc_finish_out _ _ _ rfl, rfl, rfl, rfl, h1, h2, h3⟩
  · intro hok
    rcases sr_gpb_resp_alloc_cases A st sr_mem op sid with
      ⟨_, st1, snap, h⟩ | ⟨_, _, _, st1, snap, h⟩ | ⟨assign, st1, hs, h⟩
    · rw [h] at hok; cases hok
    · rw [h] at hok; cases hok
    · obtain ⟨h1, h0, s, h2, h3⟩ := sr_gpb_resp_alloc_switch_shape op assign hs
      rw [h]
      exact ⟨_, _, s, alloc_finish_out _ _ _ rfl, rfl, rfl, rfl, h1, h0, h2, h3⟩

/-- Witness of C7: the RPC request with session id 7, built in arena 3 while
every allocation succeeds. -/
theorem alloc_ok_shape_witness :
    (sr_gpb_req_alloc (fun _ => true) {} (some 3) SR__OPERATION__RPC 7).rc = SR_ERR_OK ∧
    ∃ msg req s,
      (sr_gpb_req_alloc (fun _ => true) {} (some 3) SR__OPERATION__RPC 7).out = some msg ∧
      msg.type = SR__MSG__MSG_TYPE__REQUEST ∧ msg.session_id = 7 ∧
      msg.request = some req ∧ req.operation = SR__OPERATION__RPC ∧
      SR__OPERATION__RPC.slot = some s ∧ (∀ s1, (req.slot s1).isSome = true ↔ s1 = s) :=
  have h : (sr_gpb_req_alloc (fun _ => true) {} (some 3) SR__OPERATION__RPC 7).rc
      = SR_ERR_OK := rfl
  ⟨h, (alloc_ok_shape (fun _ => true) {} (some 3) SR__OPERATION__RPC 7).1 h⟩

/-- C8: for every operation code that is not one of the 35 client operations
(the six internal operations and every unrecognized code among them),
`sr_gpb_req_alloc` and `sr_gpb_resp_alloc` hand no message back and do not
return OK; they return UNSUPPORTED as soon as the two allocations that precede
the `switch` (envelope and body) succeed. -/
theorem alloc_unsupported (A : Nat → Bool) (st : MemState) (sr_mem : Option Nat)
    (op : Sr__Operation) (sid : Nat)
    (hop : op ∈ internal_operations ∨ (∃ c, op = Sr__Operation.unrecognized c) ∨
           op ∉ client_operations) :
    op ∉ client_operations ∧
    (sr_gpb_req_alloc A st sr_mem op sid).out = none ∧
    (sr_gpb_req_alloc A st sr_mem op sid).rc ≠ SR_ERR_OK ∧
    (A st.allocs = true → A (st.allocs + 1) = true →
      (sr_gpb_req_alloc A st sr_mem op sid).rc = SR_ERR_UNSUPPORTED) ∧
    (sr_gpb_resp_alloc A st sr_mem op sid).out = none ∧
    (sr_gpb_resp_alloc A st sr_mem op sid).rc ≠ SR_ERR_OK ∧
    (A st.allocs = true → A (st.allocs + 1) = true →
      (sr_gpb_resp_alloc A st sr_mem op sid).rc = SR_ERR_UNSUPPORTED) := by
  have hnc : op ∉ client_operations := by
    rcases hop with h | ⟨c, rfl⟩ | h
    · revert h
      cases op <;> simp [internal_operations, client_operations]
    · simp [client_operations]
    · exact h
  have hreq : sr_gpb_req_alloc_switch op = none := by
    cases hs : sr_gpb_req_alloc_switch op with
    | none => rfl
    | some f => exact absurd ((sr_gpb_req_alloc_switch_isSome op).1 (by simp [hs])) hnc
  have hresp : sr_gpb_resp_alloc_switch op = none := by
    cases hs : sr_gpb_resp_alloc_switch op with
    | none => rfl
    | some f => exact absurd ((sr_gpb_resp_alloc_switch_isSome op).1 (by simp [hs])) hnc
  refine ⟨hnc, ?_, ?_, ?_, ?_, ?_, ?_⟩
  · rcases sr_gpb_req_alloc_cases A st sr_mem op sid with
      ⟨_, st1, snap, h⟩ | ⟨_, _, _, st1, snap, h⟩ | ⟨assign, st1, hs, h⟩
    · rw [h]; rfl
    · rw [h]; rfl
    · simp [hreq] at hs
  · rcases sr_gpb_req_alloc_cases A st sr_mem op sid with
      ⟨_, st1, snap, h⟩ | ⟨_, _, _, st1, snap, h⟩ | ⟨assign, st1, hs, h⟩
    · rw [h]; simp [alloc_error]
    · rw [h]; simp [alloc_error]
    · simp [hreq] at hs
  · intro h0 h1
    unfold sr_gpb_req_alloc
    cases sr_mem <;> simp [sr_calloc, h0, h1, hreq, alloc_error]
  · rcases sr_gpb_resp_alloc_cases A st sr_mem op sid with
      ⟨_, st1, snap, h⟩ | ⟨_, _, _, st1, snap, h⟩ | ⟨assign, st1, hs, h⟩
    · rw [h]; rfl
    · rw [h]; rfl
    · simp [hresp] at hs
  · rcases sr_gpb_resp_alloc_cases A st sr_mem op sid with
      ⟨_, st1, snap, h⟩ | ⟨_, _, _, st1, snap, h⟩ | ⟨assign, st1, hs, h⟩
    · rw [h]; simp [alloc_error]
    · rw [h]; simp [alloc_error]
    · simp [hresp] at hs
  · intro h0 h1
    unfold sr_gpb_resp_alloc
    cases sr_mem <;> simp [sr_calloc, h0, h1, hresp, alloc_error]

/-- Witness of C8: the internal operation `UNSUBSCRIBE_DESTINATION`, requested
without an arena while every allocation succeeds. -/
theorem alloc_unsupported_witness :
    SR__OPERATION__UNSUBSCRIBE_DESTINATION ∈ internal_operations ∧
    (sr_gpb_req_alloc (fun _ => true) {} none SR__OPERATION__UNSUBSCRIBE_DESTINATION 1).out
      = none ∧
    (sr_gpb_req_alloc (fun _ => true) {} none SR__OPERATION__UNSUBSCRIBE_DESTINATION 1).rc
      = SR_ERR_UNSUPPORTED ∧
    (sr_gpb_resp_alloc (fun _ => true) {} none SR__OPERATION__UNSUBSCRIBE_DESTINATION 1).out
      = none ∧
    (sr_gpb_resp_alloc (fun _ => true) {} none SR__OPERATION__UNSUBSCRIBE_DESTINATION 1).rc
      = SR_ERR_UNSUPPORTED :=
  have h : SR__OPERATION__UNSUBSCRIBE_DESTINATION ∈ internal_operations := by decide
  have t := alloc_unsupported (fun _ => true) {} none SR__OPERATION__UNSUBSCRIBE_DESTINATION 1
    (Or.inl h)
  ⟨h, t.2.1, t.2.2.2.1 rfl rfl, t.2.2.2.2.1, t.2.2.2.2.2.2 rfl rfl⟩

/-- C9: `sr_gpb_internal_req_alloc` does not reject an operation outside the six
internal ones.  Called for the client operation `SESSION_START`, with every
allocation succeeding, it returns OK and hands back an envelope of kind
INTERNAL_REQUEST with that operation and no payload slot. -/
theorem internal_req_alloc_accepts_client_op :
    SR__OPERATION__SESSION_START ∉ internal_operations ∧
    (sr_gpb_internal_req_alloc (fun _ => true) {} none SR__OPERATION__SESSION_START).rc
      = SR_ERR_OK ∧
    (sr_gpb_internal_req_alloc (fun _ => true) {} none SR__OPERATION__SESSION_START).out
      = some { type := SR__MSG__MSG_TYPE__INTERNAL_REQUEST, session_id := 0,
               internal_request := some { operation := SR__OPERATION__SESSION_START } } := by
  refine ⟨by decide, rfl, rfl⟩

/-! ## Typed-value claims -/

theorem wrap_signed_8 (x : Int) (h : -(2 ^ 7 : Int) ≤ x ∧ x < (2 ^ 7 : Int)) :
    wrap_signed 8 x = x := by
  unfold wrap_signed Int.bmod
  norm_num at h ⊢
  omega

theorem wrap_signed_16 (x : Int) (h : -(2 ^ 15 : Int) ≤ x ∧ x < (2 ^ 15 : Int)) :
    wrap_signed 16 x = x := by
  unfold wrap_signed Int.bmod
  norm_num at h ⊢
  omega

theorem wrap_signed_32 (x : Int) (h : -(2 ^ 31 : Int) ≤ x ∧ x < (2 ^ 31 : Int)) :
    wrap_signed 32 x = x := by
  unfold wrap_signed Int.bmod
  norm_num at h ⊢
  omega

theorem wrap_signed_64 (x : Int) (h : -(2 ^ 63 : Int) ≤ x ∧ x < (2 ^ 63 : Int)) :
    wrap_signed 64 x = x := by
  unfold wrap_signed Int.bmod
  norm_num at h ⊢
  omega

theorem wrap_unsigned_of_lt (w x : Nat) (h : x < 2 ^ w) : wrap_unsigned w x = x :=
  Nat.mod_eq_of_lt h

/-- Encoding an encodable value succeeds when no allocation fails, and copying
the wire value into a zero-filled value of any arena gives back the instance
path, tag, default flag and payload. -/
theorem sr_dup_val_t_to_gpb_decodes (A : Nat → Bool) (hA : ∀ k, A k = true) (v : sr_val_t)
    (hv : v.encodable) (st : MemState) :
    (sr_dup_val_t_to_gpb A st v).rc = SR_ERR_OK ∧
    ∃ gpb, (sr_dup_val_t_to_gpb A st v).out = some gpb ∧
      ∀ st2 sr_mem, ∃ w st3,
        sr_copy_gpb_to_val_t A st2 (some gpb) { _sr_mem := sr_mem } = (SR_ERR_OK, w, st3) ∧
        v.same w := by
  obtain ⟨hx, ht, hs, hr⟩ := hv
  have hAA : A = fun _ => true := funext hA
  subst hAA
  obtain ⟨m, xp, dflt, ty, data⟩ := v
  obtain ⟨bin, bits, b, dec, en, idref, inst, i8, i16, i32, i64, str, u8, u16, u32, u64,
    axml, adata⟩ := data
  cases xp with
  | none => exact absurd rfl hx
  | some x =>
    cases m <;> cases ty <;>
    first
    | (exfalso; simp [supported_types] at ht; done)
    | (refine ⟨rfl, _, rfl, ?_⟩
       intro st2 sr_mem
       cases sr_mem <;> exact ⟨_, _, rfl, rfl, rfl, rfl, rfl⟩)
    | (obtain ⟨s, hs⟩ := hs
       simp only at hs
       subst hs
       refine ⟨rfl, _, rfl, ?_⟩
       intro st2 sr_mem
       cases sr_mem <;> exact ⟨_, _, rfl, rfl, rfl, rfl, rfl⟩)
    | (refine ⟨rfl, _, rfl, ?_⟩
       intro st2 sr_mem
       cases sr_mem <;> refine ⟨_, _, rfl, rfl, rfl, rfl, ?_⟩ <;>
         first
         | exact congrArg sr_payload.sint (wrap_signed_8 _ hr)
         | exact congrArg sr_payload.sint (wrap_signed_16 _ hr)
         | exact congrArg sr_payload.sint (wrap_signed_32 _ hr)
         | exact congrArg sr_payload.sint (wrap_signed_64 _ hr)
         | exact congrArg sr_payload.uint (wrap_unsigned_of_lt _ _ hr))

theorem sr_calloc_fst (A : Nat → Bool) (hA : ∀ k, A k = true) (st : MemState)
    (m : Option Nat) (n : Nat) : (sr_calloc A st m n).1 = true := by
  cases m <;> simp [sr_calloc, hA]

/-- The two conversion loops compose to the identity on encodable values, up
to the owning arena, when no allocation fails. -/
theorem sr_values_loops_roundtrip (A : Nat → Bool) (hA : ∀ k, A k = true) :
    ∀ (vs : List sr_val_t), (∀ v ∈ vs, v.encodable) → ∀ st,
      ∃ gpbs st1, sr_values_sr_to_gpb_loop A st vs = (SR_ERR_OK, gpbs, st1) ∧
        gpbs.length = vs.length ∧
        ∀ st2 sr_mem, ∃ ws st3,
          sr_values_gpb_to_sr_loop A st2 sr_mem gpbs = (SR_ERR_OK, ws, st3) ∧
          List.Forall₂ sr_val_t.same vs ws := by
  intro vs
  induction vs with
  | nil =>
    intro _ st
    exact ⟨[], st, rfl, rfl, fun st2 _ => ⟨[], st2, rfl, List.Forall₂.nil⟩⟩
  | cons v vs ih =>
    intro hvs st
    have hv : v.encodable := hvs v (List.mem_cons_self _ _)
    have hrest : ∀ u ∈ vs, u.encodable := fun u hu => hvs u (List.mem_cons_of_mem _ hu)
    obtain ⟨hrc, gpb, hout, hdec⟩ := sr_dup_val_t_to_gpb_decodes A hA v hv st
    cases hd : sr_dup_val_t_to_gpb A st v with
    | mk rc out st1 =>
      rw [hd] at hrc hout
      simp only at hrc hout
      subst hrc hout
      obtain ⟨gpbs, st1a, hloop, hlen, hback⟩ := ih hrest st1
      refine ⟨some gpb :: gpbs, st1a, ?_, by simp [hlen], ?_⟩
      · simp [sr_values_sr_to_gpb_loop, hd, hloop]
      · intro st2 sr_mem
        obtain ⟨w, st3, hw, hsame⟩ := hdec st2 sr_mem
        obtain ⟨ws, st4, hws, hall⟩ := hback st3 sr_mem
        exact ⟨w :: ws, st4, by simp [sr_values_gpb_to_sr_loop, hw, hws],
          List.Forall₂.cons hsame hall⟩

/-- C10: for every typed value that has an instance path, one of the 22
supported tags, a present string payload if its tag is text-like, and a payload
that fits its C type: when no allocation fails, `sr_dup_val_t_to_gpb` succeeds
and `sr_dup_gpb_to_val_t`, applied to its output for any arena, succeeds with a
value equal to the original in instance path, tag, default flag and payload;
and for every array of such values `sr_values_gpb_to_sr` applied to the output
of `sr_values_sr_to_gpb` succeeds with the same count and, element by element
in the same order, equal values. -/
theorem value_roundtrip (A : Nat → Bool) (hA : ∀ k, A k = true)
    (v : sr_val_t) (hv : v.encodable) (vs : List sr_val_t) (hvs : ∀ u ∈ vs, u.encodable) :
    supported_types.length = 22 ∧
    (∀ st, (sr_dup_val_t_to_gpb A st v).rc = SR_ERR_OK ∧
      ∃ gpb, (sr_dup_val_t_to_gpb A st v).out = some gpb ∧
        ∀ st2 sr_mem, (sr_dup_gpb_to_val_t A st2 sr_mem (some gpb)).rc = SR_ERR_OK ∧
          ∃ w, (sr_dup_gpb_to_val_t A st2 sr_mem (some gpb)).out = some w ∧ v.same w) ∧
    (∀ st, (sr_values_sr_to_gpb A st (some vs) vs.length).rc = SR_ERR_OK ∧
      ∃ arr, (sr_values_sr_to_gpb A st (some vs) vs.length).out = some arr ∧
        ∀ st2 sr_mem, (sr_values_gpb_to_sr A st2 sr_mem arr.ptr arr.cnt).rc = SR_ERR_OK ∧
          ∃ res, (sr_values_gpb_to_sr A st2 sr_mem arr.ptr arr.cnt).out = some res ∧
            res.cnt = vs.length ∧ List.Forall₂ sr_val_t.same vs res.elems) := by
  refine ⟨rfl, ?_, ?_⟩
  · intro st
    obtain ⟨hrc, gpb, hout, hdec⟩ := sr_dup_val_t_to_gpb_decodes A hA v hv st
    refine ⟨hrc, gpb, hout, ?_⟩
    intro st2 sr_mem
    have hc := sr_calloc_fst A hA st2 sr_mem 1
    cases hcal : sr_calloc A st2 sr_mem 1 with
    | mk b st3 =>
      rw [hcal] at hc
      simp only at hc
      subst hc
      obtain ⟨w, st4, hw, hsame⟩ := hdec st3 sr_mem
      refine ⟨?_, w, ?_, hsame⟩ <;> simp [sr_dup_gpb_to_val_t, hcal, hw]
  · intro st
    cases vs with
    | nil =>
      refine ⟨rfl, ⟨none, 0⟩, rfl, ?_⟩
      intro st2 sr_mem
      exact ⟨rfl, ⟨none, 0⟩, rfl, rfl, List.Forall₂.nil⟩
    | cons u us =>
      have hc := sr_calloc_fst A hA st u._sr_mem (u :: us).length
      cases hcal : sr_calloc A st u._sr_mem (u :: us).length with
      | mk b st1 =>
        rw [hcal] at hc
        simp only at hc
        subst hc
        obtain ⟨gpbs, st1a, hloop, hlen, hback⟩ :=
          sr_values_loops_roundtrip A hA (u :: us) hvs st1
        have hpos : (u :: us).length > 0 := by simp
        have e1 : sr_values_sr_to_gpb A st (some (u :: us)) (u :: us).length =
            { rc := SR_ERR_OK, out := some { ptr := some gpbs, cnt := (u :: us).length },
              st := st1a } := by
          simp only [sr_values_sr_to_gpb, hpos, if_true, List.headD_cons, hcal,
            List.take_length, hloop]
        rw [e1]
        refine ⟨rfl, _, rfl, ?_⟩
        intro st2 sr_mem
        have hc2 := sr_calloc_fst A hA st2 sr_mem (u :: us).length
        cases hcal2 : sr_calloc A st2 sr_mem (u :: us).length with
        | mk b2 st3 =>
          rw [hcal2] at hc2
          simp only at hc2
          subst hc2
          obtain ⟨ws, st4, hws, hall⟩ := hback st3 sr_mem
          have htake : gpbs.take (u :: us).length = gpbs := by
            rw [← hlen]; exact List.take_length _
          have e2 : ∃ st5, sr_values_gpb_to_sr A st2 sr_mem (some gpbs) (u :: us).length =
              { rc := SR_ERR_OK, out := some { ptr := some ws, cnt := (u :: us).length },
                st := st5 } := by
            simp only [sr_values_gpb_to_sr, hpos, if_true, hcal2, htake, hws]
            exact ⟨_, rfl⟩
          obtain ⟨st5, e2⟩ := e2
          rw [e2]
          refine ⟨rfl, _, rfl, rfl, ?_⟩
          have hl : ws.length = (u :: us).length := (List.Forall₂.length_eq hall).symm
          have : (CArray.mk (some ws) (u :: us).length).elems = ws := by
            simp only [CArray.elems]
            rw [← hl]; exact List.take_length _
          rw [this]
          exact hall

/-- Witness of C10: the INT32 value -5 at `/m:n` and the array holding it and
the string "abc" at `/m:s`, converted without an arena while every allocation
succeeds. -/
theorem value_roundtrip_witness :
    (sr_dup_val_t_to_gpb (fun _ => true) {}
        { xpath := some "/m:n", type := SR_INT32_T, data := { int32_val := -5 } }).rc
      = SR_ERR_OK ∧
    (∃ gpb, (sr_dup_val_t_to_gpb (fun _ => true) {}
        { xpath := some "/m:n", type := SR_INT32_T, data := { int32_val := -5 } }).out
        = some gpb ∧
      (sr_dup_gpb_to_val_t (fun _ => true) {} none (some gpb)).rc = SR_ERR_OK ∧
      ∃ w, (sr_dup_gpb_to_val_t (fun _ => true) {} none (some gpb)).out = some w ∧
        sr_val_t.same
          { xpath := some "/m:n", type := SR_INT32_T, data := { int32_val := -5 } } w) ∧
    (∃ arr, (sr_values_sr_to_gpb (fun _ => true) {}
        (some [{ xpath := some "/m:n", type := SR_INT32_T, data := { int32_val := -5 } },
               { xpath := some "/m:s", type := SR_STRING_T,
                 data := { string_val := some "abc" } }]) 2).out = some arr ∧
      ∃ res, (sr_values_gpb_to_sr (fun _ => true) {} none arr.ptr arr.cnt).out = some res ∧
        res.cnt = 2 ∧
        List.Forall₂ sr_val_t.same
          [{ xpath := some "/m:n", type := SR_INT32_T, data := { int32_val := -5 } },
           { xpath := some "/m:s", type := SR_STRING_T, data := { string_val := some "abc" } }]
          res.elems) :=
  have h1 : sr_val_t.encodable
      { xpath := some "/m:n", type := SR_INT32_T, data := { int32_val := -5 } } :=
    ⟨by decide, by decide, trivial, by decide, by decide⟩
  have h2 : sr_val_t.encodable
      { xpath := some "/m:s", type := SR_STRING_T, data := { string_val := some "abc" } } :=
    ⟨by decide, by decide, ⟨"abc", rfl⟩, trivial⟩
  have t := value_roundtrip (fun _ => true) (fun _ => rfl)
    { xpath := some "/m:n", type := SR_INT32_T, data := { int32_val := -5 } } h1
    [{ xpath := some "/m:n", type := SR_INT32_T, data := { int32_val := -5 } },
     { xpath := some "/m:s", type := SR_STRING_T, data := { string_val := some "abc" } }]
    (by
      intro u hu
      simp only [List.mem_cons, List.mem_singleton, List.not_mem_nil, or_false] at hu
      rcases hu with rfl | rfl
      · exact h1
      · exact h2)
  ⟨(t.2.1 {}).1,
   (t.2.1 {}).2.imp fun _ h => ⟨h.1, (h.2 {} none).1, (h.2 {} none).2⟩,
   (t.2.2 {}).2.imp fun _ h => ⟨h.1, (h.2 {} none).2⟩⟩

/-- C11: for every typed value with a supported tag, when no allocation fails,
`sr_dup_val_t_to_gpb` returns OK and the wire value it hands back carries the
wire tag corresponding to the value's tag, the instance path and the default
flag, and exactly the one payload field of that tag: the scalar with its
presence flag set (and no other presence flag) for BOOL, DECIMAL64, INT8..INT64
and UINT8..UINT64, the string in the field of the tag only for text-like tags,
no payload field and no presence flag for LIST, CONTAINER, CONTAINER_PRESENCE
and LEAF_EMPTY. -/
theorem encode_touches_one_field (A : Nat → Bool) (hA : ∀ k, A k = true) (v : sr_val_t)
    (ht : v.type ∈ supported_types) (st : MemState) :
    (sr_dup_val_t_to_gpb A st v).rc = SR_ERR_OK ∧
    (sr_dup_val_t_to_gpb A st v).out = some (wire_value_spec v) := by
  have hAA : A = fun _ => true := funext hA
  subst hAA
  obtain ⟨m, xp, dflt, ty, data⟩ := v
  obtain ⟨bin, bits, b, dec, en, idref, inst, i8, i16, i32, i64, str, u8, u16, u32, u64,
    axml, adata⟩ := data
  cases m <;> cases xp <;> cases ty <;>
    first
    | (exfalso; simp [supported_types] at ht; done)
    | exact ⟨rfl, rfl⟩
    | (cases bin <;> exact ⟨rfl, rfl⟩)
    | (cases bits <;> exact ⟨rfl, rfl⟩)
    | (cases en <;> exact ⟨rfl, rfl⟩)
    | (cases idref <;> exact ⟨rfl, rfl⟩)
    | (cases inst <;> exact ⟨rfl, rfl⟩)
    | (cases str <;> exact ⟨rfl, rfl⟩)
    | (cases axml <;> exact ⟨rfl, rfl⟩)
    | (cases adata <;> exact ⟨rfl, rfl⟩)

/-- Witness of C11: a DECIMAL64 value at `/m:d`, encoded without an arena while
every allocation succeeds, yields a wire value with `has_decimal64_val = true`
and no other presence flag or payload field. -/
theorem encode_touches_one_field_witness :
    (sr_dup_val_t_to_gpb (fun _ => true) {}
        { xpath := some "/m:d", type := SR_DECIMAL64_T,
          data := { decimal64_val := ⟨4614256650576692846⟩ } }).out
      = some { xpath := some "/m:d", type := SR__VALUE__TYPES__DECIMAL64,
               decimal64_val := ⟨4614256650576692846⟩, has_decimal64_val := true } :=
  (encode_touches_one_field (fun _ => true) (fun _ => rfl)
    { xpath := some "/m:d", type := SR_DECIMAL64_T,
      data := { decimal64_val := ⟨4614256650576692846⟩ } } (by decide) {}).2

/-- C12, as the code has it: encoding a typed value whose tag is not one of the
22 supported ones (UNKNOWN among them) fails with the INTERNAL result code and
returns no value, once the wire record has been allocated; decoding a wire
value whose wire tag is not one of the 22 known ones fails with INTERNAL and
returns no value, once the value record has been allocated. -/
theorem unknown_tag_is_internal (A : Nat → Bool) (st : MemState) (hst : A st.allocs = true)
    (v : sr_val_t) (gpb : Sr__Value) (sr_mem : Option Nat)
    (hv : v.type ∉ supported_types) (hg : gpb.type ∉ known_wire_types) :
    SR_UNKNOWN_T ∉ supported_types ∧
    (sr_dup_val_t_to_gpb A st v).rc = SR_ERR_INTERNAL ∧
    (sr_dup_val_t_to_gpb A st v).out = none ∧
    (sr_dup_gpb_to_val_t A st sr_mem (some gpb)).rc = SR_ERR_INTERNAL ∧
    (sr_dup_gpb_to_val_t A st sr_mem (some gpb)).out = none := by
  refine ⟨by decide, ?_⟩
  have e1 : sr_set_val_t_type_in_gpb v sr__value__init = (SR_ERR_INTERNAL, sr__value__init) := by
    obtain ⟨m, xp, dflt, ty, data⟩ := v
    cases ty <;> first | (exfalso; simp [supported_types] at hv; done) | rfl
  have e2 : ∀ w, sr_set_gpb_type_in_val_t gpb w = (SR_ERR_INTERNAL, w) := by
    intro w
    cases hty : gpb.type <;> rw [hty] at hg <;>
      first
      | (exfalso; simp [known_wire_types] at hg; done)
      | simp [sr_set_gpb_type_in_val_t, hty]
  have c1 : ∀ m, (sr_calloc A st m 1).1 = true := by
    intro m; cases m <;> simp [sr_calloc, hst]
  have d1 : (sr_dup_val_t_to_gpb A st v).rc = SR_ERR_INTERNAL ∧
      (sr_dup_val_t_to_gpb A st v).out = none := by
    have h := c1 v._sr_mem
    cases hc : sr_calloc A st v._sr_mem 1 with
    | mk b st1 =>
      rw [hc] at h
      simp only at h
      subst h
      simp [sr_dup_val_t_to_gpb, hc, e1]
  have d2 : (sr_dup_gpb_to_val_t A st sr_mem (some gpb)).rc = SR_ERR_INTERNAL ∧
      (sr_dup_gpb_to_val_t A st sr_mem (some gpb)).out = none := by
    have h := c1 sr_mem
    cases hc : sr_calloc A st sr_mem 1 with
    | mk b st1 =>
      rw [hc] at h
      simp only at h
      subst h
      simp [sr_dup_gpb_to_val_t, hc, sr_copy_gpb_to_val_t, e2]
  exact ⟨d1.1, d1.2, d2.1, d2.2⟩

/-- Witness of C12 as amended: a value with tag UNKNOWN and a wire value with
an unrecognized wire tag, converted without an arena while every allocation
succeeds. -/
theorem unknown_tag_is_internal_witness :
    (sr_dup_val_t_to_gpb (fun _ => true) {}
        { xpath := some "/m:n", type := SR_UNKNOWN_T }).rc = SR_ERR_INTERNAL ∧
    (sr_dup_gpb_to_val_t (fun _ => true) {} none
        (some { xpath := some "/m:n", type := Sr__Value__Types.unrecognized 99 })).rc
      = SR_ERR_INTERNAL :=
  have t := unknown_tag_is_internal (fun _ => true) {} rfl
    { xpath := some "/m:n", type := SR_UNKNOWN_T }
    { xpath := some "/m:n", type := Sr__Value__Types.unrecognized 99 } none
    (by decide) (by decide)
  ⟨t.2.1, t.2.2.2.1⟩

/-- Counterexample to C12 as stated: encoding a value with tag UNKNOWN and
decoding a wire value with an unrecognized wire tag, with every allocation
succeeding, do not return UNSUPPORTED; both return INTERNAL. -/
theorem unknown_tag_not_unsupported :
    (sr_dup_val_t_to_gpb (fun _ => true) {}
        { xpath := some "/m:n", type := SR_UNKNOWN_T }).rc = SR_ERR_INTERNAL ∧
    (sr_dup_val_t_to_gpb (fun _ => true) {}
        { xpath := some "/m:n", type := SR_UNKNOWN_T }).rc ≠ SR_ERR_UNSUPPORTED ∧
    (sr_dup_gpb_to_val_t (fun _ => true) {} none
        (some { xpath := some "/m:n", type := Sr__Value__Types.unrecognized 99 })).rc
      = SR_ERR_INTERNAL ∧
    (sr_dup_gpb_to_val_t (fun _ => true) {} none
        (some { xpath := some "/m:n", type := Sr__Value__Types.unrecognized 99 })).rc
      ≠ SR_ERR_UNSUPPORTED := by
  refine ⟨rfl, ?_, rfl, ?_⟩ <;> decide

/-! ## Schema conformance claims -/

/-- Conforming tags of a present leaf-ref target. -/
theorem leaf_tags_opt_some (n : lys_node) :
    lys_node.leaf_tags_opt (some n) =
      if LYS_NODE.has_bit (LYS_LEAF.code ||| LYS_LEAFLIST.code) n.nodetype then n.conforming_tags
      else [] := by
  cases n
  simp only [lys_node.leaf_tags_opt, lys_node.nodetype]

/-- Tags of a member list, by the head member. -/
theorem member_tags_cons (t : lys_type) (ts : List lys_type) :
    lys_type.member_tags (t :: ts) =
      (if t.base = LY_TYPE_LEAFREF then lys_node.conforming_tags_opt t.lref_target
       else if t.base = LY_TYPE_UNION then t.union_tags
       else [sr_ly_data_type_to_sr t.base]) ++ lys_type.member_tags ts := by
  cases t
  simp only [lys_type.member_tags, lys_type.union_tags, lys_type.base, lys_type.lref_target]

/-- Appending a union to the work list appends its tags. -/
theorem worklist_tags_append (l : List lys_type) (t : lys_type) :
    worklist_tags (l ++ [t]) = worklist_tags l ++ t.union_tags := by
  induction l with
  | nil => simp [worklist_tags]
  | cons a l ih => simp [worklist_tags, ih]

/-- With no allocation failure and a value whose tag is not UNKNOWN, the
conformance check answers OK exactly for the conforming tags of the node, and
INVAL_ARG otherwise. -/
theorem conform_verdict_of_tags (st : MemState) (node : lys_node) (value : sr_val_t) :
    value.type ≠ SR_UNKNOWN_T →
      conform_verdict (sr_check_value_conform_to_schema (fun _ => true) st node value).1
        (value.type ∈ node.conforming_tags) := by
  apply sr_check_value_conform_to_schema.induct (fun _ => true)
    (fun st node value => value.type ≠ SR_UNKNOWN_T →
      conform_verdict (sr_check_value_conform_to_schema (fun _ => true) st node value).1
        (value.type ∈ node.conforming_tags))
    (fun st value ul ty => value.type ≠ SR_UNKNOWN_T → ty ≠ value.type →
      conform_verdict (union_list_while (fun _ => true) st value ul ty).1
        (value.type ∈ worklist_tags ul))
    (fun st value ul actual ty => value.type ≠ SR_UNKNOWN_T → ty ≠ value.type → ul ≠ [] →
      conform_verdict (union_list_resolve (fun _ => true) st value ul actual ty).1
        (value.type ∈ actual.union_tags ++ worklist_tags ul.tail))
    (fun st value ul ms ty => value.type ≠ SR_UNKNOWN_T → ty ≠ value.type → ul ≠ [] →
      conform_verdict (union_list_for (fun _ => true) st value ul ms ty).1
        (value.type ∈ lys_type.member_tags ms ++ worklist_tags ul.tail))
  case case1 =>
    intro st value k name module presence type h1 hv
    cases type
    rw [sr_check_value_conform_to_schema.eq_def]
    simp [lys_node.conforming_tags, matching_done, conform_verdict, h1]
    constructor
    · intro h; exact h.symm
    · intro h h2; exact h h2.symm
  case case2 =>
    intro st value k name module presence type h1 h2 hv
    cases type
    rw [sr_check_value_conform_to_schema.eq_def]
    simp [lys_node.conforming_tags, matching_done, conform_verdict, h1, h2]
    constructor
    · intro h; exact h.symm
    · intro h h2; exact h h2.symm
  case case3 =>
    intro st value k name module presence h1 h2 h3 der dig tgt uni hv
    rw [sr_check_value_conform_to_schema]
    simp [lys_node.conforming_tags, matching_done, conform_verdict,
      sr_ly_data_type_to_sr, h1, h2, h3]
    constructor
    · intro h; exact h.symm
    · intro h h2; exact h h2.symm
  case case4 =>
    intro st value k name module presence h1 h2 h3 der dig tgt uni hv
    rw [sr_check_value_conform_to_schema]
    simp [lys_node.conforming_tags, matching_done, conform_verdict,
      sr_ly_data_type_to_sr, h1, h2, h3]
    constructor
    · intro h; exact h.symm
    · intro h h2; exact h h2.symm
  case case5 =>
    intro st value k name module presence h1 h2 h3 der dig tgt uni hv
    rw [sr_check_value_conform_to_schema]
    simp [lys_node.conforming_tags, matching_done, conform_verdict,
      sr_ly_data_type_to_sr, h1, h2, h3]
    constructor
    · intro h; exact h.symm
    · intro h h2; exact h h2.symm
  case case6 =>
    intro st value k name module presence h1 h2 h3 der dig tgt uni hv
    rw [sr_check_value_conform_to_schema]
    simp [lys_node.conforming_tags, matching_done, conform_verdict,
      sr_ly_data_type_to_sr, h1, h2, h3]
    constructor
    · intro h; exact h.symm
    · intro h h2; exact h h2.symm
  case case7 =>
    intro st value k name module presence h1 h2 h3 der dig tgt uni hv
    rw [sr_check_value_conform_to_schema]
    simp [lys_node.conforming_tags, matching_done, conform_verdict,
      sr_ly_data_type_to_sr, h1, h2, h3]
    constructor
    · intro h; exact h.symm
    · intro h h2; exact h h2.symm
  case case8 =>
    intro st value k name module presence h1 h2 h3 der dig tgt uni hv
    rw [sr_check_value_conform_to_schema]
    simp [lys_node.conforming_tags, matching_done, conform_verdict,
      sr_ly_data_type_to_sr, h1, h2, h3]
    constructor
    · intro h; exact h.symm
    · intro h h2; exact h h2.symm
  case case9 =>
    intro st value k name module presence h1 h2 h3 der dig tgt uni hv
    rw [sr_check_value_conform_to_schema]
    simp [lys_node.conforming_tags, matching_done, conform_verdict,
      sr_ly_data_type_to_sr, h1, h2, h3]
    constructor
    · intro h; exact h.symm
    · intro h h2; exact h h2.symm
  case case10 =>
    intro st value k name module presence h1 h2 h3 der dig tgt uni hv
    rw [sr_check_value_conform_to_schema]
    simp [lys_node.conforming_tags, matching_done, conform_verdict,
      sr_ly_data_type_to_sr, h1, h2, h3]
    constructor
    · intro h; exact h.symm
    · intro h h2; exact h h2.symm
  case case14 =>
    intro st value k name module presence h1 h2 h3 der dig tgt uni hv
    rw [sr_check_value_conform_to_schema]
    simp [lys_node.conforming_tags, matching_done, conform_verdict,
      sr_ly_data_type_to_sr, h1, h2, h3]
    constructor
    · intro h; exact h.symm
    · intro h h2; exact h h2.symm
  case case18 =>
    intro st value k name module presence h1 h2 h3 der dig tgt uni hv
    rw [sr_check_value_conform_to_schema]
    simp [lys_node.conforming_tags, matching_done, conform_verdict,
      sr_ly_data_type_to_sr, h1, h2, h3]
    constructor
    · intro h; exact h.symm
    · intro h h2; exact h h2.symm
  case case19 =>
    intro st value k name module presence h1 h2 h3 der dig tgt uni hv
    rw [sr_check_value_conform_to_schema]
    simp [lys_node.conforming_tags, matching_done, conform_verdict,
      sr_ly_data_type_to_sr, h1, h2, h3]
    constructor
    · intro h; exact h.symm
    · intro h h2; exact h h2.symm
  case case20 =>
    intro st value k name module presence h1 h2 h3 der dig tgt uni hv
    rw [sr_check_value_conform_to_schema]
    simp [lys_node.conforming_tags, matching_done, conform_verdict,
      sr_ly_data_type_to_sr, h1, h2, h3]
    constructor
    · intro h; exact h.symm
    · intro h h2; exact h h2.symm
  case case21 =>
    intro st value k name module presence h1 h2 h3 der dig tgt uni hv
    rw [sr_check_value_conform_to_schema]
    simp [lys_node.conforming_tags, matching_done, conform_verdict,
      sr_ly_data_type_to_sr, h1, h2, h3]
    constructor
    · intro h; exact h.symm
    · intro h h2; exact h h2.symm
  case case22 =>
    intro st value k name module presence h1 h2 h3 der dig tgt uni hv
    rw [sr_check_value_conform_to_schema]
    simp [lys_node.conforming_tags, matching_done, conform_verdict,
      sr_ly_data_type_to_sr, h1, h2, h3]
    constructor
    · intro h; exact h.symm
    · intro h h2; exact h h2.symm
  case case23 =>
    intro st value k name module presence h1 h2 h3 der dig tgt uni hv
    rw [sr_check_value_conform_to_schema]
    simp [lys_node.conforming_tags, matching_done, conform_verdict,
      sr_ly_data_type_to_sr, h1, h2, h3]
    constructor
    · intro h; exact h.symm
    · intro h h2; exact h h2.symm
  case case24 =>
    intro st value k name module presence h1 h2 h3 der dig tgt uni hv
    rw [sr_check_value_conform_to_schema]
    simp [lys_node.conforming_tags, matching_done, conform_verdict,
      sr_ly_data_type_to_sr, h1, h2, h3]
    constructor
    · intro h; exact h.symm
    · intro h h2; exact h h2.symm
  case case25 =>
    intro st value k name module presence h1 h2 h3 der dig tgt uni hv
    rw [sr_check_value_conform_to_schema]
    simp [lys_node.conforming_tags, matching_done, conform_verdict,
      sr_ly_data_type_to_sr, h1, h2, h3]
    constructor
    · intro h; exact h.symm
    · intro h h2; exact h h2.symm
  case case11 =>
    intro st value k name module presence h1 h2 h3 der dig uni leafref hk ih hv
    rw [sr_check_value_conform_to_schema]
    simp only [hk, if_true]
    have := ih hv
    simpa [lys_node.conforming_tags, leaf_tags_opt_some, h1, h2, h3, hk] using this
  case case12 =>
    intro st value k name module presence h1 h2 h3 der dig uni leafref hk hv
    rw [sr_check_value_conform_to_schema]
    simp [lys_node.conforming_tags, leaf_tags_opt_some, matching_done, conform_verdict,
      h1, h2, h3, hk]
    exact fun h => hv h.symm
  case case13 =>
    intro st value k name module presence h1 h2 h3 der dig uni hv
    rw [sr_check_value_conform_to_schema]
    simp [lys_node.conforming_tags, lys_node.leaf_tags_opt, matching_done, conform_verdict,
      h1, h2, h3]
    exact fun h => hv h.symm
  case case26 =>
    intro st value k name module presence h1 h2 h3 der dig tgt uni hv
    rw [sr_check_value_conform_to_schema]
    simp [lys_node.conforming_tags, matching_done, conform_verdict,
      sr_ly_data_type_to_sr, h1, h2, h3]
    constructor
    · intro h; exact h.symm
    · intro h h2; exact h h2.symm
  case case15 =>
    intro st value k name module presence h1 h2 h3 der dig tgt uni st3 h
    simp [sr_list_alloc] at h
  case case16 =>
    intro st value k name module presence h1 h2 h3 der dig tgt uni st3 h st4 h4
    simp [sr_list_alloc] at h4
  case case17 =>
    intro st value k name module presence h1 h2 h3 der dig tgt uni st3 h st4 h4 ih hv
    rw [sr_check_value_conform_to_schema]
    simp only [h, h4]
    have := ih hv (fun e => hv e.symm)
    simpa [lys_node.conforming_tags, lys_type.union_tags, worklist_tags, h1, h2, h3] using this
  case case27 =>
    intro st value name module presence type h1 h2 h3 hv
    cases type
    rw [sr_check_value_conform_to_schema.eq_def]
    simp [lys_node.conforming_tags, matching_done, conform_verdict, h1, h2, h3]
    constructor
    · intro h; exact h.symm
    · intro h h2; exact h h2.symm
  case case28 =>
    intro st value k name module presence type h1 h2 h3 h4 h5 hv
    cases type
    rw [sr_check_value_conform_to_schema.eq_def]
    simp [lys_node.conforming_tags, matching_done, conform_verdict, h1, h2, h3, h4, h5]
    constructor
    · intro h; exact h.symm
    · intro h h2; exact h h2.symm
  case case29 =>
    intro st value k name module presence type h1 h2 h3 h4 h5 hv
    cases type
    rw [sr_check_value_conform_to_schema.eq_def]
    simp [lys_node.conforming_tags, matching_done, conform_verdict, h1, h2, h3, h4, h5]
    exact fun h => hv h.symm
  case case30 =>
    intro st value ty hv ht
    rw [union_list_while]
    simp [matching_done, conform_verdict, worklist_tags, ht]
  case case31 =>
    intro st value ty t ts ih hv ht
    rw [union_list_while]
    have := ih hv ht (by simp)
    simpa [worklist_tags] using this
  case case32 =>
    intro st value ul ty base d dig tgt ih hv ht hu
    rw [union_list_resolve]
    have := ih hv ht hu
    simpa [lys_type.union_tags, lys_type.union_tags_opt] using this
  case case33 =>
    intro st value ul ty base dig tgt ih hv ht hu
    rw [union_list_resolve]
    have := ih hv ht hu
    simpa [lys_type.union_tags, lys_type.union_tags_opt, lys_type.member_tags] using this
  case case34 =>
    intro st value ul ty base der dig tgt t ts ih hv ht hu
    rw [union_list_resolve]
    have := ih hv ht hu
    simpa [lys_type.union_tags] using this
  case case35 =>
    intro st value ul ty ih hv ht hu
    rw [union_list_for]
    have := ih hv ht
    cases ul with
    | nil => exact absurd rfl hu
    | cons a l => simpa [lys_type.member_tags] using this
  case case36 =>
    intro st value ul ty t ts hb htg ih hv ht hu
    rw [union_list_for]
    simp only [hb, if_true]
    split
    · have := ih hv (by rw [hb]; exact fun e => hv e.symm) hu
      simpa [member_tags_cons, hb, htg, lys_node.conforming_tags_opt] using this
    · rename_i leafref h
      rw [htg] at h
      exact absurd h (by simp)
  case case37 =>
    intro st value ul ty t ts hb leafref htg st1 hc ih hv ht hu
    rw [union_list_for]
    simp only [hb, if_true]
    split
    · rename_i h
      rw [htg] at h
      exact absurd h (by simp)
    · rename_i leafref2 h
      rw [htg] at h
      cases h
      simp only [hc]
      have h1 := ih hv
      rw [hc] at h1
      refine ⟨fun _ => rfl, fun hn => ?_⟩
      exfalso
      apply hn
      simp only [member_tags_cons, hb, if_true, htg, lys_node.conforming_tags_opt, List.mem_append]
      by_contra hno
      have := h1.2 (fun hm => hno (Or.inl (Or.inl hm)))
      simp at this
  case case38 =>
    intro st value ul ty t ts hb leafref htg x st1 hx hc ih1 ih4 hv ht hu
    rw [union_list_for]
    simp only [hb, if_true]
    split
    · rename_i h
      rw [htg] at h
      exact absurd h (by simp)
    · rename_i leafref2 h
      rw [htg] at h
      cases h
      have h1 := ih1 hv
      rw [hc] at h1
      have hnot : value.type ∉ leafref.conforming_tags := by
        intro hm
        exact hx (h1.1 hm)
      have h4 := ih4 hv (by rw [hb]; exact fun e => hv e.symm) hu
      rw [hc]
      split
      · rename_i heq
        simp only [Prod.mk.injEq] at heq
        exact absurd heq.1 hx
      · rename_i heq
        simp only [Prod.mk.injEq] at heq
        rw [← heq.2]
        simpa [member_tags_cons, hb, htg, lys_node.conforming_tags_opt, hnot] using h4
  case case39 =>
    intro st value ul ty t ts hb hb2 st3 h
    simp [sr_list_alloc] at h
  case case40 =>
    intro st value ul ty t ts hb hb2 st3 h ih hv ht hu
    rw [union_list_for]
    simp only [hb, hb2, if_true, if_false, h]
    have := ih hv (by rw [hb2]; exact fun e => hv e.symm) (by simp)
    cases ul with
    | nil => exact absurd rfl hu
    | cons a l =>
      simp only [List.cons_append, List.tail_cons, worklist_tags_append, member_tags_cons, hb, hb2,
        if_true, if_false, List.mem_append] at this ⊢
      refine ⟨fun h => this.1 ?_, fun h => this.2 ?_⟩
      · tauto
      · tauto
  case case41 =>
    intro st value ul ty t ts hb hb2 hm hv ht hu
    rw [union_list_for]
    simp only [hb, hb2, if_true, if_false, hm]
    simp [member_tags_cons, hb, hb2, matching_done, conform_verdict]
    exact hm.symm
  case case42 =>
    intro st value ul ty t ts hb hb2 hm ih hv ht hu
    rw [union_list_for]
    simp only [hb, hb2, if_true, if_false, hm]
    have := ih hv (fun e => hm e.symm) hu
    simpa [member_tags_cons, hb, hb2, hm] using this

/-- C13 (code_bug): a value whose tag is UNKNOWN is accepted by
`sr_check_value_conform_to_schema` on schema nodes that resolve to no tag: a
leaf whose leaf-ref has no target (for every allocation oracle and state), and
the leaf `a` of type `leafref -> b` where `b` has type
`union { string; leafref -> c }` and `c` is a string leaf. -/
theorem conform_accepts_unknown_tag :
    (∀ (A : Nat → Bool) (st : MemState),
      (sr_check_value_conform_to_schema A st
        (.mk LYS_LEAF "l" { name := "m" } none (.mk LY_TYPE_LEAFREF none 0 none []))
        { xpath := some "/m:l", type := SR_UNKNOWN_T }).1 = SR_ERR_OK) ∧
    (sr_check_value_conform_to_schema (fun _ => true) {} schema_leaf_a
        { xpath := some "/m:a", type := SR_UNKNOWN_T }).1 = SR_ERR_OK ∧
    SR_UNKNOWN_T ∉ supported_types := by
  refine ⟨?_, ?_, by decide⟩
  · intro A st
    simp +decide [sr_check_value_conform_to_schema, matching_done, LYS_NODE.has_bit, LYS_NODE.code]
  · simp +decide [schema_leaf_a, schema_leaf_b, schema_leaf_c, sr_check_value_conform_to_schema,
      union_list_while, union_list_resolve, union_list_for, sr_list_alloc, sr_ly_data_type_to_sr,
      matching_done, LYS_NODE.has_bit, LYS_NODE.code, lys_node.nodetype, lys_type.base,
      lys_type.lref_target]

/-- C14: for a leaf or leaf-list whose base type is a union and a value with a
supported tag, when no allocation fails, `sr_check_value_conform_to_schema`
returns OK exactly when the tag of the value is among the tags of the member
types reachable from the union through nested unions (leaf-ref members
resolved to their target), and returns INVAL_ARG otherwise; the check is a
total function, so the search ends for every schema. -/
theorem union_conformance (A : Nat → Bool) (hA : ∀ k, A k = true) (st : MemState)
    (N : lys_node) (v : sr_val_t)
    (hk : N.nodetype = LYS_LEAF ∨ N.nodetype = LYS_LEAFLIST)
    (hb : N.type.base = LY_TYPE_UNION) (hv : v.type ∈ supported_types) :
    ((sr_check_value_conform_to_schema A st N v).1 = SR_ERR_OK ↔ v.type ∈ N.type.union_tags) ∧
    (v.type ∉ N.type.union_tags →
      (sr_check_value_conform_to_schema A st N v).1 = SR_ERR_INVAL_ARG) := by
  have hAeq : A = fun _ => true := funext hA
  subst hAeq
  have hne : v.type ≠ SR_UNKNOWN_T := by
    intro h
    rw [h] at hv
    exact absurd hv (by decide)
  have key := conform_verdict_of_tags st N v hne
  have htags : N.conforming_tags = N.type.union_tags := by
    obtain ⟨k, name, module, presence, type⟩ := N
    obtain ⟨base, der, dig, tgt, uni⟩ := type
    simp only [lys_node.nodetype, lys_node.type, lys_type.base] at hk hb
    subst hb
    rcases hk with hk | hk <;> subst hk <;>
      simp +decide [lys_node.conforming_tags, lys_type.union_tags, lys_node.type,
        LYS_NODE.has_bit, LYS_NODE.code]
  rw [htags] at key
  refine ⟨⟨fun hok => ?_, key.1⟩, key.2⟩
  by_contra hno
  have := key.2 hno
  rw [hok] at this
  exact absurd this (by decide)

/-- Witness for C14: the leaf `u` of type
`union { int8; union { uint16; leafref -> c } }` accepts a STRING value
through the nested union and the leaf-ref to the string leaf `c`. -/
theorem union_conformance_witness :
    ((sr_check_value_conform_to_schema (fun _ => true) {} schema_leaf_u
        { xpath := some "/m:u", type := SR_STRING_T }).1 = SR_ERR_OK ↔
      SR_STRING_T ∈ schema_leaf_u.type.union_tags) ∧
    (SR_STRING_T ∉ schema_leaf_u.type.union_tags →
      (sr_check_value_conform_to_schema (fun _ => true) {} schema_leaf_u
        { xpath := some "/m:u", type := SR_STRING_T }).1 = SR_ERR_INVAL_ARG) :=
  union_conformance (fun _ => true) (fun _ => rfl) {} schema_leaf_u
    { xpath := some "/m:u", type := SR_STRING_T } (Or.inl rfl) rfl (by decide)

/-! ## Printing claims -/

/-- C15: a value that conforms to the schema node prints, when no allocation
fails, with result OK as `true` or `false` for BOOL, as the empty string for
LIST, CONTAINER, CONTAINER_PRESENCE and LEAF_EMPTY, and as the decimal digits of
the payload (with a leading `-` when negative) for the integer tags; a value
that does not conform gives a result other than OK and no string. -/
theorem print_scalars (A : Nat → Bool) (hA : ∀ k, A k = true) (st : MemState) (v : sr_val_t)
    (N : lys_node) :
    ((sr_check_value_conform_to_schema A st N v).1 = SR_ERR_OK →
      (v.type = SR_BOOL_T →
        (sr_val_to_str_with_schema A st v N).rc = SR_ERR_OK ∧
        (sr_val_to_str_with_schema A st v N).out =
          some (if v.data.bool_val then "true" else "false")) ∧
      (v.type = SR_LIST_T ∨ v.type = SR_CONTAINER_T ∨ v.type = SR_CONTAINER_PRESENCE_T ∨
          v.type = SR_LEAF_EMPTY_T →
        (sr_val_to_str_with_schema A st v N).rc = SR_ERR_OK ∧
        (sr_val_to_str_with_schema A st v N).out = some "") ∧
      (∀ x : Int,
        (v.type = SR_INT8_T ∧ x = v.data.int8_val) ∨ (v.type = SR_INT16_T ∧ x = v.data.int16_val) ∨
          (v.type = SR_INT32_T ∧ x = v.data.int32_val) ∨
          (v.type = SR_INT64_T ∧ x = v.data.int64_val) →
        (sr_val_to_str_with_schema A st v N).rc = SR_ERR_OK ∧
        (sr_val_to_str_with_schema A st v N).out =
          some (if x < 0 then "-" ++ Nat.repr x.natAbs else Nat.repr x.natAbs)) ∧
      (∀ x : Nat,
        (v.type = SR_UINT8_T ∧ x = v.data.uint8_val) ∨
          (v.type = SR_UINT16_T ∧ x = v.data.uint16_val) ∨
          (v.type = SR_UINT32_T ∧ x = v.data.uint32_val) ∨
          (v.type = SR_UINT64_T ∧ x = v.data.uint64_val) →
        (sr_val_to_str_with_schema A st v N).rc = SR_ERR_OK ∧
        (sr_val_to_str_with_schema A st v N).out = some (Nat.repr x))) ∧
    ((sr_check_value_conform_to_schema A st N v).1 ≠ SR_ERR_OK →
      (sr_val_to_str_with_schema A st v N).rc ≠ SR_ERR_OK ∧
      (sr_val_to_str_with_schema A st v N).out = none) := by
  have hAeq : A = fun _ => true := funext hA
  subst hAeq
  constructor
  · intro hc
    refine ⟨?_, ?_, ?_, ?_⟩
    · intro ht
      simp [sr_val_to_str_with_schema, hc, sr_val_to_str_with_schema_switch, ht, val_to_str_text,
        strdup]
    · intro ht
      rcases ht with ht | ht | ht | ht <;>
        simp [sr_val_to_str_with_schema, hc, sr_val_to_str_with_schema_switch, ht,
          val_to_str_text, strdup]
    · intro x ht
      rcases ht with ⟨ht, hx⟩ | ⟨ht, hx⟩ | ⟨ht, hx⟩ | ⟨ht, hx⟩ <;>
        simp [sr_val_to_str_with_schema, hc, sr_val_to_str_with_schema_switch, ht, hx,
          sr_asprintf, sr_vasprintf, calloc, printf_d]
    · intro x ht
      rcases ht with ⟨ht, hx⟩ | ⟨ht, hx⟩ | ⟨ht, hx⟩ | ⟨ht, hx⟩ <;>
        simp [sr_val_to_str_with_schema, hc, sr_val_to_str_with_schema_switch, ht, hx,
          sr_asprintf, sr_vasprintf, calloc, printf_u]
  · intro hc
    simp [sr_val_to_str_with_schema, hc]

/-- Witness for C15: the INT8 value -5 on a leaf of type `int8` prints as
`-5`, and a STRING value on that leaf gives no string. -/
theorem print_scalars_witness :
    (sr_val_to_str_with_schema (fun _ => true) {}
        { xpath := some "/m:i", type := SR_INT8_T, data := { int8_val := -5 } }
        (.mk LYS_LEAF "i" { name := "m" } none (.mk LY_TYPE_INT8 none 0 none []))).out = some "-5" := by
  have h := (print_scalars (fun _ => true) (fun _ => rfl) {}
    { xpath := some "/m:i", type := SR_INT8_T, data := { int8_val := -5 } }
    (.mk LYS_LEAF "i" { name := "m" } none (.mk LY_TYPE_INT8 none 0 none []))).1
    (by simp +decide [sr_check_value_conform_to_schema, matching_done, LYS_NODE.has_bit,
      LYS_NODE.code])
  have h2 := (h.2.2.1 (-5) (Or.inl ⟨rfl, rfl⟩)).2
  rw [h2]
  decide

/-- A digit character for every number below ten. -/
theorem digitChar_isDigit (m : Nat) (h : m < 10) : (Nat.digitChar m).isDigit = true := by
  interval_cases m <;> decide

/-- The digit generation of the library yields digits only. -/
theorem toDigitsCore_isDigit (fuel : Nat) :
    ∀ (n : Nat) (ds : List Char), (∀ c ∈ ds, c.isDigit = true) →
      ∀ c ∈ Nat.toDigitsCore 10 fuel n ds, c.isDigit = true := by
  induction fuel with
  | zero => intro n ds h; simpa [Nat.toDigitsCore] using h
  | succ f ih =>
    intro n ds h
    have hd : ∀ c ∈ Nat.digitChar (n % 10) :: ds, c.isDigit = true := by
      intro c hc
      rcases List.mem_cons.1 hc with hc | hc
      · rw [hc]; exact digitChar_isDigit _ (Nat.mod_lt _ (by decide))
      · exact h c hc
    simp only [Nat.toDigitsCore]
    split
    · exact hd
    · exact ih _ _ hd

/-- The digit generation of the library keeps what it was given. -/
theorem toDigitsCore_ne_nil (fuel : Nat) :
    ∀ (n : Nat) (ds : List Char), ds ≠ [] → Nat.toDigitsCore 10 fuel n ds ≠ [] := by
  induction fuel with
  | zero => intro n ds h; simpa [Nat.toDigitsCore] using h
  | succ f ih =>
    intro n ds h
    simp only [Nat.toDigitsCore]
    split
    · simp
    · exact ih _ _ (by simp)

/-- The decimal digits of a number are digits, and there is at least one. -/
theorem toDigits_spec (n : Nat) :
    Nat.toDigits 10 n ≠ [] ∧ ∀ c ∈ Nat.toDigits 10 n, c.isDigit = true := by
  constructor
  · unfold Nat.toDigits
    simp only [Nat.toDigitsCore]
    split
    · simp
    · exact toDigitsCore_ne_nil _ _ _ (by simp)
  · exact toDigitsCore_isDigit _ _ _ (by simp)

/-- The padded digits are exactly `d` digits. -/
theorem decimal_digits_spec (d : Nat) :
    ∀ n, (decimal_digits d n).length = d ∧ ∀ c ∈ decimal_digits d n, c.isDigit = true := by
  induction d with
  | zero => intro n; simp [decimal_digits]
  | succ d ih =>
    intro n
    refine ⟨by simp [decimal_digits, (ih (n / 10)).1], ?_⟩
    intro c hc
    simp only [decimal_digits, List.mem_append, List.mem_singleton] at hc
    rcases hc with hc | hc
    · exact (ih (n / 10)).2 c hc
    · rw [hc]; exact digitChar_isDigit _ (Nat.mod_lt _ (by decide))

/-- The conversion `%.<d>f` of a finite `double` with `d > 0` is in fixed-point
notation with exactly `d` digits after the point. -/
theorem printf_f_fixed_point (d : Nat) (x : c_double) (hd : 1 ≤ d) (hf : x.finite = true) :
    fixed_point d (printf_f d x) := by
  have he : x.exponent ≠ 2047 := by
    simpa [c_double.finite] using hf
  have hd0 : d ≠ 0 := by omega
  refine ⟨x.sign, Nat.toDigits 10 (x.scaled d / 10 ^ d), decimal_digits d (x.scaled d % 10 ^ d),
    ?_, (toDigits_spec _).1, (toDigits_spec _).2, (decimal_digits_spec d _).1,
    (decimal_digits_spec d _).2⟩
  simp [printf_f, he, hd0]

/-- The format string built for 1 to 18 fraction digits is read back by the
library as the conversion with that precision. -/
theorem vsnprintf_double_format (d : Nat) (h1 : 1 ≤ d) (h18 : d ≤ 18) (x : c_double) :
    vsnprintf_double (dec64_format_string d) x = some (printf_f d x) := by
  interval_cases d <;> rfl

/-- A DECIMAL64 value that conforms to a leaf or leaf-list whose decimal64 type
declares `d` fraction digits, `1 ≤ d ≤ 18`, is printed, when no allocation
fails, by the conversion `%.<d>f` of the library, whatever its payload. -/
theorem sr_val_to_str_dec64 (st : MemState) (v : sr_val_t) (N : lys_node) (t : lys_type)
    (hk : N.nodetype = LYS_LEAF ∨ N.nodetype = LYS_LEAFLIST)
    (ht : v.type = SR_DECIMAL64_T)
    (hc : (sr_check_value_conform_to_schema (fun _ => true) st N v).1 = SR_ERR_OK)
    (hty : sr_libyang_get_actual_leaf_type N.type LY_TYPE_DEC64 = some t)
    (h1 : 1 ≤ t.dec64_dig) (h18 : t.dec64_dig ≤ 18) :
    (sr_val_to_str_with_schema (fun _ => true) st v N).rc = SR_ERR_OK ∧
    (sr_val_to_str_with_schema (fun _ => true) st v N).out
      = some (printf_f t.dec64_dig v.data.decimal64_val) := by
  have hfmt := vsnprintf_double_format t.dec64_dig h1 h18 v.data.decimal64_val
  constructor
  · simp [sr_val_to_str_with_schema, hc, sr_val_to_str_with_schema_switch, ht, sr_dec64_to_str,
      hk, hty, hfmt, sr_asprintf, sr_vasprintf, calloc]
  · simp [sr_val_to_str_with_schema, hc, sr_val_to_str_with_schema_switch, ht, sr_dec64_to_str,
      hk, hty, hfmt, sr_asprintf, sr_vasprintf, calloc]

/-- A string in fixed-point notation holds a decimal point. -/
theorem fixed_point_has_point (d : Nat) (s : String) (h : fixed_point d s) : '.' ∈ s.data := by
  obtain ⟨neg, int_part, frac, hs, _⟩ := h
  rw [hs]
  simp

/-- Counterexample to claim C16 as stated: the DECIMAL64 value whose payload is
the infinity (bit pattern 0x7FF0000000000000) has the tag that the leaf `pi`,
of type decimal64 with two fraction digits, asks for, so it conforms to the
leaf; `sr_val_to_str_with_schema` returns `SR_ERR_OK` for it with the string
`inf`, which is not in fixed-point notation.  The conformance check looks at
the tag only. -/
theorem dec64_prints_infinity :
    (sr_check_value_conform_to_schema (fun _ => true) {}
        schema_leaf_pi
        { xpath := some "/m:pi", type := SR_DECIMAL64_T,
          data := { decimal64_val := ⟨9218868437227405312⟩ } }).1 = SR_ERR_OK ∧
    (sr_val_to_str_with_schema (fun _ => true) {}
        { xpath := some "/m:pi", type := SR_DECIMAL64_T,
          data := { decimal64_val := ⟨9218868437227405312⟩ } } schema_leaf_pi).rc = SR_ERR_OK ∧
    (sr_val_to_str_with_schema (fun _ => true) {}
        { xpath := some "/m:pi", type := SR_DECIMAL64_T,
          data := { decimal64_val := ⟨9218868437227405312⟩ } } schema_leaf_pi).out
      = some "inf" ∧
    ¬ fixed_point 2 "inf" := by
  have hc : (sr_check_value_conform_to_schema (fun _ => true) {}
      schema_leaf_pi
      { xpath := some "/m:pi", type := SR_DECIMAL64_T,
        data := { decimal64_val := ⟨9218868437227405312⟩ } }).1 = SR_ERR_OK := by
    simp +decide [schema_leaf_pi, sr_check_value_conform_to_schema, matching_done,
      LYS_NODE.has_bit, LYS_NODE.code]
  have h := sr_val_to_str_dec64 {}
    { xpath := some "/m:pi", type := SR_DECIMAL64_T,
      data := { decimal64_val := ⟨9218868437227405312⟩ } } schema_leaf_pi
    (.mk LY_TYPE_DEC64 none 2 none []) (Or.inl rfl) rfl hc
    (by simp [schema_leaf_pi, lys_node.type, sr_libyang_get_actual_leaf_type])
    (by decide) (by decide)
  have hp : printf_f 2 ⟨9218868437227405312⟩ = "inf" := by decide
  have hd : (lys_type.mk LY_TYPE_DEC64 none 2 none []).dec64_dig = 2 := rfl
  rw [hd, hp] at h
  refine ⟨hc, h.1, h.2, ?_⟩
  intro hfix
  have := fixed_point_has_point 2 "inf" hfix
  revert this
  decide

/-- C16, amended: a DECIMAL64 value with a finite payload that conforms to a leaf or
leaf-list whose decimal64 type, found by `sr_libyang_get_actual_leaf_type`,
declares `d` fraction digits with `1 ≤ d ≤ 18` prints, when no allocation
fails, with result OK as the payload rounded to `d` places, in fixed-point
notation with exactly `d` digits after the decimal point. -/
theorem dec64_prints_fixed_point (A : Nat → Bool) (hA : ∀ k, A k = true) (st : MemState)
    (v : sr_val_t) (N : lys_node) (t : lys_type) (d : Nat)
    (hk : N.nodetype = LYS_LEAF ∨ N.nodetype = LYS_LEAFLIST)
    (ht : v.type = SR_DECIMAL64_T)
    (hc : (sr_check_value_conform_to_schema A st N v).1 = SR_ERR_OK)
    (hty : sr_libyang_get_actual_leaf_type N.type LY_TYPE_DEC64 = some t)
    (hd : t.dec64_dig = d) (h1 : 1 ≤ d) (h18 : d ≤ 18)
    (hf : v.data.decimal64_val.finite = true) :
    (sr_val_to_str_with_schema A st v N).rc = SR_ERR_OK ∧
    (sr_val_to_str_with_schema A st v N).out = some (printf_f d v.data.decimal64_val) ∧
    fixed_point d (printf_f d v.data.decimal64_val) := by
  have hAeq : A = fun _ => true := funext hA
  subst hAeq
  subst hd
  have hfmt := vsnprintf_double_format t.dec64_dig h1 h18 v.data.decimal64_val
  refine ⟨?_, ?_, printf_f_fixed_point _ _ h1 hf⟩
  · simp [sr_val_to_str_with_schema, hc, sr_val_to_str_with_schema_switch, ht, sr_dec64_to_str,
      hk, hty, hfmt, sr_asprintf, sr_vasprintf, calloc]
  · simp [sr_val_to_str_with_schema, hc, sr_val_to_str_with_schema_switch, ht, sr_dec64_to_str,
      hk, hty, hfmt, sr_asprintf, sr_vasprintf, calloc]

/-- Witness for C16: the payload 3.14159 (bit pattern 0x400921F9F01B866E) on
the leaf `pi` with two fraction digits prints as `3.14`. -/
theorem dec64_prints_fixed_point_witness :
    (sr_val_to_str_with_schema (fun _ => true) {}
        { xpath := some "/m:pi", type := SR_DECIMAL64_T,
          data := { decimal64_val := ⟨4614256650576692846⟩ } } schema_leaf_pi).rc = SR_ERR_OK ∧
    (sr_val_to_str_with_schema (fun _ => true) {}
        { xpath := some "/m:pi", type := SR_DECIMAL64_T,
          data := { decimal64_val := ⟨4614256650576692846⟩ } } schema_leaf_pi).out = some "3.14" ∧
    fixed_point 2 "3.14" := by
  have h := dec64_prints_fixed_point (fun _ => true) (fun _ => rfl) {}
    { xpath := some "/m:pi", type := SR_DECIMAL64_T,
      data := { decimal64_val := ⟨4614256650576692846⟩ } } schema_leaf_pi
    (.mk LY_TYPE_DEC64 none 2 none []) 2 (Or.inl rfl) rfl
    (by simp +decide [schema_leaf_pi, sr_check_value_conform_to_schema, matching_done,
      LYS_NODE.has_bit, LYS_NODE.code])
    (by simp [schema_leaf_pi, lys_node.type, sr_libyang_get_actual_leaf_type])
    rfl (by decide) (by decide) (by decide)
  have hp : printf_f 2 ⟨4614256650576692846⟩ = "3.14" := by decide
  simp only [hp] at h
  exact h

/-! ## Tree copy claims -/

/-- Setting the name stores it and keeps the children. -/
theorem sr_node_set_name_shape (A : Nat → Bool) (st : MemState) (t : sr_node_t) (n : String)
    (h : (sr_node_set_name A st t n).1 = SR_ERR_OK) :
    (sr_node_set_name A st t n).2.1.name = some n ∧
    (sr_node_set_name A st t n).2.1.children = t.children := by
  unfold sr_node_set_name sr_mem_edit_string at *
  cases hc : sr_calloc A st t.val._sr_mem (n.length + 1) with
  | mk b st1 =>
    rw [hc] at h
    cases b
    · simp at h
    · simp [sr_node_t.name, sr_node_t.val, sr_node_t.children]

/-- Copying value and type keeps name and children. -/
theorem copy_value_and_type_shape (C : value_conversion) (st : MemState) (node : lyd_node)
    (t : sr_node_t) :
    (copy_value_and_type C st node t).2.1.name = t.name ∧
    (copy_value_and_type C st node t).2.1.children = t.children := by
  unfold copy_value_and_type
  cases node.schema.nodetype <;> simp [sr_node_t.name, sr_node_t.val, sr_node_t.children]

/-- Setting the module qualifier keeps name and children. -/
theorem sr_node_set_module_shape (A : Nat → Bool) (st : MemState) (t : sr_node_t) (n : String) :
    (sr_node_set_module A st t n).2.1.name = t.name ∧
    (sr_node_set_module A st t n).2.1.children = t.children := by
  unfold sr_node_set_module sr_mem_edit_string
  cases hc : sr_calloc A st t.val._sr_mem (n.length + 1) with
  | mk b st1 =>
    cases b <;> simp [sr_node_t.name, sr_node_t.val, sr_node_t.children]

/-- After the head of the copy has succeeded the node carries the name of the
schema node and the children it had. -/
theorem copy_node_head_shape (A : Nat → Bool) (C : value_conversion) (st : MemState)
    (parent : Option lyd_node) (node : lyd_node) (t : sr_node_t)
    (h : (copy_node_head A C st parent node t).1 = SR_ERR_OK) :
    (copy_node_head A C st parent node t).2.1.name = some node.schema.name ∧
    (copy_node_head A C st parent node t).2.1.children = t.children := by
  unfold copy_node_head at *
  have h1 := sr_node_set_name_shape A st t node.schema.name
  rcases hn : sr_node_set_name A st t node.schema.name with ⟨rc1, t1, st1⟩
  rw [hn] at h h1
  cases rc1 <;> simp only at h ⊢ <;> try (exact absurd h (by decide))
  have h1 := h1 rfl
  simp only at h1
  have h2 := copy_value_and_type_shape C st1 node t1
  rcases hv : copy_value_and_type C st1 node t1 with ⟨rc2, t2, st2⟩
  rw [hv] at h h2
  simp only at h2
  cases rc2 <;> simp only at h ⊢ <;> try (exact absurd h (by decide))
  split
  · have h3 := sr_node_set_module_shape A st2
      (sr_node_t.mk { t2.val with dflt := node.dflt } t2.module_name t2.children)
      (lyd_node_module node).name
    rw [h3.1, h3.2]
    simp only [sr_node_t.name, sr_node_t.val, sr_node_t.children] at h1 h2 ⊢
    exact ⟨h2.1.trans h1.1, h2.2.trans h1.2⟩
  · simp only [sr_node_t.name, sr_node_t.val, sr_node_t.children] at h1 h2 ⊢
    exact ⟨h2.1.trans h1.1, h2.2.trans h1.2⟩

/-- Induction over typed trees: a property holds of every tree when it holds
of a node whose children have it. -/
theorem sr_node_t.induction (P : sr_node_t → Prop)
    (h : ∀ val module_name children, (∀ c ∈ children, P c) → P (.mk val module_name children)) :
    ∀ t, P t :=
  @sr_node_t.rec P (fun cs => ∀ c ∈ cs, P c)
    (fun val module_name children ih => h val module_name children ih)
    (fun c hc => absurd hc (List.not_mem_nil c))
    (fun t ts ht hts c hc => by
      rcases List.mem_cons.1 hc with e | e
      · rw [e]; exact ht
      · exact hts c e)

/-- With no allocation failing, `sr_calloc` succeeds. -/
theorem sr_calloc_true (st : MemState) (m : Option Nat) (n : Nat) :
    ∃ st1, sr_calloc (fun _ => true) st m n = (true, st1) := by
  cases m <;> exact ⟨_, rfl⟩

/-- The fields of a typed value with a supported tag are encoded, in any
state, as the wire value that the specification prescribes. -/
theorem val_fields_encode (v : sr_val_t) (ht : v.type ∈ supported_types) (st : MemState) :
    ∃ g0 st1, sr_set_val_t_type_in_gpb v sr__value__init = (SR_ERR_OK, g0) ∧
      sr_set_val_t_value_in_gpb (fun _ => true) st v g0 = (SR_ERR_OK, wire_value_spec v, st1) := by
  obtain ⟨m, xp, dflt, ty, data⟩ := v
  obtain ⟨bin, bits, b, dec, en, idref, inst, i8, i16, i32, i64, str, u8, u16, u32, u64,
    axml, adata⟩ := data
  cases m <;> cases xp <;> cases ty <;>
    first
    | (exfalso; simp [supported_types] at ht; done)
    | exact ⟨_, _, rfl, rfl⟩
    | (cases bin <;> exact ⟨_, _, rfl, rfl⟩)
    | (cases bits <;> exact ⟨_, _, rfl, rfl⟩)
    | (cases en <;> exact ⟨_, _, rfl, rfl⟩)
    | (cases idref <;> exact ⟨_, _, rfl, rfl⟩)
    | (cases inst <;> exact ⟨_, _, rfl, rfl⟩)
    | (cases str <;> exact ⟨_, _, rfl, rfl⟩)
    | (cases axml <;> exact ⟨_, _, rfl, rfl⟩)
    | (cases adata <;> exact ⟨_, _, rfl, rfl⟩)

/-- The wire value of an encodable typed value is decoded, in any state and
for any arena, into a value with the same name, tag, default flag and
payload. -/
theorem val_fields_decode (v : sr_val_t) (hv : v.encodable) (st2 : MemState)
    (sr_mem : Option Nat) :
    ∃ w0 w st3, sr_set_gpb_type_in_val_t (wire_value_spec v) { _sr_mem := sr_mem } = (SR_ERR_OK, w0) ∧
      sr_set_gpb_value_in_val_t (fun _ => true) st2 (wire_value_spec v) w0 = (SR_ERR_OK, w, st3) ∧
      v.same w ∧ w._sr_mem = sr_mem := by
  obtain ⟨hx, ht, hs, hr⟩ := hv
  obtain ⟨m, xp, dflt, ty, data⟩ := v
  obtain ⟨bin, bits, b, dec, en, idref, inst, i8, i16, i32, i64, str, u8, u16, u32, u64,
    axml, adata⟩ := data
  cases xp with
  | none => exact absurd rfl hx
  | some x =>
    cases ty <;>
    first
    | (exfalso; simp [supported_types] at ht; done)
    | (cases sr_mem <;> exact ⟨_, _, _, rfl, rfl, ⟨rfl, rfl, rfl, rfl⟩, rfl⟩)
    | (obtain ⟨s, hs⟩ := hs
       simp only at hs
       subst hs
       cases sr_mem <;> exact ⟨_, _, _, rfl, rfl, ⟨rfl, rfl, rfl, rfl⟩, rfl⟩)
    | (cases sr_mem <;> refine ⟨_, _, _, rfl, rfl, ⟨rfl, rfl, rfl, ?_⟩, rfl⟩ <;>
         first
         | exact congrArg sr_payload.sint (wrap_signed_8 _ hr)
         | exact congrArg sr_payload.sint (wrap_signed_16 _ hr)
         | exact congrArg sr_payload.sint (wrap_signed_32 _ hr)
         | exact congrArg sr_payload.sint (wrap_signed_64 _ hr)
         | exact congrArg sr_payload.uint (wrap_unsigned_of_lt _ _ hr))

/-- A text of length zero is the empty text. -/
theorem string_length_zero (m : String) (h : m.length = 0) : m = "" := by
  obtain ⟨l⟩ := m
  have : l = [] := List.length_eq_zero.1 h
  subst this
  rfl

/-- The module qualifier is encoded as it is when no allocation fails. -/
theorem tree_module_to_gpb_ok (st : MemState) (b : Bool) (m : Option String) :
    ∃ st1, tree_module_to_gpb (fun _ => true) st b m = (SR_ERR_OK, m, st1) := by
  cases m <;> cases b <;> exact ⟨_, rfl⟩

/-- A module qualifier that is absent or not empty is decoded as it is when no
allocation fails. -/
theorem gpb_module_to_tree_ok (st : MemState) (b : Bool) (m : Option String)
    (hm : m ≠ some "") :
    ∃ st1, gpb_module_to_tree (fun _ => true) st b m = (SR_ERR_OK, m, st1) := by
  cases m with
  | none => exact ⟨_, rfl⟩
  | some s =>
    have hl : s.length ≠ 0 := fun h => hm (by rw [string_length_zero s h])
    cases b <;> simp [gpb_module_to_tree, hl, strdup]

/-- The two conversions of typed trees compose to the identity on encodable
trees, up to the owning arena, when no allocation fails. -/
theorem tree_loops_roundtrip :
    ∀ t : sr_node_t, t.encodable → ∀ st, ∃ g st1,
      sr_dup_tree_to_gpb (fun _ => true) st t = { rc := SR_ERR_OK, out := some g, st := st1 } ∧
      ∀ st2 sr_mem, ∃ w st3,
        sr_copy_gpb_to_tree (fun _ => true) st2 g (.mk { _sr_mem := sr_mem } none [])
          = (SR_ERR_OK, w, st3) ∧
        t.same w ∧ w.val._sr_mem = sr_mem := by
  apply sr_node_t.induction
  intro val module_name children ih henc st
  simp only [sr_node_t.encodable] at henc
  obtain ⟨hval, hmod, hch⟩ := henc
  -- the children
  have hlist : ∀ (ts : List sr_node_t), (∀ c ∈ ts, c ∈ children) → sr_node_t.encodable_list ts →
      ∀ st, ∃ gs st1, sr_dup_tree_to_gpb_children (fun _ => true) st ts = (SR_ERR_OK, gs, st1) ∧
        gs.length = ts.length ∧
        ∀ st2 (parent : sr_node_t), ∃ ws st3,
          sr_copy_gpb_to_tree_children (fun _ => true) st2 gs gs.length parent
            = (SR_ERR_OK, .mk parent.val parent.module_name (parent.children ++ ws), st3) ∧
          sr_node_t.same_list ts ws := by
    intro ts
    induction ts with
    | nil =>
      intro _ _ st
      refine ⟨[], st, rfl, rfl, fun st2 parent => ⟨[], st2, ?_, rfl⟩⟩
      obtain ⟨pv, pm, pc⟩ := parent
      simp [sr_copy_gpb_to_tree_children, sr_node_t.val, sr_node_t.module_name,
        sr_node_t.children]
    | cons t ts iht =>
      intro hmem hencl st
      simp only [sr_node_t.encodable_list] at hencl
      obtain ⟨g, st1, hg, hdec⟩ := ih t (hmem t (List.mem_cons_self _ _)) hencl.1 st
      obtain ⟨gs, st2, hgs, hlen, hdecs⟩ :=
        iht (fun c hc => hmem c (List.mem_cons_of_mem _ hc)) hencl.2 st1
      refine ⟨g :: gs, st2, ?_, by simp [hlen], ?_⟩
      · rw [sr_dup_tree_to_gpb_children, hg]
        simp only [hgs]
      · intro st3 parent
        obtain ⟨st4, hadd⟩ := sr_calloc_true st3 parent.val._sr_mem 1
        obtain ⟨w, st5, hw, hsame, hmemw⟩ := hdec st4 parent.val._sr_mem
        obtain ⟨ws, st6, hws, hsames⟩ := hdecs st5 (parent.with_child w)
        refine ⟨w :: ws, st6, ?_, ?_⟩
        · simp only [List.length_cons]
          rw [sr_copy_gpb_to_tree_children]
          simp only [sr_node_add_child, hadd, hw]
          rw [hws]
          simp [sr_node_t.with_child, sr_node_t.val, sr_node_t.module_name, sr_node_t.children]
        · simp only [sr_node_t.same_list]
          exact ⟨hsame, hsames⟩
  obtain ⟨sa, hsa⟩ := sr_calloc_true st val._sr_mem 1
  obtain ⟨sb, hsb⟩ := sr_calloc_true sa val._sr_mem 1
  obtain ⟨g0, sc, hty, hvl⟩ := val_fields_encode val hval.2.1 sb
  obtain ⟨sd, hmd⟩ := tree_module_to_gpb_ok sc val._sr_mem.isSome module_name
  by_cases hpos : 0 < children.length
  · obtain ⟨se, hse⟩ := sr_calloc_true sd val._sr_mem children.length
    obtain ⟨gs, sf, hgs, hlen, hdecs⟩ := hlist children (fun c hc => hc) hch se
    refine ⟨.mk (some (wire_value_spec val)) module_name gs.length gs, sf, ?_, ?_⟩
    · rw [sr_dup_tree_to_gpb]
      simp only [hsa, hsb, hty, hvl, hmd, hpos, if_true, hse, hgs]
    · intro st2 sr_mem
      obtain ⟨w0, w, st3, hdt, hdv, hsame, hwm⟩ := val_fields_decode val hval st2 sr_mem
      obtain ⟨st4, hdm⟩ := gpb_module_to_tree_ok st3 w._sr_mem.isSome module_name hmod
      obtain ⟨ws, st5, hws, hsames⟩ := hdecs st4 (.mk w module_name [])
      refine ⟨.mk w module_name ws, st5, ?_, ?_, ?_⟩
      · rw [sr_copy_gpb_to_tree]
        simp only [sr_node_t.val, hdt, hdv, hdm, hws, sr_node_t.module_name, sr_node_t.children,
          List.nil_append, copy_gpb_cleanup, if_true]
      · simp only [sr_node_t.same, sr_node_t.val, sr_node_t.module_name, sr_node_t.children]
        exact ⟨hsame, trivial, hsames⟩
      · simpa [sr_node_t.val] using hwm
  · have hnil : children = [] := by
      cases children with
      | nil => rfl
      | cons c cs => simp at hpos
    subst hnil
    refine ⟨.mk (some (wire_value_spec val)) module_name 0 [], sd, ?_, ?_⟩
    · rw [sr_dup_tree_to_gpb]
      simp only [hsa, hsb, hty, hvl, hmd, hpos, if_false]
    · intro st2 sr_mem
      obtain ⟨w0, w, st3, hdt, hdv, hsame, hwm⟩ := val_fields_decode val hval st2 sr_mem
      obtain ⟨st4, hdm⟩ := gpb_module_to_tree_ok st3 w._sr_mem.isSome module_name hmod
      refine ⟨.mk w module_name [], st4, ?_, ?_, ?_⟩
      · rw [sr_copy_gpb_to_tree]
        simp only [sr_node_t.val, hdt, hdv, hdm, sr_copy_gpb_to_tree_children, copy_gpb_cleanup,
          if_true]
      · simp only [sr_node_t.same, sr_node_t.val, sr_node_t.module_name, sr_node_t.children,
          sr_node_t.same_list]
        exact ⟨hsame, trivial, trivial⟩
      · simpa [sr_node_t.val] using hwm

/-- C19 (amended): for every typed tree in which every node has a name, one of
the 22 supported tags, a present string payload if its tag is text-like, a
payload that fits its C type and a module qualifier that is absent or not
empty: when no allocation fails, `sr_dup_tree_to_gpb` succeeds and
`sr_dup_gpb_to_tree`, applied to its output for any arena, succeeds with a tree
equal to the original: same name, tag, default flag, payload and module
qualifier at every node, and the same children in the same order and number. -/
theorem tree_roundtrip (A : Nat → Bool) (hA : ∀ k, A k = true) (t : sr_node_t)
    (ht : t.encodable) (st : MemState) :
    (sr_dup_tree_to_gpb A st t).rc = SR_ERR_OK ∧
    ∃ g, (sr_dup_tree_to_gpb A st t).out = some g ∧
      ∀ st2 sr_mem, (sr_dup_gpb_to_tree A st2 sr_mem (some g)).rc = SR_ERR_OK ∧
        ∃ w, (sr_dup_gpb_to_tree A st2 sr_mem (some g)).out = some w ∧ t.same w := by
  have hAA : A = fun _ => true := funext hA
  subst hAA
  obtain ⟨g, st1, hg, hdec⟩ := tree_loops_roundtrip t ht st
  rw [hg]
  refine ⟨rfl, g, rfl, ?_⟩
  intro st2 sr_mem
  obtain ⟨sa, hsa⟩ := sr_calloc_true st2 sr_mem 1
  obtain ⟨w, st3, hw, hsame, _⟩ := hdec sa sr_mem
  simp only [sr_dup_gpb_to_tree, hsa, hw]
  exact ⟨trivial, w, rfl, hsame⟩

/-- Witness for C19 (amended): the container `r` of module `m` with the string
leaf `a` and the INT32 leaf `b`, converted without an arena while every
allocation succeeds. -/
theorem tree_roundtrip_witness :
    (sr_dup_tree_to_gpb (fun _ => true) {}
      (.mk { xpath := some "r", type := SR_CONTAINER_T } (some "m")
        [.mk { xpath := some "a", type := SR_STRING_T, data := { string_val := some "x" } } none [],
         .mk { xpath := some "b", type := SR_INT32_T, data := { int32_val := -5 } } none []])).rc
      = SR_ERR_OK ∧
    ∃ g, (sr_dup_tree_to_gpb (fun _ => true) {}
      (.mk { xpath := some "r", type := SR_CONTAINER_T } (some "m")
        [.mk { xpath := some "a", type := SR_STRING_T, data := { string_val := some "x" } } none [],
         .mk { xpath := some "b", type := SR_INT32_T, data := { int32_val := -5 } } none []])).out
        = some g ∧
      ∀ st2 sr_mem, (sr_dup_gpb_to_tree (fun _ => true) st2 sr_mem (some g)).rc = SR_ERR_OK ∧
        ∃ w, (sr_dup_gpb_to_tree (fun _ => true) st2 sr_mem (some g)).out = some w ∧
          sr_node_t.same
            (.mk { xpath := some "r", type := SR_CONTAINER_T } (some "m")
              [.mk { xpath := some "a", type := SR_STRING_T, data := { string_val := some "x" } }
                 none [],
               .mk { xpath := some "b", type := SR_INT32_T, data := { int32_val := -5 } } none []])
            w :=
  tree_roundtrip (fun _ => true) (fun _ => rfl) _
    (by
      simp +decide [sr_node_t.encodable, sr_node_t.encodable_list, sr_val_t.encodable,
        supported_types, sr_val_t.text_present, sr_val_t.in_range])
    {}

/-- C19 (as stated, refuted): a tree of one node that has the name `n`, no
module qualifier and the tag UNKNOWN is not encoded: `sr_dup_tree_to_gpb`
returns INTERNAL and hands no wire node back. -/
theorem tree_unknown_tag_not_encoded :
    (sr_dup_tree_to_gpb (fun _ => true) {}
      (.mk { xpath := some "n", type := SR_UNKNOWN_T } none [])).rc = SR_ERR_INTERNAL ∧
    (sr_dup_tree_to_gpb (fun _ => true) {}
      (.mk { xpath := some "n", type := SR_UNKNOWN_T } none [])).out = none := by
  exact ⟨rfl, rfl⟩

/-! ## Schema descriptor claims -/

/-- With no allocation failing a string is copied as it is. -/
theorem schema_copy_string_ok (st : MemState) (b c : Bool) (src : Option String) :
    ∃ st1, schema_copy_string (fun _ => true) st b c src = (SR_ERR_OK, src, st1) := by
  cases src <;> cases b <;> exact ⟨_, rfl⟩

/-- With no allocation failing the feature names are copied as they are. -/
theorem schema_copy_features_ok (b : Bool) :
    ∀ (fs : List (Option String)) (st : MemState),
      ∃ st1, schema_copy_features (fun _ => true) st b fs = (SR_ERR_OK, fs, st1) := by
  intro fs
  induction fs with
  | nil => intro st; exact ⟨st, rfl⟩
  | cons f fs ih =>
    intro st
    obtain ⟨s1, h1⟩ := schema_copy_string_ok st b true f
    obtain ⟨s2, h2⟩ := ih s1
    exact ⟨s2, by simp only [schema_copy_features, h1, h2]⟩

/-- With no allocation failing a conditional allocation succeeds. -/
theorem cond_calloc_true (st : MemState) (m : Option Nat) (n : Nat) :
    ∃ st1, (if 0 < n then sr_calloc (fun _ => true) st m n else (true, st)) = (true, st1) := by
  by_cases h : 0 < n
  · cases m <;> simp [h, sr_calloc]
  · simp [h]

/-- A revision triple is encoded as its wire form. -/
theorem schema_revision_to_gpb_ok (st : MemState) (m : Option Nat) (rev : sr_sch_revision_t) :
    ∃ st1, schema_revision_to_gpb (fun _ => true) st m rev = (SR_ERR_OK, some rev.wire, st1) := by
  obtain ⟨s0, h0⟩ : ∃ s0, sr_calloc (fun _ => true) st m 1 = (true, s0) := by
    cases m <;> exact ⟨_, rfl⟩
  obtain ⟨s1, h1⟩ := schema_copy_string_ok s0 m.isSome true rev.revision
  obtain ⟨s2, h2⟩ := schema_copy_string_ok s1 m.isSome true rev.file_path_yang
  obtain ⟨s3, h3⟩ := schema_copy_string_ok s2 m.isSome true rev.file_path_yin
  exact ⟨s3, by simp only [schema_revision_to_gpb, h0, h1, h2, h3, sr_sch_revision_t.wire]⟩

/-- The revision triple is read back from its wire form. -/
theorem gpb_revision_to_schema_ok (st : MemState) (m : Option Nat) (rev : sr_sch_revision_t) :
    ∃ st1, gpb_revision_to_schema (fun _ => true) st m (some rev.wire) = (SR_ERR_OK, rev, st1) := by
  obtain ⟨s1, h1⟩ := schema_copy_string_ok st m.isSome true rev.revision
  obtain ⟨s2, h2⟩ := schema_copy_string_ok s1 m.isSome true rev.file_path_yang
  obtain ⟨s3, h3⟩ := schema_copy_string_ok s2 m.isSome true rev.file_path_yin
  exact ⟨s3, by
    simp only [gpb_revision_to_schema, Option.getD_some, sr_sch_revision_t.wire, h1, h2, h3]⟩

/-- The submodules are encoded one by one as their wire forms. -/
theorem schema_submodules_to_gpb_ok (m : Option Nat) :
    ∀ (ss : List sr_sch_submodule_t) (st : MemState),
      ∃ st1, schema_submodules_to_gpb (fun _ => true) st m ss =
        (SR_ERR_OK, ss.map sr_sch_submodule_t.wire, st1) := by
  intro ss
  induction ss with
  | nil => intro st; exact ⟨st, rfl⟩
  | cons s ss ih =>
    intro st
    obtain ⟨s0, h0⟩ : ∃ s0, sr_calloc (fun _ => true) st m 1 = (true, s0) := by
      cases m <;> exact ⟨_, rfl⟩
    obtain ⟨s1, h1⟩ := schema_copy_string_ok s0 m.isSome true s.submodule_name
    obtain ⟨s2, h2⟩ := schema_revision_to_gpb_ok s1 m s.revision
    obtain ⟨s3, h3⟩ := ih s2
    exact ⟨s3, by
      simp only [schema_submodules_to_gpb, schema_submodule_to_gpb, h0, h1, h2, h3, List.map_cons,
        sr_sch_submodule_t.wire]⟩

/-- The submodules are read back from their wire forms. -/
theorem gpb_submodules_to_schema_ok (m : Option Nat) :
    ∀ (ss : List sr_sch_submodule_t) (st : MemState),
      ∃ st1, gpb_submodules_to_schema (fun _ => true) st m (ss.map sr_sch_submodule_t.wire) =
        (SR_ERR_OK, ss, st1) := by
  intro ss
  induction ss with
  | nil => intro st; exact ⟨st, rfl⟩
  | cons s ss ih =>
    intro st
    obtain ⟨t1, g1⟩ := schema_copy_string_ok st m.isSome true s.submodule_name
    obtain ⟨t2, g2⟩ := gpb_revision_to_schema_ok t1 m s.revision
    obtain ⟨t3, g3⟩ := ih t2
    exact ⟨t3, by
      simp only [List.map_cons, gpb_submodules_to_schema, gpb_submodule_to_schema,
        sr_sch_submodule_t.wire, g1, g2, g3]⟩

/-- A descriptor is encoded as its wire form. -/
theorem schema_to_gpb_ok (m : Option Nat) (s : sr_schema_t) (st : MemState) :
    ∃ st1, schema_to_gpb (fun _ => true) st m s = (SR_ERR_OK, some s.wire, st1) := by
  obtain ⟨s0, h0⟩ : ∃ s0, sr_calloc (fun _ => true) st m 1 = (true, s0) := by
    cases m <;> exact ⟨_, rfl⟩
  obtain ⟨s1, h1⟩ := schema_copy_string_ok s0 m.isSome false s.module_name
  obtain ⟨s2, h2⟩ := schema_copy_string_ok s1 m.isSome false s.ns
  obtain ⟨s3, h3⟩ := schema_copy_string_ok s2 m.isSome true s.prefix_
  obtain ⟨s4, h4⟩ := schema_revision_to_gpb_ok s3 m s.revision
  obtain ⟨s5, h5⟩ := cond_calloc_true s4 m s.enabled_feature_cnt
  obtain ⟨s6, h6⟩ := schema_copy_features_ok m.isSome
    ((s.enabled_features.getD []).take s.enabled_feature_cnt) s5
  obtain ⟨s7, h7⟩ := cond_calloc_true s6 m s.submodule_count
  obtain ⟨s8, h8⟩ := schema_submodules_to_gpb_ok m
    ((s.submodules.getD []).take s.submodule_count) s7
  exact ⟨s8, by
    simp only [schema_to_gpb, h0, h1, h2, h3, h4, h5, h6, h7, h8, sr_schema_t.wire,
      sr_schema_t.submodule_elems, sr_schema_t.feature_elems]⟩

/-- The wire form of a well-formed descriptor is read back as a descriptor that
agrees with it. -/
theorem gpb_to_schema_ok (m : Option Nat) (s : sr_schema_t) (hs : s.well_formed)
    (st : MemState) :
    ∃ w st1, gpb_to_schema (fun _ => true) st m s.wire = (SR_ERR_OK, w, st1) ∧ s.same w := by
  obtain ⟨hsub, hfeat⟩ := hs
  obtain ⟨t1, g1⟩ := schema_copy_string_ok st m.isSome true s.module_name
  obtain ⟨t2, g2⟩ := schema_copy_string_ok t1 m.isSome true s.ns
  obtain ⟨t3, g3⟩ := schema_copy_string_ok t2 m.isSome true s.prefix_
  obtain ⟨t4, g4⟩ := gpb_revision_to_schema_ok t3 m s.revision
  obtain ⟨t5, g5⟩ := cond_calloc_true t4 m s.enabled_feature_cnt
  have hf : ((s.wire.enabled_features.getD []).take s.enabled_feature_cnt) = s.feature_elems := by
    simp only [sr_schema_t.wire]
    by_cases h : 0 < s.enabled_feature_cnt
    · simp only [h, if_true, Option.getD_some]
      rw [List.take_of_length_le]
      omega
    · have h0 : s.enabled_feature_cnt = 0 := by omega
      have : s.feature_elems = [] := by
        apply List.eq_nil_of_length_eq_zero
        rw [hfeat, h0]
      simp [h, this]
  have hsb : ((s.wire.submodules.getD []).take s.submodule_count)
      = s.submodule_elems.map sr_sch_submodule_t.wire := by
    simp only [sr_schema_t.wire]
    by_cases h : 0 < s.submodule_count
    · simp only [h, if_true, Option.getD_some]
      rw [List.take_of_length_le]
      simp [hsub]
    · have h0 : s.submodule_count = 0 := by omega
      have : s.submodule_elems = [] := by
        apply List.eq_nil_of_length_eq_zero
        rw [hsub, h0]
      simp [h, this]
  obtain ⟨t6, g6⟩ := schema_copy_features_ok m.isSome s.feature_elems t5
  obtain ⟨t7, g7⟩ := cond_calloc_true t6 m s.submodule_count
  obtain ⟨t8, g8⟩ := gpb_submodules_to_schema_ok m s.submodule_elems t7
  have hn1 : s.wire.n_enabled_features = s.enabled_feature_cnt := by
    simp [sr_schema_t.wire, hfeat]
  have hn2 : s.wire.n_submodules = s.submodule_count := rfl
  have e1 : s.wire.module_name = s.module_name := rfl
  have e2 : s.wire.ns = s.ns := rfl
  have e3 : s.wire.prefix_ = s.prefix_ := rfl
  have e4 : s.wire.revision = some s.revision.wire := rfl
  refine ⟨{ _sr_mem := m, module_name := s.module_name, ns := s.ns, prefix_ := s.prefix_,
             revision := s.revision,
             submodules := if 0 < s.submodule_count then some s.submodule_elems else none,
             submodule_count := s.submodule_elems.length,
             enabled_features := if 0 < s.enabled_feature_cnt then some s.feature_elems else none,
             enabled_feature_cnt := s.feature_elems.length }, t8, by
    simp only [gpb_to_schema, e1, e2, e3, e4, hn1, hn2, hf, hsb, g1, g2, g3, g4, g5, g6, g7, g8], ?_⟩
  unfold sr_schema_t.same
  refine ⟨rfl, rfl, rfl, rfl, hsub, ?_, hfeat, ?_, ?_, ?_⟩
  all_goals simp only [sr_schema_t.submodule_elems, sr_schema_t.feature_elems] at hsub hfeat ⊢
  · by_cases h : 0 < s.submodule_count
    · simp [h]
    · have h0 : s.submodule_count = 0 := by omega
      simp [h0]
  · by_cases h : 0 < s.enabled_feature_cnt
    · simp [h]
    · have h0 : s.enabled_feature_cnt = 0 := by omega
      simp [h0]
  · intro h0; simp [h0]
  · intro h0; simp [h0]

/-- The descriptors are encoded one by one as their wire forms. -/
theorem sr_schemas_sr_to_gpb_loop_ok (m : Option Nat) :
    ∀ (ss : List sr_schema_t) (st : MemState),
      ∃ st1, sr_schemas_sr_to_gpb_loop (fun _ => true) st m ss =
        (SR_ERR_OK, ss.map sr_schema_t.wire, st1) := by
  intro ss
  induction ss with
  | nil => intro st; exact ⟨st, rfl⟩
  | cons s ss ih =>
    intro st
    obtain ⟨s1, h1⟩ := schema_to_gpb_ok m s st
    obtain ⟨s2, h2⟩ := ih s1
    exact ⟨s2, by simp only [sr_schemas_sr_to_gpb_loop, h1, h2, List.map_cons]⟩

/-- The wire forms of well-formed descriptors are read back, one by one, as
descriptors that agree with them. -/
theorem sr_schemas_gpb_to_sr_loop_ok (m : Option Nat) :
    ∀ (ss : List sr_schema_t), (∀ s ∈ ss, s.well_formed) → ∀ (st : MemState),
      ∃ ws st1, sr_schemas_gpb_to_sr_loop (fun _ => true) st m (ss.map sr_schema_t.wire) =
        (SR_ERR_OK, ws, st1) ∧ List.Forall₂ sr_schema_t.same ss ws := by
  intro ss
  induction ss with
  | nil => intro _ st; exact ⟨[], st, rfl, List.Forall₂.nil⟩
  | cons s ss ih =>
    intro hwf st
    obtain ⟨w, s1, h1, hsame⟩ := gpb_to_schema_ok m s (hwf s (List.mem_cons_self _ _)) st
    obtain ⟨ws, s2, h2, hall⟩ := ih (fun u hu => hwf u (List.mem_cons_of_mem _ hu)) s1
    exact ⟨w :: ws, s2, by simp only [List.map_cons, sr_schemas_gpb_to_sr_loop, h1, h2],
      List.Forall₂.cons hsame hall⟩

/-- C20: for every non-empty array of schema descriptors whose inner arrays
hold as many elements as their counts say, when no allocation fails,
`sr_schemas_sr_to_gpb` succeeds and `sr_schemas_gpb_to_sr`, applied to its
output for any arena, succeeds with as many descriptors, which agree with the
originals one by one: module name, namespace, prefix, primary revision triple,
the submodules and the enabled feature names in the same order and number,
absent strings absent, an inner array of no elements absent.  For a count of
zero either converter stores an absent array. -/
theorem schemas_roundtrip (A : Nat → Bool) (hA : ∀ k, A k = true) (ss : List sr_schema_t)
    (hne : ss ≠ []) (hwf : ∀ s ∈ ss, s.well_formed) (st : MemState) :
    ((sr_schemas_sr_to_gpb A st (some ss) ss.length).rc = SR_ERR_OK ∧
      ∃ gpbs, (sr_schemas_sr_to_gpb A st (some ss) ss.length).out = some (some gpbs) ∧
        ∀ st2 sr_mem, (sr_schemas_gpb_to_sr A st2 sr_mem (some gpbs) ss.length).rc = SR_ERR_OK ∧
          ∃ ws, (sr_schemas_gpb_to_sr A st2 sr_mem (some gpbs) ss.length).out = some (some ws) ∧
            List.Forall₂ sr_schema_t.same ss ws) ∧
    (sr_schemas_sr_to_gpb A st (some ss) 0).rc = SR_ERR_OK ∧
    (sr_schemas_sr_to_gpb A st (some ss) 0).out = some none ∧
    (∀ gpbs sr_mem, (sr_schemas_gpb_to_sr A st sr_mem (some gpbs) 0).rc = SR_ERR_OK ∧
      (sr_schemas_gpb_to_sr A st sr_mem (some gpbs) 0).out = some none) := by
  have hAA : A = fun _ => true := funext hA
  subst hAA
  refine ⟨?_, rfl, rfl, fun _ _ => ⟨rfl, rfl⟩⟩
  have hlen : ss.length ≠ 0 := fun h => hne (List.length_eq_zero.1 h)
  obtain ⟨s0, h0⟩ : ∃ s0, sr_calloc (fun _ => true) st (ss.headD {})._sr_mem ss.length
      = (true, s0) := by
    cases (ss.headD {})._sr_mem <;> exact ⟨_, rfl⟩
  obtain ⟨s1, h1⟩ := sr_schemas_sr_to_gpb_loop_ok (ss.headD {})._sr_mem ss s0
  have henc : sr_schemas_sr_to_gpb (fun _ => true) st (some ss) ss.length
      = { rc := SR_ERR_OK, out := some (some (ss.map sr_schema_t.wire)), st := s1 } := by
    simp only [sr_schemas_sr_to_gpb, hlen, if_false, h0, List.take_length, h1]
  rw [henc]
  refine ⟨rfl, _, rfl, ?_⟩
  intro st2 sr_mem
  obtain ⟨t0, g0⟩ : ∃ t0, sr_calloc (fun _ => true) st2 sr_mem ss.length = (true, t0) := by
    cases sr_mem <;> exact ⟨_, rfl⟩
  obtain ⟨ws, t1, g1, hall⟩ := sr_schemas_gpb_to_sr_loop_ok sr_mem ss hwf t0
  have htake : (ss.map sr_schema_t.wire).take ss.length = ss.map sr_schema_t.wire := by
    rw [List.take_of_length_le]
    simp
  simp only [sr_schemas_gpb_to_sr, hlen, if_false, g0, htake, g1]
  exact ⟨trivial, ws, rfl, hall⟩

/-- Witness for C20: one descriptor of the module `m` with a revision, one
submodule and one enabled feature, converted without an arena while every
allocation succeeds. -/
theorem schemas_roundtrip_witness :
    ∃ gpbs, (sr_schemas_sr_to_gpb (fun _ => true) {}
        (some [{ module_name := some "m", ns := some "urn:m", prefix_ := some "m",
                 revision := { revision := some "2016-01-01", file_path_yang := some "/m.yang" },
                 submodules := some [{ submodule_name := some "sub",
                                       revision := { revision := some "2016-01-01" } }],
                 submodule_count := 1,
                 enabled_features := some [some "f1"], enabled_feature_cnt := 1 }]) 1).out
        = some (some gpbs) ∧
      ∃ ws, (sr_schemas_gpb_to_sr (fun _ => true) {} none (some gpbs) 1).out = some (some ws) ∧
        List.Forall₂ sr_schema_t.same
          [{ module_name := some "m", ns := some "urn:m", prefix_ := some "m",
             revision := { revision := some "2016-01-01", file_path_yang := some "/m.yang" },
             submodules := some [{ submodule_name := some "sub",
                                   revision := { revision := some "2016-01-01" } }],
             submodule_count := 1,
             enabled_features := some [some "f1"], enabled_feature_cnt := 1 }] ws :=
  have t := schemas_roundtrip (fun _ => true) (fun _ => rfl)
    [{ module_name := some "m", ns := some "urn:m", prefix_ := some "m",
       revision := { revision := some "2016-01-01", file_path_yang := some "/m.yang" },
       submodules := some [{ submodule_name := some "sub",
                             revision := { revision := some "2016-01-01" } }],
       submodule_count := 1,
       enabled_features := some [some "f1"], enabled_feature_cnt := 1 }]
    (by simp)
    (by
      intro s hs
      simp only [List.mem_singleton] at hs
      subst hs
      exact ⟨rfl, rfl⟩)
    {}
  t.1.2.imp fun _ h => ⟨h.1, (h.2 {} none).2⟩

/-! ## Enumeration claims -/

/-- C21: for the datastore, change-operation, list-move-position and
API-variant enumerations, converting an enumerator to its wire code and back
is the identity, and so is converting a wire enumerator to the enumeration and
back; every code that is not an enumerator converts, in either direction, to
STARTUP, MODIFIED, LAST and VALUES respectively. -/
theorem enum_codes_roundtrip :
    (∀ ds ∈ [SR_DS_STARTUP, SR_DS_RUNNING, SR_DS_CANDIDATE],
      sr_datastore_gpb_to_sr (sr_datastore_sr_to_gpb ds) = ds) ∧
    (∀ ds ∈ [SR__DATA_STORE__STARTUP, SR__DATA_STORE__RUNNING, SR__DATA_STORE__CANDIDATE],
      sr_datastore_sr_to_gpb (sr_datastore_gpb_to_sr ds) = ds) ∧
    sr_datastore_sr_to_gpb SR_DS_STARTUP = SR__DATA_STORE__STARTUP ∧
    sr_datastore_sr_to_gpb SR_DS_RUNNING = SR__DATA_STORE__RUNNING ∧
    sr_datastore_sr_to_gpb SR_DS_CANDIDATE = SR__DATA_STORE__CANDIDATE ∧
    (∀ c, sr_datastore_sr_to_gpb (sr_datastore_t.unrecognized c) = SR__DATA_STORE__STARTUP) ∧
    (∀ c, sr_datastore_gpb_to_sr (Sr__DataStore.unrecognized c) = SR_DS_STARTUP) ∧
    (∀ op ∈ [SR_OP_CREATED, SR_OP_DELETED, SR_OP_MOVED, SR_OP_MODIFIED],
      sr_change_op_gpb_to_sr (sr_change_op_sr_to_gpb op) = op) ∧
    (∀ op ∈ [SR__CHANGE_OPERATION__CREATED, SR__CHANGE_OPERATION__DELETED,
        SR__CHANGE_OPERATION__MOVED, SR__CHANGE_OPERATION__MODIFIED],
      sr_change_op_sr_to_gpb (sr_change_op_gpb_to_sr op) = op) ∧
    sr_change_op_sr_to_gpb SR_OP_CREATED = SR__CHANGE_OPERATION__CREATED ∧
    sr_change_op_sr_to_gpb SR_OP_DELETED = SR__CHANGE_OPERATION__DELETED ∧
    sr_change_op_sr_to_gpb SR_OP_MOVED = SR__CHANGE_OPERATION__MOVED ∧
    sr_change_op_sr_to_gpb SR_OP_MODIFIED = SR__CHANGE_OPERATION__MODIFIED ∧
    (∀ c, sr_change_op_sr_to_gpb (sr_change_oper_t.unrecognized c)
      = SR__CHANGE_OPERATION__MODIFIED) ∧
    (∀ c, sr_change_op_gpb_to_sr (Sr__ChangeOperation.unrecognized c) = SR_OP_MODIFIED) ∧
    (∀ p ∈ [SR_MOVE_BEFORE, SR_MOVE_AFTER, SR_MOVE_FIRST, SR_MOVE_LAST],
      sr_move_direction_gpb_to_sr (sr_move_position_sr_to_gpb p) = p) ∧
    (∀ p ∈ [SR__MOVE_ITEM_REQ__MOVE_POSITION__BEFORE, SR__MOVE_ITEM_REQ__MOVE_POSITION__AFTER,
        SR__MOVE_ITEM_REQ__MOVE_POSITION__FIRST, SR__MOVE_ITEM_REQ__MOVE_POSITION__LAST],
      sr_move_position_sr_to_gpb (sr_move_direction_gpb_to_sr p) = p) ∧
    sr_move_position_sr_to_gpb SR_MOVE_BEFORE = SR__MOVE_ITEM_REQ__MOVE_POSITION__BEFORE ∧
    sr_move_position_sr_to_gpb SR_MOVE_AFTER = SR__MOVE_ITEM_REQ__MOVE_POSITION__AFTER ∧
    sr_move_position_sr_to_gpb SR_MOVE_FIRST = SR__MOVE_ITEM_REQ__MOVE_POSITION__FIRST ∧
    sr_move_position_sr_to_gpb SR_MOVE_LAST = SR__MOVE_ITEM_REQ__MOVE_POSITION__LAST ∧
    (∀ c, sr_move_position_sr_to_gpb (sr_move_position_t.unrecognized c)
      = SR__MOVE_ITEM_REQ__MOVE_POSITION__LAST) ∧
    (∀ c, sr_move_direction_gpb_to_sr (Sr__MoveItemReq__MovePosition.unrecognized c)
      = SR_MOVE_LAST) ∧
    (∀ v ∈ [SR_API_VALUES, SR_API_TREES],
      sr_api_variant_gpb_to_sr (sr_api_variant_sr_to_gpb v) = v) ∧
    (∀ v ∈ [SR__API_VARIANT__VALUES, SR__API_VARIANT__TREES],
      sr_api_variant_sr_to_gpb (sr_api_variant_gpb_to_sr v) = v) ∧
    sr_api_variant_sr_to_gpb SR_API_VALUES = SR__API_VARIANT__VALUES ∧
    sr_api_variant_sr_to_gpb SR_API_TREES = SR__API_VARIANT__TREES ∧
    (∀ c, sr_api_variant_sr_to_gpb (sr_api_variant_t.unrecognized c)
      = SR__API_VARIANT__VALUES) ∧
    (∀ c, sr_api_variant_gpb_to_sr (Sr__ApiVariant.unrecognized c) = SR_API_VALUES) := by
  refine ⟨by decide, by decide, rfl, rfl, rfl, fun _ => rfl, fun _ => rfl,
    by decide, by decide, rfl, rfl, rfl, rfl, fun _ => rfl, fun _ => rfl,
    by decide, by decide, rfl, rfl, rfl, rfl, fun _ => rfl, fun _ => rfl,
    by decide, by decide, rfl, rfl, fun _ => rfl, fun _ => rfl⟩

/-! ## File name claims -/

/-- With every allocation succeeding `sr_str_join` yields the concatenation. -/
theorem sr_str_join_ok (st : MemState) (s1 s2 : String) :
    ∃ st1, sr_str_join (fun _ => true) st (some s1) (some s2)
      = { rc := SR_ERR_OK, out := some (s1 ++ s2), st := st1 } := by
  unfold sr_str_join calloc
  exact ⟨_, rfl⟩

/-- A text shorter than the buffer is stored whole. -/
theorem snprintf_fits (size : Nat) (s : String) (h : s.length < size) : snprintf size s = s := by
  unfold snprintf
  have : s.data.take (size - 1) = s.data := List.take_of_length_le (by
    have : s.data.length = s.length := rfl
    omega)
  rw [this]

/-- With every allocation succeeding `sr_get_data_file_name` yields directory,
name and the extension of the datastore. -/
theorem sr_get_data_file_name_ok (st : MemState) (dir name : String) (ds : sr_datastore_t) :
    ∃ st1, sr_get_data_file_name (fun _ => true) st (some dir) (some name) ds
      = { rc := SR_ERR_OK, out := some (dir ++ name ++ data_file_suffix ds), st := st1 } := by
  unfold sr_get_data_file_name
  obtain ⟨st1, h1⟩ := sr_str_join_ok st dir name
  simp only [h1]
  exact sr_str_join_ok st1 (dir ++ name) (data_file_suffix ds)

/-- With every allocation succeeding `sr_get_schema_file_name` yields
directory, name, `@` and the revision exactly when a non-empty revision is
given, and the extension of the format. -/
theorem sr_get_schema_file_name_ok (st : MemState) (dir name : String)
    (rev_date : Option String) (yf : Bool) :
    (sr_get_schema_file_name (fun _ => true) st (some dir) (some name) rev_date yf).rc
      = SR_ERR_OK ∧
    (sr_get_schema_file_name (fun _ => true) st (some dir) (some name) rev_date yf).out
      = some (dir ++ name ++ revision_part rev_date ++ schema_ext yf) := by
  unfold sr_get_schema_file_name
  obtain ⟨st1, h1⟩ := sr_str_join_ok st dir name
  simp only [h1]
  by_cases hrev : rev_date.isSome ∧ rev_date ≠ some ""
  · simp only [hrev, and_self, if_true, ne_eq, not_true_eq_false, if_false]
    obtain ⟨rev, hr⟩ := Option.isSome_iff_exists.1 hrev.1
    subst hr
    have hne : rev ≠ "" := fun h => hrev.2 (by rw [h])
    obtain ⟨st2, h2⟩ := sr_str_join_ok st1 (dir ++ name) "@"
    simp only [h2, not_true_eq_false, if_false]
    obtain ⟨st3, h3⟩ := sr_str_join_ok st2 (dir ++ name ++ "@") rev
    simp only [h3, if_true]
    obtain ⟨st4, h4⟩ := sr_str_join_ok st3 (dir ++ name ++ "@" ++ rev) (schema_ext yf)
    unfold schema_ext at h4 ⊢
    rw [h4]
    simp [revision_part, hne, String.append_assoc]
  · simp only [hrev, if_false, if_true]
    obtain ⟨st2, h2⟩ := sr_str_join_ok st1 (dir ++ name) (schema_ext yf)
    unfold schema_ext at h2 ⊢
    rw [h2]
    have : revision_part rev_date = "" := by
      unfold revision_part
      cases rev_date with
      | none => rfl
      | some r =>
        by_cases hr : r = ""
        · simp [hr]
        · exact absurd ⟨rfl, fun h => hr (Option.some.inj h)⟩ hrev
    simp [this]

/-- What `srctl_get_yang_path` and `srctl_get_yin_path` store for every
directory, name and revision: the text that the format yields, cut by
`snprintf` after `PATH_MAX - 1` bytes. -/
theorem srctl_get_path_eq (dir name : String) (rev_date : Option String) :
    srctl_get_yang_path dir name rev_date PATH_MAX
      = snprintf PATH_MAX (dir ++ name ++ given_revision_part rev_date ++ SR_SCHEMA_YANG_FILE_EXT) ∧
    srctl_get_yin_path dir name rev_date PATH_MAX
      = snprintf PATH_MAX (dir ++ name ++ given_revision_part rev_date ++ SR_SCHEMA_YIN_FILE_EXT) := by
  unfold srctl_get_yang_path srctl_get_yin_path given_revision_part
  cases rev_date with
  | none => simp
  | some rev => simp [String.append_assoc]

/-- The number of bytes that `snprintf` stores. -/
theorem snprintf_length (size : Nat) (s : String) :
    (snprintf size s).length = min (size - 1) s.length := by
  unfold snprintf
  show (s.data.take (size - 1)).length = _
  rw [List.length_take]
  rfl

/-- Counterexample to claim C28 as stated: sysrepoctl run with a repository
location of 4084 bytes, so that the schema search directory (the location
followed by `/yang/`) has 4090 bytes, for module `m` of revision `2016-01-01`.
`sr_get_schema_file_name` yields directory, `m@2016-01-01` and `.yang`, 4107
bytes in all; `srctl_get_yang_path` stores the first 4095 bytes of that text
in its buffer of `PATH_MAX` bytes, so the two paths differ. -/
theorem srctl_path_cut_at_path_max :
    example_long_dir.length = 4090 ∧
    (sr_get_schema_file_name (fun _ => true) {} (some example_long_dir) (some "m")
        (some "2016-01-01") true).out
      = some (example_long_dir ++ "m" ++ "@2016-01-01" ++ ".yang") ∧
    (example_long_dir ++ "m" ++ "@2016-01-01" ++ ".yang").length = 4107 ∧
    (srctl_get_yang_path example_long_dir "m" (some "2016-01-01") PATH_MAX).data
      = (example_long_dir ++ "m" ++ "@2016-01-01" ++ ".yang").data.take 4095 ∧
    (srctl_get_yang_path example_long_dir "m" (some "2016-01-01") PATH_MAX).length = 4095 ∧
    some (srctl_get_yang_path example_long_dir "m" (some "2016-01-01") PATH_MAX)
      ≠ (sr_get_schema_file_name (fun _ => true) {} (some example_long_dir) (some "m")
          (some "2016-01-01") true).out := by
  have hout := (sr_get_schema_file_name_ok {} example_long_dir "m" (some "2016-01-01") true).2
  have hrev : revision_part (some "2016-01-01") = "@2016-01-01" := by decide
  have hext : schema_ext true = ".yang" := by decide
  rw [hrev, hext] at hout
  have hdir : example_long_dir.length = 4090 := by
    unfold example_long_dir
    rw [String.length_append, String.length_append]
    have h1 : ("/" : String).length = 1 := by decide
    have h2 : (String.mk (List.replicate 4083 'r')).length = 4083 := by
      show (List.replicate 4083 'r').length = 4083
      exact List.length_replicate _ _
    have h3 : ("/yang/" : String).length = 6 := by decide
    rw [h1, h2, h3]
  have hlen : (example_long_dir ++ "m" ++ "@2016-01-01" ++ ".yang").length = 4107 := by
    rw [String.length_append, String.length_append, String.length_append, hdir]
    have h1 : ("m" : String).length = 1 := by decide
    have h2 : ("@2016-01-01" : String).length = 11 := by decide
    have h3 : (".yang" : String).length = 5 := by decide
    rw [h1, h2, h3]
  have hpath : srctl_get_yang_path example_long_dir "m" (some "2016-01-01") PATH_MAX
      = snprintf PATH_MAX (example_long_dir ++ "m" ++ "@2016-01-01" ++ ".yang") := by
    rw [(srctl_get_path_eq example_long_dir "m" (some "2016-01-01")).1]
    have h1 : given_revision_part (some "2016-01-01") = "@2016-01-01" := by decide
    have h2 : SR_SCHEMA_YANG_FILE_EXT = ".yang" := by decide
    rw [h1, h2]
  have hplen : (srctl_get_yang_path example_long_dir "m" (some "2016-01-01") PATH_MAX).length
      = 4095 := by
    rw [hpath, snprintf_length, hlen]
    decide
  refine ⟨hdir, hout, hlen, ?_, hplen, ?_⟩
  · rw [hpath]
    rfl
  · rw [hout]
    intro h
    have h1 := congrArg String.length (Option.some.inj h)
    rw [hplen, hlen] at h1
    exact absurd h1 (by decide)

/-- C28 (amended): with every allocation succeeding, `sr_get_schema_file_name`
yields directory, name, `@` and the revision exactly when a non-empty revision
is given, and the extension of the format; `srctl_get_yang_path` and
`srctl_get_yin_path` yield the first `PATH_MAX - 1` bytes of directory, name,
`@` and the revision exactly when a revision is given (be it empty or not),
and the extension, which is the path of `sr_get_schema_file_name` for the same
directory, name and revision when the revision is absent or non-empty and the
path is shorter than `PATH_MAX`; `sr_get_data_file_name` yields directory,
name and the extension of the datastore, an unknown datastore counting as
startup; and `sr_get_lock_data_file_name` yields that name followed by the
lock extension. -/
theorem file_names (A : Nat → Bool) (hA : ∀ k, A k = true) (st : MemState)
    (dir name : String) (rev_date : Option String) (yang_format : Bool) (ds : sr_datastore_t) :
    ((sr_get_schema_file_name A st (some dir) (some name) rev_date yang_format).rc = SR_ERR_OK ∧
      (sr_get_schema_file_name A st (some dir) (some name) rev_date yang_format).out
        = some (dir ++ name ++ revision_part rev_date ++ schema_ext yang_format)) ∧
    ((srctl_get_yang_path dir name rev_date PATH_MAX).data
        = (dir ++ name ++ given_revision_part rev_date ++ SR_SCHEMA_YANG_FILE_EXT).data.take
            (PATH_MAX - 1) ∧
      (srctl_get_yin_path dir name rev_date PATH_MAX).data
        = (dir ++ name ++ given_revision_part rev_date ++ SR_SCHEMA_YIN_FILE_EXT).data.take
            (PATH_MAX - 1)) ∧
    ((rev_date ≠ some "" → given_revision_part rev_date = revision_part rev_date) ∧
      given_revision_part (some "") = "@" ∧ revision_part (some "") = "") ∧
    (rev_date ≠ some "" →
      (dir ++ name ++ revision_part rev_date ++ SR_SCHEMA_YANG_FILE_EXT).length < PATH_MAX →
      some (srctl_get_yang_path dir name rev_date PATH_MAX)
        = (sr_get_schema_file_name A st (some dir) (some name) rev_date true).out) ∧
    (rev_date ≠ some "" →
      (dir ++ name ++ revision_part rev_date ++ SR_SCHEMA_YIN_FILE_EXT).length < PATH_MAX →
      some (srctl_get_yin_path dir name rev_date PATH_MAX)
        = (sr_get_schema_file_name A st (some dir) (some name) rev_date false).out) ∧
    ((sr_get_data_file_name A st (some dir) (some name) ds).rc = SR_ERR_OK ∧
      (sr_get_data_file_name A st (some dir) (some name) ds).out
        = some (dir ++ name ++ data_file_suffix ds)) ∧
    data_file_suffix SR_DS_STARTUP = SR_STARTUP_FILE_EXT ∧
    data_file_suffix SR_DS_RUNNING = SR_RUNNING_FILE_EXT ∧
    data_file_suffix SR_DS_CANDIDATE = SR_CANDIDATE_FILE_EXT ∧
    (∀ c, data_file_suffix (sr_datastore_t.unrecognized c) = SR_STARTUP_FILE_EXT) ∧
    ((sr_get_lock_data_file_name A st (some dir) (some name) ds).rc = SR_ERR_OK ∧
      (sr_get_lock_data_file_name A st (some dir) (some name) ds).out
        = some (dir ++ name ++ data_file_suffix ds ++ SR_LOCK_FILE_EXT)) := by
  have hA1 : A = fun _ => true := funext hA
  subst hA1
  have hschema := fun yf => sr_get_schema_file_name_ok st dir name rev_date yf
  have hdata := sr_get_data_file_name_ok st dir name ds
  have hpath := srctl_get_path_eq dir name rev_date
  have hgiven : rev_date ≠ some "" → given_revision_part rev_date = revision_part rev_date := by
    intro hne
    unfold given_revision_part revision_part
    cases rev_date with
    | none => rfl
    | some r =>
      have hr : r ≠ "" := fun h => hne (by rw [h])
      simp [hr]
  refine ⟨hschema yang_format, ⟨?_, ?_⟩, ⟨hgiven, by decide, by decide⟩, ?_, ?_, ?_,
    rfl, rfl, rfl, fun _ => rfl, ?_⟩
  · rw [hpath.1]
    rfl
  · rw [hpath.2]
    rfl
  · intro hne hlen
    rw [(hschema true).2, hpath.1, hgiven hne]
    congr 1
    have he : schema_ext true = SR_SCHEMA_YANG_FILE_EXT := rfl
    rw [he]
    exact snprintf_fits _ _ hlen
  · intro hne hlen
    rw [(hschema false).2, hpath.2, hgiven hne]
    congr 1
    have he : schema_ext false = SR_SCHEMA_YIN_FILE_EXT := rfl
    rw [he]
    exact snprintf_fits _ _ hlen
  · obtain ⟨st1, h1⟩ := hdata
    exact ⟨by rw [h1], by rw [h1]⟩
  · obtain ⟨st1, h1⟩ := hdata
    unfold sr_get_lock_data_file_name
    simp only [h1]
    obtain ⟨st2, h2⟩ := sr_str_join_ok st1 (dir ++ name ++ data_file_suffix ds) SR_LOCK_FILE_EXT
    rw [h2]
    exact ⟨rfl, rfl⟩

/-- Witness for C28 (amended): module `m` of revision `2016-01-01` in the
directory `/etc/yang/`. -/
theorem file_names_witness :
    (sr_get_schema_file_name (fun _ => true) {} (some "/etc/yang/") (some "m")
      (some "2016-01-01") true).out = some "/etc/yang/m@2016-01-01.yang" ∧
    some (srctl_get_yang_path "/etc/yang/" "m" (some "2016-01-01") PATH_MAX)
      = (sr_get_schema_file_name (fun _ => true) {} (some "/etc/yang/") (some "m")
          (some "2016-01-01") true).out ∧
    (sr_get_lock_data_file_name (fun _ => true) {} (some "/etc/data/") (some "m")
      SR_DS_RUNNING).out = some "/etc/data/m.running.lock" :=
  have h := file_names (fun _ => true) (fun _ => rfl) {} "/etc/yang/" "m" (some "2016-01-01") true
    SR_DS_RUNNING
  have h2 := file_names (fun _ => true) (fun _ => rfl) {} "/etc/data/" "m" none true
    SR_DS_RUNNING
  ⟨h.1.2, h.2.2.2.1 (by decide) (by decide), h2.2.2.2.2.2.2.2.2.2.2.2⟩

/-! ## Module qualifier claims -/

/-- After the head of the copy has succeeded the node carries the name of the
module when it has no parent or the module differs from the one of the parent,
and the qualifier it had otherwise. -/
theorem copy_node_head_module (A : Nat → Bool) (C : value_conversion) (st : MemState)
    (parent : Option lyd_node) (node : lyd_node) (t : sr_node_t)
    (h : (copy_node_head A C st parent node t).1 = SR_ERR_OK) :
    (copy_node_head A C st parent node t).2.1.module_name
      = (if parent.isNone ∨ parent.map lyd_node_module ≠ some (lyd_node_module node)
         then some (lyd_node_module node).name else t.module_name) := by
  have hname : ∀ st t n, (sr_node_set_name A st t n).2.1.module_name = t.module_name := by
    intro st t n
    unfold sr_node_set_name sr_mem_edit_string
    cases hc : sr_calloc A st t.val._sr_mem (n.length + 1) with
    | mk b st1 => cases b <;> simp [sr_node_t.module_name]
  have hval : ∀ st t, (copy_value_and_type C st node t).2.1.module_name = t.module_name := by
    intro st t
    unfold copy_value_and_type
    cases node.schema.nodetype <;> simp [sr_node_t.module_name]
  have hmod : ∀ st t n, (sr_node_set_module A st t n).1 = SR_ERR_OK →
      (sr_node_set_module A st t n).2.1.module_name = some n := by
    intro st t n
    unfold sr_node_set_module sr_mem_edit_string
    cases hc : sr_calloc A st t.val._sr_mem (n.length + 1) with
    | mk b st1 => cases b <;> simp [sr_node_t.module_name]
  unfold copy_node_head at *
  have h1 := hname st t node.schema.name
  rcases hn : sr_node_set_name A st t node.schema.name with ⟨rc1, t1, st1⟩
  rw [hn] at h h1
  cases rc1 <;> simp only at h ⊢ <;> try (exact absurd h (by decide))
  simp only at h1
  have h2 := hval st1 t1
  rcases hv : copy_value_and_type C st1 node t1 with ⟨rc2, t2, st2⟩
  rw [hv] at h h2
  simp only at h2
  cases rc2 <;> simp only at h ⊢ <;> try (exact absurd h (by decide))
  split
  · rename_i hcond
    simp only [hcond, if_true] at h
    exact hmod _ _ _ h
  · simp only [sr_node_t.module_name] at h1 h2 ⊢
    exact h2.trans h1

/-- The test of the code for the module qualifier, in the words of the claim:
for a node with a parent the qualifier that the fresh node had is none. -/
theorem qualifier_cases (parent : Option lyd_node) (m : lys_module) (x : Option String)
    (hm : parent.isSome → x = none) :
    (if parent.isNone ∨ parent.map lyd_node_module ≠ some m then some m.name else x)
      = (if parent.map lyd_node_module = none ∨ parent.map lyd_node_module ≠ some m
         then some m.name else none) := by
  cases parent with
  | none => simp
  | some p =>
    have := hm rfl
    subst this
    simp

/-- A successful copy yields a tree in which every node carries its name and
the module qualifier in its place. -/
theorem copy_internal_qualified (A : Nat → Bool) (C : value_conversion)
    (cb : Option sr_tree_pruning_cb) (so sw cl dl : Nat)
    (st : MemState) (parent : Option lyd_node) (node : lyd_node) (depth : Nat)
    (sr_tree : sr_node_t) :
    sr_tree.children = [] → (parent.isSome → sr_tree.module_name = none) →
    (sr_copy_node_to_tree_internal A C cb so sw cl dl st parent node depth sr_tree).1
      = SR_ERR_OK →
    node.qualified_as (parent.map lyd_node_module)
      (sr_copy_node_to_tree_internal A C cb so sw cl dl st parent node depth sr_tree).2.1 := by
  apply sr_copy_node_to_tree_internal.induct A C cb so sw cl dl
    (fun st parent node depth sr_tree =>
      sr_tree.children = [] → (parent.isSome → sr_tree.module_name = none) →
      (sr_copy_node_to_tree_internal A C cb so sw cl dl st parent node depth sr_tree).1
        = SR_ERR_OK →
      node.qualified_as (parent.map lyd_node_module)
        (sr_copy_node_to_tree_internal A C cb so sw cl dl st parent node depth sr_tree).2.1)
    (fun st node depth children idx sr_tree =>
      (copy_children A C cb so sw cl dl st node depth children idx sr_tree).1 = SR_ERR_OK →
      ∃ es,
        (copy_children A C cb so sw cl dl st node depth children idx sr_tree).2.1.children
          = sr_tree.children ++ es ∧
        (copy_children A C cb so sw cl dl st node depth children idx sr_tree).2.1.name
          = sr_tree.name ∧
        (copy_children A C cb so sw cl dl st node depth children idx sr_tree).2.1.module_name
          = sr_tree.module_name ∧
        lyd_node.children_qualified_as (lyd_node_module node) children es)
  case case1 =>
    intro st parent depth sr_tree s dflt vs child hh hk ih he hm hok
    rw [sr_copy_node_to_tree_internal] at hok ⊢
    simp only [hh, hk, if_true] at hok ⊢
    have hsh := copy_node_head_shape A C st parent (lyd_node.mk s dflt vs child) sr_tree hh
    have hmd := copy_node_head_module A C st parent (lyd_node.mk s dflt vs child) sr_tree hh
    have hok2 : (copy_children A C cb so sw cl dl
        (copy_node_head A C st parent (lyd_node.mk s dflt vs child) sr_tree).2.2
        (lyd_node.mk s dflt vs child) depth child 0
        (copy_node_head A C st parent (lyd_node.mk s dflt vs child) sr_tree).2.1).1
          = SR_ERR_OK := by
      unfold copy_cleanup at hok
      split at hok
      · assumption
      · rename_i hne; exact absurd hok hne
    have hcl : ∀ r : sr_error_t × sr_node_t × MemState, r.1 = SR_ERR_OK → copy_cleanup r = r := by
      intro r hr; simp [copy_cleanup, hr]
    rw [hcl _ hok2]
    obtain ⟨es, hes, hname, hmodule, hq⟩ := ih hok2
    rw [lyd_node.qualified_as]
    rw [hsh.2, he] at hes
    rw [hsh.1] at hname
    rw [hmd] at hmodule
    simp only [List.nil_append] at hes
    simp only [lyd_node.schema] at hname
    refine ⟨hname, ?_, ?_⟩
    · rw [hmodule]
      exact qualifier_cases parent s.module _ hm
    · rw [hes]
      simpa [lyd_node_module, lyd_node.schema] using hq
  case case2 =>
    intro st parent depth sr_tree s dflt vs child hh hk he hm hok
    rw [sr_copy_node_to_tree_internal]
    simp only [hh, hk, if_true, if_false, Bool.false_eq_true]
    have hsh := copy_node_head_shape A C st parent (lyd_node.mk s dflt vs child) sr_tree hh
    have hmd := copy_node_head_module A C st parent (lyd_node.mk s dflt vs child) sr_tree hh
    rw [lyd_node.qualified_as]
    refine ⟨by simpa [lyd_node.schema] using hsh.1, ?_, ?_⟩
    · rw [hmd]
      exact qualifier_cases parent s.module _ hm
    · rw [hsh.2, he]
      cases child with
      | nil => simp [lyd_node.children_qualified_as]
      | cons c cs =>
        have : ∀ (m : lys_module) (l : List lyd_node),
            lyd_node.children_qualified_as m l [] := by
          intro m l
          induction l with
          | nil => simp [lyd_node.children_qualified_as]
          | cons x xs ih => rw [lyd_node.children_qualified_as]; exact Or.inr ih
        exact this _ _
  case case3 =>
    intro st parent depth sr_tree s dflt vs child hh he hm hok
    rw [sr_copy_node_to_tree_internal] at hok
    simp only [hh, if_false] at hok
    unfold copy_cleanup at hok
    simp only [hh, if_false] at hok
  case case4 =>
    intro st node depth idx sr_tree hok
    refine ⟨[], ?_, ?_, ?_, ?_⟩ <;> simp [copy_children, lyd_node.children_qualified_as]
  case case5 =>
    intro st node depth idx sr_tree child rest hc h1 h2 ih hok
    rw [copy_children] at hok ⊢
    simp only [hc, h1, h2, if_true] at hok ⊢
    obtain ⟨es, hes, hname, hmodule, hq⟩ := ih hok
    refine ⟨es, hes, hname, hmodule, ?_⟩
    rw [lyd_node.children_qualified_as]
    exact Or.inr hq
  case case6 =>
    intro st node depth idx sr_tree child rest hc h1 h2 hadd hrec ih1 ih2 hok
    rw [copy_children] at hok ⊢
    simp only [hc, h1, h2, hadd, hrec, if_true, Bool.false_eq_true, if_false] at hok ⊢
    have hadd_ch : (sr_node_add_child A st sr_tree).2.1.children = [] ∧
        (sr_node_add_child A st sr_tree).2.1.module_name = none := by
      unfold sr_node_add_child
      cases hcal : sr_calloc A st sr_tree.val._sr_mem 1 with
      | mk b st1 => cases b <;> simp [sr_node_t.children, sr_node_t.module_name]
    have hsub := ih1 hadd_ch.1 (fun _ => hadd_ch.2) hrec
    obtain ⟨es, hes, hname, hmodule, hq⟩ := ih2 hok
    refine ⟨(sr_copy_node_to_tree_internal A C cb so sw cl dl (sr_node_add_child A st sr_tree).2.2
      (some node) child (size_succ depth) (sr_node_add_child A st sr_tree).2.1).2.1 :: es,
      ?_, ?_, ?_, ?_⟩
    · rw [hes]
      simp [sr_node_t.with_child, sr_node_t.children]
    · rw [hname]
      simp [sr_node_t.with_child, sr_node_t.name, sr_node_t.val]
    · rw [hmodule]
      simp [sr_node_t.with_child, sr_node_t.module_name]
    · rw [lyd_node.children_qualified_as]
      exact Or.inl ⟨_, _, rfl, by simpa using hsub, hq⟩
  case case7 =>
    intro st node depth idx sr_tree child rest hc h1 h2 hadd hrec ih1 hok
    rw [copy_children] at hok
    simp only [hc, h1, h2, hadd, hrec, if_true, Bool.false_eq_true, if_false] at hok
  case case8 =>
    intro st node depth idx sr_tree child rest hc h1 h2 hadd hok
    rw [copy_children] at hok
    simp only [hc, h1, h2, hadd, if_true, Bool.false_eq_true, if_false] at hok
  case case9 =>
    intro st node depth idx sr_tree child rest hc h1 hok
    rw [copy_children] at hok
    simp only [hc, h1, if_true, if_false] at hok
  case case10 =>
    intro st node depth idx sr_tree child rest hc ih hok
    rw [copy_children] at hok ⊢
    simp only [hc, if_false] at hok ⊢
    obtain ⟨es, hes, hname, hmodule, hq⟩ := ih hok
    refine ⟨es, hes, hname, hmodule, ?_⟩
    rw [lyd_node.children_qualified_as]
    exact Or.inr hq

/-- C30: in the tree that a successful `sr_copy_node_to_tree` or
`sr_copy_node_to_tree_chunk` returns, for any bounds and any pruning callback,
a node carries a module qualifier exactly when it is the root of the tree or
the module of its schema node differs from the module of its parent node, and
the qualifier is then the name of the module of the node. -/
theorem module_qualifier_placement (A : Nat → Bool) (C : value_conversion) (st : MemState)
    (node : lyd_node) (slice_offset slice_width child_limit depth_limit : Nat)
    (pruning_cb : Option sr_tree_pruning_cb) (sr_tree : sr_node_t)
    (hempty : sr_tree.children = []) :
    ((sr_copy_node_to_tree A C st node pruning_cb sr_tree).1 = SR_ERR_OK →
      node.qualified_as none (sr_copy_node_to_tree A C st node pruning_cb sr_tree).2.1) ∧
    ((sr_copy_node_to_tree_chunk A C st node slice_offset slice_width child_limit depth_limit
        pruning_cb sr_tree).1 = SR_ERR_OK →
      node.qualified_as none
        (sr_copy_node_to_tree_chunk A C st node slice_offset slice_width child_limit depth_limit
          pruning_cb sr_tree).2.1) := by
  constructor
  · intro hok
    exact copy_internal_qualified A C pruning_cb 0 SIZE_MAX SIZE_MAX SIZE_MAX st none node 0
      sr_tree hempty (fun h => absurd h (by decide)) hok
  · intro hok
    exact copy_internal_qualified A C pruning_cb slice_offset slice_width child_limit depth_limit
      st none node 0 sr_tree hempty (fun h => absurd h (by decide)) hok

/-- Witness for C30: in the copy of the container `r` of module `m` with the
leaf `a` of module `m` and the leaf `x` of module `n`, the root carries the
qualifier `m`, the leaf `a` none and the leaf `x` the qualifier `n`. -/
theorem module_qualifier_placement_witness :
    example_augmented.qualified_as none
      (sr_copy_node_to_tree (fun _ => true) example_conversion {} example_augmented none
        (.mk {} none [])).2.1 ∧
    (sr_copy_node_to_tree (fun _ => true) example_conversion {} example_augmented none
      (.mk {} none [])).2.1.module_name = some "m" ∧
    (sr_copy_node_to_tree (fun _ => true) example_conversion {} example_augmented none
      (.mk {} none [])).2.1.children.map sr_node_t.module_name = [none, some "n"] :=
  ⟨(module_qualifier_placement (fun _ => true) example_conversion {} example_augmented 0 0 0 0
      none (.mk {} none []) rfl).1 (by decide),
    by decide, by decide⟩

/-! ## Arena accounting claims -/

/-- An allocation leaves the object count of every arena as it was. -/
theorem sr_calloc_count (A : Nat → Bool) (st : MemState) (m : Option Nat) (n a : Nat) :
    same_obj_count a st (sr_calloc A st m n).2 := by
  unfold sr_calloc same_obj_count
  split
  · cases m with
    | none => rfl
    | some b =>
      by_cases hb : a = b
      · subst hb; simp
      · simp [Function.update_noteq hb]
  · rfl

/-- A failed allocation leaves every arena as it was. -/
theorem sr_calloc_failed (A : Nat → Bool) (st : MemState) (m : Option Nat) (n : Nat)
    (h : (sr_calloc A st m n).1 = false) : (sr_calloc A st m n).2.arena = st.arena := by
  unfold sr_calloc at *
  by_cases hA : A st.allocs = true
  · simp only [hA, if_true] at h
    cases m <;> simp at h
  · simp only [hA, if_false]
    rfl

/-- Library `strdup` leaves every arena as it was. -/
theorem strdup_arena (A : Nat → Bool) (st : MemState) (s : String) :
    (strdup A st s).2.arena = st.arena := by
  unfold strdup
  split <;> rfl

/-- The object count is the same in a state and itself. -/
theorem same_obj_count_refl (a : Nat) (st : MemState) : same_obj_count a st st := rfl

/-- Equal object counts compose. -/
theorem same_obj_count_trans {a : Nat} {st st1 st2 : MemState}
    (h1 : same_obj_count a st st1) (h2 : same_obj_count a st1 st2) : same_obj_count a st st2 := by
  unfold same_obj_count at *
  rw [h2, h1]

/-- States with the same arenas have the same object counts. -/
theorem same_obj_count_of_arena {a : Nat} {st st1 : MemState} (h : st1.arena = st.arena) :
    same_obj_count a st st1 := by
  unfold same_obj_count
  rw [h]

/-- The restore of the snapshot taken on entry returns the arena to its state
on entry. -/
theorem restore_entry (st st1 : MemState) (a : Nat) :
    (sr_mem_restore st1 (entry_snapshot st (some a))).arena a = st.arena a := by
  simp [sr_mem_restore, entry_snapshot, sr_mem_snapshot]

/-- The accounting of a call that ends in the `error:` label. -/
theorem accounted_error (a : Nat) (st st1 : MemState) (rc : sr_error_t) (b : Bool)
    (hrc : rc ≠ SR_ERR_OK) :
    arena_accounted a st rc b (sr_mem_restore st1 (entry_snapshot st (some a))) := by
  refine ⟨fun h => absurd h hrc, fun _ => ?_⟩
  rw [restore_entry]
  exact ⟨rfl, rfl⟩

/-- The accounting of a call that ends with the association of the result with
the arena. -/
theorem accounted_finish (a : Nat) (st st1 : MemState) (b : Bool)
    (h : same_obj_count a st st1) :
    arena_accounted a st SR_ERR_OK b (sr_mem_obj_count_incr st1 a) := by
  refine ⟨fun _ _ => ?_, fun h => absurd rfl h⟩
  unfold same_obj_count at h
  simp [sr_mem_obj_count_incr, h]

/-- The accounting of a call that fails and leaves the arenas as they were. -/
theorem accounted_unchanged (a : Nat) (st st1 : MemState) (rc : sr_error_t) (b : Bool)
    (hrc : rc ≠ SR_ERR_OK) (h : st1.arena = st.arena) : arena_accounted a st rc b st1 := by
  refine ⟨fun h => absurd h hrc, fun _ => ?_⟩
  rw [h]
  exact ⟨rfl, rfl⟩

/-- The tail of a builder accounts for the message. -/
theorem alloc_finish_accounted (a : Nat) (st st1 : MemState) (msg : Sr__Msg)
    (h : same_obj_count a st st1) :
    arena_accounted a st (alloc_finish st1 (some a) msg).rc true
      (alloc_finish st1 (some a) msg).st := by
  unfold alloc_finish
  exact accounted_finish a st st1 true h

/-- The `error:` label of a builder accounts for the failure. -/
theorem alloc_error_accounted (a : Nat) (st st1 : MemState) (rc : sr_error_t)
    (hrc : rc ≠ SR_ERR_OK) :
    arena_accounted a st (@alloc_error Sr__Msg st1 (entry_snapshot st (some a)) rc).rc true
      (@alloc_error Sr__Msg st1 (entry_snapshot st (some a)) rc).st := by
  unfold alloc_error
  exact accounted_error a st st1 rc true hrc

/-- The builder of requests accounts for its message in the arena. -/
theorem req_alloc_accounted (A : Nat → Bool) (st : MemState) (a : Nat)
    (operation : Sr__Operation) (session_id : Nat) :
    arena_accounted a st (sr_gpb_req_alloc A st (some a) operation session_id).rc true
      (sr_gpb_req_alloc A st (some a) operation session_id).st := by
  unfold sr_gpb_req_alloc
  simp only []
  rcases h1 : sr_calloc A st (some a) 1 with ⟨b1, st1⟩
  have c1 := sr_calloc_count A st (some a) 1 a
  rw [h1] at c1
  cases b1
  · exact alloc_error_accounted a st st1 _ (by decide)
  · simp only []
    rcases h2 : sr_calloc A st1 (some a) 1 with ⟨b2, st2⟩
    have c2 := sr_calloc_count A st1 (some a) 1 a
    rw [h2] at c2
    cases b2
    · exact alloc_error_accounted a st st2 _ (by decide)
    · simp only []
      cases hsw : sr_gpb_req_alloc_switch operation with
      | none => exact alloc_error_accounted a st st2 _ (by decide)
      | some assign =>
        simp only []
        rcases h3 : sr_calloc A st2 (some a) 1 with ⟨b3, st3⟩
        have c3 := sr_calloc_count A st2 (some a) 1 a
        rw [h3] at c3
        cases b3
        · exact alloc_error_accounted a st st3 _ (by decide)
        · exact alloc_finish_accounted a st st3 _
            (same_obj_count_trans (same_obj_count_trans c1 c2) c3)

/-- The builder of responses accounts for its message in the arena. -/
theorem resp_alloc_accounted (A : Nat → Bool) (st : MemState) (a : Nat)
    (operation : Sr__Operation) (session_id : Nat) :
    arena_accounted a st (sr_gpb_resp_alloc A st (some a) operation session_id).rc true
      (sr_gpb_resp_alloc A st (some a) operation session_id).st := by
  unfold sr_gpb_resp_alloc
  simp only []
  rcases h1 : sr_calloc A st (some a) 1 with ⟨b1, st1⟩
  have c1 := sr_calloc_count A st (some a) 1 a
  rw [h1] at c1
  cases b1
  · exact alloc_error_accounted a st st1 _ (by decide)
  · simp only []
    rcases h2 : sr_calloc A st1 (some a) 1 with ⟨b2, st2⟩
    have c2 := sr_calloc_count A st1 (some a) 1 a
    rw [h2] at c2
    cases b2
    · exact alloc_error_accounted a st st2 _ (by decide)
    · simp only []
      cases hsw : sr_gpb_resp_alloc_switch operation with
      | none => exact alloc_error_accounted a st st2 _ (by decide)
      | some assign =>
        simp only []
        rcases h3 : sr_calloc A st2 (some a) 1 with ⟨b3, st3⟩
        have c3 := sr_calloc_count A st2 (some a) 1 a
        rw [h3] at c3
        cases b3
        · exact alloc_error_accounted a st st3 _ (by decide)
        · exact alloc_finish_accounted a st st3 _
            (same_obj_count_trans (same_obj_count_trans c1 c2) c3)

/-- The builder of notifications accounts for its message in the arena. -/
theorem notif_alloc_accounted (A : Nat → Bool) (st : MemState) (a : Nat)
    (type : Sr__SubscriptionType) (destination : String) (subscription_id : Nat) :
    arena_accounted a st (sr_gpb_notif_alloc A st (some a) type destination subscription_id).rc
      true (sr_gpb_notif_alloc A st (some a) type destination subscription_id).st := by
  unfold sr_gpb_notif_alloc
  simp only []
  rcases h1 : sr_calloc A st (some a) 1 with ⟨b1, st1⟩
  have c1 := sr_calloc_count A st (some a) 1 a
  rw [h1] at c1
  cases b1
  · exact alloc_error_accounted a st st1 _ (by decide)
  · simp only []
    rcases h2 : sr_calloc A st1 (some a) 1 with ⟨b2, st2⟩
    have c2 := sr_calloc_count A st1 (some a) 1 a
    rw [h2] at c2
    cases b2
    · exact alloc_error_accounted a st st2 _ (by decide)
    · simp only []
      rcases hd : strdup A st2 destination with ⟨d, st3⟩
      have cd : same_obj_count a st2 st3 := by
        have := strdup_arena A st2 destination
        rw [hd] at this
        exact same_obj_count_of_arena this
      cases d with
      | none => exact alloc_error_accounted a st st3 _ (by decide)
      | some dst =>
        simp only []
        cases hsw : sr_gpb_notif_alloc_switch type with
        | none => exact alloc_error_accounted a st st3 _ (by decide)
        | some o =>
          cases o with
          | none =>
            exact alloc_finish_accounted a st st3 _
              (same_obj_count_trans (same_obj_count_trans c1 c2) cd)
          | some assign =>
            simp only []
            rcases h4 : sr_calloc A st3 (some a) 1 with ⟨b4, st4⟩
            have c4 := sr_calloc_count A st3 (some a) 1 a
            rw [h4] at c4
            cases b4
            · exact alloc_error_accounted a st st4 _ (by decide)
            · exact alloc_finish_accounted a st st4 _
                (same_obj_count_trans (same_obj_count_trans (same_obj_count_trans c1 c2) cd) c4)

/-- The builder of notification acknowledgements accounts for its message in
the arena. -/
theorem notif_ack_alloc_accounted (A : Nat → Bool) (st : MemState) (a : Nat)
    (notification : Option Sr__Msg) :
    arena_accounted a st (sr_gpb_notif_ack_alloc A st (some a) notification).rc true
      (sr_gpb_notif_ack_alloc A st (some a) notification).st := by
  unfold sr_gpb_notif_ack_alloc
  cases notification with
  | none => exact accounted_unchanged a st st SR_ERR_INVAL_ARG true (by decide) rfl
  | some n =>
    simp only []
    cases hb : n.notification with
    | none => exact accounted_unchanged a st st SR_ERR_INVAL_ARG true (by decide) rfl
    | some body =>
      simp only []
      rcases h1 : sr_calloc A st (some a) 1 with ⟨b1, st1⟩
      have c1 := sr_calloc_count A st (some a) 1 a
      rw [h1] at c1
      cases b1
      · exact alloc_error_accounted a st st1 _ (by decide)
      · simp only []
        rcases h2 : sr_calloc A st1 (some a) 1 with ⟨b2, st2⟩
        have c2 := sr_calloc_count A st1 (some a) 1 a
        rw [h2] at c2
        cases b2
        · exact alloc_error_accounted a st st2 _ (by decide)
        · exact alloc_finish_accounted a st st2 _ (same_obj_count_trans c1 c2)

/-- The builder of internal requests accounts for its message in the arena. -/
theorem internal_req_alloc_accounted (A : Nat → Bool) (st : MemState) (a : Nat)
    (operation : Sr__Operation) :
    arena_accounted a st (sr_gpb_internal_req_alloc A st (some a) operation).rc true
      (sr_gpb_internal_req_alloc A st (some a) operation).st := by
  unfold sr_gpb_internal_req_alloc
  simp only []
  rcases h1 : sr_calloc A st (some a) 1 with ⟨b1, st1⟩
  have c1 := sr_calloc_count A st (some a) 1 a
  rw [h1] at c1
  cases b1
  · exact alloc_error_accounted a st st1 _ (by decide)
  · simp only []
    rcases h2 : sr_calloc A st1 (some a) 1 with ⟨b2, st2⟩
    have c2 := sr_calloc_count A st1 (some a) 1 a
    rw [h2] at c2
    cases b2
    · exact alloc_error_accounted a st st2 _ (by decide)
    · simp only []
      cases hsw : sr_gpb_internal_req_alloc_switch operation with
      | none => exact alloc_finish_accounted a st st2 _ (same_obj_count_trans c1 c2)
      | some assign =>
        simp only []
        rcases h3 : sr_calloc A st2 (some a) 1 with ⟨b3, st3⟩
        have c3 := sr_calloc_count A st2 (some a) 1 a
        rw [h3] at c3
        cases b3
        · exact alloc_error_accounted a st st3 _ (by decide)
        · exact alloc_finish_accounted a st st3 _
            (same_obj_count_trans (same_obj_count_trans c1 c2) c3)

/-- Loading a string of a wire value leaves every arena as it was. -/
theorem val_load_string_arena (A : Nat → Bool) (st : MemState) (b : Bool) (src : Option String) :
    (val_load_string A st b src).2.2.arena = st.arena := by
  unfold val_load_string
  split
  · rfl
  · cases src with
    | none => rfl
    | some s =>
      simp only []
      exact strdup_arena A st s

/-- The payload copy of the value decoder leaves every arena as it was. -/
theorem sr_set_gpb_value_in_val_t_switch_arena (A : Nat → Bool) (st : MemState)
    (gpb_value : Sr__Value) (value : sr_val_t) :
    (sr_set_gpb_value_in_val_t_switch A st gpb_value value).2.2.arena = st.arena := by
  unfold sr_set_gpb_value_in_val_t_switch
  split <;> first | rfl | exact val_load_string_arena A st _ _

/-- The value decoder leaves every arena as it was. -/
theorem sr_set_gpb_value_in_val_t_arena (A : Nat → Bool) (st : MemState)
    (gpb_value : Sr__Value) (value : sr_val_t) :
    (sr_set_gpb_value_in_val_t A st gpb_value value).2.2.arena = st.arena := by
  unfold sr_set_gpb_value_in_val_t
  cases gpb_value.xpath with
  | none => rfl
  | some x =>
    simp only []
    split
    · exact sr_set_gpb_value_in_val_t_switch_arena A st _ _
    · rcases hd : strdup A st x with ⟨d, st1⟩
      have := strdup_arena A st x
      rw [hd] at this
      cases d with
      | none => exact this
      | some s =>
        simp only []
        rw [sr_set_gpb_value_in_val_t_switch_arena]
        exact this

/-- Function `sr_copy_gpb_to_val_t` leaves every arena as it was. -/
theorem sr_copy_gpb_to_val_t_arena (A : Nat → Bool) (st : MemState)
    (gpb_value : Option Sr__Value) (value : sr_val_t) :
    (sr_copy_gpb_to_val_t A st gpb_value value).2.2.arena = st.arena := by
  unfold sr_copy_gpb_to_val_t
  cases gpb_value with
  | none => rfl
  | some gpb =>
    simp only []
    rcases ht : sr_set_gpb_type_in_val_t gpb value with ⟨rc, v1⟩
    cases rc <;> first | exact sr_set_gpb_value_in_val_t_arena A st gpb v1 | rfl

/-- The loop of `sr_values_gpb_to_sr` leaves every arena as it was. -/
theorem sr_values_gpb_to_sr_loop_arena (A : Nat → Bool) (sr_mem : Option Nat) :
    ∀ (gs : List (Option Sr__Value)) (st : MemState),
      (sr_values_gpb_to_sr_loop A st sr_mem gs).2.2.arena = st.arena := by
  intro gs
  induction gs with
  | nil => intro st; rfl
  | cons g gs ih =>
    intro st
    unfold sr_values_gpb_to_sr_loop
    rcases hc : sr_copy_gpb_to_val_t A st g { _sr_mem := sr_mem } with ⟨rc, v, st1⟩
    have h1 := sr_copy_gpb_to_val_t_arena A st g { _sr_mem := sr_mem }
    rw [hc] at h1
    cases rc <;> first
      | (simp only []; rw [← h1]; exact ih st1)
      | exact h1

/-- The copy of the module qualifier leaves every arena as it was. -/
theorem gpb_module_to_tree_arena (A : Nat → Bool) (st : MemState) (b : Bool)
    (module_name : Option String) :
    (gpb_module_to_tree A st b module_name).2.2.arena = st.arena := by
  unfold gpb_module_to_tree
  cases module_name with
  | none => rfl
  | some m =>
    simp only []
    split
    · split
      · rfl
      · rcases hd : strdup A st m with ⟨d, st1⟩
        have := strdup_arena A st m
        rw [hd] at this
        cases d <;> exact this
    · rfl

/-- Adding a child leaves the object count of every arena as it was. -/
theorem sr_node_add_child_count (A : Nat → Bool) (st : MemState) (parent : sr_node_t) (a : Nat) :
    same_obj_count a st (sr_node_add_child A st parent).2.2 := by
  unfold sr_node_add_child
  rcases hc : sr_calloc A st parent.val._sr_mem 1 with ⟨b, st1⟩
  have := sr_calloc_count A st parent.val._sr_mem 1 a
  rw [hc] at this
  cases b <;> exact this

/-- The label `cleanup:` of the tree decoder keeps the state. -/
theorem copy_gpb_cleanup_st (r : sr_error_t × sr_node_t × MemState) :
    (copy_gpb_cleanup r).2.2 = r.2.2 := by
  unfold copy_gpb_cleanup
  split <;> rfl

/-- The tree decoder leaves the object count of every arena as it was. -/
theorem sr_copy_gpb_to_tree_count (A : Nat → Bool) (a : Nat) (st : MemState) (gpb : Sr__Node)
    (sr_tree : sr_node_t) : same_obj_count a st (sr_copy_gpb_to_tree A st gpb sr_tree).2.2 := by
  apply sr_copy_gpb_to_tree.induct A
    (fun st gpb sr_tree => same_obj_count a st (sr_copy_gpb_to_tree A st gpb sr_tree).2.2)
    (fun st gpbs n sr_tree =>
      same_obj_count a st (sr_copy_gpb_to_tree_children A st gpbs n sr_tree).2.2)
  case case1 =>
    intro st module_name n_children children sr_tree
    rw [sr_copy_gpb_to_tree]
    exact same_obj_count_refl a st
  case case2 =>
    intro st module_name n_children children sr_tree gpb value1 ht val1 st2 hv gm st4 hm ih
    rw [sr_copy_gpb_to_tree]
    simp only [ht, hv, hm]
    rw [copy_gpb_cleanup_st]
    have h1 := sr_set_gpb_value_in_val_t_arena A st gpb value1
    rw [hv] at h1
    have h2 := gpb_module_to_tree_arena A st2 val1._sr_mem.isSome module_name
    rw [hm] at h2
    exact same_obj_count_trans
      (same_obj_count_trans (same_obj_count_of_arena h1) (same_obj_count_of_arena h2)) ih
  case case3 =>
    intro st module_name n_children children sr_tree gpb value1 ht val1 st2 hv rc fst st4 hrc hm
    rw [sr_copy_gpb_to_tree]
    simp only [ht, hv, hm]
    have h1 := sr_set_gpb_value_in_val_t_arena A st gpb value1
    rw [hv] at h1
    have h2 := gpb_module_to_tree_arena A st2 val1._sr_mem.isSome module_name
    rw [hm] at h2
    have h3 : same_obj_count a st st4 :=
      same_obj_count_trans (same_obj_count_of_arena h1) (same_obj_count_of_arena h2)
    cases rc <;> first
      | exact absurd rfl hrc
      | (rw [copy_gpb_cleanup_st]; exact h3)
  case case4 =>
    intro st module_name n_children children sr_tree gpb value1 ht rc fst st2 hrc hv
    rw [sr_copy_gpb_to_tree]
    simp only [ht, hv]
    have h1 := sr_set_gpb_value_in_val_t_arena A st gpb value1
    rw [hv] at h1
    cases rc <;> first
      | exact absurd rfl hrc
      | exact same_obj_count_of_arena h1
  case case5 =>
    intro st module_name n_children children sr_tree gpb rc value1 hrc ht
    rw [sr_copy_gpb_to_tree]
    simp only [ht]
    cases rc <;> first
      | exact absurd rfl hrc
      | exact same_obj_count_refl a st
  case case6 =>
    intro t st sr_tree
    rw [sr_copy_gpb_to_tree_children]
    exact same_obj_count_refl a st
  case case7 =>
    intro st n sr_tree t2 st2 hadd
    rw [sr_copy_gpb_to_tree_children]
    simp only [hadd]
    have := sr_node_add_child_count A st sr_tree a
    rw [hadd] at this
    exact this
  case case8 =>
    intro st n sr_tree rc t2 st2 hrc hadd
    rw [sr_copy_gpb_to_tree_children]
    simp only [hadd]
    have := sr_node_add_child_count A st sr_tree a
    rw [hadd] at this
    cases rc <;> first
      | exact absurd rfl hrc
      | exact this
  case case9 =>
    intro st gpb gpbs n sr_tree t2 st2 hadd t3 st3 hrec ih1 ih2
    rw [sr_copy_gpb_to_tree_children]
    simp only [hadd, hrec]
    have h0 := sr_node_add_child_count A st sr_tree a
    rw [hadd] at h0
    rw [hrec] at ih1
    exact same_obj_count_trans (same_obj_count_trans h0 ih1) ih2
  case case10 =>
    intro st gpb gpbs n sr_tree t2 st2 hadd rc t3 st3 hrc hrec ih1
    rw [sr_copy_gpb_to_tree_children]
    simp only [hadd, hrec]
    have h0 := sr_node_add_child_count A st sr_tree a
    rw [hadd] at h0
    rw [hrec] at ih1
    cases rc <;> first
      | exact absurd rfl hrc
      | exact same_obj_count_trans h0 ih1
  case case11 =>
    intro st gpb gpbs n sr_tree rc t2 st2 hrc hadd
    rw [sr_copy_gpb_to_tree_children]
    simp only [hadd]
    have h0 := sr_node_add_child_count A st sr_tree a
    rw [hadd] at h0
    cases rc <;> first
      | exact absurd rfl hrc
      | exact h0

/-- The loop of `sr_trees_gpb_to_sr` leaves the object count of every arena as
it was. -/
theorem sr_trees_gpb_to_sr_loop_count (A : Nat → Bool) (a : Nat) (sr_mem : Option Nat) :
    ∀ (gs : List (Option Sr__Node)) (st : MemState),
      same_obj_count a st (sr_trees_gpb_to_sr_loop A st sr_mem gs).2.2 := by
  intro gs
  induction gs with
  | nil => intro st; exact same_obj_count_refl a st
  | cons g gs ih =>
    intro st
    cases g with
    | none => exact same_obj_count_refl a st
    | some gpb =>
      rw [sr_trees_gpb_to_sr_loop]
      rcases hc : sr_copy_gpb_to_tree A st gpb (.mk { _sr_mem := sr_mem } none [])
        with ⟨rc, t, st1⟩
      have h1 := sr_copy_gpb_to_tree_count A a st gpb (.mk { _sr_mem := sr_mem } none [])
      rw [hc] at h1
      cases rc <;> first
        | (simp only []; exact same_obj_count_trans h1 (ih st1))
        | exact h1

/-- The string copy of the schema converters leaves every arena as it was. -/
theorem schema_copy_string_arena (A : Nat → Bool) (st : MemState) (b c : Bool)
    (src : Option String) : (schema_copy_string A st b c src).2.2.arena = st.arena := by
  unfold schema_copy_string
  cases src with
  | none => rfl
  | some s =>
    simp only []
    split
    · rfl
    · rcases hd : strdup A st s with ⟨d, st1⟩
      have := strdup_arena A st s
      rw [hd] at this
      cases d with
      | none => simp only []; split <;> exact this
      | some x => exact this

/-- The copy of the feature names leaves every arena as it was. -/
theorem schema_copy_features_arena (A : Nat → Bool) (b : Bool) :
    ∀ (fs : List (Option String)) (st : MemState),
      (schema_copy_features A st b fs).2.2.arena = st.arena := by
  intro fs
  induction fs with
  | nil => intro st; rfl
  | cons f fs ih =>
    intro st
    rw [schema_copy_features]
    rcases hc : schema_copy_string A st b true f with ⟨rc, d, st1⟩
    have h1 := schema_copy_string_arena A st b true f
    rw [hc] at h1
    cases rc <;> first
      | (simp only []; rw [← h1]; exact ih st1)
      | exact h1

/-- The decoder of a revision triple leaves every arena as it was. -/
theorem gpb_revision_to_schema_arena (A : Nat → Bool) (st : MemState) (sr_mem : Option Nat)
    (rev : Option Sr__SchemaRevision) :
    (gpb_revision_to_schema A st sr_mem rev).2.2.arena = st.arena := by
  unfold gpb_revision_to_schema
  rcases h1 : schema_copy_string A st sr_mem.isSome true (rev.getD {}).revision with ⟨rc1, r, st1⟩
  have a1 := schema_copy_string_arena A st sr_mem.isSome true (rev.getD {}).revision
  rw [h1] at a1
  cases rc1 <;> first | exact a1 | skip
  simp only []
  rcases h2 : schema_copy_string A st1 sr_mem.isSome true (rev.getD {}).file_path_yang
    with ⟨rc2, y, st2⟩
  have a2 := schema_copy_string_arena A st1 sr_mem.isSome true (rev.getD {}).file_path_yang
  rw [h2] at a2
  cases rc2 <;> first | exact a2.trans a1 | skip
  simp only []
  rcases h3 : schema_copy_string A st2 sr_mem.isSome true (rev.getD {}).file_path_yin
    with ⟨rc3, n, st3⟩
  have a3 := schema_copy_string_arena A st2 sr_mem.isSome true (rev.getD {}).file_path_yin
  rw [h3] at a3
  cases rc3 <;> exact a3.trans (a2.trans a1)

/-- The decoder of a submodule leaves every arena as it was. -/
theorem gpb_submodule_to_schema_arena (A : Nat → Bool) (st : MemState) (sr_mem : Option Nat)
    (sub : Sr__SchemaSubmodule) :
    (gpb_submodule_to_schema A st sr_mem sub).2.2.arena = st.arena := by
  unfold gpb_submodule_to_schema
  rcases h1 : schema_copy_string A st sr_mem.isSome true sub.submodule_name with ⟨rc1, r, st1⟩
  have a1 := schema_copy_string_arena A st sr_mem.isSome true sub.submodule_name
  rw [h1] at a1
  cases rc1 <;> first | exact a1 | skip
  simp only []
  rcases h2 : gpb_revision_to_schema A st1 sr_mem sub.revision with ⟨rc2, y, st2⟩
  have a2 := gpb_revision_to_schema_arena A st1 sr_mem sub.revision
  rw [h2] at a2
  cases rc2 <;> exact a2.trans a1

/-- The decoder of the submodules leaves every arena as it was. -/
theorem gpb_submodules_to_schema_arena (A : Nat → Bool) (sr_mem : Option Nat) :
    ∀ (gs : List Sr__SchemaSubmodule) (st : MemState),
      (gpb_submodules_to_schema A st sr_mem gs).2.2.arena = st.arena := by
  intro gs
  induction gs with
  | nil => intro st; rfl
  | cons g gs ih =>
    intro st
    rw [gpb_submodules_to_schema]
    rcases hc : gpb_submodule_to_schema A st sr_mem g with ⟨rc, d, st1⟩
    have h1 := gpb_submodule_to_schema_arena A st sr_mem g
    rw [hc] at h1
    cases rc <;> first
      | (simp only []; rw [← h1]; exact ih st1)
      | exact h1

/-- A conditional allocation leaves the object count of every arena as it
was. -/
theorem cond_calloc_count (A : Nat → Bool) (st : MemState) (m : Option Nat) (c : Prop)
    [Decidable c] (n a : Nat) :
    same_obj_count a st (if c then sr_calloc A st m n else (true, st)).2 := by
  split
  · exact sr_calloc_count A st m n a
  · exact same_obj_count_refl a st

/-- The decoder of a schema descriptor leaves the object count of every arena
as it was. -/
theorem gpb_to_schema_count (A : Nat → Bool) (a : Nat) (st : MemState) (sr_mem : Option Nat)
    (g : Sr__Schema) : same_obj_count a st (gpb_to_schema A st sr_mem g).2.2 := by
  unfold gpb_to_schema
  rcases h1 : schema_copy_string A st sr_mem.isSome true g.module_name with ⟨rc1, x1, st1⟩
  have a1 := schema_copy_string_arena A st sr_mem.isSome true g.module_name
  rw [h1] at a1
  have c1 : same_obj_count a st st1 := same_obj_count_of_arena a1
  cases rc1 <;> first | exact c1 | skip
  simp only []
  rcases h2 : schema_copy_string A st1 sr_mem.isSome true g.ns with ⟨rc2, x2, st2⟩
  have a2 := schema_copy_string_arena A st1 sr_mem.isSome true g.ns
  rw [h2] at a2
  have c2 : same_obj_count a st st2 := same_obj_count_trans c1 (same_obj_count_of_arena a2)
  cases rc2 <;> first | exact c2 | skip
  simp only []
  rcases h3 : schema_copy_string A st2 sr_mem.isSome true g.prefix_ with ⟨rc3, x3, st3⟩
  have a3 := schema_copy_string_arena A st2 sr_mem.isSome true g.prefix_
  rw [h3] at a3
  have c3 : same_obj_count a st st3 := same_obj_count_trans c2 (same_obj_count_of_arena a3)
  cases rc3 <;> first | exact c3 | skip
  simp only []
  rcases h4 : gpb_revision_to_schema A st3 sr_mem g.revision with ⟨rc4, x4, st4⟩
  have a4 := gpb_revision_to_schema_arena A st3 sr_mem g.revision
  rw [h4] at a4
  have c4 : same_obj_count a st st4 := same_obj_count_trans c3 (same_obj_count_of_arena a4)
  cases rc4 <;> first | exact c4 | skip
  simp only []
  rcases h5 : (if 0 < g.n_enabled_features then sr_calloc A st4 sr_mem g.n_enabled_features
    else (true, st4)) with ⟨b5, st5⟩
  have a5 := cond_calloc_count A st4 sr_mem (0 < g.n_enabled_features) g.n_enabled_features a
  rw [h5] at a5
  have c5 : same_obj_count a st st5 := same_obj_count_trans c4 a5
  cases b5
  · exact c5
  simp only []
  rcases h6 : schema_copy_features A st5 sr_mem.isSome
    ((g.enabled_features.getD []).take g.n_enabled_features) with ⟨rc6, x6, st6⟩
  have a6 := schema_copy_features_arena A sr_mem.isSome
    ((g.enabled_features.getD []).take g.n_enabled_features) st5
  rw [h6] at a6
  have c6 : same_obj_count a st st6 := same_obj_count_trans c5 (same_obj_count_of_arena a6)
  cases rc6 <;> first | exact c6 | skip
  simp only []
  rcases h7 : (if 0 < g.n_submodules then sr_calloc A st6 sr_mem g.n_submodules
    else (true, st6)) with ⟨b7, st7⟩
  have a7 := cond_calloc_count A st6 sr_mem (0 < g.n_submodules) g.n_submodules a
  rw [h7] at a7
  have c7 : same_obj_count a st st7 := same_obj_count_trans c6 a7
  cases b7
  · exact c7
  simp only []
  rcases h8 : gpb_submodules_to_schema A st7 sr_mem
    ((g.submodules.getD []).take g.n_submodules) with ⟨rc8, x8, st8⟩
  have a8 := gpb_submodules_to_schema_arena A sr_mem
    ((g.submodules.getD []).take g.n_submodules) st7
  rw [h8] at a8
  have c8 : same_obj_count a st st8 := same_obj_count_trans c7 (same_obj_count_of_arena a8)
  cases rc8 <;> exact c8

/-- The loop of `sr_schemas_gpb_to_sr` leaves the object count of every arena
as it was. -/
theorem sr_schemas_gpb_to_sr_loop_count (A : Nat → Bool) (a : Nat) (sr_mem : Option Nat) :
    ∀ (gs : List Sr__Schema) (st : MemState),
      same_obj_count a st (sr_schemas_gpb_to_sr_loop A st sr_mem gs).2.2 := by
  intro gs
  induction gs with
  | nil => intro st; exact same_obj_count_refl a st
  | cons g gs ih =>
    intro st
    rw [sr_schemas_gpb_to_sr_loop]
    rcases hc : gpb_to_schema A st sr_mem g with ⟨rc, t, st1⟩
    have h1 := gpb_to_schema_count A a st sr_mem g
    rw [hc] at h1
    cases rc <;> first
      | (simp only []; exact same_obj_count_trans h1 (ih st1))
      | exact h1

/-- The decoder of a single value accounts for its result in the arena. -/
theorem dup_gpb_to_val_t_accounted (A : Nat → Bool) (st : MemState) (a : Nat)
    (gpb_value : Option Sr__Value) :
    arena_accounted a st (sr_dup_gpb_to_val_t A st (some a) gpb_value).rc true
      (sr_dup_gpb_to_val_t A st (some a) gpb_value).st := by
  unfold sr_dup_gpb_to_val_t
  cases gpb_value with
  | none => exact accounted_unchanged a st st SR_ERR_INVAL_ARG true (by decide) rfl
  | some g =>
    simp only []
    rcases h1 : sr_calloc A st (some a) 1 with ⟨b1, st1⟩
    have c1 := sr_calloc_count A st (some a) 1 a
    have f1 := sr_calloc_failed A st (some a) 1
    rw [h1] at c1 f1
    cases b1
    · exact accounted_unchanged a st st1 SR_ERR_NOMEM true (by decide) (f1 rfl)
    · simp only []
      rcases h2 : sr_copy_gpb_to_val_t A st1 (some g) { _sr_mem := some a } with ⟨rc, v, st2⟩
      have a2 := sr_copy_gpb_to_val_t_arena A st1 (some g) { _sr_mem := some a }
      rw [h2] at a2
      cases rc <;> first
        | exact accounted_finish a st st2 true
            (same_obj_count_trans c1 (same_obj_count_of_arena a2))
        | (simp only []; refine accounted_error a st st2 _ _ ?_; decide)

/-- The decoder of a value array accounts for its result in the arena. -/
theorem values_gpb_to_sr_accounted (A : Nat → Bool) (st : MemState) (a : Nat)
    (gpb_values : Option (List (Option Sr__Value))) (gpb_value_cnt : Nat) :
    arena_accounted a st (sr_values_gpb_to_sr A st (some a) gpb_values gpb_value_cnt).rc
      (decide (gpb_values.isSome ∧ 0 < gpb_value_cnt))
      (sr_values_gpb_to_sr A st (some a) gpb_values gpb_value_cnt).st := by
  unfold sr_values_gpb_to_sr
  cases gpb_values with
  | none => exact ⟨fun _ h => by simp at h, fun h => absurd rfl h⟩
  | some gpbs =>
    simp only []
    by_cases hcnt : gpb_value_cnt > 0
    · simp only [hcnt, if_true]
      rcases h1 : sr_calloc A st (some a) gpb_value_cnt with ⟨b1, st1⟩
      have c1 := sr_calloc_count A st (some a) gpb_value_cnt a
      have f1 := sr_calloc_failed A st (some a) gpb_value_cnt
      rw [h1] at c1 f1
      cases b1
      · exact accounted_unchanged a st st1 SR_ERR_NOMEM _ (by decide) (f1 rfl)
      · simp only []
        rcases h2 : sr_values_gpb_to_sr_loop A st1 (some a) (gpbs.take gpb_value_cnt)
          with ⟨rc, v, st2⟩
        have a2 := sr_values_gpb_to_sr_loop_arena A (some a) (gpbs.take gpb_value_cnt) st1
        rw [h2] at a2
        cases rc <;> first
          | exact accounted_finish a st st2 _
              (same_obj_count_trans c1 (same_obj_count_of_arena a2))
          | (simp only []; refine accounted_error a st st2 _ _ ?_; decide)
    · simp only [hcnt, if_false]
      exact ⟨fun _ h => by simp at h, fun h => absurd rfl h⟩

/-- The decoder of a single tree accounts for its result in the arena. -/
theorem dup_gpb_to_tree_accounted (A : Nat → Bool) (st : MemState) (a : Nat)
    (gpb_tree : Option Sr__Node) :
    arena_accounted a st (sr_dup_gpb_to_tree A st (some a) gpb_tree).rc true
      (sr_dup_gpb_to_tree A st (some a) gpb_tree).st := by
  unfold sr_dup_gpb_to_tree
  cases gpb_tree with
  | none => exact accounted_unchanged a st st SR_ERR_INVAL_ARG true (by decide) rfl
  | some g =>
    simp only []
    rcases h1 : sr_calloc A st (some a) 1 with ⟨b1, st1⟩
    have c1 := sr_calloc_count A st (some a) 1 a
    have f1 := sr_calloc_failed A st (some a) 1
    rw [h1] at c1 f1
    cases b1
    · exact accounted_unchanged a st st1 SR_ERR_NOMEM true (by decide) (f1 rfl)
    · simp only []
      rcases h2 : sr_copy_gpb_to_tree A st1 g (.mk { _sr_mem := some a } none []) with ⟨rc, v, st2⟩
      have a2 := sr_copy_gpb_to_tree_count A a st1 g (.mk { _sr_mem := some a } none [])
      rw [h2] at a2
      cases rc <;> first
        | exact accounted_finish a st st2 true (same_obj_count_trans c1 a2)
        | (simp only [alloc_error]; refine accounted_error a st st2 _ _ ?_; decide)

/-- The decoder of a tree array accounts for its result in the arena. -/
theorem trees_gpb_to_sr_accounted (A : Nat → Bool) (st : MemState) (a : Nat)
    (gpb_trees : Option (List (Option Sr__Node))) (gpb_tree_cnt : Nat) :
    arena_accounted a st (sr_trees_gpb_to_sr A st (some a) gpb_trees gpb_tree_cnt).rc
      (decide (gpb_trees.isSome ∧ 0 < gpb_tree_cnt))
      (sr_trees_gpb_to_sr A st (some a) gpb_trees gpb_tree_cnt).st := by
  unfold sr_trees_gpb_to_sr
  cases gpb_trees with
  | none => exact ⟨fun _ h => by simp at h, fun h => absurd rfl h⟩
  | some gpbs =>
    simp only []
    by_cases hcnt : gpb_tree_cnt > 0
    · simp only [hcnt, if_true]
      rcases h1 : sr_calloc A st (some a) gpb_tree_cnt with ⟨b1, st1⟩
      have c1 := sr_calloc_count A st (some a) gpb_tree_cnt a
      have f1 := sr_calloc_failed A st (some a) gpb_tree_cnt
      rw [h1] at c1 f1
      cases b1
      · exact accounted_unchanged a st st1 SR_ERR_NOMEM _ (by decide) (f1 rfl)
      · simp only []
        rcases h2 : sr_trees_gpb_to_sr_loop A st1 (some a) (gpbs.take gpb_tree_cnt)
          with ⟨rc, v, st2⟩
        have a2 := sr_trees_gpb_to_sr_loop_count A a (some a) (gpbs.take gpb_tree_cnt) st1
        rw [h2] at a2
        cases rc <;> first
          | exact accounted_finish a st st2 _ (same_obj_count_trans c1 a2)
          | (simp only []; refine accounted_error a st st2 _ _ ?_; decide)
    · simp only [hcnt, if_false]
      exact ⟨fun _ h => by simp at h, fun h => absurd rfl h⟩

/-- The decoder of a schema array accounts for its result in the arena. -/
theorem schemas_gpb_to_sr_accounted (A : Nat → Bool) (st : MemState) (a : Nat)
    (gpb_schemas : Option (List Sr__Schema)) (schema_cnt : Nat) :
    arena_accounted a st (sr_schemas_gpb_to_sr A st (some a) gpb_schemas schema_cnt).rc
      (decide (0 < schema_cnt))
      (sr_schemas_gpb_to_sr A st (some a) gpb_schemas schema_cnt).st := by
  unfold sr_schemas_gpb_to_sr
  cases gpb_schemas with
  | none => exact accounted_unchanged a st st SR_ERR_INVAL_ARG _ (by decide) rfl
  | some gpbs =>
    simp only []
    by_cases hcnt : schema_cnt = 0
    · simp only [hcnt, if_true]
      exact ⟨fun _ h => by simp at h, fun h => absurd rfl h⟩
    · simp only [hcnt, if_false]
      rcases h1 : sr_calloc A st (some a) schema_cnt with ⟨b1, st1⟩
      have c1 := sr_calloc_count A st (some a) schema_cnt a
      have f1 := sr_calloc_failed A st (some a) schema_cnt
      rw [h1] at c1 f1
      cases b1
      · exact accounted_unchanged a st st1 SR_ERR_NOMEM _ (by decide) (f1 rfl)
      · simp only []
        rcases h2 : sr_schemas_gpb_to_sr_loop A st1 (some a) (gpbs.take schema_cnt)
          with ⟨rc, v, st2⟩
        have a2 := sr_schemas_gpb_to_sr_loop_count A a (some a) (gpbs.take schema_cnt) st1
        rw [h2] at a2
        cases rc <;> first
          | exact accounted_finish a st st2 _ (same_obj_count_trans c1 a2)
          | (simp only [alloc_error]; refine accounted_error a st st2 _ _ ?_; decide)

/-- C29: with an arena `a`, each envelope builder (`sr_gpb_req_alloc`,
`sr_gpb_resp_alloc`, `sr_gpb_notif_alloc`, `sr_gpb_notif_ack_alloc`,
`sr_gpb_internal_req_alloc`) and each decoder that hands back a top-level
result (`sr_dup_gpb_to_val_t`, `sr_values_gpb_to_sr`, `sr_dup_gpb_to_tree`,
`sr_trees_gpb_to_sr`, `sr_schemas_gpb_to_sr`) raises the object count of the
arena by exactly one when it succeeds with a non-empty result (for the array
decoders: a present array and a count above zero), and when it fails the
high-watermark and the object count of the arena are what they were before
the call. -/
theorem arena_accounting (A : Nat → Bool) (st : MemState) (a : Nat) :
    (∀ operation session_id,
      arena_accounted a st (sr_gpb_req_alloc A st (some a) operation session_id).rc true
        (sr_gpb_req_alloc A st (some a) operation session_id).st) ∧
    (∀ operation session_id,
      arena_accounted a st (sr_gpb_resp_alloc A st (some a) operation session_id).rc true
        (sr_gpb_resp_alloc A st (some a) operation session_id).st) ∧
    (∀ type destination subscription_id,
      arena_accounted a st
        (sr_gpb_notif_alloc A st (some a) type destination subscription_id).rc true
        (sr_gpb_notif_alloc A st (some a) type destination subscription_id).st) ∧
    (∀ notification,
      arena_accounted a st (sr_gpb_notif_ack_alloc A st (some a) notification).rc true
        (sr_gpb_notif_ack_alloc A st (some a) notification).st) ∧
    (∀ operation,
      arena_accounted a st (sr_gpb_internal_req_alloc A st (some a) operation).rc true
        (sr_gpb_internal_req_alloc A st (some a) operation).st) ∧
    (∀ gpb_value,
      arena_accounted a st (sr_dup_gpb_to_val_t A st (some a) gpb_value).rc true
        (sr_dup_gpb_to_val_t A st (some a) gpb_value).st) ∧
    (∀ gpb_values gpb_value_cnt,
      arena_accounted a st (sr_values_gpb_to_sr A st (some a) gpb_values gpb_value_cnt).rc
        (decide (gpb_values.isSome ∧ 0 < gpb_value_cnt))
        (sr_values_gpb_to_sr A st (some a) gpb_values gpb_value_cnt).st) ∧
    (∀ gpb_tree,
      arena_accounted a st (sr_dup_gpb_to_tree A st (some a) gpb_tree).rc true
        (sr_dup_gpb_to_tree A st (some a) gpb_tree).st) ∧
    (∀ gpb_trees gpb_tree_cnt,
      arena_accounted a st (sr_trees_gpb_to_sr A st (some a) gpb_trees gpb_tree_cnt).rc
        (decide (gpb_trees.isSome ∧ 0 < gpb_tree_cnt))
        (sr_trees_gpb_to_sr A st (some a) gpb_trees gpb_tree_cnt).st) ∧
    (∀ gpb_schemas schema_cnt,
      arena_accounted a st (sr_schemas_gpb_to_sr A st (some a) gpb_schemas schema_cnt).rc
        (decide (0 < schema_cnt))
        (sr_schemas_gpb_to_sr A st (some a) gpb_schemas schema_cnt).st) :=
  ⟨req_alloc_accounted A st a, resp_alloc_accounted A st a, notif_alloc_accounted A st a,
    notif_ack_alloc_accounted A st a, internal_req_alloc_accounted A st a,
    dup_gpb_to_val_t_accounted A st a, values_gpb_to_sr_accounted A st a,
    dup_gpb_to_tree_accounted A st a, trees_gpb_to_sr_accounted A st a,
    schemas_gpb_to_sr_accounted A st a⟩

/-! ## Lemmas on the log of the control tool -/

/-- A state reaches itself. -/
theorem reaches_refl (P : sys_call → Bool) (w : World) : w.reaches P w :=
  ⟨⟨[], by simp, by simp⟩, rfl⟩

/-- Runs compose. -/
theorem reaches_trans {P : sys_call → Bool} {w w1 w2 : World} (h1 : w.reaches P w1)
    (h2 : w1.reaches P w2) : w.reaches P w2 := by
  obtain ⟨⟨c1, hl1, hp1⟩, hm1⟩ := h1
  obtain ⟨⟨c2, hl2, hp2⟩, hm2⟩ := h2
  refine ⟨⟨c1 ++ c2, by rw [hl2, hl1, List.append_assoc], ?_⟩, hm2.trans hm1⟩
  intro c hc
  rcases List.mem_append.1 hc with h | h
  · exact hp1 c h
  · exact hp2 c h

/-- A run by calls of one kind is a run by calls of a wider kind. -/
theorem reaches_mono {P Q : sys_call → Bool} (hPQ : ∀ c, P c = true → Q c = true)
    {w w1 : World} (h : w.reaches P w1) : w.reaches Q w1 := by
  obtain ⟨⟨c1, hl1, hp1⟩, hm1⟩ := h
  exact ⟨⟨c1, hl1, fun c hc => hPQ c (hp1 c hc)⟩, hm1⟩

/-- Recording a call of the kind is a run. -/
theorem reaches_record (P : sys_call → Bool) (w : World) (c : sys_call) (h : P c = true) :
    w.reaches P (w.record c) :=
  ⟨⟨[c], rfl, by simpa using h⟩, rfl⟩

/-- Storing a file is not seen in the log. -/
theorem reaches_store {P : sys_call → Bool} {w w1 : World} (h : w.reaches P w1) (p : String)
    (f : Option sys_file) : w.reaches P (w1.store p f) := h

/-- Creating a file is not seen in the log. -/
theorem reaches_create {P : sys_call → Bool} {w w1 : World} (h : w.reaches P w1)
    (E : environment) (p : String) (s : String) (m : Nat) : w.reaches P (w1.create E p s m) := h

/-- The memory state is not seen in the log. -/
theorem reaches_mem {P : sys_call → Bool} {w w1 : World} (h : w.reaches P w1) (m : MemState) :
    w.reaches P { w1 with mem := m } := h

/-- Every state keeps its own files. -/
theorem keeps_refl (w : World) : w.keeps_files w := fun _ h => h

/-- Keeping files composes. -/
theorem keeps_trans {w w1 w2 : World} (h1 : w.keeps_files w1) (h2 : w1.keeps_files w2) :
    w.keeps_files w2 := fun p h => h2 p (h1 p h)

/-- Storing a file keeps the files. -/
theorem keeps_store {w w1 : World} (h : w.keeps_files w1) (p : String) (f : sys_file) :
    w.keeps_files (w1.store p (some f)) := by
  intro q hq
  simp only [World.store]
  split
  · rfl
  · exact h q hq

/-- Creating a file keeps the files. -/
theorem keeps_create {w w1 : World} (h : w.keeps_files w1) (E : environment) (p : String)
    (s : String) (m : Nat) : w.keeps_files (w1.create E p s m) := by
  intro q hq
  simp only [World.create, World.store]
  split
  · rfl
  · exact h q hq

/-- Recording a call keeps the files. -/
theorem keeps_record {w w1 : World} (h : w.keeps_files w1) (c : sys_call) :
    w.keeps_files (w1.record c) := h

/-- The command `cp` installs. -/
theorem system_cp_installs (E : environment) (w : World) (src dst : String) :
    w.reaches sys_call.installs (system_cp E w src dst).2 ∧
    w.keeps_files (system_cp E w src dst).2 := by
  have hr := reaches_record sys_call.installs w (.cp src dst) rfl
  have hk := keeps_record (keeps_refl w) (.cp src dst)
  unfold system_cp
  split
  · exact ⟨hr, hk⟩
  · split
    · exact ⟨hr, hk⟩
    · split
      · exact ⟨reaches_store hr _ _, keeps_store hk _ _⟩
      · exact ⟨reaches_create hr _ _ _ _, keeps_create hk _ _ _ _⟩

/-- The command `chmod` installs. -/
theorem system_chmod_installs (E : environment) (w : World) (permissions path : String) :
    w.reaches sys_call.installs (system_chmod E w permissions path).2 ∧
    w.keeps_files (system_chmod E w permissions path).2 := by
  have hr := reaches_record sys_call.installs w (.chmod_command permissions path) rfl
  have hk := keeps_record (keeps_refl w) (.chmod_command permissions path)
  unfold system_chmod
  split
  · exact ⟨hr, hk⟩
  · split
    · exact ⟨hr, hk⟩
    · split
      · exact ⟨hr, hk⟩
      · exact ⟨reaches_store hr _ _, keeps_store hk _ _⟩

/-- Library `open` with `O_CREAT` installs. -/
theorem open_creat_installs (E : environment) (w : World) (path : String) (mode : Nat) :
    w.reaches sys_call.installs (open_creat E w path mode).2 ∧
    w.keeps_files (open_creat E w path mode).2 := by
  have hr := reaches_record sys_call.installs w (.open_creat path) rfl
  have hk := keeps_record (keeps_refl w) (.open_creat path)
  unfold open_creat
  split
  · exact ⟨hr, hk⟩
  · split
    · exact ⟨hr, hk⟩
    · exact ⟨reaches_create hr _ _ _ _, keeps_create hk _ _ _ _⟩

/-- Library `chown` installs. -/
theorem chown_installs (E : environment) (w : World) (path : String) (owner group : Option Nat) :
    w.reaches sys_call.installs (chown E w path owner group).2 ∧
    w.keeps_files (chown E w path owner group).2 := by
  have hr := reaches_record sys_call.installs w (.chown path owner group) rfl
  have hk := keeps_record (keeps_refl w) (.chown path owner group)
  unfold chown
  split
  · exact ⟨hr, hk⟩
  · split
    · exact ⟨hr, hk⟩
    · exact ⟨reaches_store hr _ _, keeps_store hk _ _⟩

/-- Library `chmod` installs. -/
theorem chmod_installs (E : environment) (w : World) (path : String) (mode : Nat) :
    w.reaches sys_call.installs (chmod E w path mode).2 ∧
    w.keeps_files (chmod E w path mode).2 := by
  have hr := reaches_record sys_call.installs w (.chmod path mode) rfl
  have hk := keeps_record (keeps_refl w) (.chmod path mode)
  unfold chmod
  split
  · exact ⟨hr, hk⟩
  · split
    · exact ⟨hr, hk⟩
    · exact ⟨reaches_store hr _ _, keeps_store hk _ _⟩

/-- Library `mkdir` installs. -/
theorem mkdir_installs (E : environment) (w : World) (path : String) (mode : Nat) :
    w.reaches sys_call.installs (mkdir E w path mode).2 ∧
    w.keeps_files (mkdir E w path mode).2 := by
  have hr := reaches_record sys_call.installs w (.mkdir path mode) rfl
  have hk := keeps_record (keeps_refl w) (.mkdir path mode)
  unfold mkdir
  split
  · exact ⟨hr, hk⟩
  · split
    · exact ⟨hr, hk⟩
    · exact ⟨reaches_create hr _ _ _ _, keeps_create hk _ _ _ _⟩

/-- Library `unlink` records one call, whatever its outcome. -/
theorem unlink_log (E : environment) (w : World) (path : String) :
    (unlink E w path).2.2.log = w.log ++ [.unlink path] ∧
    (unlink E w path).2.2.md_data = w.md_data := by
  unfold unlink
  split
  · exact ⟨rfl, rfl⟩
  · split <;> exact ⟨rfl, rfl⟩

/-- Library `unlink` acts on the file system. -/
theorem unlink_on_files (E : environment) (w : World) (path : String) :
    w.reaches sys_call.on_files (unlink E w path).2.2 :=
  ⟨⟨[.unlink path], (unlink_log E w path).1, by simp [sys_call.on_files, sys_call.is_unlink]⟩,
    (unlink_log E w path).2⟩

/-- What installs acts on the file system. -/
theorem installs_on_files (c : sys_call) (h : c.installs = true) : c.on_files = true := by
  simp [sys_call.on_files, h]

/-! ## Permissions of the socket directory -/

/-- A bit of a mode is set when the mode tests true at its position. -/
theorem and_two_pow_ne_zero (m k : Nat) : m &&& 2 ^ k ≠ 0 ↔ m.testBit k = true := by
  rw [Nat.and_two_pow]
  cases h : m.testBit k <;> simp

/-- A bit set under the condition that another one is set. -/
theorem cond_or_testBit (m w x i : Nat) :
    (if m &&& 2 ^ w ≠ 0 then m ||| 2 ^ x else m).testBit i =
      (m.testBit i || (decide (x = i) && m.testBit w)) := by
  by_cases h : m.testBit w = true
  · rw [if_pos ((and_two_pow_ne_zero m w).2 h), Nat.testBit_or, Nat.testBit_two_pow, h,
      Bool.and_true]
  · rw [if_neg (fun hc => h ((and_two_pow_ne_zero m w).1 hc))]
    simp [h]

/-- The mode that `sr_set_data_file_permissions` applies to a directory, bit by
bit: the execute bits are the union of the execute and the write bits. -/
theorem applied_mode_testBit (m i : Nat) :
    (applied_mode true m).testBit i =
      (m.testBit i || (decide (i = 6) && m.testBit 7) || (decide (i = 3) && m.testBit 4) ||
        (decide (i = 0) && m.testBit 1)) := by
  have hw1 : S_IWUSR = 2 ^ 7 := rfl
  have hx1 : S_IXUSR = 2 ^ 6 := rfl
  have hw2 : S_IWGRP = 2 ^ 4 := rfl
  have hx2 : S_IXGRP = 2 ^ 3 := rfl
  have hw3 : S_IWOTH = 2 ^ 1 := rfl
  have hx3 : S_IXOTH = 2 ^ 0 := rfl
  simp only [applied_mode, if_true, hw1, hx1, hw2, hx2, hw3, hx3, cond_or_testBit]
  simp [eq_comm]

/-- C26, as the code behaves: `sr_set_data_file_permissions` passes to `chmod`
the mode `applied_mode target_is_dir m`, where `m` is the mode of the startup
data file.  For a directory each execute bit of the applied mode is set exactly
when the write bit or the execute bit of `m` for the same class is set, and the
read and write bits are those of `m`; for another target the mode is `m`.  So
`0600` gives `0700`, as the claim says, but `0500` gives `0500`, with the
execute bit of the user set though the write bit is not: the execute bits do
not mirror the write bits.  The last part runs the function on a repository
whose startup file has the mode `0500`: the socket directory gets `0500`. -/
theorem socket_dir_mode_keeps_execute_bits :
    (∀ m, applied_mode false m = m) ∧
    (∀ m, applied_mode true m &&& S_IRWUGO = m &&& S_IRWUGO) ∧
    (∀ m, (applied_mode true m &&& S_IXUSR ≠ 0 ↔ m &&& S_IWUSR ≠ 0 ∨ m &&& S_IXUSR ≠ 0) ∧
          (applied_mode true m &&& S_IXGRP ≠ 0 ↔ m &&& S_IWGRP ≠ 0 ∨ m &&& S_IXGRP ≠ 0) ∧
          (applied_mode true m &&& S_IXOTH ≠ 0 ↔ m &&& S_IWOTH ≠ 0 ∨ m &&& S_IXOTH ≠ 0)) ∧
    applied_mode true 0o600 = 0o700 ∧
    (applied_mode true 0o500 = 0o500 ∧ 0o500 &&& S_IWUSR = 0 ∧
      applied_mode true 0o500 &&& S_IXUSR ≠ 0) ∧
    ((sr_set_data_file_permissions {} {} (example_sockets 0o500)
          "/var/run/sysrepo-subscriptions/m/" true "/etc/sysrepo/data/" "m" true).1 = SR_ERR_OK ∧
      ((sr_set_data_file_permissions {} {} (example_sockets 0o500)
          "/var/run/sysrepo-subscriptions/m/" true "/etc/sysrepo/data/" "m" true).2.files
            "/var/run/sysrepo-subscriptions/m/").map sys_file.st_mode
        = some (S_IFDIR ||| 0o500) ∧
      (sr_set_data_file_permissions {} {} (example_sockets 0o500)
          "/var/run/sysrepo-subscriptions/m/" true "/etc/sysrepo/data/" "m" true).2.log
        = [.chmod "/var/run/sysrepo-subscriptions/m/" (S_IFREG ||| 0o500),
           .chown "/var/run/sysrepo-subscriptions/m/" (some 7) (some 8)]) := by
  have hw1 : S_IWUSR = 2 ^ 7 := rfl
  have hx1 : S_IXUSR = 2 ^ 6 := rfl
  have hw2 : S_IWGRP = 2 ^ 4 := rfl
  have hx2 : S_IXGRP = 2 ^ 3 := rfl
  have hw3 : S_IWOTH = 2 ^ 1 := rfl
  have hx3 : S_IXOTH = 2 ^ 0 := rfl
  refine ⟨fun m => rfl, ?_, ?_, by decide, by decide, ?_⟩
  · intro m
    apply Nat.eq_of_testBit_eq
    intro i
    rw [Nat.testBit_and, Nat.testBit_and, applied_mode_testBit]
    have hmask : S_IRWUGO = 2 ^ 8 ||| 2 ^ 7 ||| 2 ^ 5 ||| 2 ^ 4 ||| 2 ^ 2 ||| 2 ^ 1 := rfl
    rw [hmask]
    simp only [Nat.testBit_or, Nat.testBit_two_pow]
    by_cases h6 : i = 6
    · subst h6; simp
    · by_cases h3 : i = 3
      · subst h3; simp
      · by_cases h0 : i = 0
        · subst h0; simp
        · simp [h6, h3, h0]
  · intro m
    simp only [hw1, hx1, hw2, hx2, hw3, hx3, and_two_pow_ne_zero, applied_mode_testBit]
    simp
    refine ⟨?_, ?_, ?_⟩ <;> tauto
  · set_option maxRecDepth 100000 in
    decide

/-! ## Install: the answer of the daemon -/

/-- The result code that the label `cleanup:` returns is the one passed to it. -/
theorem install_cleanup_rc (w : World) (connection : Bool) (md_ctx : Option (List md_module_t))
    (rc : sr_error_t) : (install_cleanup w connection md_ctx rc).1 = rc := rfl

/-- When the module had been inserted into the graph and the steps that revert
the insertion succeed, `rc` is `SR_ERR_OK` after them, whatever it was
before. -/
theorem install_md_revert_ok (E : environment) (w : World) (module : lys_module_full)
    (rc : sr_error_t) (hinit : ∀ w1, E.md_init w1 = SR_ERR_OK)
    (hremove : ∀ w1 g n r, (E.md_remove_module w1 g n r).1 = SR_ERR_OK) :
    (install_md_revert E w module true rc).1 = SR_ERR_OK := by
  unfold install_md_revert md_init
  simp only [if_true, hinit]
  split
  · rfl
  · rename_i rc1 md_ctx1 x hne heq
    have := hremove (w.record .md_init) (w.record .md_init).md_data module.name module.rev0_date
    rw [heq] at this
    simp only at this
    subst this
    rfl

/-- The labels `fail_notif:` to `fail:` return the code that the statements
`if (md_installed) { ... }` leave in `rc`. -/
theorem install_fail_dep_update_rc (E : environment) (G : settings) (w : World)
    (module : lys_module_full) (yang yin : Option String) (md_installed connection : Bool)
    (md_ctx : Option (List md_module_t)) (rc : sr_error_t) :
    (install_fail_dep_update E G w module yang yin md_installed connection md_ctx rc).1 =
      (install_md_revert E
        (install_unlink E
          (install_unlink E (srctl_data_uninstall E G w module.name).2 yang
            (srctl_get_yang_path G.srctl_schema_search_dir module.name module.rev0_date
              PATH_MAX))
          yin
          (srctl_get_yin_path G.srctl_schema_search_dir module.name module.rev0_date PATH_MAX))
        module md_installed rc).1 := rfl

/-- The daemon is reachable and rejects the request: the result of the
notification step is the one of the rollback of the graph. -/
theorem install_notify_rejected (E : environment) (G : settings) (w : World)
    (module : lys_module_full) (yang yin : Option String)
    (hcustom : G.custom_repository = false)
    (hsession : (srctl_open_session E w).1 = SR_ERR_OK)
    (hanswer : E.sr_module_install (srctl_open_session E w).2.2 module.name module.rev0_date
        module.filepath true ≠ SR_ERR_OK) :
    install_notify E G w module yang yin =
      install_fail_dep_update E G
        ((srctl_open_session E w).2.2.record
          (.sr_module_install module.name module.rev0_date module.filepath true))
        module yang yin true (srctl_open_session E w).2.1 none
        (E.sr_module_install (srctl_open_session E w).2.2 module.name module.rev0_date
          module.filepath true) := by
  unfold install_notify
  rw [hcustom]
  simp only [Bool.false_eq_true, if_false]
  rcases hs : srctl_open_session E w with ⟨rc, connection, w1⟩
  rw [hs] at hsession hanswer
  simp only at hsession hanswer
  subst hsession
  simp only [if_neg hanswer]

/-- C22, as the code behaves: when the daemon is reachable and answers the
request `MODULE_INSTALL` with a result other than `SR_ERR_OK`, and the rollback
of the graph succeeds (`md_init` and `md_remove_module` answer `SR_ERR_OK`), the
statements of `srctl_install` that notify the daemon end with the result
`SR_ERR_OK`: the rollback stores its own result in `rc`.  The second part runs
`srctl_install` on a repository without the module `m`, for a daemon that
answers with any code: the function returns `SR_ERR_OK`, so that `main` exits
with the status 0; the third part lists the calls of the run for the answer
`SR_ERR_RESTART_NEEDED`, which end with the rollback. -/
theorem install_rejected_returns_ok :
    (∀ (E : environment) (G : settings) (w : World) (module : lys_module_full)
        (yang yin : Option String),
      G.custom_repository = false →
      (srctl_open_session E w).1 = SR_ERR_OK →
      E.sr_module_install (srctl_open_session E w).2.2 module.name module.rev0_date
          module.filepath true ≠ SR_ERR_OK →
      (∀ w1, E.md_init w1 = SR_ERR_OK) →
      (∀ w1 g n r, (E.md_remove_module w1 g n r).1 = SR_ERR_OK) →
      (install_notify E G w module yang yin).1 = SR_ERR_OK) ∧
    (∀ answer : sr_error_t,
      (srctl_install (example_environment (example_module []) answer) {} example_world
          (some "/home/user/m.yang") none none none none).1 = SR_ERR_OK ∧
      exit_status
        (srctl_install (example_environment (example_module []) answer) {} example_world
          (some "/home/user/m.yang") none none none none).1 = 0) ∧
    (srctl_install (example_environment (example_module []) SR_ERR_RESTART_NEEDED) {}
        example_world (some "/home/user/m.yang") none none none none).2.log =
      [.md_init,
       .cp "/home/user/m.yang" "/etc/sysrepo/yang/m@2016-01-01.yang",
       .open_creat "/etc/sysrepo/data/m.startup",
       .open_creat "/etc/sysrepo/data/m.running",
       .open_creat "/etc/sysrepo/data/m.startup.lock",
       .open_creat "/etc/sysrepo/data/m.running.lock",
       .open_creat "/etc/sysrepo/data/m.persist",
       .open_creat "/etc/sysrepo/data/m.candidate.lock",
       .mkdir "/var/run/sysrepo-subscriptions/" 0o777,
       .mkdir "/var/run/sysrepo-subscriptions/m/" 0o777,
       .chmod "/var/run/sysrepo-subscriptions/m/" 0o100777,
       .chown "/var/run/sysrepo-subscriptions/m/" (some 0) (some 0),
       .md_insert_module (some "/etc/sysrepo/yang/m@2016-01-01.yang"),
       .md_flush, .md_destroy, .sr_connect, .sr_session_start,
       .sr_module_install "m" (some "2016-01-01") (some "/home/user/m.yang") true,
       .unlink "/etc/sysrepo/data/m.startup",
       .unlink "/etc/sysrepo/data/m.running",
       .unlink "/etc/sysrepo/data/m.startup.lock",
       .unlink "/etc/sysrepo/data/m.running.lock",
       .unlink "/etc/sysrepo/data/m.persist",
       .unlink "/etc/sysrepo/data/m.candidate.lock",
       .unlink "/etc/sysrepo/yang/m@2016-01-01.yang",
       .md_init, .md_remove_module "m" (some "2016-01-01"), .md_flush, .md_destroy,
       .sr_disconnect] := by
  refine ⟨?_, ?_, ?_⟩
  · intro E G w module yang yin hcustom hsession hanswer hinit hremove
    rw [install_notify_rejected E G w module yang yin hcustom hsession hanswer,
      install_fail_dep_update_rc]
    exact install_md_revert_ok E _ module _ hinit hremove
  · intro answer
    set_option maxRecDepth 100000 in
    cases answer <;> exact ⟨by decide, by decide⟩
  · set_option maxRecDepth 100000 in
    decide

/-! ## Init: the module that is selected -/

/-- The search of `srctl_init` finds nothing exactly when no module of the
context passes the test. -/
theorem init_find_module_none (module_name : String) (revision : Option String)
    (modules : List lys_module_full) :
    init_find_module module_name revision modules = none ↔
      ∀ x ∈ modules, init_matches module_name revision x = false := by
  induction modules with
  | nil => simp [init_find_module]
  | cons m ms ih =>
    unfold init_find_module
    by_cases h : init_matches module_name revision m = true
    · simp [h]
    · simp only [h, if_false, Bool.false_eq_true]
      rw [ih]
      simp only [List.mem_cons, forall_eq_or_imp]
      simp only [Bool.not_eq_true] at h
      simp [h]

/-- The module that the search of `srctl_init` finds passes the test, and no
module before it in the context does. -/
theorem init_find_module_some (module_name : String) (revision : Option String)
    (modules : List lys_module_full) (module : lys_module_full)
    (h : init_find_module module_name revision modules = some module) :
    ∃ before after, modules = before ++ module :: after ∧
      init_matches module_name revision module = true ∧
      ∀ x ∈ before, init_matches module_name revision x = false := by
  induction modules with
  | nil => simp [init_find_module] at h
  | cons m ms ih =>
    unfold init_find_module at h
    by_cases hm : init_matches module_name revision m = true
    · simp only [hm, if_true, Option.some.injEq] at h
      subst h
      exact ⟨[], ms, rfl, hm, by simp⟩
    · simp only [hm, if_false, Bool.false_eq_true] at h
      obtain ⟨before, after, h1, h2, h3⟩ := ih h
      refine ⟨m :: before, after, by rw [h1]; rfl, h2, ?_⟩
      intro x hx
      rcases List.mem_cons.1 hx with hx | hx
      · subst hx; simpa using hm
      · exact h3 x hx

/-- Counterexample to C27 as stated: the schema directory holds the revisions
`2016-01-01` and `2017-01-01` of the module `m`, listed and so parsed in that
order, and no revision is requested.  The search selects the revision
`2016-01-01`, which is not the latest one, and `srctl_init` creates the data
files and inserts the schema file of that revision into the dependency
graph. -/
theorem init_selects_first_revision :
    (init_load_schemas example_schema_dir {} (({} : World).record .md_init)
        ["m@2016-01-01.yang", "m@2017-01-01.yang"] []).map
        (fun module => (module.name, module.rev0_date)) =
      [("m", some "2016-01-01"), ("m", some "2017-01-01")] ∧
    (init_find_module "m" none
        (init_load_schemas example_schema_dir {} (({} : World).record .md_init)
          ["m@2016-01-01.yang", "m@2017-01-01.yang"] [])).map
        lys_module_full.rev0_date = some (some "2016-01-01") ∧
    (srctl_init example_schema_dir {} {} (some "m") none none none).1 = SR_ERR_OK ∧
    sys_call.md_insert_module (some "/etc/sysrepo/yang/m@2016-01-01.yang") ∈
      (srctl_init example_schema_dir {} {} (some "m") none none none).2.log ∧
    sys_call.md_insert_module (some "/etc/sysrepo/yang/m@2017-01-01.yang") ∉
      (srctl_init example_schema_dir {} {} (some "m") none none none).2.log := by
  set_option maxRecDepth 100000 in
  refine ⟨by decide, by decide, by decide, by decide, by decide⟩

/-- C27, amended: once the context of the YANG library, the context of the
dependency graph and the schema directory are open, `srctl_init` searches the
modules parsed into the context, in the order in which the library iterates
over them, for the first one whose name is the requested name and, when a
revision is requested, whose primary revision is the requested one.  That
module, whatever its revision when none is requested, gets its data files
installed and is inserted into the graph.  If no module passes the test the
function returns `SR_ERR_INVAL_ARG` and the only calls made are `md_init` and
`md_destroy`: no file is created or changed and the stored graph is the
same. -/
theorem init_selection (E : environment) (G : settings) (w : World) (module_name : String)
    (revision owner permissions : Option String) (ly_ctx : List lys_module_full)
    (entries : List String)
    (hctx : E.ly_ctx_new w G.srctl_schema_search_dir = some ly_ctx)
    (hinit : E.md_init w = SR_ERR_OK)
    (hdir : E.readdir (w.record .md_init) G.srctl_schema_search_dir = some entries) :
    (∀ module, init_matches module_name revision module = true ↔
        (module.name = module_name ∧
          (revision = none ∨ (module.rev ≠ [] ∧ module.rev.head? = revision)))) ∧
    (∀ module,
      init_find_module module_name revision
          (init_load_schemas E G (w.record .md_init) entries ly_ctx) = some module →
      (∃ before after,
        init_load_schemas E G (w.record .md_init) entries ly_ctx = before ++ module :: after ∧
        init_matches module_name revision module = true ∧
        ∀ x ∈ before, init_matches module_name revision x = false) ∧
      srctl_init E G w (some module_name) revision owner permissions =
        (if (srctl_data_install E G (w.record .md_init) module owner permissions).1 = SR_ERR_OK
         then
          init_update_dependencies E
            (srctl_data_install E G (w.record .md_init) module owner permissions).2.2 module
            w.md_data
         else
          ((srctl_data_install E G (w.record .md_init) module owner permissions).1,
            md_destroy (srctl_data_install E G (w.record .md_init) module owner permissions).2.2
              (some w.md_data)))) ∧
    ((∀ x ∈ init_load_schemas E G (w.record .md_init) entries ly_ctx,
        init_matches module_name revision x = false) →
      (srctl_init E G w (some module_name) revision owner permissions).1 = SR_ERR_INVAL_ARG ∧
      (srctl_init E G w (some module_name) revision owner permissions).2.log =
        w.log ++ [.md_init, .md_destroy] ∧
      (srctl_init E G w (some module_name) revision owner permissions).2.files = w.files ∧
      (srctl_init E G w (some module_name) revision owner permissions).2.md_data =
        w.md_data) := by
  refine ⟨?_, ?_, ?_⟩
  · intro module
    simp only [init_matches, lys_module_full.rev0_date, decide_eq_true_eq, gt_iff_lt,
      List.length_pos]
  · intro module hfind
    refine ⟨init_find_module_some _ _ _ _ hfind, ?_⟩
    have hmd : md_init E w = (SR_ERR_OK, w.record .md_init) := by
      unfold md_init; rw [hinit]
    unfold srctl_init
    simp only [hctx, hmd, hdir]
    have hsame : (w.record sys_call.md_init).md_data = w.md_data := rfl
    rw [hfind]
    simp only [hsame]
    rcases hd : srctl_data_install E G (w.record .md_init) module owner permissions with
      ⟨rc, owner1, w2⟩
    cases rc <;> simp
  · intro hnone
    have hfind := (init_find_module_none module_name revision _).2 hnone
    have hmd : md_init E w = (SR_ERR_OK, w.record .md_init) := by
      unfold md_init; rw [hinit]
    unfold srctl_init
    simp only [hctx, hmd, hdir, hfind]
    simp [md_destroy, World.record]

/-- The amended C27 at a concrete input: the schema directory holds the
revisions `2016-01-01` and `2017-01-01` of the module `m` and the revision
`2018-01-01` is requested.  No module passes the test, the function returns
`SR_ERR_INVAL_ARG` and has called `md_init` and `md_destroy` only. -/
theorem init_selection_witness :
    (srctl_init example_schema_dir {} {} (some "m") (some "2018-01-01") none none).1 =
      SR_ERR_INVAL_ARG ∧
    (srctl_init example_schema_dir {} {} (some "m") (some "2018-01-01") none none).2.log =
      [.md_init, .md_destroy] :=
  have h := (init_selection example_schema_dir {} {} "m" (some "2018-01-01") none none []
    ["m@2016-01-01.yang", "m@2017-01-01.yang"] rfl rfl rfl).2.2 (by decide)
  ⟨h.1, h.2.1⟩

/-! ## Uninstall: a rejected removal -/

/-- Nothing has happened yet. -/
theorem untouched_refl (w : World) : w.untouched w :=
  ⟨⟨[], by simp, by simp⟩, rfl, rfl⟩

/-- Runs that delete and flush nothing compose. -/
theorem untouched_trans {w w1 w2 : World} (h1 : w.untouched w1) (h2 : w1.untouched w2) :
    w.untouched w2 := by
  obtain ⟨⟨c1, hl1, hp1⟩, hf1, hm1⟩ := h1
  obtain ⟨⟨c2, hl2, hp2⟩, hf2, hm2⟩ := h2
  refine ⟨⟨c1 ++ c2, by rw [hl2, hl1, List.append_assoc], ?_⟩, hf2.trans hf1, hm2.trans hm1⟩
  intro c hc
  rcases List.mem_append.1 hc with h | h
  · exact hp1 c h
  · exact hp2 c h

/-- Recording a call that is neither an unlink nor a flush. -/
theorem untouched_record (w : World) (c : sys_call) (hu : c.is_unlink = false)
    (hf : c.is_flush = false) : w.untouched (w.record c) :=
  ⟨⟨[c], rfl, by simpa using ⟨hu, hf⟩⟩, rfl, rfl⟩

/-- Opening a session with the daemon removes no file and flushes nothing. -/
theorem srctl_open_session_untouched (E : environment) (w : World) :
    w.untouched (srctl_open_session E w).2.2 := by
  unfold srctl_open_session
  split
  · exact untouched_trans (untouched_record w .sr_connect rfl rfl)
      (untouched_record _ .sr_session_start rfl rfl)
  · exact untouched_record w .sr_connect rfl rfl

/-- The daemon step of `srctl_uninstall` removes no file and flushes nothing. -/
theorem uninstall_notify_untouched (E : environment) (G : settings) (w : World)
    (module_name : String) (revision : Option String) :
    w.untouched (uninstall_notify E G w module_name revision).2 := by
  unfold uninstall_notify
  split
  · exact untouched_refl w
  · have hs := srctl_open_session_untouched E w
    rcases hopen : srctl_open_session E w with ⟨rc, connection, w1⟩
    rw [hopen] at hs
    cases rc <;>
      first
      | exact hs
      | exact untouched_trans hs
          (untouched_trans
            (untouched_record _ (.sr_module_install module_name revision none false) rfl rfl)
            (untouched_record _ .sr_disconnect rfl rfl))

/-- When the daemon is asked and can be reached, the result of the daemon step
of `srctl_uninstall` is its answer. -/
theorem uninstall_notify_answer (E : environment) (G : settings) (w : World)
    (module_name : String) (revision : Option String) (hcustom : G.custom_repository = false)
    (hsession : (srctl_open_session E w).1 = SR_ERR_OK) :
    (uninstall_notify E G w module_name revision).1 =
      E.sr_module_install (srctl_open_session E w).2.2 module_name revision none false := by
  unfold uninstall_notify
  rw [hcustom]
  simp only [Bool.false_eq_true, if_false]
  rcases hs : srctl_open_session E w with ⟨rc, connection, w1⟩
  rw [hs] at hsession
  simp only at hsession
  subst hsession
  rfl

/-- C25: `srctl_uninstall` has found the module in the dependency graph; the
graph library answers the removal with `rc_remove` and the daemon step ends
with `rc_notify`, which is the answer of the daemon when it is asked and can be
reached.  If the removal is rejected, the function returns `rc_remove`
(`SR_ERR_INVAL_ARG` when a module that stays depends on the target); if the
removal succeeds and the daemon refuses, it returns the answer of the daemon.
In both cases, and when the flush fails, no file is removed, the graph is not
flushed (or not with success), and the files and the stored graph are as
before.  Files are removed only after the removal, the daemon step and the
flush have succeeded: then the state in which `uninstall_files` starts has the
files of the entry state, and no unlink has been made before it. -/
theorem uninstall_refused (E : environment) (G : settings) (w : World) (module_name : String)
    (revision : Option String) (module : md_module_t) (filepath : String) (mem1 : MemState)
    (rc_remove rc_notify : sr_error_t) (md_ctx1 : List md_module_t)
    (implicitly_removed : List md_module_key_t) (w2 : World)
    (hctx : (E.ly_ctx_new w G.srctl_schema_search_dir).isSome = true)
    (hinit : E.md_init w = SR_ERR_OK)
    (hinfo : E.md_get_module_info (w.record .md_init) w.md_data module_name revision =
      (SR_ERR_OK, module))
    (hdup : strdup E.A w.mem module.filepath = (some filepath, mem1))
    (hremove : E.md_remove_module { w.record .md_init with mem := mem1 } w.md_data module_name
      revision = (rc_remove, md_ctx1, implicitly_removed))
    (hnotify : uninstall_notify E G
      ({ w.record .md_init with mem := mem1 }.record (.md_remove_module module_name revision))
      module_name revision = (rc_notify, w2)) :
    (rc_remove ≠ SR_ERR_OK →
      (srctl_uninstall E G w (some module_name) revision).1 = rc_remove ∧
      w.untouched (srctl_uninstall E G w (some module_name) revision).2) ∧
    (rc_remove = SR_ERR_OK → rc_notify ≠ SR_ERR_OK →
      (srctl_uninstall E G w (some module_name) revision).1 = rc_notify ∧
      w.untouched (srctl_uninstall E G w (some module_name) revision).2) ∧
    (G.custom_repository = false →
      (srctl_open_session E
        ({ w.record .md_init with mem := mem1 }.record
          (.md_remove_module module_name revision))).1 = SR_ERR_OK →
      rc_notify =
        E.sr_module_install
          (srctl_open_session E
            ({ w.record .md_init with mem := mem1 }.record
              (.md_remove_module module_name revision))).2.2
          module_name revision none false) ∧
    (rc_remove = SR_ERR_OK → rc_notify = SR_ERR_OK → E.md_flush w2 md_ctx1 ≠ SR_ERR_OK →
      (srctl_uninstall E G w (some module_name) revision).1 = E.md_flush w2 md_ctx1 ∧
      (∃ calls, (srctl_uninstall E G w (some module_name) revision).2.log = w.log ++ calls ∧
        ∀ c ∈ calls, c.is_unlink = false) ∧
      (srctl_uninstall E G w (some module_name) revision).2.files = w.files ∧
      (srctl_uninstall E G w (some module_name) revision).2.md_data = w.md_data) ∧
    (rc_remove = SR_ERR_OK → rc_notify = SR_ERR_OK → E.md_flush w2 md_ctx1 = SR_ERR_OK →
      srctl_uninstall E G w (some module_name) revision =
        (SR_ERR_OK,
          uninstall_files E G
            (({ w2.record .md_flush with md_data := md_ctx1 }).record .md_destroy) filepath
            module_name implicitly_removed) ∧
      w.untouched w2) := by
  obtain ⟨ly_ctx, hly⟩ := Option.isSome_iff_exists.1 hctx
  have hmd : md_init E w = (SR_ERR_OK, w.record .md_init) := by
    unfold md_init; rw [hinit]
  have hsame : (w.record sys_call.md_init).md_data = w.md_data := rfl
  have hmem : (w.record sys_call.md_init).mem = w.mem := rfl
  have hw2 : w.untouched w2 := by
    have h := uninstall_notify_untouched E G
      ({ w.record .md_init with mem := mem1 }.record (.md_remove_module module_name revision))
      module_name revision
    rw [hnotify] at h
    exact untouched_trans
      (untouched_trans (untouched_record w .md_init rfl rfl)
        (untouched_trans (show (w.record .md_init).untouched { w.record .md_init with mem := mem1 }
            from ⟨⟨[], by simp, by simp⟩, rfl, rfl⟩)
          (untouched_record _ (.md_remove_module module_name revision) rfl rfl))) h
  have hrun : srctl_uninstall E G w (some module_name) revision =
      (if rc_remove = SR_ERR_OK then
        if rc_notify = SR_ERR_OK then
          if (md_flush E w2 md_ctx1).1 = SR_ERR_OK then
            (SR_ERR_OK,
              uninstall_files E G (md_destroy (md_flush E w2 md_ctx1).2 (some md_ctx1)) filepath
                module_name implicitly_removed)
          else ((md_flush E w2 md_ctx1).1, md_destroy (md_flush E w2 md_ctx1).2 (some md_ctx1))
        else (rc_notify, md_destroy w2 (some md_ctx1))
      else
        (rc_remove,
          md_destroy
            ({ w.record .md_init with mem := mem1 }.record
              (.md_remove_module module_name revision)) (some md_ctx1))) := by
    have hinfo1 : E.md_get_module_info (w.record .md_init) (w.record .md_init).md_data
        module_name revision = (SR_ERR_OK, module) := hinfo
    have hdup1 : strdup E.A (w.record .md_init).mem module.filepath = (some filepath, mem1) :=
      hdup
    have hremove1 : E.md_remove_module { w.record .md_init with mem := mem1 }
        (w.record .md_init).md_data module_name revision =
          (rc_remove, md_ctx1, implicitly_removed) := hremove
    dsimp only at hremove1 hnotify
    unfold srctl_uninstall
    simp only [hly, hmd, hinfo1, hdup1, hremove1]
    cases rc_remove <;> simp only [hnotify, reduceCtorEq, if_false, if_true]
    cases rc_notify <;> simp only [reduceCtorEq, if_false, if_true]
    rcases md_flush E w2 md_ctx1 with ⟨rcf, w3⟩
    cases rcf <;> simp only [reduceCtorEq, if_false, if_true]
  refine ⟨?_, ?_, ?_, ?_, ?_⟩
  · intro hne
    rw [hrun]
    have hfin : w.untouched
        (md_destroy
          ({ w.record .md_init with mem := mem1 }.record
            (.md_remove_module module_name revision)) (some md_ctx1)) :=
      untouched_trans
        (untouched_trans (untouched_record w .md_init rfl rfl)
          (untouched_trans
            (show (w.record .md_init).untouched { w.record .md_init with mem := mem1 }
              from ⟨⟨[], by simp, by simp⟩, rfl, rfl⟩)
            (untouched_record _ (.md_remove_module module_name revision) rfl rfl)))
        (untouched_record _ .md_destroy rfl rfl)
    rw [if_neg hne]
    exact ⟨rfl, hfin⟩
  · intro hok hne
    subst hok
    rw [hrun]
    have hfin : w.untouched (md_destroy w2 (some md_ctx1)) :=
      untouched_trans hw2 (untouched_record _ .md_destroy rfl rfl)
    rw [if_pos rfl, if_neg hne]
    exact ⟨rfl, hfin⟩
  · intro hcustom hsession
    have h := uninstall_notify_answer E G
      ({ w.record .md_init with mem := mem1 }.record (.md_remove_module module_name revision))
      module_name revision hcustom hsession
    rw [hnotify] at h
    exact h
  · intro hok1 hok2 hflush
    subst hok1
    subst hok2
    rw [hrun]
    have hf : md_flush E w2 md_ctx1 = (E.md_flush w2 md_ctx1, w2.record .md_flush) := by
      unfold md_flush
      rw [if_neg hflush]
    simp only [hf, if_true, if_neg hflush]
    obtain ⟨⟨calls, hlog, hcalls⟩, hfiles, hdata⟩ := hw2
    refine ⟨trivial, ⟨calls ++ [.md_flush, .md_destroy], ?_, ?_⟩, hfiles, hdata⟩
    · simp [md_destroy, World.record, hlog]
    · intro c hc
      rcases List.mem_append.1 hc with h | h
      · exact (hcalls c h).1
      · simp only [List.mem_cons, List.mem_singleton, List.not_mem_nil, or_false] at h
        rcases h with h | h <;> subst h <;> rfl
  · intro hok1 hok2 hflush
    subst hok1
    subst hok2
    rw [hrun]
    have hf : md_flush E w2 md_ctx1 =
        (SR_ERR_OK, { w2.record .md_flush with md_data := md_ctx1 }) := by
      unfold md_flush
      rw [if_pos hflush]
    simp only [hf, if_true]
    exact ⟨rfl, hw2⟩

/-- C25 at two concrete inputs.  The graph holds the modules `a` and `b`, where
`b` depends on `a`.  First `a` is to be uninstalled: the graph library rejects
the removal with `SR_ERR_INVAL_ARG`, and `srctl_uninstall` returns that code
after the calls `md_init`, `md_remove_module` and `md_destroy`.  Then `b` is to
be uninstalled and the daemon answers `SR_ERR_INTERNAL`: the function returns
that code.  In both runs no file is removed and the graph is not flushed. -/
theorem uninstall_refused_witness :
    ((srctl_uninstall (example_dependent SR_ERR_OK) {} example_installed (some "a") none).1 =
        SR_ERR_INVAL_ARG ∧
      example_installed.untouched
        (srctl_uninstall (example_dependent SR_ERR_OK) {} example_installed (some "a") none).2 ∧
      (srctl_uninstall (example_dependent SR_ERR_OK) {} example_installed (some "a") none).2.log =
        [.md_init, .md_remove_module "a" none, .md_destroy]) ∧
    ((srctl_uninstall (example_dependent SR_ERR_INTERNAL) {} example_installed (some "b")
        none).1 = SR_ERR_INTERNAL ∧
      example_installed.untouched
        (srctl_uninstall (example_dependent SR_ERR_INTERNAL) {} example_installed (some "b")
          none).2 ∧
      (srctl_uninstall (example_dependent SR_ERR_INTERNAL) {} example_installed (some "b")
        none).2.log =
        [.md_init, .md_remove_module "b" none, .sr_connect, .sr_session_start,
         .sr_module_install "b" none none false, .sr_disconnect, .md_destroy]) :=
  have h1 := (uninstall_refused (example_dependent SR_ERR_OK) {} example_installed "a" none
    { name := "a", filepath := "/etc/sysrepo/yang/a.yang" } "/etc/sysrepo/yang/a.yang"
    { allocs := 1 } SR_ERR_INVAL_ARG SR_ERR_OK example_graph []
    ((((((({ example_installed.record .md_init with mem := { allocs := 1 } } : World).record
      (.md_remove_module "a" none)).record .sr_connect).record .sr_session_start).record
        (.sr_module_install "a" none none false)).record .sr_disconnect))
    rfl rfl rfl rfl rfl rfl).1 (by decide)
  have h2 := (uninstall_refused (example_dependent SR_ERR_INTERNAL) {} example_installed "b" none
    { name := "b", filepath := "/etc/sysrepo/yang/b.yang" } "/etc/sysrepo/yang/b.yang"
    { allocs := 1 } SR_ERR_OK SR_ERR_INTERNAL
    [{ name := "a", filepath := "/etc/sysrepo/yang/a.yang" }] []
    ((((((({ example_installed.record .md_init with mem := { allocs := 1 } } : World).record
      (.md_remove_module "b" none)).record .sr_connect).record .sr_session_start).record
        (.sr_module_install "b" none none false)).record .sr_disconnect))
    rfl rfl rfl rfl rfl rfl).2.1 rfl (by decide)
  ⟨⟨h1.1, h1.2, by decide⟩, ⟨h2.1, h2.2, by decide⟩⟩

/-! ## Install: what the schema and data steps do -/

/-- Nothing has been installed yet. -/
theorem installs_to_refl (w : World) : w.installs_to w :=
  ⟨reaches_refl _ w, keeps_refl w⟩

/-- Installing runs compose. -/
theorem installs_to_trans {w w1 w2 : World} (h1 : w.installs_to w1) (h2 : w1.installs_to w2) :
    w.installs_to w2 :=
  ⟨reaches_trans h1.1 h2.1, keeps_trans h1.2 h2.2⟩

/-- The memory state does not matter to what has been installed. -/
theorem installs_to_mem {w w1 : World} (h : w.installs_to w1) (m : MemState) :
    w.installs_to { w1 with mem := m } := h

/-- A command that installs, applied to the data files of a module, installs. -/
theorem apply_loop_installs (G : settings) (module_name : String)
    (command : World → String → Int × World) (continue_on_error : Bool)
    (hcmd : ∀ (w : World) (p : String), w.installs_to (command w p).2) :
    ∀ (exts : List String) (rc : Int) (w : World),
      w.installs_to
        (srctl_data_files_apply_loop G module_name command continue_on_error exts rc w).2 := by
  intro exts
  induction exts with
  | nil => intro rc w; exact installs_to_refl w
  | cons ext exts ih =>
    intro rc w
    unfold srctl_data_files_apply_loop
    split
    · split
      · exact installs_to_trans (hcmd w _) (ih _ _)
      · exact hcmd w _
    · exact installs_to_trans (hcmd w _) (ih _ _)

/-- Function `srctl_data_files_apply` with a command that installs. -/
theorem srctl_data_files_apply_installs (G : settings) (w : World) (module_name : String)
    (command : World → String → Int × World) (continue_on_error : Bool)
    (hcmd : ∀ (w : World) (p : String), w.installs_to (command w p).2) :
    w.installs_to (srctl_data_files_apply G w module_name command continue_on_error).2 :=
  apply_loop_installs G module_name command continue_on_error hcmd _ _ _

/-- Function `sr_set_data_file_permissions` removes nothing. -/
theorem sr_set_data_file_permissions_installs (E : environment) (G : settings) (w : World)
    (target_file : String) (target_is_dir : Bool) (data_serach_dir module_name : String)
    (strict : Bool) :
    w.installs_to
      (sr_set_data_file_permissions E G w target_file target_is_dir data_serach_dir module_name
        strict).2 := by
  unfold sr_set_data_file_permissions
  split
  · exact installs_to_refl w
  · split
    · rename_i data_file_name mem1 _
      split
      · exact installs_to_mem (installs_to_refl w) mem1
      · rename_i data_file_stat _
        have h1 := chmod_installs E { w with mem := mem1 } target_file
          (applied_mode target_is_dir data_file_stat.st_mode)
        have h1' : w.installs_to
            (chmod E { w with mem := mem1 } target_file
              (applied_mode target_is_dir data_file_stat.st_mode)).2 :=
          installs_to_trans (installs_to_mem (installs_to_refl w) mem1) h1
        have h2 := chown_installs E
          (chmod E { w with mem := mem1 } target_file
            (applied_mode target_is_dir data_file_stat.st_mode)).2 target_file
          (some data_file_stat.st_uid) (some data_file_stat.st_gid)
        have h2' := installs_to_trans h1' h2
        simp only []
        split
        · exact h1'
        · split
          · split <;> exact h2'
          · exact h2'
    · exact installs_to_mem (installs_to_refl w) _

/-- Function `srctl_update_socket_dir_permissions` removes nothing. -/
theorem srctl_update_socket_dir_permissions_installs (E : environment) (G : settings)
    (w : World) (module_name : String) :
    w.installs_to (srctl_update_socket_dir_permissions E G w module_name).2 := by
  have hstep : ∀ (w1 : World) (p : String),
      w1.installs_to (if access_ok w1 p then ((0 : Int), w1) else mkdir E w1 p 0o777).2 := by
    intro w1 p
    split
    · exact installs_to_refl w1
    · exact mkdir_installs E w1 p 0o777
  unfold srctl_update_socket_dir_permissions
  simp only []
  have h1 := hstep w (snprintf PATH_MAX (G.SR_SUBSCRIPTIONS_SOCKET_DIR ++ "/"))
  generalize (if access_ok w (snprintf PATH_MAX (G.SR_SUBSCRIPTIONS_SOCKET_DIR ++ "/")) = true
    then ((0 : Int), w)
    else mkdir E w (snprintf PATH_MAX (G.SR_SUBSCRIPTIONS_SOCKET_DIR ++ "/")) 0o777) = r1 at h1 ⊢
  have h2 := hstep r1.2
    (snprintf PATH_MAX
      (snprintf PATH_MAX (G.SR_SUBSCRIPTIONS_SOCKET_DIR ++ "/") ++ module_name ++ "/"))
  generalize (if access_ok r1.2
      (snprintf PATH_MAX
        (snprintf PATH_MAX (G.SR_SUBSCRIPTIONS_SOCKET_DIR ++ "/") ++ module_name ++ "/")) = true
    then ((0 : Int), r1.2)
    else mkdir E r1.2
      (snprintf PATH_MAX
        (snprintf PATH_MAX (G.SR_SUBSCRIPTIONS_SOCKET_DIR ++ "/") ++ module_name ++ "/"))
      0o777) = r2 at h2 ⊢
  split
  · exact h1
  · split
    · exact installs_to_trans h1 h2
    · exact installs_to_trans (installs_to_trans h1 h2)
        (sr_set_data_file_permissions_installs E G _ _ _ _ _ _)

/-- Function `srctl_module_change_permissions` removes nothing. -/
theorem srctl_module_change_permissions_installs (E : environment) (G : settings) (w : World)
    (module_name : String) (owner permissions : Option String) :
    w.installs_to
      (srctl_module_change_permissions E G w module_name owner permissions).2.2 := by
  have hown : ∀ owner_id : srctl_module_owner_t,
      w.installs_to
        (srctl_data_files_apply G w module_name (srctl_file_chown E owner_id) true).2 :=
    fun owner_id =>
      srctl_data_files_apply_installs G w module_name _ true
        (fun w1 p => chown_installs E w1 p owner_id.owner owner_id.group)
  have hmod : ∀ (w1 : World) (p : String),
      w1.installs_to (srctl_data_files_apply G w1 module_name (srctl_file_chmod E p) true).2 :=
    fun w1 p =>
      srctl_data_files_apply_installs G w1 module_name _ true
        (fun w2 q => system_chmod_installs E w2 p q)
  have hsock := fun w1 => srctl_update_socket_dir_permissions_installs E G w1 module_name
  unfold srctl_module_change_permissions
  cases owner with
  | none =>
    cases permissions with
    | none =>
      simp only []
      split_ifs <;>
        first
        | exact installs_to_refl _
        | exact hsock _
    | some p =>
      simp only []
      split_ifs <;>
        first
        | exact installs_to_refl _
        | exact hmod _ _
        | exact installs_to_trans (hmod _ _) (hsock _)
  | some o =>
    simp only []
    generalize owner_ids E o = ids
    rcases ids with ⟨_ | owner_id, o1⟩
    · simp only []
      split_ifs <;> exact installs_to_refl _
    · cases permissions with
      | none =>
        simp only []
        split_ifs <;>
          first
          | exact hown _
          | exact installs_to_trans (hown _) (hsock _)
      | some p =>
        simp only []
        split_ifs <;>
          first
          | exact hown _
          | exact installs_to_trans (hown _) (hmod _ _)
          | exact installs_to_trans (installs_to_trans (hown _) (hmod _ _)) (hsock _)

/-- The statements of `srctl_data_install` for the module itself remove
nothing. -/
theorem install_own_data_installs (E : environment) (G : settings) (w : World)
    (module : lys_module_full) (owner permissions : Option String) :
    w.installs_to (install_own_data E G w module owner permissions).2.2 := by
  unfold install_own_data
  split
  · have h1 := srctl_data_files_apply_installs G w module.name (srctl_file_create E) false
      (fun w1 p => open_creat_installs E w1 p 0o666)
    simp only []
    split
    · exact h1
    · exact installs_to_trans h1 (srctl_module_change_permissions_installs E G _ _ _ _)
  · split
    · have h1 := open_creat_installs E w
        (snprintf PATH_MAX (G.srctl_data_search_dir ++ module.name ++ SR_PERSIST_FILE_EXT)) 0o666
      simp only [srctl_file_create]
      split <;> exact h1
    · exact installs_to_refl w

/-- A successful `srctl_data_install` has created and changed files only, for
the module and for the modules that it imports. -/
theorem srctl_data_install_ok (E : environment) (G : settings) (w : World)
    (module : lys_module_full) (owner permissions : Option String)
    (h : (srctl_data_install E G w module owner permissions).1 = SR_ERR_OK) :
    w.installs_to (srctl_data_install E G w module owner permissions).2.2 := by
  revert h
  apply srctl_data_install.induct E G
    (fun w module owner permissions =>
      (srctl_data_install E G w module owner permissions).1 = SR_ERR_OK →
        w.installs_to (srctl_data_install E G w module owner permissions).2.2)
    (fun w owner permissions deps =>
      (srctl_data_install_imp E G w owner permissions deps).1 = SR_ERR_OK →
        w.installs_to (srctl_data_install_imp E G w owner permissions deps).2.2)
  · intro w name type rev filepath inc imp features_size data owner permissions owner1 w1 hown
      owner2 w2 himp ih h
    have h1 := install_own_data_installs E G w
      (.mk name type rev filepath inc imp features_size data) owner permissions
    rw [hown] at h1
    have h2 := ih (by rw [himp])
    rw [himp] at h2
    rw [srctl_data_install, hown]
    simp only [himp]
    exact installs_to_trans h1 h2
  · intro w name type rev filepath inc imp features_size data owner permissions owner1 w1 hown
      rc owner2 w2 hrc himp _ h
    rw [srctl_data_install, hown] at h
    simp only [himp] at h
    cases rc <;> first | exact absurd rfl hrc | exact sr_error_t.noConfusion h
  · intro w name type rev filepath inc imp features_size data owner permissions rc owner1 w1
      hrc hown h
    rw [srctl_data_install, hown] at h
    cases rc <;> first | exact absurd rfl hrc | exact sr_error_t.noConfusion h
  · intro w owner permissions _
    rw [srctl_data_install_imp]
    exact installs_to_refl w
  · intro w owner permissions dep deps hnone ih h
    rw [srctl_data_install_imp, if_pos hnone] at h ⊢
    exact ih h
  · intro w owner permissions dep deps hsome owner1 w1 hdep ih1 ih2 h
    rw [srctl_data_install_imp, if_neg hsome, hdep] at h ⊢
    simp only [] at h ⊢
    have h1 := ih1 (by rw [hdep])
    rw [hdep] at h1
    exact installs_to_trans h1 (ih2 h)
  · intro w owner permissions dep deps hsome rc owner1 w1 hrc hdep _ h
    rw [srctl_data_install_imp, if_neg hsome, hdep] at h
    cases rc <;> first | exact absurd rfl hrc | exact sr_error_t.noConfusion h

/-- The statements that install one schema file copy it or do nothing. -/
theorem install_schema_file_installs (E : environment) (w : World) (src : Option String)
    (dst : String) : w.installs_to (install_schema_file E w src dst).2.2 := by
  unfold install_schema_file
  split
  · exact installs_to_refl w
  · split
    · split
      · exact installs_to_refl w
      · rename_i s _ _
        have h := system_cp_installs E w s dst
        simp only []
        split <;> exact h
    · exact installs_to_refl w

/-- The statements that install the schema files of the module itself copy
files or do nothing. -/
theorem install_own_schema_installs (E : environment) (G : settings) (w : World)
    (name : String) (rev0_date : Option String) (yang_src yin_src : Option String) :
    w.installs_to (install_own_schema E G w name rev0_date yang_src yin_src).2.2.2 := by
  have h1 := install_schema_file_installs E w yang_src
    (srctl_get_yang_path G.srctl_schema_search_dir name rev0_date PATH_MAX)
  unfold install_own_schema
  rcases hy : install_schema_file E w yang_src
      (srctl_get_yang_path G.srctl_schema_search_dir name rev0_date PATH_MAX) with
    ⟨ok, yang_dst, w1⟩
  rw [hy] at h1
  cases ok
  · exact h1
  · exact installs_to_trans h1 (install_schema_file_installs E w1 yin_src _)

/-- A successful `srctl_schema_install` has copied files only, for the module
and for the modules that it includes and imports. -/
theorem srctl_schema_install_ok (E : environment) (G : settings) (w : World)
    (module : lys_module_full) (yang_src yin_src : Option String)
    (h : (srctl_schema_install E G w module yang_src yin_src).1 = SR_ERR_OK) :
    w.installs_to (srctl_schema_install E G w module yang_src yin_src).2 := by
  revert h
  apply srctl_schema_install.induct E G
    (fun w module yang_src yin_src =>
      (srctl_schema_install E G w module yang_src yin_src).1 = SR_ERR_OK →
        w.installs_to (srctl_schema_install E G w module yang_src yin_src).2)
    (fun w imports deps =>
      (srctl_schema_install_deps E G w imports deps).1 = SR_ERR_OK →
        w.installs_to (srctl_schema_install_deps E G w imports deps).2)
  · intro w name type rev filepath inc imp features_size data yang_src yin_src yang_dst yin_dst
      w1 hown h
    rw [srctl_schema_install, hown] at h
    exact sr_error_t.noConfusion h
  · intro w name type rev filepath inc imp features_size data yang_src yin_src yang_dst yin_dst
      w1 hown w2 hinc w3 himp ih1 ih2 _
    have h0 := install_own_schema_installs E G w name rev.head? yang_src yin_src
    rw [hown] at h0
    have h1 := ih1 (by rw [hinc])
    rw [hinc] at h1
    have h2 := ih2 (by rw [himp])
    rw [himp] at h2
    rw [srctl_schema_install, hown]
    simp only [hinc, himp]
    exact installs_to_trans (installs_to_trans h0 h1) h2
  · intro w name type rev filepath inc imp features_size data yang_src yin_src yang_dst yin_dst
      w1 hown w2 hinc rc w3 hrc himp _ _ h
    rw [srctl_schema_install, hown] at h
    simp only [hinc, himp] at h
    cases rc <;> first | exact absurd rfl hrc | exact sr_error_t.noConfusion h
  · intro w name type rev filepath inc imp features_size data yang_src yin_src yang_dst yin_dst
      w1 hown rc w2 hrc hinc _ h
    rw [srctl_schema_install, hown] at h
    simp only [hinc] at h
    cases rc <;> first | exact absurd rfl hrc | exact sr_error_t.noConfusion h
  · intro w imports _
    rw [srctl_schema_install_deps]
    exact installs_to_refl w
  · intro w imports dep deps hskip ih h
    rw [srctl_schema_install_deps, if_pos hskip] at h ⊢
    exact ih h
  · intro w imports dep deps hskip w1 hdep ih1 ih2 h
    rw [srctl_schema_install_deps, if_neg hskip, hdep] at h ⊢
    simp only [] at h ⊢
    have h1 := ih1 (by rw [hdep])
    rw [hdep] at h1
    exact installs_to_trans h1 (ih2 h)
  · intro w imports dep deps hskip rc w1 hrc hdep _ h
    rw [srctl_schema_install_deps, if_neg hskip, hdep] at h
    cases rc <;> first | exact absurd rfl hrc | exact sr_error_t.noConfusion h

/-- Function `srctl_file_remove` records one call of `unlink`. -/
theorem srctl_file_remove_log (E : environment) (w : World) (path : String) :
    (srctl_file_remove E w path).2.log = w.log ++ [.unlink path] ∧
    (srctl_file_remove E w path).2.md_data = w.md_data := by
  unfold srctl_file_remove
  split <;> exact unlink_log E w path

/-- The loop of `srctl_data_files_apply` with `srctl_file_remove`, which goes on
after an error, calls `unlink` on the file of each extension. -/
theorem remove_loop_log (E : environment) (G : settings) (module_name : String) :
    ∀ (exts : List String) (rc : Int) (w : World),
      (srctl_data_files_apply_loop G module_name (srctl_file_remove E) true exts rc w).2.log =
        w.log ++ exts.map (fun ext =>
          sys_call.unlink (snprintf PATH_MAX (G.srctl_data_search_dir ++ module_name ++ ext))) ∧
      (srctl_data_files_apply_loop G module_name (srctl_file_remove E) true exts rc w).2.md_data =
        w.md_data := by
  intro exts
  induction exts with
  | nil => intro rc w; exact ⟨by simp [srctl_data_files_apply_loop], rfl⟩
  | cons ext exts ih =>
    intro rc w
    have h1 := srctl_file_remove_log E w
      (snprintf PATH_MAX (G.srctl_data_search_dir ++ module_name ++ ext))
    unfold srctl_data_files_apply_loop
    split
    · rw [if_pos rfl]
      refine ⟨?_, ?_⟩
      · rw [(ih _ _).1, h1.1]; simp
      · rw [(ih _ _).2, h1.2]
    · refine ⟨?_, ?_⟩
      · rw [(ih _ _).1, h1.1]; simp
      · rw [(ih _ _).2, h1.2]

/-- Function `srctl_data_uninstall` calls `unlink` on each of the six data files
of the module, whatever the outcome of the calls. -/
theorem srctl_data_uninstall_log (E : environment) (G : settings) (w : World)
    (module_name : String) :
    (srctl_data_uninstall E G w module_name).2.log = w.log ++ data_unlinks G module_name ∧
    (srctl_data_uninstall E G w module_name).2.md_data = w.md_data := by
  unfold srctl_data_uninstall srctl_data_files_apply data_unlinks
  split <;> exact remove_loop_log E G module_name _ _ _

/-- A failed `srctl_data_install` ends with the removal of the data files of
the module. -/
theorem srctl_data_install_failed (E : environment) (G : settings) (w : World)
    (module : lys_module_full) (owner permissions : Option String)
    (h : (srctl_data_install E G w module owner permissions).1 ≠ SR_ERR_OK) :
    ∃ w1 : World, (srctl_data_install E G w module owner permissions).2.2.log =
      w1.log ++ data_unlinks G module.name := by
  rcases module with ⟨name, type, rev, filepath, inc, imp, features_size, data⟩
  rw [srctl_data_install] at h ⊢
  generalize install_own_data E G w (.mk name type rev filepath inc imp features_size data)
    owner permissions = r at h ⊢
  rcases r with ⟨rc, owner1, w1⟩
  cases rc
  case SR_ERR_OK =>
    simp only [] at h ⊢
    generalize srctl_data_install_imp E G w1 owner1 permissions imp = r2 at h ⊢
    rcases r2 with ⟨rc2, owner2, w2⟩
    cases rc2
    case SR_ERR_OK => exact absurd rfl h
    all_goals exact ⟨w2, (srctl_data_uninstall_log E G w2 name).1⟩
  all_goals exact ⟨w1, (srctl_data_uninstall_log E G w1 name).1⟩

/-! ## Install: the rollback -/

/-- The statements under `fail_data:` that remove one schema file call `unlink`
when the source had been given. -/
theorem install_unlink_log (E : environment) (w : World) (src : Option String)
    (schema_dst : String) :
    (install_unlink E w src schema_dst).log =
      w.log ++ (if src.isSome then [.unlink schema_dst] else []) ∧
    (install_unlink E w src schema_dst).md_data = w.md_data := by
  unfold install_unlink
  cases src with
  | none => simp
  | some s => simpa using unlink_log E w schema_dst

/-- The label `fail_data:` for a module that is not in the stored graph: the
schema files of the module itself are unlinked and the context of the graph is
released. -/
theorem install_fail_data_log (E : environment) (G : settings) (w : World)
    (module : lys_module_full) (yang yin : Option String) (md_ctx : List md_module_t)
    (rc : sr_error_t) :
    (install_fail_data E G w module yang yin false false (some md_ctx) rc).1 = rc ∧
    (install_fail_data E G w module yang yin false false (some md_ctx) rc).2.log =
      w.log ++ schema_unlinks G module yang yin ++ [.md_destroy] ∧
    (install_fail_data E G w module yang yin false false (some md_ctx) rc).2.md_data =
      w.md_data := by
  have h1 := install_unlink_log E w yang
    (srctl_get_yang_path G.srctl_schema_search_dir module.name module.rev0_date PATH_MAX)
  have h2 := install_unlink_log E
    (install_unlink E w yang
      (srctl_get_yang_path G.srctl_schema_search_dir module.name module.rev0_date PATH_MAX))
    yin (srctl_get_yin_path G.srctl_schema_search_dir module.name module.rev0_date PATH_MAX)
  unfold install_fail_data install_md_revert install_cleanup md_destroy
  simp only [Bool.false_eq_true, if_false, World.record]
  refine ⟨trivial, ?_, ?_⟩
  · rw [h2.1, h1.1]
    simp [schema_unlinks]
  · rw [h2.2, h1.2]

/-- The labels `fail_notif:` and `fail_dep_update:` for a module that is not in
the stored graph: the data files and the schema files of the module itself are
unlinked and the context of the graph is released. -/
theorem install_fail_dep_update_log (E : environment) (G : settings) (w : World)
    (module : lys_module_full) (yang yin : Option String) (md_ctx : List md_module_t)
    (rc : sr_error_t) :
    (install_fail_dep_update E G w module yang yin false false (some md_ctx) rc).1 = rc ∧
    (install_fail_dep_update E G w module yang yin false false (some md_ctx) rc).2.log =
      w.log ++ data_unlinks G module.name ++ schema_unlinks G module yang yin ++
        [.md_destroy] ∧
    (install_fail_dep_update E G w module yang yin false false (some md_ctx) rc).2.md_data =
      w.md_data := by
  have h1 := srctl_data_uninstall_log E G w module.name
  have h2 := install_fail_data_log E G (srctl_data_uninstall E G w module.name).2 module yang
    yin md_ctx rc
  unfold install_fail_dep_update
  refine ⟨h2.1, ?_, ?_⟩
  · rw [h2.2.1, h1.1]
  · rw [h2.2.2, h1.2]

/-- The statements `if (md_installed) { ... }` for a module that is in the
stored graph open the graph again; when that and the removal succeed, they
remove the module, flush and release the context. -/
theorem install_md_revert_log (E : environment) (w : World) (module : lys_module_full)
    (rc : sr_error_t) :
    ∃ calls, (install_md_revert E w module true rc).2.log = w.log ++ .md_init :: calls ∧
      ((∀ w1, E.md_init w1 = SR_ERR_OK) →
        (∀ w1 g n r, (E.md_remove_module w1 g n r).1 = SR_ERR_OK) →
        calls = [.md_remove_module module.name module.rev0_date, .md_flush, .md_destroy]) := by
  unfold install_md_revert md_init
  simp only [if_true]
  generalize hi : E.md_init w = rc_init
  cases rc_init
  case SR_ERR_OK =>
    simp only []
    generalize hr : E.md_remove_module (w.record .md_init) (w.record .md_init).md_data
      module.name module.rev0_date = removal
    rcases removal with ⟨rc_remove, md_ctx1, removed⟩
    cases rc_remove
    case SR_ERR_OK =>
      refine ⟨[.md_remove_module module.name module.rev0_date, .md_flush, .md_destroy], ?_,
        fun _ _ => rfl⟩
      simp only [md_destroy, md_flush]
      split <;> simp [World.record]
    all_goals
      refine ⟨[.md_remove_module module.name module.rev0_date, .md_destroy],
        by simp [md_destroy, World.record], ?_⟩
      intro _ hremove
      have := hremove (w.record .md_init) (w.record .md_init).md_data module.name
        module.rev0_date
      rw [hr] at this
      exact sr_error_t.noConfusion this
  all_goals
    refine ⟨[], by simp [World.record], ?_⟩
    intro hinit _
    have := hinit w
    rw [hi] at this
    exact sr_error_t.noConfusion this

/-- A session that has been opened has recorded the connection and the start
of the session. -/
theorem srctl_open_session_ok (E : environment) (w : World)
    (h : (srctl_open_session E w).1 = SR_ERR_OK) :
    srctl_open_session E w =
      (SR_ERR_OK, true, (w.record .sr_connect).record .sr_session_start) := by
  unfold srctl_open_session at h ⊢
  by_cases hc : E.sr_connect w = SR_ERR_OK
  · rw [if_pos hc] at h ⊢
    simp only at h
    rw [h]
  · rw [if_neg hc] at h
    exact absurd h hc

/-- The daemon is reachable and rejects the request: data files and schema
files of the module itself are unlinked, the graph is opened again, and the
connection is closed. -/
theorem install_notify_rejected_log (E : environment) (G : settings) (w : World)
    (module : lys_module_full) (yang yin : Option String)
    (hcustom : G.custom_repository = false)
    (hsession : (srctl_open_session E w).1 = SR_ERR_OK)
    (hanswer : E.sr_module_install (srctl_open_session E w).2.2 module.name module.rev0_date
        module.filepath true ≠ SR_ERR_OK) :
    ∃ calls, (install_notify E G w module yang yin).2.log =
        w.log ++ [.sr_connect, .sr_session_start,
          .sr_module_install module.name module.rev0_date module.filepath true] ++
          data_unlinks G module.name ++ schema_unlinks G module yang yin ++
          .md_init :: calls ∧
      ((∀ w1, E.md_init w1 = SR_ERR_OK) →
        (∀ w1 g n r, (E.md_remove_module w1 g n r).1 = SR_ERR_OK) →
        calls = [.md_remove_module module.name module.rev0_date, .md_flush, .md_destroy,
          .sr_disconnect]) := by
  rw [install_notify_rejected E G w module yang yin hcustom hsession hanswer]
  rw [srctl_open_session_ok E w hsession]
  simp only []
  generalize E.sr_module_install ((w.record .sr_connect).record .sr_session_start) module.name
    module.rev0_date module.filepath true = answer
  unfold install_fail_dep_update install_fail_data
  have h1 := srctl_data_uninstall_log E G
    (((w.record .sr_connect).record .sr_session_start).record
      (.sr_module_install module.name module.rev0_date module.filepath true)) module.name
  generalize (srctl_data_uninstall E G
    (((w.record .sr_connect).record .sr_session_start).record
      (.sr_module_install module.name module.rev0_date module.filepath true)) module.name).2 =
    wa at h1 ⊢
  have h2 := install_unlink_log E wa yang
    (srctl_get_yang_path G.srctl_schema_search_dir module.name module.rev0_date PATH_MAX)
  generalize install_unlink E wa yang
    (srctl_get_yang_path G.srctl_schema_search_dir module.name module.rev0_date PATH_MAX) =
    wb at h2 ⊢
  have h3 := install_unlink_log E wb yin
    (srctl_get_yin_path G.srctl_schema_search_dir module.name module.rev0_date PATH_MAX)
  generalize install_unlink E wb yin
    (srctl_get_yin_path G.srctl_schema_search_dir module.name module.rev0_date PATH_MAX) =
    wc at h3 ⊢
  obtain ⟨calls, hlog, hcalls⟩ := install_md_revert_log E wc module answer
  generalize install_md_revert E wc module true answer = rv at hlog ⊢
  rcases rv with ⟨rc1, wd⟩
  refine ⟨calls ++ [.sr_disconnect], ?_, ?_⟩
  · simp only [install_cleanup, md_destroy, if_true, World.record] at hlog ⊢
    rw [hlog, h3.1, h2.1, h1.1]
    simp [schema_unlinks, World.record]
  · intro hinit hremove
    rw [hcalls hinit hremove]
    rfl

/-- Function `srctl_install` up to the parsed module: when a schema file is
given, the search directory is known, the contexts of the YANG library and of
the dependency graph are open and the module is parsed, the function goes on
with the statements from `/* Install schema files */`. -/
theorem srctl_install_eq (E : environment) (G : settings) (w : World)
    (yang yin owner permissions search_dir : Option String) (file dir : String) (w0 : World)
    (ly_ctx : List lys_module_full) (module : lys_module_full)
    (hfile : (if yin.isSome then yin else yang) = some file)
    (hdir : install_search_dir E w yang file search_dir = (some dir, w0))
    (hctx : E.ly_ctx_new w0 dir = some ly_ctx)
    (hinit : E.md_init w0 = SR_ERR_OK)
    (hparse : (E.lys_parse_path (w0.record .md_init) ly_ctx file yin.isSome).1 = some module) :
    srctl_install E G w yang yin owner permissions search_dir =
      install_module E G (w0.record .md_init) module w0.md_data yang yin owner permissions := by
  have hmd : md_init E w0 = (SR_ERR_OK, w0.record .md_init) := by
    unfold md_init; rw [hinit]
  unfold srctl_install
  simp only [hfile, hdir, hctx, hmd, hparse]
  rfl

/-- The statements of `srctl_install` from `/* Install schema files */` on,
after a successful copy of the schema files, by the outcome of the steps that
follow. -/
theorem install_module_eq (E : environment) (G : settings) (w : World)
    (module : lys_module_full) (md_ctx : List md_module_t)
    (yang yin owner permissions : Option String) (w1 w2 : World) (rc_data rc_insert : sr_error_t)
    (owner1 : Option String) (md_ctx1 : List md_module_t)
    (hschema : srctl_schema_install E G w module yang yin = (SR_ERR_OK, w1))
    (hdata : srctl_data_install E G w1 module owner permissions = (rc_data, owner1, w2))
    (hinsert : E.md_insert_module w2 md_ctx (some (install_schema_dst G module yin)) =
      (rc_insert, md_ctx1)) :
    install_module E G w module md_ctx yang yin owner permissions =
      (if rc_data = SR_ERR_OK then
        if rc_insert = SR_ERR_DATA_EXISTS then
          install_cleanup (w2.record (.md_insert_module (some (install_schema_dst G module yin))))
            false (some md_ctx) SR_ERR_OK
        else if rc_insert = SR_ERR_OK then
          if E.md_flush (w2.record (.md_insert_module (some (install_schema_dst G module yin))))
              md_ctx1 = SR_ERR_OK then
            install_notify E G
              (({ (w2.record (.md_insert_module (some (install_schema_dst G module yin)))).record
                    .md_flush with md_data := md_ctx1 } : World).record .md_destroy)
              module yang yin
          else
            install_fail_dep_update E G
              ((w2.record (.md_insert_module (some (install_schema_dst G module yin)))).record
                .md_flush)
              module yang yin false false (some md_ctx1)
              (E.md_flush (w2.record (.md_insert_module (some (install_schema_dst G module yin))))
                md_ctx1)
        else
          install_fail_dep_update E G
            (w2.record (.md_insert_module (some (install_schema_dst G module yin)))) module yang
            yin false false (some md_ctx1) rc_insert
      else install_fail_data E G w2 module yang yin false false (some md_ctx) rc_data) := by
  unfold install_module
  simp only [hschema, hdata]
  cases rc_data <;> simp only [hinsert, reduceCtorEq, if_false, if_true]
  cases rc_insert <;> simp only [reduceCtorEq, if_false, if_true]
  unfold md_flush
  by_cases hf : E.md_flush
      (w2.record (.md_insert_module (some (install_schema_dst G module yin)))) md_ctx1 =
        SR_ERR_OK
  · simp only [hf, if_true, md_destroy]
  · simp only [hf, if_false]

/-- The statements that extract the search directory change the memory state
only. -/
theorem install_search_dir_world (E : environment) (w : World) (yang : Option String)
    (file : String) (search_dir : Option String) :
    (install_search_dir E w yang file search_dir).2.log = w.log ∧
    (install_search_dir E w yang file search_dir).2.files = w.files ∧
    (install_search_dir E w yang file search_dir).2.md_data = w.md_data := by
  unfold install_search_dir
  cases search_dir with
  | some dir => exact ⟨rfl, rfl, rfl⟩
  | none =>
    simp only [srctl_get_dir_path]
    split
    · exact ⟨rfl, rfl, rfl⟩
    · split
      · exact ⟨rfl, rfl, rfl⟩
      · split <;> exact ⟨rfl, rfl, rfl⟩

/-- A call that creates or changes a file is no rollback step, no flush and no
notification. -/
theorem installs_not_rollback (c : sys_call) (h : c.installs = true) :
    c.is_rollback = false ∧ c.is_flush = false ∧ c.is_notify = false := by
  cases c <;> first | exact ⟨rfl, rfl, rfl⟩ | exact Bool.noConfusion h

/-- Counterexample to C24 as stated.  The module `m`, which imports the module
`d`, is installed into an empty repository.  First the graph library rejects
the insertion with `SR_ERR_INTERNAL`: `srctl_install` returns that code and has
unlinked the data files and the schema file of `m`, but the schema file of `d`,
which this install has copied, is still there and no call has tried to remove
it.  Then the insertion succeeds and the flush fails with `SR_ERR_IO`: the
rollback does not open the graph again and removes no module from it. -/
theorem install_rollback_leaves_dependency :
    ((srctl_install (example_graph_failure SR_ERR_INTERNAL SR_ERR_OK) {} example_world
        (some "/home/user/m.yang") none none none none).1 = SR_ERR_INTERNAL ∧
      (example_world.files "/etc/sysrepo/yang/d.yang").isSome = false ∧
      sys_call.cp "/home/user/d.yang" "/etc/sysrepo/yang/d.yang" ∈
        (srctl_install (example_graph_failure SR_ERR_INTERNAL SR_ERR_OK) {} example_world
          (some "/home/user/m.yang") none none none none).2.log ∧
      sys_call.unlink "/etc/sysrepo/yang/d.yang" ∉
        (srctl_install (example_graph_failure SR_ERR_INTERNAL SR_ERR_OK) {} example_world
          (some "/home/user/m.yang") none none none none).2.log ∧
      ((srctl_install (example_graph_failure SR_ERR_INTERNAL SR_ERR_OK) {} example_world
          (some "/home/user/m.yang") none none none none).2.files
            "/etc/sysrepo/yang/d.yang").isSome = true ∧
      ((srctl_install (example_graph_failure SR_ERR_INTERNAL SR_ERR_OK) {} example_world
          (some "/home/user/m.yang") none none none none).2.files
            "/etc/sysrepo/yang/m@2016-01-01.yang").isSome = false) ∧
    ((srctl_install (example_graph_failure SR_ERR_OK SR_ERR_IO) {} example_world
        (some "/home/user/m.yang") none none none none).1 = SR_ERR_IO ∧
      sys_call.md_insert_module (some "/etc/sysrepo/yang/m@2016-01-01.yang") ∈
        (srctl_install (example_graph_failure SR_ERR_OK SR_ERR_IO) {} example_world
          (some "/home/user/m.yang") none none none none).2.log ∧
      ((srctl_install (example_graph_failure SR_ERR_OK SR_ERR_IO) {} example_world
          (some "/home/user/m.yang") none none none none).2.log.filter
            (fun c => c == .md_init)).length = 1 ∧
      sys_call.md_remove_module "m" (some "2016-01-01") ∉
        (srctl_install (example_graph_failure SR_ERR_OK SR_ERR_IO) {} example_world
          (some "/home/user/m.yang") none none none none).2.log) := by
  set_option maxRecDepth 100000 in
  refine ⟨⟨by decide, by decide, by decide, by decide, by decide, by decide⟩,
    ⟨by decide, by decide, by decide, by decide⟩⟩

/-- C24, amended: `srctl_install` has parsed the module and copied the schema
files (`hschema`); the data step ends with `rc_data` and the insertion into the
graph with `rc_insert`.

* When the data step fails, the function returns `rc_data`; the data step has
  ended with the calls of `unlink` on the six data files of the module itself,
  and the rollback calls `unlink` on its YANG file if `yang` is given and on
  its YIN file if `yin` is given.
* When the insertion fails with a code other than `SR_ERR_DATA_EXISTS`, or the
  flush fails, the function returns that code, and the rollback calls `unlink`
  on the six data files and on the schema files of the module itself.  The
  graph is not opened again; the stored graph has not changed.
* When the daemon is reachable and rejects the request, the rollback makes the
  same calls of `unlink` and then opens the graph again; when `md_init` and
  `md_remove_module` succeed it removes the module, flushes and releases the
  graph.

In each case the calls listed are all the calls of the rollback: no call
removes a schema file or a data file of an included or imported module, or a
socket directory. -/
theorem install_rollback (E : environment) (G : settings) (w : World)
    (yang yin owner permissions search_dir : Option String) (file dir : String) (w0 : World)
    (ly_ctx : List lys_module_full) (module : lys_module_full) (w1 w2 : World)
    (rc_data rc_insert : sr_error_t) (owner1 : Option String) (md_ctx1 : List md_module_t)
    (hfile : (if yin.isSome then yin else yang) = some file)
    (hdir : install_search_dir E w yang file search_dir = (some dir, w0))
    (hctx : E.ly_ctx_new w0 dir = some ly_ctx)
    (hinit : E.md_init w0 = SR_ERR_OK)
    (hparse : (E.lys_parse_path (w0.record .md_init) ly_ctx file yin.isSome).1 = some module)
    (hschema : srctl_schema_install E G (w0.record .md_init) module yang yin = (SR_ERR_OK, w1))
    (hdata : srctl_data_install E G w1 module owner permissions = (rc_data, owner1, w2))
    (hinsert : E.md_insert_module w2 w0.md_data (some (install_schema_dst G module yin)) =
      (rc_insert, md_ctx1)) :
    (rc_data ≠ SR_ERR_OK →
      (srctl_install E G w yang yin owner permissions search_dir).1 = rc_data ∧
      (∃ w3 : World, w2.log = w3.log ++ data_unlinks G module.name) ∧
      (srctl_install E G w yang yin owner permissions search_dir).2.log =
        w2.log ++ schema_unlinks G module yang yin ++ [.md_destroy]) ∧
    (rc_data = SR_ERR_OK → rc_insert ≠ SR_ERR_OK → rc_insert ≠ SR_ERR_DATA_EXISTS →
      (srctl_install E G w yang yin owner permissions search_dir).1 = rc_insert ∧
      (srctl_install E G w yang yin owner permissions search_dir).2.log =
        w2.log ++ [.md_insert_module (some (install_schema_dst G module yin))] ++
          data_unlinks G module.name ++ schema_unlinks G module yang yin ++ [.md_destroy] ∧
      (srctl_install E G w yang yin owner permissions search_dir).2.md_data = w.md_data) ∧
    (rc_data = SR_ERR_OK → rc_insert = SR_ERR_OK →
      E.md_flush (w2.record (.md_insert_module (some (install_schema_dst G module yin))))
        md_ctx1 ≠ SR_ERR_OK →
      (srctl_install E G w yang yin owner permissions search_dir).1 =
        E.md_flush (w2.record (.md_insert_module (some (install_schema_dst G module yin))))
          md_ctx1 ∧
      (srctl_install E G w yang yin owner permissions search_dir).2.log =
        w2.log ++ [.md_insert_module (some (install_schema_dst G module yin)), .md_flush] ++
          data_unlinks G module.name ++ schema_unlinks G module yang yin ++ [.md_destroy] ∧
      (srctl_install E G w yang yin owner permissions search_dir).2.md_data = w.md_data) ∧
    (rc_data = SR_ERR_OK → rc_insert = SR_ERR_OK →
      E.md_flush (w2.record (.md_insert_module (some (install_schema_dst G module yin))))
        md_ctx1 = SR_ERR_OK →
      G.custom_repository = false →
      (srctl_open_session E
        (({ (w2.record (.md_insert_module (some (install_schema_dst G module yin)))).record
              .md_flush with md_data := md_ctx1 } : World).record .md_destroy)).1 = SR_ERR_OK →
      E.sr_module_install
        (srctl_open_session E
          (({ (w2.record (.md_insert_module (some (install_schema_dst G module yin)))).record
                .md_flush with md_data := md_ctx1 } : World).record .md_destroy)).2.2
        module.name module.rev0_date module.filepath true ≠ SR_ERR_OK →
      ∃ calls,
        (srctl_install E G w yang yin owner permissions search_dir).2.log =
          w2.log ++ [.md_insert_module (some (install_schema_dst G module yin)), .md_flush,
              .md_destroy] ++
            [.sr_connect, .sr_session_start,
              .sr_module_install module.name module.rev0_date module.filepath true] ++
            data_unlinks G module.name ++ schema_unlinks G module yang yin ++
            .md_init :: calls ∧
        ((∀ w4, E.md_init w4 = SR_ERR_OK) →
          (∀ w4 g n r, (E.md_remove_module w4 g n r).1 = SR_ERR_OK) →
          calls = [.md_remove_module module.name module.rev0_date, .md_flush, .md_destroy,
            .sr_disconnect])) := by
  have hrun := srctl_install_eq E G w yang yin owner permissions search_dir file dir w0 ly_ctx
    module hfile hdir hctx hinit hparse
  have hw0 := install_search_dir_world E w yang file search_dir
  rw [hdir] at hw0
  have hs := srctl_schema_install_ok E G (w0.record .md_init) module yang yin (by rw [hschema])
  rw [hschema] at hs
  rw [hrun, install_module_eq E G (w0.record .md_init) module w0.md_data yang yin owner
    permissions w1 w2 rc_data rc_insert owner1 md_ctx1 hschema hdata hinsert]
  refine ⟨?_, ?_, ?_, ?_⟩
  · intro hne
    rw [if_neg hne]
    have hfail := srctl_data_install_failed E G w1 module owner permissions
      (by rw [hdata]; exact hne)
    rw [hdata] at hfail
    have h := install_fail_data_log E G w2 module yang yin w0.md_data rc_data
    exact ⟨h.1, hfail, h.2.1⟩
  · intro hok hne1 hne2
    have hd := srctl_data_install_ok E G w1 module owner permissions (by rw [hdata]; exact hok)
    rw [hdata] at hd
    rw [if_pos hok, if_neg hne2, if_neg hne1]
    have h := install_fail_dep_update_log E G
      (w2.record (.md_insert_module (some (install_schema_dst G module yin)))) module yang yin
      md_ctx1 rc_insert
    refine ⟨h.1, ?_, ?_⟩
    · rw [h.2.1]; simp [World.record]
    · rw [h.2.2]
      exact (hd.1.2.trans hs.1.2).trans hw0.2.2
  · intro hok1 hok2 hflush
    have hd := srctl_data_install_ok E G w1 module owner permissions (by rw [hdata]; exact hok1)
    rw [hdata] at hd
    rw [if_pos hok1, hok2, if_neg (by decide), if_pos rfl, if_neg hflush]
    have h := install_fail_dep_update_log E G
      ((w2.record (.md_insert_module (some (install_schema_dst G module yin)))).record
        .md_flush) module yang yin md_ctx1
      (E.md_flush (w2.record (.md_insert_module (some (install_schema_dst G module yin))))
        md_ctx1)
    refine ⟨h.1, ?_, ?_⟩
    · rw [h.2.1]; simp [World.record]
    · rw [h.2.2]
      exact (hd.1.2.trans hs.1.2).trans hw0.2.2
  · intro hok1 hok2 hflush hcustom hsession hanswer
    rw [if_pos hok1, hok2, if_neg (by decide), if_pos rfl, if_pos hflush]
    obtain ⟨calls, hlog, hcalls⟩ := install_notify_rejected_log E G _ module yang yin hcustom
      hsession hanswer
    refine ⟨calls, ?_, hcalls⟩
    rw [hlog]
    simp [World.record]

/-- The amended C24 at a concrete input: the module `m`, which imports `d`, is
installed from `/home/user/m.yang` into an empty repository and the graph
library rejects the insertion with `SR_ERR_INTERNAL`.  The function returns
that code, the stored graph is as before, and the rollback consists of the
calls of `unlink` on the six data files and on the schema file of `m`, followed
by `md_destroy`. -/
theorem install_rollback_witness :
    (srctl_install (example_graph_failure SR_ERR_INTERNAL SR_ERR_OK) {} example_world
        (some "/home/user/m.yang") none none none none).1 = SR_ERR_INTERNAL ∧
    (srctl_install (example_graph_failure SR_ERR_INTERNAL SR_ERR_OK) {} example_world
        (some "/home/user/m.yang") none none none none).2.md_data = example_world.md_data ∧
    (srctl_install (example_graph_failure SR_ERR_INTERNAL SR_ERR_OK) {} example_world
        (some "/home/user/m.yang") none none none none).2.log.drop 14 =
      [.unlink "/etc/sysrepo/data/m.startup",
       .unlink "/etc/sysrepo/data/m.running",
       .unlink "/etc/sysrepo/data/m.startup.lock",
       .unlink "/etc/sysrepo/data/m.running.lock",
       .unlink "/etc/sysrepo/data/m.persist",
       .unlink "/etc/sysrepo/data/m.candidate.lock",
       .unlink "/etc/sysrepo/yang/m@2016-01-01.yang",
       .md_destroy] := by
  have h := (install_rollback (example_graph_failure SR_ERR_INTERNAL SR_ERR_OK) {}
    example_world (some "/home/user/m.yang") none none none none "/home/user/m.yang"
    "/home/user"
    (install_search_dir (example_graph_failure SR_ERR_INTERNAL SR_ERR_OK) example_world
      (some "/home/user/m.yang") "/home/user/m.yang" none).2
    [] (example_module [example_dependency])
    (srctl_schema_install (example_graph_failure SR_ERR_INTERNAL SR_ERR_OK) {}
      ((install_search_dir (example_graph_failure SR_ERR_INTERNAL SR_ERR_OK) example_world
        (some "/home/user/m.yang") "/home/user/m.yang" none).2.record .md_init)
      (example_module [example_dependency]) (some "/home/user/m.yang") none).2
    (srctl_data_install (example_graph_failure SR_ERR_INTERNAL SR_ERR_OK) {}
      (srctl_schema_install (example_graph_failure SR_ERR_INTERNAL SR_ERR_OK) {}
        ((install_search_dir (example_graph_failure SR_ERR_INTERNAL SR_ERR_OK) example_world
          (some "/home/user/m.yang") "/home/user/m.yang" none).2.record .md_init)
        (example_module [example_dependency]) (some "/home/user/m.yang") none).2
      (example_module [example_dependency]) none none).2.2
    SR_ERR_OK SR_ERR_INTERNAL none [] rfl (Prod.ext (by decide) rfl) rfl rfl rfl
    (Prod.ext (by decide) rfl) (Prod.ext (by decide) (Prod.ext (by decide) rfl)) rfl).2.1 rfl
    (by decide) (by decide)
  set_option maxRecDepth 100000 in
  exact ⟨h.1, h.2.2, by decide⟩

/-! ## Install: when the schema and data steps leave the files as they are -/

/-- Nothing has been called yet. -/
theorem steady_to_refl {E : environment} (w : World) : w.steady_to E w :=
  ⟨[], by simp, fun _ => rfl⟩

/-- Runs that leave the files compose. -/
theorem steady_to_trans {E : environment} {w w1 w2 : World} (h1 : w.steady_to E w1)
    (h2 : w1.steady_to E w2) : w.steady_to E w2 := by
  obtain ⟨c1, hl1, hf1⟩ := h1
  obtain ⟨c2, hl2, hf2⟩ := h2
  refine ⟨c1 ++ c2, by rw [hl2, hl1, List.append_assoc], ?_⟩
  intro h
  have e1 : w1.files = w.files := hf1 (fun c hc => h c (List.mem_append_left _ hc))
  have e2 : w2.files = w1.files :=
    hf2 (fun c hc => by rw [e1]; exact h c (List.mem_append_right _ hc))
  rw [e2, e1]

/-- The memory state does not matter to the files. -/
theorem steady_to_mem {E : environment} {w w1 : World} (h : w.steady_to E w1) (m : MemState) :
    w.steady_to E { w1 with mem := m } := h

/-- A call that is recorded only changes no file. -/
theorem steady_to_record (E : environment) (w : World) (c : sys_call) :
    w.steady_to E (w.record c) :=
  ⟨[c], rfl, fun _ => rfl⟩

/-- Storing the file that is there changes no file. -/
theorem store_same (w : World) (c : sys_call) (path : String) (f : sys_file)
    (h : w.files path = some f) : ((w.record c).store path (some f)).files = w.files := by
  funext p
  show (if p = path then some f else w.files p) = w.files p
  by_cases hp : p = path
  · rw [if_pos hp, hp, h]
  · rw [if_neg hp]

/-- The command `cp` changes no file when it leaves the files as they are. -/
theorem system_cp_steady (E : environment) (w : World) (src dst : String) :
    w.steady_to E (system_cp E w src dst).2 := by
  unfold system_cp
  split
  · exact steady_to_record E w _
  · split
    · exact steady_to_record E w _
    · rename_i f hsrc
      split
      · rename_i g hdst
        refine ⟨[.cp src dst], rfl, fun h => ?_⟩
        have hl := h (.cp src dst) (List.mem_singleton.2 rfl)
        simp only [sys_call.leaves, hsrc, hdst, decide_eq_true_eq] at hl
        have hg : ({ g with content := f.content } : sys_file) = g := by rw [← hl]
        simp only []
        rw [hg]
        exact store_same w _ dst g hdst
      · rename_i hdst
        refine ⟨[.cp src dst], rfl, fun h => ?_⟩
        have hl := h (.cp src dst) (List.mem_singleton.2 rfl)
        simp [sys_call.leaves, hsrc, hdst] at hl

/-- The command `chmod` changes no file when it leaves the files as they
are. -/
theorem system_chmod_steady (E : environment) (w : World) (permissions path : String) :
    w.steady_to E (system_chmod E w permissions path).2 := by
  unfold system_chmod
  split
  · exact steady_to_record E w _
  · split
    · exact steady_to_record E w _
    · rename_i f hf
      split
      · exact steady_to_record E w _
      · rename_i mode hmode
        refine ⟨[.chmod_command permissions path], rfl, fun h => ?_⟩
        have hl := h (.chmod_command permissions path) (List.mem_singleton.2 rfl)
        simp only [sys_call.leaves, hf, hmode, decide_eq_true_eq] at hl
        simp only []
        rw [hl]
        exact store_same w _ path f hf

/-- Library `open` with `O_CREAT` changes no file when the file is there. -/
theorem open_creat_steady (E : environment) (w : World) (path : String) (mode : Nat) :
    w.steady_to E (open_creat E w path mode).2 := by
  unfold open_creat
  split
  · exact steady_to_record E w _
  · split
    · exact steady_to_record E w _
    · rename_i hf
      refine ⟨[.open_creat path], rfl, fun h => ?_⟩
      have hl := h (.open_creat path) (List.mem_singleton.2 rfl)
      simp [sys_call.leaves, hf] at hl

/-- Library `chown` changes no file when the file has the owner and the group
already. -/
theorem chown_steady (E : environment) (w : World) (path : String) (owner group : Option Nat) :
    w.steady_to E (chown E w path owner group).2 := by
  unfold chown
  split
  · exact steady_to_record E w _
  · split
    · exact steady_to_record E w _
    · rename_i f hf
      refine ⟨[.chown path owner group], rfl, fun h => ?_⟩
      have hl := h (.chown path owner group) (List.mem_singleton.2 rfl)
      simp only [sys_call.leaves, hf, Bool.decide_and, Bool.and_eq_true,
        decide_eq_true_eq] at hl
      simp only []
      rw [hl.1, hl.2]
      exact store_same w _ path f hf

/-- Library `chmod` changes no file when the file has the mode already. -/
theorem chmod_steady (E : environment) (w : World) (path : String) (mode : Nat) :
    w.steady_to E (chmod E w path mode).2 := by
  unfold chmod
  split
  · exact steady_to_record E w _
  · split
    · exact steady_to_record E w _
    · rename_i f hf
      refine ⟨[.chmod path mode], rfl, fun h => ?_⟩
      have hl := h (.chmod path mode) (List.mem_singleton.2 rfl)
      simp only [sys_call.leaves, hf, decide_eq_true_eq] at hl
      simp only []
      rw [hl]
      exact store_same w _ path f hf

/-- Library `mkdir` changes no file when the directory is there. -/
theorem mkdir_steady (E : environment) (w : World) (path : String) (mode : Nat) :
    w.steady_to E (mkdir E w path mode).2 := by
  unfold mkdir
  split
  · exact steady_to_record E w _
  · split
    · exact steady_to_record E w _
    · rename_i hf
      refine ⟨[.mkdir path mode], rfl, fun h => ?_⟩
      have hl := h (.mkdir path mode) (List.mem_singleton.2 rfl)
      simp [sys_call.leaves, hf] at hl

/-- A command that changes files only by calls that do not leave them, applied
to the data files of a module, does so too. -/
theorem apply_loop_steady (E : environment) (G : settings) (module_name : String)
    (command : World → String → Int × World) (continue_on_error : Bool)
    (hcmd : ∀ (w : World) (p : String), w.steady_to E (command w p).2) :
    ∀ (exts : List String) (rc : Int) (w : World),
      w.steady_to E
        (srctl_data_files_apply_loop G module_name command continue_on_error exts rc w).2 := by
  intro exts
  induction exts with
  | nil => intro rc w; exact steady_to_refl w
  | cons ext exts ih =>
    intro rc w
    unfold srctl_data_files_apply_loop
    split
    · split
      · exact steady_to_trans (hcmd w _) (ih _ _)
      · exact hcmd w _
    · exact steady_to_trans (hcmd w _) (ih _ _)

/-- Function `srctl_data_files_apply` with such a command. -/
theorem srctl_data_files_apply_steady (E : environment) (G : settings) (w : World) (module_name : String)
    (command : World → String → Int × World) (continue_on_error : Bool)
    (hcmd : ∀ (w : World) (p : String), w.steady_to E (command w p).2) :
    w.steady_to E (srctl_data_files_apply G w module_name command continue_on_error).2 :=
  apply_loop_steady E G module_name command continue_on_error hcmd _ _ _

/-- Function `sr_set_data_file_permissions` changes no file when each of its
calls leaves the files as they are. -/
theorem sr_set_data_file_permissions_steady (E : environment) (G : settings) (w : World)
    (target_file : String) (target_is_dir : Bool) (data_serach_dir module_name : String)
    (strict : Bool) :
    w.steady_to E
      (sr_set_data_file_permissions E G w target_file target_is_dir data_serach_dir module_name
        strict).2 := by
  unfold sr_set_data_file_permissions
  split
  · exact steady_to_refl w
  · split
    · rename_i data_file_name mem1 _
      split
      · exact steady_to_mem (steady_to_refl w) mem1
      · rename_i data_file_stat _
        have h1 := chmod_steady E { w with mem := mem1 } target_file
          (applied_mode target_is_dir data_file_stat.st_mode)
        have h1' : w.steady_to E
            (chmod E { w with mem := mem1 } target_file
              (applied_mode target_is_dir data_file_stat.st_mode)).2 :=
          steady_to_trans (steady_to_mem (steady_to_refl w) mem1) h1
        have h2 := chown_steady E
          (chmod E { w with mem := mem1 } target_file
            (applied_mode target_is_dir data_file_stat.st_mode)).2 target_file
          (some data_file_stat.st_uid) (some data_file_stat.st_gid)
        have h2' := steady_to_trans h1' h2
        simp only []
        split
        · exact h1'
        · split
          · split <;> exact h2'
          · exact h2'
    · exact steady_to_mem (steady_to_refl w) _

/-- Function `srctl_update_socket_dir_permissions` changes no file when each of
its calls leaves the files as they are. -/
theorem srctl_update_socket_dir_permissions_steady (E : environment) (G : settings)
    (w : World) (module_name : String) :
    w.steady_to E (srctl_update_socket_dir_permissions E G w module_name).2 := by
  have hstep : ∀ (w1 : World) (p : String),
      w1.steady_to E (if access_ok w1 p then ((0 : Int), w1) else mkdir E w1 p 0o777).2 := by
    intro w1 p
    split
    · exact steady_to_refl w1
    · exact mkdir_steady E w1 p 0o777
  unfold srctl_update_socket_dir_permissions
  simp only []
  have h1 := hstep w (snprintf PATH_MAX (G.SR_SUBSCRIPTIONS_SOCKET_DIR ++ "/"))
  generalize (if access_ok w (snprintf PATH_MAX (G.SR_SUBSCRIPTIONS_SOCKET_DIR ++ "/")) = true
    then ((0 : Int), w)
    else mkdir E w (snprintf PATH_MAX (G.SR_SUBSCRIPTIONS_SOCKET_DIR ++ "/")) 0o777) = r1 at h1 ⊢
  have h2 := hstep r1.2
    (snprintf PATH_MAX
      (snprintf PATH_MAX (G.SR_SUBSCRIPTIONS_SOCKET_DIR ++ "/") ++ module_name ++ "/"))
  generalize (if access_ok r1.2
      (snprintf PATH_MAX
        (snprintf PATH_MAX (G.SR_SUBSCRIPTIONS_SOCKET_DIR ++ "/") ++ module_name ++ "/")) = true
    then ((0 : Int), r1.2)
    else mkdir E r1.2
      (snprintf PATH_MAX
        (snprintf PATH_MAX (G.SR_SUBSCRIPTIONS_SOCKET_DIR ++ "/") ++ module_name ++ "/"))
      0o777) = r2 at h2 ⊢
  split
  · exact h1
  · split
    · exact steady_to_trans h1 h2
    · exact steady_to_trans (steady_to_trans h1 h2)
        (sr_set_data_file_permissions_steady E G _ _ _ _ _ _)

/-- Function `srctl_module_change_permissions` changes no file when each of its
calls leaves the files as they are. -/
theorem srctl_module_change_permissions_steady (E : environment) (G : settings) (w : World)
    (module_name : String) (owner permissions : Option String) :
    w.steady_to E
      (srctl_module_change_permissions E G w module_name owner permissions).2.2 := by
  have hown : ∀ owner_id : srctl_module_owner_t,
      w.steady_to E
        (srctl_data_files_apply G w module_name (srctl_file_chown E owner_id) true).2 :=
    fun owner_id =>
      srctl_data_files_apply_steady E G w module_name _ true
        (fun w1 p => chown_steady E w1 p owner_id.owner owner_id.group)
  have hmod : ∀ (w1 : World) (p : String),
      w1.steady_to E (srctl_data_files_apply G w1 module_name (srctl_file_chmod E p) true).2 :=
    fun w1 p =>
      srctl_data_files_apply_steady E G w1 module_name _ true
        (fun w2 q => system_chmod_steady E w2 p q)
  have hsock := fun w1 => srctl_update_socket_dir_permissions_steady E G w1 module_name
  unfold srctl_module_change_permissions
  cases owner with
  | none =>
    cases permissions with
    | none =>
      simp only []
      split_ifs <;>
        first
        | exact steady_to_refl _
        | exact hsock _
    | some p =>
      simp only []
      split_ifs <;>
        first
        | exact steady_to_refl _
        | exact hmod _ _
        | exact steady_to_trans (hmod _ _) (hsock _)
  | some o =>
    simp only []
    generalize owner_ids E o = ids
    rcases ids with ⟨_ | owner_id, o1⟩
    · simp only []
      split_ifs <;> exact steady_to_refl _
    · cases permissions with
      | none =>
        simp only []
        split_ifs <;>
          first
          | exact hown _
          | exact steady_to_trans (hown _) (hsock _)
      | some p =>
        simp only []
        split_ifs <;>
          first
          | exact hown _
          | exact steady_to_trans (hown _) (hmod _ _)
          | exact steady_to_trans (steady_to_trans (hown _) (hmod _ _)) (hsock _)

/-- The statements of `srctl_data_install` for the module itself change no file
when each of their calls leaves the files as they are. -/
theorem install_own_data_steady (E : environment) (G : settings) (w : World)
    (module : lys_module_full) (owner permissions : Option String) :
    w.steady_to E (install_own_data E G w module owner permissions).2.2 := by
  unfold install_own_data
  split
  · have h1 := srctl_data_files_apply_steady E G w module.name (srctl_file_create E) false
      (fun w1 p => open_creat_steady E w1 p 0o666)
    simp only []
    split
    · exact h1
    · exact steady_to_trans h1 (srctl_module_change_permissions_steady E G _ _ _ _)
  · split
    · have h1 := open_creat_steady E w
        (snprintf PATH_MAX (G.srctl_data_search_dir ++ module.name ++ SR_PERSIST_FILE_EXT)) 0o666
      simp only [srctl_file_create]
      split <;> exact h1
    · exact steady_to_refl w

/-- A successful `srctl_data_install`, for the module and for the modules that
it imports, has changed no file when each of its calls leaves the files as they
are. -/
theorem srctl_data_install_steady (E : environment) (G : settings) (w : World)
    (module : lys_module_full) (owner permissions : Option String)
    (h : (srctl_data_install E G w module owner permissions).1 = SR_ERR_OK) :
    w.steady_to E (srctl_data_install E G w module owner permissions).2.2 := by
  revert h
  apply srctl_data_install.induct E G
    (fun w module owner permissions =>
      (srctl_data_install E G w module owner permissions).1 = SR_ERR_OK →
        w.steady_to E (srctl_data_install E G w module owner permissions).2.2)
    (fun w owner permissions deps =>
      (srctl_data_install_imp E G w owner permissions deps).1 = SR_ERR_OK →
        w.steady_to E (srctl_data_install_imp E G w owner permissions deps).2.2)
  · intro w name type rev filepath inc imp features_size data owner permissions owner1 w1 hown
      owner2 w2 himp ih h
    have h1 := install_own_data_steady E G w
      (.mk name type rev filepath inc imp features_size data) owner permissions
    rw [hown] at h1
    have h2 := ih (by rw [himp])
    rw [himp] at h2
    rw [srctl_data_install, hown]
    simp only [himp]
    exact steady_to_trans h1 h2
  · intro w name type rev filepath inc imp features_size data owner permissions owner1 w1 hown
      rc owner2 w2 hrc himp _ h
    rw [srctl_data_install, hown] at h
    simp only [himp] at h
    cases rc <;> first | exact absurd rfl hrc | exact sr_error_t.noConfusion h
  · intro w name type rev filepath inc imp features_size data owner permissions rc owner1 w1
      hrc hown h
    rw [srctl_data_install, hown] at h
    cases rc <;> first | exact absurd rfl hrc | exact sr_error_t.noConfusion h
  · intro w owner permissions _
    rw [srctl_data_install_imp]
    exact steady_to_refl w
  · intro w owner permissions dep deps hnone ih h
    rw [srctl_data_install_imp, if_pos hnone] at h ⊢
    exact ih h
  · intro w owner permissions dep deps hsome owner1 w1 hdep ih1 ih2 h
    rw [srctl_data_install_imp, if_neg hsome, hdep] at h ⊢
    simp only [] at h ⊢
    have h1 := ih1 (by rw [hdep])
    rw [hdep] at h1
    exact steady_to_trans h1 (ih2 h)
  · intro w owner permissions dep deps hsome rc owner1 w1 hrc hdep _ h
    rw [srctl_data_install_imp, if_neg hsome, hdep] at h
    cases rc <;> first | exact absurd rfl hrc | exact sr_error_t.noConfusion h

/-- The statements that install one schema file change no file when the copy
leaves the files as they are. -/
theorem install_schema_file_steady (E : environment) (w : World) (src : Option String)
    (dst : String) : w.steady_to E (install_schema_file E w src dst).2.2 := by
  unfold install_schema_file
  split
  · exact steady_to_refl w
  · split
    · split
      · exact steady_to_refl w
      · rename_i s _ _
        have h := system_cp_steady E w s dst
        simp only []
        split <;> exact h
    · exact steady_to_refl w

/-- The statements that install the schema files of the module itself change no
file when each copy leaves the files as they are. -/
theorem install_own_schema_steady (E : environment) (G : settings) (w : World)
    (name : String) (rev0_date : Option String) (yang_src yin_src : Option String) :
    w.steady_to E (install_own_schema E G w name rev0_date yang_src yin_src).2.2.2 := by
  have h1 := install_schema_file_steady E w yang_src
    (srctl_get_yang_path G.srctl_schema_search_dir name rev0_date PATH_MAX)
  unfold install_own_schema
  rcases hy : install_schema_file E w yang_src
      (srctl_get_yang_path G.srctl_schema_search_dir name rev0_date PATH_MAX) with
    ⟨ok, yang_dst, w1⟩
  rw [hy] at h1
  cases ok
  · exact h1
  · exact steady_to_trans h1 (install_schema_file_steady E w1 yin_src _)

/-- A successful `srctl_schema_install`, for the module and for the modules that
it includes and imports, has changed no file when each copy leaves the files as
they are. -/
theorem srctl_schema_install_steady (E : environment) (G : settings) (w : World)
    (module : lys_module_full) (yang_src yin_src : Option String)
    (h : (srctl_schema_install E G w module yang_src yin_src).1 = SR_ERR_OK) :
    w.steady_to E (srctl_schema_install E G w module yang_src yin_src).2 := by
  revert h
  apply srctl_schema_install.induct E G
    (fun w module yang_src yin_src =>
      (srctl_schema_install E G w module yang_src yin_src).1 = SR_ERR_OK →
        w.steady_to E (srctl_schema_install E G w module yang_src yin_src).2)
    (fun w imports deps =>
      (srctl_schema_install_deps E G w imports deps).1 = SR_ERR_OK →
        w.steady_to E (srctl_schema_install_deps E G w imports deps).2)
  · intro w name type rev filepath inc imp features_size data yang_src yin_src yang_dst yin_dst
      w1 hown h
    rw [srctl_schema_install, hown] at h
    exact sr_error_t.noConfusion h
  · intro w name type rev filepath inc imp features_size data yang_src yin_src yang_dst yin_dst
      w1 hown w2 hinc w3 himp ih1 ih2 _
    have h0 := install_own_schema_steady E G w name rev.head? yang_src yin_src
    rw [hown] at h0
    have h1 := ih1 (by rw [hinc])
    rw [hinc] at h1
    have h2 := ih2 (by rw [himp])
    rw [himp] at h2
    rw [srctl_schema_install, hown]
    simp only [hinc, himp]
    exact steady_to_trans (steady_to_trans h0 h1) h2
  · intro w name type rev filepath inc imp features_size data yang_src yin_src yang_dst yin_dst
      w1 hown w2 hinc rc w3 hrc himp _ _ h
    rw [srctl_schema_install, hown] at h
    simp only [hinc, himp] at h
    cases rc <;> first | exact absurd rfl hrc | exact sr_error_t.noConfusion h
  · intro w name type rev filepath inc imp features_size data yang_src yin_src yang_dst yin_dst
      w1 hown rc w2 hrc hinc _ h
    rw [srctl_schema_install, hown] at h
    simp only [hinc] at h
    cases rc <;> first | exact absurd rfl hrc | exact sr_error_t.noConfusion h
  · intro w imports _
    rw [srctl_schema_install_deps]
    exact steady_to_refl w
  · intro w imports dep deps hskip ih h
    rw [srctl_schema_install_deps, if_pos hskip] at h ⊢
    exact ih h
  · intro w imports dep deps hskip w1 hdep ih1 ih2 h
    rw [srctl_schema_install_deps, if_neg hskip, hdep] at h ⊢
    simp only [] at h ⊢
    have h1 := ih1 (by rw [hdep])
    rw [hdep] at h1
    exact steady_to_trans h1 (ih2 h)
  · intro w imports dep deps hskip rc w1 hrc hdep _ h
    rw [srctl_schema_install_deps, if_neg hskip, hdep] at h
    cases rc <;> first | exact absurd rfl hrc | exact sr_error_t.noConfusion h

/-! ## Install of a module that is already installed -/

/-- Counterexample to C23 as stated: install followed by install with the same
inputs.  The module `m` is installed from `/home/user/m.yang` with the
permissions `u=g,g-rw` into a repository that does not hold it, which gives its
data files the mode `0606`, and is then installed again with the very same
arguments.  The insertion into the graph reports `SR_ERR_DATA_EXISTS` and
`srctl_install` returns `SR_ERR_OK` without rollback, flush or notification,
but before that it has run `chmod u=g,g-rw` on the data files once more: the
startup file has the mode `0006` and no longer `0606`, so the data files are
not as they were before the call. -/
theorem install_again_with_same_inputs :
    (srctl_install example_symbolic {} example_world (some "/home/user/m.yang") none none
        (some "u=g,g-rw") none).1 = SR_ERR_OK ∧
    (srctl_install example_symbolic {} example_installed_symbolic (some "/home/user/m.yang") none
        none (some "u=g,g-rw") none).1 = SR_ERR_OK ∧
    (srctl_install example_symbolic {} example_installed_symbolic (some "/home/user/m.yang") none
        none (some "u=g,g-rw") none).2.log.drop example_installed_symbolic.log.length =
      [.md_init,
       .cp "/home/user/m.yang" "/etc/sysrepo/yang/m@2016-01-01.yang",
       .open_creat "/etc/sysrepo/data/m.startup",
       .open_creat "/etc/sysrepo/data/m.running",
       .open_creat "/etc/sysrepo/data/m.startup.lock",
       .open_creat "/etc/sysrepo/data/m.running.lock",
       .open_creat "/etc/sysrepo/data/m.persist",
       .open_creat "/etc/sysrepo/data/m.candidate.lock",
       .chmod_command "u=g,g-rw" "/etc/sysrepo/data/m.startup",
       .chmod_command "u=g,g-rw" "/etc/sysrepo/data/m.running",
       .chmod_command "u=g,g-rw" "/etc/sysrepo/data/m.startup.lock",
       .chmod_command "u=g,g-rw" "/etc/sysrepo/data/m.running.lock",
       .chmod_command "u=g,g-rw" "/etc/sysrepo/data/m.persist",
       .chmod_command "u=g,g-rw" "/etc/sysrepo/data/m.candidate.lock",
       .chmod "/var/run/sysrepo-subscriptions/m/" (S_IFREG ||| 0o007),
       .chown "/var/run/sysrepo-subscriptions/m/" (some 0) (some 0),
       .md_insert_module (some "/etc/sysrepo/yang/m@2016-01-01.yang"),
       .md_destroy] ∧
    (example_installed_symbolic.files "/etc/sysrepo/data/m.startup").map sys_file.st_mode =
      some (S_IFREG ||| 0o606) ∧
    ((srctl_install example_symbolic {} example_installed_symbolic (some "/home/user/m.yang")
        none none (some "u=g,g-rw") none).2.files "/etc/sysrepo/data/m.startup").map
          sys_file.st_mode =
      some (S_IFREG ||| 0o006) ∧
    (sys_call.chmod_command "u=g,g-rw" "/etc/sysrepo/data/m.startup").leaves example_symbolic
        example_installed_symbolic.files = false ∧
    (srctl_install example_symbolic {} example_installed_symbolic (some "/home/user/m.yang") none
        none (some "u=g,g-rw") none).2.files ≠ example_installed_symbolic.files := by
  set_option maxRecDepth 100000 in
  refine ⟨by decide, by decide, by decide, by decide, by decide, by decide, fun h => ?_⟩
  have h1 := congrFun h "/etc/sysrepo/data/m.startup"
  have h2 := congrArg (fun f => f.map sys_file.st_mode) h1
  revert h2
  set_option maxRecDepth 100000 in
  decide

/-- C23, amended: `srctl_install` has parsed the module, the schema step and the
data step have succeeded, and the insertion into the graph reports
`SR_ERR_DATA_EXISTS`.  Then the function returns `SR_ERR_OK`; after the data
step it has only recorded the insertion and released the graph; none of its
calls is a rollback step (an `unlink` or a removal from the graph), a flush of
the graph or a notification of the daemon; the stored graph is the same and no
file of the repository is missing afterwards.  The schema step and the data
step have run as in every install (they copy the schema files, create missing
data files and set owner and permissions as requested): the files are the same
as before the call when each call of the run leaves them as they are, that is,
when the schema files have the content of their sources, the data files and
socket directories are there, and the owner and permissions of the call, applied
once more, give every file the owner and mode that it has. -/
theorem install_existing (E : environment) (G : settings) (w : World)
    (yang yin owner permissions search_dir : Option String) (file dir : String) (w0 : World)
    (ly_ctx : List lys_module_full) (module : lys_module_full) (w1 w2 : World)
    (owner1 : Option String) (md_ctx1 : List md_module_t)
    (hfile : (if yin.isSome then yin else yang) = some file)
    (hdir : install_search_dir E w yang file search_dir = (some dir, w0))
    (hctx : E.ly_ctx_new w0 dir = some ly_ctx)
    (hinit : E.md_init w0 = SR_ERR_OK)
    (hparse : (E.lys_parse_path (w0.record .md_init) ly_ctx file yin.isSome).1 = some module)
    (hschema : srctl_schema_install E G (w0.record .md_init) module yang yin = (SR_ERR_OK, w1))
    (hdata : srctl_data_install E G w1 module owner permissions = (SR_ERR_OK, owner1, w2))
    (hinsert : E.md_insert_module w2 w0.md_data (some (install_schema_dst G module yin)) =
      (SR_ERR_DATA_EXISTS, md_ctx1)) :
    (srctl_install E G w yang yin owner permissions search_dir).1 = SR_ERR_OK ∧
    (srctl_install E G w yang yin owner permissions search_dir).2.log =
      w2.log ++ [.md_insert_module (some (install_schema_dst G module yin)), .md_destroy] ∧
    (w0.record .md_init).installs_to w2 ∧
    (∃ calls, (srctl_install E G w yang yin owner permissions search_dir).2.log =
        w.log ++ calls ∧
      ∀ c ∈ calls, c.is_rollback = false ∧ c.is_flush = false ∧ c.is_notify = false) ∧
    (srctl_install E G w yang yin owner permissions search_dir).2.md_data = w.md_data ∧
    w.keeps_files (srctl_install E G w yang yin owner permissions search_dir).2 ∧
    ((∀ c ∈ (srctl_install E G w yang yin owner permissions search_dir).2.log.drop w.log.length,
        c.leaves E w.files = true) →
      (srctl_install E G w yang yin owner permissions search_dir).2.files = w.files) := by
  have hrun := srctl_install_eq E G w yang yin owner permissions search_dir file dir w0 ly_ctx
    module hfile hdir hctx hinit hparse
  have hw0 := install_search_dir_world E w yang file search_dir
  rw [hdir] at hw0
  have hs := srctl_schema_install_ok E G (w0.record .md_init) module yang yin (by rw [hschema])
  rw [hschema] at hs
  have hd := srctl_data_install_ok E G w1 module owner permissions (by rw [hdata])
  rw [hdata] at hd
  have hsd := installs_to_trans hs hd
  have hs2 := srctl_schema_install_steady E G (w0.record .md_init) module yang yin
    (by rw [hschema])
  rw [hschema] at hs2
  have hd2 := srctl_data_install_steady E G w1 module owner permissions (by rw [hdata])
  rw [hdata] at hd2
  have hsd2 := steady_to_trans hs2 hd2
  rw [hrun, install_module_eq E G (w0.record .md_init) module w0.md_data yang yin owner
    permissions w1 w2 SR_ERR_OK SR_ERR_DATA_EXISTS owner1 md_ctx1 hschema hdata hinsert]
  rw [if_pos rfl, if_pos rfl]
  obtain ⟨⟨⟨calls, hlog, hcalls⟩, hdata2⟩, hkeep⟩ := hsd
  have hfinal : (install_cleanup
      (w2.record (.md_insert_module (some (install_schema_dst G module yin)))) false
      (some w0.md_data) SR_ERR_OK).2.log =
      w2.log ++ [.md_insert_module (some (install_schema_dst G module yin)), .md_destroy] := by
    simp [install_cleanup, md_destroy, World.record]
  have hwhole : (install_cleanup
      (w2.record (.md_insert_module (some (install_schema_dst G module yin)))) false
      (some w0.md_data) SR_ERR_OK).2.log =
      w.log ++ (.md_init :: calls ++
        [.md_insert_module (some (install_schema_dst G module yin)), .md_destroy]) := by
    rw [hfinal, hlog, ← hw0.1]
    simp [World.record]
  refine ⟨rfl, hfinal, ⟨⟨⟨calls, hlog, hcalls⟩, hdata2⟩, hkeep⟩, ?_, ?_, ?_, ?_⟩
  · refine ⟨.md_init :: calls ++
      [.md_insert_module (some (install_schema_dst G module yin)), .md_destroy], hwhole, ?_⟩
    intro c hc
    simp only [List.mem_append, List.mem_cons, List.mem_singleton, List.not_mem_nil,
      or_false] at hc
    rcases hc with (h | h) | h | h
    · subst h; exact ⟨rfl, rfl, rfl⟩
    · exact installs_not_rollback c (hcalls c h)
    · subst h; exact ⟨rfl, rfl, rfl⟩
    · subst h; exact ⟨rfl, rfl, rfl⟩
  · exact hdata2.trans hw0.2.2
  · intro p hp
    have hp0 : ((w0.record sys_call.md_init).files p).isSome = true := by
      have : (w0.record sys_call.md_init).files = w.files := hw0.2.1
      rw [this]; exact hp
    exact hkeep p hp0
  · intro hleave
    rw [hwhole, List.drop_left] at hleave
    obtain ⟨calls2, hlog2, hfiles2⟩ := hsd2
    have hsame : calls2 = calls := List.append_cancel_left (hlog2.symm.trans hlog)
    subst hsame
    have h0 : (w0.record sys_call.md_init).files = w.files := hw0.2.1
    have h2 : w2.files = (w0.record sys_call.md_init).files :=
      hfiles2 (fun c hc => by
        rw [h0]
        exact hleave c (by simp [hc]))
    have h3 : (install_cleanup
        (w2.record (.md_insert_module (some (install_schema_dst G module yin)))) false
        (some w0.md_data) SR_ERR_OK).2.files = w2.files := rfl
    rw [h3, h2, h0]

/-- The amended C23 at a concrete input: the module `m` has been installed from
`/home/user/m.yang` and is installed again with the same arguments.  The
function returns `SR_ERR_OK`, the stored graph is the same, and, each call of
the run leaving the files as they are, so are the files. -/
theorem install_existing_witness :
    (srctl_install example_tracking {} example_once_installed (some "/home/user/m.yang") none
        none none none).1 = SR_ERR_OK ∧
    (srctl_install example_tracking {} example_once_installed (some "/home/user/m.yang") none
        none none none).2.md_data = example_once_installed.md_data ∧
    example_once_installed.keeps_files
      (srctl_install example_tracking {} example_once_installed (some "/home/user/m.yang") none
        none none none).2 ∧
    ((srctl_install example_tracking {} example_once_installed (some "/home/user/m.yang") none
        none none none).2.files "/etc/sysrepo/data/m.startup").map sys_file.st_mode =
      (example_once_installed.files "/etc/sysrepo/data/m.startup").map sys_file.st_mode ∧
    (srctl_install example_tracking {} example_once_installed (some "/home/user/m.yang") none
        none none none).2.files = example_once_installed.files := by
  have h := install_existing example_tracking {} example_once_installed
    (some "/home/user/m.yang") none none none none "/home/user/m.yang" "/home/user"
    (install_search_dir example_tracking example_once_installed (some "/home/user/m.yang")
      "/home/user/m.yang" none).2
    [] (example_module [])
    (srctl_schema_install example_tracking {}
      ((install_search_dir example_tracking example_once_installed (some "/home/user/m.yang")
        "/home/user/m.yang" none).2.record .md_init)
      (example_module []) (some "/home/user/m.yang") none).2
    (srctl_data_install example_tracking {}
      (srctl_schema_install example_tracking {}
        ((install_search_dir example_tracking example_once_installed (some "/home/user/m.yang")
          "/home/user/m.yang" none).2.record .md_init)
        (example_module []) (some "/home/user/m.yang") none).2
      (example_module []) none none).2.2
    none example_once_installed.md_data rfl (Prod.ext (by decide) rfl) rfl rfl rfl
    (Prod.ext (by decide) rfl) (Prod.ext (by decide) (Prod.ext (by decide) rfl))
    (Prod.ext (by decide) (by decide))
  set_option maxRecDepth 100000 in
  exact ⟨h.1, h.2.2.2.2.1, h.2.2.2.2.2.1, by decide, h.2.2.2.2.2.2 (by decide)⟩

/-! ## Namespaces of a path -/

/-- A byte is determined by its code. -/
theorem char_toNat_eq (c d : Char) (h : c.toNat = d.toNat) : c = d := by
  apply Char.ext
  apply UInt32.ext
  exact h

/-- Library `strncmp` on strings without the byte 0 returns 0 exactly when the
two strings agree in their first `n` bytes. -/
theorem strncmp_eq_zero (n : Nat) :
    ∀ s1 s2 : List Char, (∀ c ∈ s1, c.toNat ≠ 0) → (∀ c ∈ s2, c.toNat ≠ 0) →
      (strncmp s1 s2 n = 0 ↔ s1.take n = s2.take n) := by
  induction n with
  | zero => intro s1 s2 _ _; simp [strncmp]
  | succ n ih =>
    intro s1 s2 h1 h2
    cases s1 with
    | nil =>
      cases s2 with
      | nil => simp [strncmp]
      | cons c2 s2 =>
        have := h2 c2 (List.mem_cons_self _ _)
        simp only [strncmp, List.take_nil, List.take_succ_cons]
        constructor
        · intro h; omega
        · intro h; exact absurd h (by simp)
    | cons c1 s1 =>
      cases s2 with
      | nil =>
        have := h1 c1 (List.mem_cons_self _ _)
        simp only [strncmp, List.take_nil, List.take_succ_cons]
        constructor
        · intro h; omega
        · intro h; exact absurd h (by simp)
      | cons c2 s2 =>
        simp only [strncmp, List.take_succ_cons]
        by_cases hc : c1 = c2
        · subst hc
          rw [if_pos rfl, ih s1 s2 (fun c h => h1 c (List.mem_cons_of_mem _ h))
            (fun c h => h2 c (List.mem_cons_of_mem _ h))]
          simp
        · rw [if_neg hc]
          constructor
          · intro h
            have : c1.toNat = c2.toNat := by omega
            exact absurd (char_toNat_eq c1 c2 this) hc
          · intro h
            exact absurd (List.cons.inj h).1 hc

/-- Function `sr_cmp_first_ns` on a path without a leading `/` or without a
colon compares nothing. -/
theorem sr_cmp_first_ns_no_namespace (xpath ns : String)
    (h : first_namespace xpath = none) : sr_cmp_first_ns (some xpath) (some ns) = 0 := by
  unfold sr_cmp_first_ns
  simp only []
  split
  · cases (Option.getD (some ns) "").data <;> rfl
  · rename_i hhead
    have hx : ∃ rest, xpath.data = '/' :: rest := by
      cases hd : xpath.data with
      | nil => rw [hd] at hhead; simp at hhead
      | cons c rest =>
        rw [hd] at hhead
        simp only [List.head?_cons, ne_eq, Option.some.injEq, not_not] at hhead
        exact ⟨rest, by rw [hhead]⟩
    obtain ⟨rest, hrest⟩ := hx
    have hcolon : ':' ∉ rest := by
      intro hc
      unfold first_namespace at h
      rw [hrest] at h
      simp [hc] at h
    have : colon_pos xpath.data = none := by
      unfold colon_pos
      rw [hrest]
      simp [hcolon]
    rw [this]
    simp only []
    cases xpath.data <;> cases (Option.getD (some ns) "").data <;> rfl

/-- Function `sr_cmp_first_ns` on a path with a first namespace returns 0 exactly
when the namespace of the path is a prefix of the other string. -/
theorem sr_cmp_first_ns_namespace (xpath ns m : String)
    (hx : ∀ c ∈ xpath.data, c.toNat ≠ 0) (hn : ∀ c ∈ ns.data, c.toNat ≠ 0)
    (h : first_namespace xpath = some m) :
    (sr_cmp_first_ns (some xpath) (some ns) = 0 ↔ m.data <+: ns.data) := by
  unfold first_namespace at h
  cases hd : xpath.data with
  | nil => rw [hd] at h; simp at h
  | cons c rest =>
    rw [hd] at h
    by_cases hc : c = '/'
    · subst hc
      simp only [] at h
      by_cases hcolon : ':' ∈ rest
      · rw [if_pos hcolon] at h
        simp only [Option.some.injEq] at h
        have hm : m.data = rest.takeWhile (fun c => c != ':') := by rw [← h]
        unfold sr_cmp_first_ns
        simp only [hd, List.head?_cons, ne_eq, not_true_eq_false, if_false, colon_pos,
          List.mem_cons, hcolon, or_true, if_true, List.drop_succ_cons, List.drop_zero,
          Option.getD_some]
        have hlen : (List.takeWhile (fun c => c != ':') ('/' :: rest)).length - 1 =
            (rest.takeWhile (fun c => c != ':')).length := by
          simp [List.takeWhile]
        rw [hlen, strncmp_eq_zero _ rest ns.data
          (fun c hc => hx c (by rw [hd]; exact List.mem_cons_of_mem _ hc)) hn]
        rw [List.prefix_iff_eq_take, hm]
        have htake : List.take (rest.takeWhile (fun c => c != ':')).length rest =
            rest.takeWhile (fun c => c != ':') := by
          have := List.takeWhile_prefix (fun c => c != ':') (l := rest)
          exact (List.prefix_iff_eq_take.1 this).symm
        rw [htake]
      · rw [if_neg hcolon] at h
        exact absurd h (by simp)
    · have : (match c :: rest with
          | '/' :: rest =>
            if ':' ∈ rest then some (String.mk (rest.takeWhile (fun c => c != ':'))) else none
          | _ => none) = none := by
        split
        · rename_i heq
          exact absurd (List.cons.inj heq).1 hc
        · rfl
      rw [this] at h
      exact absurd h (by simp)

/-- C36, as the code behaves: `sr_cmp_first_ns` passes to `strncmp` the length of
the first namespace of the path.  For a path with a first namespace it returns
0 exactly when that namespace is a prefix of `ns`, so also for a longer `ns`
that starts with it; for a path without a leading `/` or without a colon the
length is 0 and it returns 0 for every `ns`.  The last part lists calls that
return 0 although `ns` is not the first namespace of the path, and one that
returns a non-zero value. -/
theorem cmp_first_ns_compares_prefix :
    (∀ xpath ns m : String, (∀ c ∈ xpath.data, c.toNat ≠ 0) → (∀ c ∈ ns.data, c.toNat ≠ 0) →
      first_namespace xpath = some m →
      (sr_cmp_first_ns (some xpath) (some ns) = 0 ↔ m.data <+: ns.data)) ∧
    (∀ xpath ns : String, first_namespace xpath = none →
      sr_cmp_first_ns (some xpath) (some ns) = 0) ∧
    (∀ ns : Option String, sr_cmp_first_ns none ns = 0) ∧
    (first_namespace "/abc:x" = some "abc" ∧ sr_cmp_first_ns (some "/abc:x") (some "abc") = 0 ∧
      sr_cmp_first_ns (some "/abc:x") (some "abcd") = 0 ∧
      sr_cmp_first_ns (some "/abc:x") (some "ab") ≠ 0) ∧
    (first_namespace "abc:x" = none ∧ sr_cmp_first_ns (some "abc:x") (some "m") = 0) ∧
    (first_namespace "/abc" = none ∧ sr_cmp_first_ns (some "/abc") (some "m") = 0) := by
  refine ⟨sr_cmp_first_ns_namespace, sr_cmp_first_ns_no_namespace, ?_, by decide, by decide,
    by decide⟩
  intro ns
  cases ns with
  | none => rfl
  | some n => cases hn : n.data <;> simp [sr_cmp_first_ns, hn, strncmp]

/-- The test of `sr_copy_first_ns_from_expr` for a namespace that has been
copied already succeeds exactly when one of the namespaces copied so far agrees
with the text at `ns` in its first `len` bytes: the new name need only be a
prefix of an earlier one. -/
theorem first_ns_copied_iff (namespaces : List String) (at_ns : List Char) (len : Nat)
    (hn : ∀ x ∈ namespaces, ∀ c ∈ x.data, c.toNat ≠ 0) (ha : ∀ c ∈ at_ns, c.toNat ≠ 0) :
    (first_ns_copied namespaces at_ns len = true ↔
      ∃ x ∈ namespaces, x.data.take len = at_ns.take len) := by
  unfold first_ns_copied
  rw [List.any_eq_true]
  constructor
  · rintro ⟨x, hx, h⟩
    exact ⟨x, hx, (strncmp_eq_zero len x.data at_ns (hn x hx) ha).1 (by simpa using h)⟩
  · rintro ⟨x, hx, h⟩
    exact ⟨x, hx, by simpa using (strncmp_eq_zero len x.data at_ns (hn x hx) ha).2 h⟩

/-- C37, as the code behaves: `sr_copy_first_ns_from_expr` takes a namespace for
copied already when one of the namespaces copied so far agrees with it in the
first bytes, as many as the new name has.  So a name that is a prefix of an
earlier name is not returned: for `/abc:x | /ab:y` the function returns the one
name `abc`.  In the other order both names are returned, and a name that
occurs twice is returned once. -/
theorem first_ns_from_expr_drops_prefix :
    (∀ (namespaces : List String) (at_ns : List Char) (len : Nat),
      (∀ x ∈ namespaces, ∀ c ∈ x.data, c.toNat ≠ 0) → (∀ c ∈ at_ns, c.toNat ≠ 0) →
      (first_ns_copied namespaces at_ns len = true ↔
        ∃ x ∈ namespaces, x.data.take len = at_ns.take len)) ∧
    ((sr_copy_first_ns_from_expr (fun _ => true) {} (some "/abc:x | /ab:y")).rc = SR_ERR_OK ∧
      (sr_copy_first_ns_from_expr (fun _ => true) {} (some "/abc:x | /ab:y")).out =
        some ["abc"]) ∧
    ((sr_copy_first_ns_from_expr (fun _ => true) {} (some "/ab:x | /abc:y")).rc = SR_ERR_OK ∧
      (sr_copy_first_ns_from_expr (fun _ => true) {} (some "/ab:x | /abc:y")).out =
        some ["ab", "abc"]) ∧
    ((sr_copy_first_ns_from_expr (fun _ => true) {} (some "/a:x | /b:y | /a:z")).rc =
        SR_ERR_OK ∧
      (sr_copy_first_ns_from_expr (fun _ => true) {} (some "/a:x | /b:y | /a:z")).out =
        some ["a", "b"]) := by
  refine ⟨first_ns_copied_iff, ?_, ?_, ?_⟩ <;> exact ⟨by decide, by decide⟩

/-! ## Trimming a string in place -/

/-- The first loop of `sr_str_trim` returns an address that is not 0 and not above
the one it starts from. -/
theorem trim_trailing_bounds :
    ∀ (top : Nat) (mem : List Char) (t : Nat) (m : List Char),
      trim_trailing top mem = some (t, m) → 1 ≤ t ∧ t ≤ top := by
  intro top
  induction top with
  | zero => intro mem t m h; simp [trim_trailing] at h
  | succ a ih =>
    intro mem t m h
    unfold trim_trailing at h
    split at h
    · have := ih _ _ _ h
      omega
    · simp only [Option.some.injEq, Prod.mk.injEq] at h
      omega

/-- The first loop of `sr_str_trim` runs over whitespace and sets it to 0. -/
theorem trim_trailing_whitespace (ws : List Char) (hws : ∀ c ∈ ws, isspace c = true) :
    ∀ (pre rest : List Char),
      trim_trailing (pre.length + ws.length) (pre ++ ws ++ rest) =
        trim_trailing pre.length (pre ++ List.replicate ws.length NUL ++ rest) := by
  induction ws using List.reverseRecOn with
  | nil => intro pre rest; simp
  | append_singleton ws c ih =>
    intro pre rest
    have hc : isspace c = true := hws c (by simp)
    have hlen : pre.length + (ws ++ [c]).length = (pre.length + ws.length) + 1 := by
      simp; omega
    rw [hlen, trim_trailing]
    have hget : (pre ++ (ws ++ [c]) ++ rest).getD (pre.length + ws.length) NUL = c := by
      have : pre ++ (ws ++ [c]) ++ rest = (pre ++ ws) ++ c :: rest := by simp
      rw [this, List.getD_eq_getElem?_getD, List.getElem?_append_right (by simp)]
      simp
    rw [hget, if_pos hc]
    have hset : (pre ++ (ws ++ [c]) ++ rest).set (pre.length + ws.length) NUL =
        pre ++ ws ++ (NUL :: rest) := by
      have : pre ++ (ws ++ [c]) ++ rest = (pre ++ ws) ++ c :: rest := by simp
      rw [this, List.set_append_right _ _ (by simp)]
      simp
    rw [hset, ih (fun x hx => hws x (by simp [hx])) pre (NUL :: rest)]
    congr 1
    simp [List.replicate_succ']

/-- The first loop of `sr_str_trim` stops in front of a byte that is no
whitespace. -/
theorem trim_trailing_stop (pre rest : List Char) (c : Char) (hc : isspace c = false) :
    trim_trailing (pre ++ [c]).length (pre ++ [c] ++ rest) =
      some ((pre ++ [c]).length, pre ++ [c] ++ rest) := by
  have hlen : (pre ++ [c]).length = pre.length + 1 := by simp
  rw [hlen, trim_trailing]
  have hget : (pre ++ [c] ++ rest).getD pre.length NUL = c := by
    have : pre ++ [c] ++ rest = pre ++ c :: rest := by simp
    rw [this, List.getD_eq_getElem?_getD, List.getElem?_append_right (by simp)]
    simp
  rw [hget, hc]
  simp

/-- The second loop of `sr_str_trim` runs over the leading whitespace. -/
theorem trim_leading_whitespace (lead rest : List Char)
    (hlead : ∀ c ∈ lead, c ≠ NUL ∧ isspace c = true)
    (hrest : ∀ c, rest.head? = some c → ¬ (c ≠ NUL ∧ isspace c = true)) :
    trim_leading (lead ++ rest) = lead.length := by
  induction lead with
  | nil =>
    cases rest with
    | nil => rfl
    | cons c cs =>
      simp only [List.nil_append, trim_leading, List.length_nil]
      rw [if_neg (hrest c rfl)]
  | cons c cs ih =>
    simp only [List.cons_append, trim_leading, List.length_cons]
    rw [if_pos (hlead c (List.mem_cons_self _ _))]
    have h := ih (fun x hx => hlead x (List.mem_cons_of_mem _ hx))
    change trim_leading (cs ++ rest) + 1 = cs.length + 1
    rw [h]

/-- Library `strlen` on a string in the memory. -/
theorem strlen_string (before s rest : List Char) (hs : ∀ c ∈ s, c ≠ NUL) :
    strlen (before ++ s ++ NUL :: rest) before.length = some s.length := by
  have hdrop : (before ++ s ++ NUL :: rest).drop before.length = s ++ NUL :: rest := by
    rw [List.append_assoc, List.drop_left]
  unfold strlen
  rw [hdrop, if_pos (by simp)]
  congr 1
  have : List.takeWhile (fun c => c != NUL) (s ++ NUL :: rest) = s := by
    rw [List.takeWhile_append_of_pos (by simpa using hs)]
    simp
  rw [this]

/-- A string that has a byte that is no whitespace splits into its leading
whitespace, the trimmed string, and its trailing whitespace. -/
theorem trimmed_split (s : List Char) (h : ∃ c ∈ s, isspace c = false) :
    ∃ lead ws : List Char, ∃ last : Char,
      s = lead ++ trimmed s ++ ws ∧ (∀ c ∈ lead, isspace c = true) ∧
      (∀ c ∈ ws, isspace c = true) ∧ (trimmed s).getLast? = some last ∧
      isspace last = false ∧ (∀ c, (trimmed s).head? = some c → isspace c = false) := by
  obtain ⟨c0, hc0, hsp0⟩ := h
  -- trailing part
  have hs1 : s = (s.reverse.dropWhile isspace).reverse ++
      (s.reverse.takeWhile isspace).reverse := by
    rw [← List.reverse_append, List.takeWhile_append_dropWhile, List.reverse_reverse]
  set body := (s.reverse.dropWhile isspace).reverse with hbody
  set ws := (s.reverse.takeWhile isspace).reverse with hws
  have hws_sp : ∀ c ∈ ws, isspace c = true := by
    intro c hc
    rw [hws, List.mem_reverse] at hc
    exact (List.mem_takeWhile_imp hc)
  have hc0body : c0 ∈ body := by
    rw [hs1] at hc0
    rcases List.mem_append.1 hc0 with h | h
    · exact h
    · rw [hws_sp c0 h] at hsp0; exact absurd hsp0 (by simp)
  -- leading part
  have hb : body = body.takeWhile isspace ++ body.dropWhile isspace :=
    (List.takeWhile_append_dropWhile _ _).symm
  have htrim : trimmed s = body.dropWhile isspace := rfl
  have hlead_sp : ∀ c ∈ body.takeWhile isspace, isspace c = true :=
    fun c hc => List.mem_takeWhile_imp hc
  have hc0t : c0 ∈ trimmed s := by
    rw [hb] at hc0body
    rcases List.mem_append.1 hc0body with h | h
    · rw [hlead_sp c0 h] at hsp0; exact absurd hsp0 (by simp)
    · rw [htrim]; exact h
  have hne : trimmed s ≠ [] := List.ne_nil_of_mem hc0t
  have hhead : ∀ c, (trimmed s).head? = some c → isspace c = false := by
    intro c hc
    rw [htrim] at hc
    have := List.head?_dropWhile_not isspace body
    rw [hc] at this
    simpa using this
  -- last byte of the body is no whitespace
  have hbody_last : ∀ c, body.getLast? = some c → isspace c = false := by
    intro c hc
    rw [hbody, List.getLast?_reverse] at hc
    have := List.head?_dropWhile_not isspace s.reverse
    rw [hc] at this
    simpa using this
  have hlast_eq : (trimmed s).getLast? = body.getLast? := by
    have h1 : body.getLast? = (body.takeWhile isspace ++ body.dropWhile isspace).getLast? := by
      rw [← hb]
    rw [h1, htrim, List.getLast?_append_of_ne_nil _ (by rw [← htrim]; exact hne)]
  obtain ⟨last, hlast⟩ : ∃ last, (trimmed s).getLast? = some last := by
    cases h : (trimmed s).getLast? with
    | none => exact absurd (List.getLast?_eq_none_iff.1 h) hne
    | some l => exact ⟨l, rfl⟩
  refine ⟨body.takeWhile isspace, ws, last, ?_, hlead_sp, hws_sp, hlast, ?_, hhead⟩
  · rw [htrim, ← hb]; exact hs1
  · exact hbody_last last (by rw [← hlast_eq]; exact hlast)

/-- Subtraction of sizes that does not wrap. -/
theorem size_sub_of_le (a b : Nat) (hb : b ≤ a) (ha : a < 2 ^ 64) : size_sub a b = a - b := by
  unfold size_sub
  have hb2 : b % 2 ^ 64 = b := Nat.mod_eq_of_lt (by omega)
  rw [hb2]
  have : a + 2 ^ 64 - b = (a - b) + 2 ^ 64 := by omega
  rw [this, Nat.add_mod_right]
  exact Nat.mod_eq_of_lt (by omega)

/-- Function `sr_str_trim` on a string that has a byte that is no whitespace
leaves the trimmed string in place, keeps the bytes in front of the string and
accesses no address below its start. -/
theorem sr_str_trim_string (before s after : List Char) (hs : ∀ c ∈ s, c ≠ NUL)
    (h : ∃ c ∈ s, isspace c = false)
    (hsize : (before ++ s ++ NUL :: after).length < 2 ^ 64) :
    ∃ r, sr_str_trim (before ++ s ++ NUL :: after) (some before.length) = some r ∧
      r.lowest = some before.length ∧ r.mem.take before.length = before ∧
      string_at r.mem before.length = trimmed s ∧
      r.mem.length = (before ++ s ++ NUL :: after).length := by
  obtain ⟨lead, ws, last, hsplit, hlead, hws, hlast, hlastsp, hhead⟩ := trimmed_split s h
  generalize hT : trimmed s = T at hsplit hlast hhead ⊢
  have hTs : ∀ c ∈ T, c ≠ NUL := fun c hc => hs c (by rw [hsplit]; simp [hc])
  have hleads : ∀ c ∈ lead, c ≠ NUL ∧ isspace c = true :=
    fun c hc => ⟨hs c (by rw [hsplit]; simp [hc]), hlead c hc⟩
  obtain ⟨T1, hT1⟩ : ∃ T1, T = T1 ++ [last] := by
    rcases List.eq_nil_or_concat T with h0 | ⟨T1, l, h1⟩
    · rw [h0] at hlast; simp at hlast
    · rw [h1] at hlast
      simp at hlast
      exact ⟨T1, by rw [h1, hlast]; simp⟩
  have hTlen : 1 ≤ T.length := by rw [hT1]; simp
  obtain ⟨tail, htail⟩ : ∃ tail, List.replicate ws.length NUL ++ NUL :: after = NUL :: tail := by
    cases ws.length with
    | zero => exact ⟨after, rfl⟩
    | succ n => exact ⟨List.replicate n NUL ++ NUL :: after, rfl⟩
  have hslen : s.length = lead.length + T.length + ws.length := by
    rw [hsplit]; simp; omega
  have hmem : before ++ s ++ NUL :: after =
      (before ++ lead ++ T1 ++ [last]) ++ ws ++ (NUL :: after) := by
    rw [hsplit, hT1]; simp
  have hlen : (before ++ s ++ NUL :: after).length =
      before.length + lead.length + T.length + ws.length + 1 + after.length := by
    rw [hsplit]; simp; omega
  have htop : before.length + s.length = (before ++ lead ++ T1 ++ [last]).length + ws.length := by
    rw [hslen, hT1]; simp; omega
  have hpre : (before ++ lead ++ T1 ++ [last]).length = before.length + lead.length + T.length := by
    rw [hT1]; simp; omega
  have hmem1 : (before ++ lead ++ T1 ++ [last]) ++ List.replicate ws.length NUL ++ NUL :: after =
      before ++ (lead ++ (T ++ NUL :: tail)) := by
    rw [List.append_assoc _ (List.replicate ws.length NUL), htail, hT1]; simp
  have hloop : trim_trailing (before.length + s.length) (before ++ s ++ NUL :: after) =
      some (before.length + lead.length + T.length, before ++ (lead ++ (T ++ NUL :: tail))) := by
    rw [hmem, htop, trim_trailing_whitespace ws hws, ← hmem1,
      List.append_assoc _ (List.replicate ws.length NUL),
      trim_trailing_stop (before ++ lead ++ T1) _ last hlastsp, hpre]
  have hk : trim_leading ((before ++ (lead ++ (T ++ NUL :: tail))).drop before.length) =
      lead.length := by
    rw [List.drop_left]
    apply trim_leading_whitespace lead _ hleads
    intro c hc
    cases T with
    | nil => simp at hTlen
    | cons t ts =>
      simp only [List.cons_append, List.head?_cons, Option.some.injEq] at hc
      subst hc
      have := hhead t rfl
      simp [this]
  have hn : size_succ (size_sub (size_sub (before.length + lead.length + T.length) before.length)
      lead.length) = T.length + 1 := by
    have hsz : before.length + lead.length + T.length + ws.length + 1 + after.length <
        2 ^ 64 := by rw [← hlen]; exact hsize
    have e1 : size_sub (before.length + lead.length + T.length) before.length =
        lead.length + T.length := by
      rw [size_sub_of_le _ _ (by omega) (by omega)]; omega
    have e2 : size_sub (lead.length + T.length) lead.length = T.length := by
      rw [size_sub_of_le _ _ (by omega) (by omega)]; omega
    rw [e1, e2]
    unfold size_succ
    exact Nat.mod_eq_of_lt (by omega)
  have hmove : memmove (before ++ (lead ++ (T ++ NUL :: tail))) before.length
      (before.length + lead.length) (T.length + 1) =
      some (before ++ (T ++ [NUL]) ++
        (before ++ (lead ++ (T ++ NUL :: tail))).drop (before.length + (T.length + 1))) := by
    unfold memmove
    have hl : (before ++ (lead ++ (T ++ NUL :: tail))).length =
        before.length + lead.length + T.length + 1 + tail.length := by simp; omega
    rw [if_pos (by rw [hl]; omega)]
    congr 2
    have h1 : (before ++ (lead ++ (T ++ NUL :: tail))).take before.length = before :=
      List.take_left _ _
    have h2 : ((before ++ (lead ++ (T ++ NUL :: tail))).drop
        (before.length + lead.length)).take (T.length + 1) = T ++ [NUL] := by
      have : before ++ (lead ++ (T ++ NUL :: tail)) = (before ++ lead) ++ (T ++ NUL :: tail) := by
        simp
      rw [this, show before.length + lead.length = (before ++ lead).length by simp,
        List.drop_left]
      have : T ++ NUL :: tail = (T ++ [NUL]) ++ tail := by simp
      rw [this, show T.length + 1 = (T ++ [NUL]).length by simp, List.take_left]
    rw [h1, h2]
  have hrun : sr_str_trim (before ++ s ++ NUL :: after) (some before.length) =
      some (trim_result.mk
        (before ++ (T ++ [NUL]) ++
          (before ++ (lead ++ (T ++ NUL :: tail))).drop (before.length + (T.length + 1)))
        (some (min before.length (before.length + lead.length + T.length - 1)))) := by
    unfold sr_str_trim
    simp only [strlen_string before s after hs]
    rw [if_neg (by omega), hloop]
    simp only [hk, hn, hmove]
  refine ⟨_, hrun, ?_, ?_, ?_, ?_⟩
  · simp only [Option.some.injEq]
    omega
  · simp only [List.append_assoc]
    exact List.take_left _ _
  · unfold string_at
    simp only [List.append_assoc]
    rw [List.drop_left, List.takeWhile_append_of_pos (by simpa using hTs)]
    simp [NUL]
  · have htl : tail.length = ws.length + after.length := by
      have := congrArg List.length htail
      simp only [List.length_append, List.length_replicate, List.length_cons] at this
      omega
    simp only [List.length_append, List.length_cons, List.length_drop, List.length_nil,
      List.length_singleton]
    rw [hslen, htl]
    omega

/-- Function `sr_str_trim` on a string of whitespace only reads the byte in
front of the string. -/
theorem sr_str_trim_whitespace (before s after : List Char) (hne : s ≠ [])
    (hs : ∀ c ∈ s, c ≠ NUL ∧ isspace c = true) :
    (before = [] → sr_str_trim (before ++ s ++ NUL :: after) (some before.length) = none) ∧
    ∀ r, sr_str_trim (before ++ s ++ NUL :: after) (some before.length) = some r →
      ∃ l, r.lowest = some l ∧ l < before.length := by
  have hlen : s.length ≠ 0 := by
    cases s with
    | nil => exact absurd rfl hne
    | cons c cs => simp
  have hloop := trim_trailing_whitespace s (fun c hc => (hs c hc).2) before (NUL :: after)
  constructor
  · intro hb
    subst hb
    unfold sr_str_trim
    simp only [strlen_string [] s after (fun c hc => (hs c hc).1)]
    rw [if_neg hlen, hloop]
    simp [trim_trailing]
  · intro r hr
    unfold sr_str_trim at hr
    simp only [strlen_string before s after (fun c hc => (hs c hc).1)] at hr
    rw [if_neg hlen, hloop] at hr
    cases htt : trim_trailing before.length
        (before ++ List.replicate s.length NUL ++ NUL :: after) with
    | none => rw [htt] at hr; simp at hr
    | some res =>
      obtain ⟨top, mem1⟩ := res
      rw [htt] at hr
      have hb := trim_trailing_bounds _ _ _ _ htt
      simp only [] at hr
      split at hr
      · simp at hr
      · simp only [Option.some.injEq] at hr
        subst hr
        refine ⟨min before.length (top - 1), rfl, ?_⟩
        omega

/-- C40, as the code behaves.  On a string that has a byte that is no
whitespace, `sr_str_trim` leaves the trimmed string in place and accesses no
address below the start of the string.  On a non-empty string of whitespace
only, the first loop sets every byte of the string to 0 and then, with
`len = 0`, reads `ptr[len - 1]`, the byte in front of the string: the lowest
address accessed is below the start of the string, and when no byte is there
the read is outside the memory.  When that byte is whitespace, it is set to 0
as well.  The last part runs the function on the string `" "` that follows the
byte `x`, and on the string `" "` that follows the bytes `x` and a space. -/
theorem str_trim_reads_before_start :
    (∀ before s after : List Char, (∀ c ∈ s, c ≠ NUL) → (∃ c ∈ s, isspace c = false) →
      (before ++ s ++ NUL :: after).length < 2 ^ 64 →
      ∃ r, sr_str_trim (before ++ s ++ NUL :: after) (some before.length) = some r ∧
        r.lowest = some before.length ∧ r.mem.take before.length = before ∧
        string_at r.mem before.length = trimmed s ∧
        r.mem.length = (before ++ s ++ NUL :: after).length) ∧
    (∀ before s after : List Char, s ≠ [] → (∀ c ∈ s, c ≠ NUL ∧ isspace c = true) →
      (before = [] → sr_str_trim (before ++ s ++ NUL :: after) (some before.length) = none) ∧
      ∀ r, sr_str_trim (before ++ s ++ NUL :: after) (some before.length) = some r →
        ∃ l, r.lowest = some l ∧ l < before.length) ∧
    (sr_str_trim ['x', ' ', NUL] (some 1) =
        some { mem := ['x', NUL, NUL], lowest := some 0 } ∧
      string_at ['x', NUL, NUL] 1 = []) ∧
    sr_str_trim ['x', ' ', ' ', NUL] (some 2) =
      some { mem := ['x', NUL, NUL, NUL], lowest := some 0 } ∧
    sr_str_trim [' ', NUL] (some 0) = none := by
  refine ⟨sr_str_trim_string, sr_str_trim_whitespace, by decide, by decide, by decide⟩

/-! ## Decoding what encoding produced -/

/-- The tag conversion leaves the instance path of the wire value alone. -/
theorem sr_set_val_t_type_in_gpb_xpath (v : sr_val_t) (g : Sr__Value) :
    (sr_set_val_t_type_in_gpb v g).2.xpath = g.xpath := by
  unfold sr_set_val_t_type_in_gpb
  cases v.type <;> rfl

/-- The payload copy of the encoder leaves the instance path of the wire value
alone. -/
theorem sr_set_val_t_value_in_gpb_switch_xpath (A : Nat → Bool) (st : MemState) (v : sr_val_t)
    (g : Sr__Value) :
    (sr_set_val_t_value_in_gpb_switch A st v g).2.1.xpath = g.xpath := by
  unfold sr_set_val_t_value_in_gpb_switch
  cases v.type <;> rfl

/-- A value without instance path is encoded as a wire value without instance
path. -/
theorem sr_dup_val_t_to_gpb_no_xpath (A : Nat → Bool) (st : MemState) (v : sr_val_t)
    (g : Sr__Value) (hx : v.xpath = none) (h : (sr_dup_val_t_to_gpb A st v).out = some g) :
    g.xpath = none := by
  unfold sr_dup_val_t_to_gpb at h
  rcases hc : sr_calloc A st v._sr_mem 1 with ⟨b, st1⟩
  rw [hc] at h
  cases b
  · simp at h
  · have hty := sr_set_val_t_type_in_gpb_xpath v sr__value__init
    rcases ht : sr_set_val_t_type_in_gpb v sr__value__init with ⟨rc, gpb⟩
    rw [ht] at h hty
    have hgx : gpb.xpath = none := hty
    cases rc <;> simp at h
    have hsw := sr_set_val_t_value_in_gpb_switch_xpath A st1 v { gpb with dflt := v.dflt }
    unfold sr_set_val_t_value_in_gpb at h
    rw [hx] at h
    dsimp only at h
    rcases hs : sr_set_val_t_value_in_gpb_switch A st1 v { gpb with dflt := v.dflt }
      with ⟨rc2, g2, st2⟩
    rw [hs] at h hsw
    cases rc2 <;> simp at h
    subst h
    exact hsw.trans hgx

/-- The decoder rejects a wire value without instance path. -/
theorem sr_dup_gpb_to_val_t_no_xpath (A : Nat → Bool) (st : MemState) (sr_mem : Option Nat)
    (g : Sr__Value) (hx : g.xpath = none) :
    (sr_dup_gpb_to_val_t A st sr_mem (some g)).rc = SR_ERR_INVAL_ARG
      ∨ (sr_dup_gpb_to_val_t A st sr_mem (some g)).rc = SR_ERR_NOMEM
      ∨ (sr_dup_gpb_to_val_t A st sr_mem (some g)).rc = SR_ERR_INTERNAL := by
  unfold sr_dup_gpb_to_val_t
  dsimp only
  rcases hc : sr_calloc A st sr_mem 1 with ⟨b, st1⟩
  cases b
  · exact Or.inr (Or.inl rfl)
  · dsimp only
    unfold sr_copy_gpb_to_val_t
    dsimp only
    rcases ht : sr_set_gpb_type_in_val_t g { _sr_mem := sr_mem } with ⟨rc, v1⟩
    have hrc : rc = SR_ERR_OK ∨ rc = SR_ERR_INTERNAL := by
      have : rc = (sr_set_gpb_type_in_val_t g { _sr_mem := sr_mem }).1 := by rw [ht]
      rw [this]
      unfold sr_set_gpb_type_in_val_t
      cases g.type <;> simp
    rcases hrc with h | h
    · subst h
      dsimp only
      unfold sr_set_gpb_value_in_val_t
      rw [hx]
      exact Or.inl rfl
    · subst h
      exact Or.inr (Or.inr rfl)

/-- An arena-less text value whose string is absent is encoded, when the
encoder succeeds, as a wire value whose text field is absent. -/
theorem sr_dup_val_t_to_gpb_text_absent (A : Nat → Bool) (st : MemState) (v : sr_val_t)
    (g : Sr__Value) (hm : v._sr_mem = none) (hp : v.payload = .text none)
    (h : (sr_dup_val_t_to_gpb A st v).out = some g) :
    g.text_absent = true := by
  unfold sr_val_t.payload at hp
  cases hty : v.type <;> rw [hty] at hp <;> simp at hp
  all_goals
    simp [sr_dup_val_t_to_gpb, sr_set_val_t_type_in_gpb, sr_set_val_t_value_in_gpb,
      sr_set_val_t_value_in_gpb_switch, gpb_store_string, hty, hm, hp, sr_calloc, strdup,
      sr__value__init] at h
    by_cases h1 : A st.allocs = true
    · rw [if_pos h1] at h
      dsimp only at h
      rcases hx : v.xpath with _ | x
      · rw [hx] at h
        simp at h
        subst h
        rfl
      · rw [hx] at h
        dsimp only at h
        by_cases h2 : A (st.allocs + 1) = true
        · rw [if_pos h2] at h
          simp at h
          subst h
          rfl
        · rw [if_neg h2] at h
          simp at h
    · rw [if_neg h1] at h
      simp at h

/-- The decoder without arena rejects a wire value whose text field is
absent. -/
theorem sr_dup_gpb_to_val_t_text_absent (A : Nat → Bool) (st : MemState) (g : Sr__Value)
    (hg : g.text_absent = true) :
    (sr_dup_gpb_to_val_t A st none (some g)).rc = SR_ERR_NOMEM
      ∨ (sr_dup_gpb_to_val_t A st none (some g)).rc = SR_ERR_INVAL_ARG := by
  unfold Sr__Value.text_absent at hg
  cases hty : g.type <;> rw [hty] at hg <;> simp at hg
  all_goals
    simp [sr_dup_gpb_to_val_t, sr_copy_gpb_to_val_t, sr_set_gpb_type_in_val_t,
      sr_set_gpb_value_in_val_t, sr_set_gpb_value_in_val_t_switch, val_load_string, hty, hg,
      sr_calloc, strdup]
    by_cases h1 : A st.allocs = true
    · rw [if_pos h1]
      dsimp only
      rcases hx : g.xpath with _ | x
      · simp
      · dsimp only
        by_cases h2 : A (st.allocs + 1) = true
        · rw [if_pos h2]
          simp
        · rw [if_neg h2]
          simp
    · rw [if_neg h1]
      simp

/-- Claim C33, refuted by the code: the decoder does not accept every output
of the encoder.  A value without instance path is encoded (the encoder copies
the path only `if (NULL != value->xpath)`), and `sr_dup_gpb_to_val_t` never
returns `SR_ERR_OK` on the result, since `CHECK_NULL_ARG3` of
`sr_set_gpb_value_in_val_t` rejects a wire value without path.  An arena-less
text value whose string is absent is encoded as well, and the arena-less
decoder never returns `SR_ERR_OK` on the result, since its check after
`strdup` examines the absent source.  Both runs are evaluated with every
allocation succeeding: the first ends in `SR_ERR_INVAL_ARG`, the second in
`SR_ERR_NOMEM`. -/
theorem decode_rejects_encoded_value :
    (∀ (A : Nat → Bool) (st : MemState) (v : sr_val_t) (g : Sr__Value),
      v.xpath = none →
      (sr_dup_val_t_to_gpb A st v).rc = SR_ERR_OK →
      (sr_dup_val_t_to_gpb A st v).out = some g →
      ∀ (A1 : Nat → Bool) (st1 : MemState) (sr_mem : Option Nat),
        (sr_dup_gpb_to_val_t A1 st1 sr_mem (some g)).rc ≠ SR_ERR_OK) ∧
    (∀ (A : Nat → Bool) (st : MemState) (v : sr_val_t) (g : Sr__Value),
      v._sr_mem = none → v.payload = .text none →
      (sr_dup_val_t_to_gpb A st v).rc = SR_ERR_OK →
      (sr_dup_val_t_to_gpb A st v).out = some g →
      ∀ (A1 : Nat → Bool) (st1 : MemState),
        (sr_dup_gpb_to_val_t A1 st1 none (some g)).rc ≠ SR_ERR_OK) ∧
    ((sr_dup_val_t_to_gpb (fun _ => true) {}
        { type := SR_UINT8_T, data := { uint8_val := 7 } }).rc = SR_ERR_OK ∧
     (sr_dup_val_t_to_gpb (fun _ => true) {}
        { type := SR_UINT8_T, data := { uint8_val := 7 } }).out
       = some { type := SR__VALUE__TYPES__UINT8, has_uint8_val := true, uint8_val := 7 } ∧
     (sr_dup_gpb_to_val_t (fun _ => true) {} none
        (some { type := SR__VALUE__TYPES__UINT8, has_uint8_val := true, uint8_val := 7 })).rc
       = SR_ERR_INVAL_ARG) ∧
    ((sr_dup_val_t_to_gpb (fun _ => true) {}
        { xpath := some "/m:leaf", type := SR_STRING_T }).rc = SR_ERR_OK ∧
     (sr_dup_val_t_to_gpb (fun _ => true) {}
        { xpath := some "/m:leaf", type := SR_STRING_T }).out
       = some { xpath := some "/m:leaf", type := SR__VALUE__TYPES__STRING } ∧
     (sr_dup_gpb_to_val_t (fun _ => true) {} none
        (some { xpath := some "/m:leaf", type := SR__VALUE__TYPES__STRING })).rc
       = SR_ERR_NOMEM) := by
  refine ⟨?_, ?_, ⟨by decide, by decide, by decide⟩, ⟨by decide, by decide, by decide⟩⟩
  · intro A st v g hx _ hout A1 st1 sr_mem hok
    have hg := sr_dup_val_t_to_gpb_no_xpath A st v g hx hout
    rcases sr_dup_gpb_to_val_t_no_xpath A1 st1 sr_mem g hg with h | h | h <;>
      rw [h] at hok <;> exact sr_error_t.noConfusion hok
  · intro A st v g hm hp _ hout A1 st1 hok
    have hg := sr_dup_val_t_to_gpb_text_absent A st v g hm hp hout
    rcases sr_dup_gpb_to_val_t_text_absent A1 st1 g hg with h | h <;>
      rw [h] at hok <;> exact sr_error_t.noConfusion hok

/-! ## What the array converters report -/

/-- A successful run of the loop of `sr_values_sr_to_gpb` produces one wire
value per typed value. -/
theorem sr_values_sr_to_gpb_loop_length (A : Nat → Bool) :
    ∀ (vals : List sr_val_t) (st : MemState),
      (sr_values_sr_to_gpb_loop A st vals).1 = SR_ERR_OK →
      (sr_values_sr_to_gpb_loop A st vals).2.1.length = vals.length := by
  intro vals
  induction vals with
  | nil => intro st _; rfl
  | cons v vs ih =>
    intro st h
    unfold sr_values_sr_to_gpb_loop at h ⊢
    rcases hd : sr_dup_val_t_to_gpb A st v with ⟨rc, out, st1⟩
    rw [hd] at h
    cases rc
    case SR_ERR_OK =>
      dsimp only at h ⊢
      have := ih st1 h
      simp [this]
    all_goals exact sr_error_t.noConfusion h

/-- A successful run of the loop of `sr_values_gpb_to_sr` produces one typed
value per wire value. -/
theorem sr_values_gpb_to_sr_loop_length (A : Nat → Bool) (sr_mem : Option Nat) :
    ∀ (gpbs : List (Option Sr__Value)) (st : MemState),
      (sr_values_gpb_to_sr_loop A st sr_mem gpbs).1 = SR_ERR_OK →
      (sr_values_gpb_to_sr_loop A st sr_mem gpbs).2.1.length = gpbs.length := by
  intro gpbs
  induction gpbs with
  | nil => intro st _; rfl
  | cons g gs ih =>
    intro st h
    unfold sr_values_gpb_to_sr_loop at h ⊢
    rcases hd : sr_copy_gpb_to_val_t A st g { _sr_mem := sr_mem } with ⟨rc, val, st1⟩
    rw [hd] at h
    cases rc
    case SR_ERR_OK =>
      dsimp only at h ⊢
      have := ih st1 h
      simp [this]
    all_goals exact sr_error_t.noConfusion h

/-- A successful run of the loop of `sr_trees_sr_to_gpb` produces one wire
node per tree. -/
theorem sr_trees_sr_to_gpb_loop_length (A : Nat → Bool) :
    ∀ (trees : List sr_node_t) (st : MemState),
      (sr_trees_sr_to_gpb_loop A st trees).1 = SR_ERR_OK →
      (sr_trees_sr_to_gpb_loop A st trees).2.1.length = trees.length := by
  intro trees
  induction trees with
  | nil => intro st _; rfl
  | cons t ts ih =>
    intro st h
    unfold sr_trees_sr_to_gpb_loop at h ⊢
    rcases hd : sr_dup_tree_to_gpb A st t with ⟨rc, out, st1⟩
    rw [hd] at h
    cases rc
    case SR_ERR_OK =>
      dsimp only at h ⊢
      have := ih st1 h
      simp [this]
    all_goals exact sr_error_t.noConfusion h

/-- A successful run of the loop of `sr_trees_gpb_to_sr` produces one tree per
wire node. -/
theorem sr_trees_gpb_to_sr_loop_length (A : Nat → Bool) (sr_mem : Option Nat) :
    ∀ (gpbs : List (Option Sr__Node)) (st : MemState),
      (sr_trees_gpb_to_sr_loop A st sr_mem gpbs).1 = SR_ERR_OK →
      (sr_trees_gpb_to_sr_loop A st sr_mem gpbs).2.1.length = gpbs.length := by
  intro gpbs
  induction gpbs with
  | nil => intro st _; rfl
  | cons g gs ih =>
    intro st h
    cases g with
    | none =>
      unfold sr_trees_gpb_to_sr_loop at h
      exact sr_error_t.noConfusion h
    | some g =>
      unfold sr_trees_gpb_to_sr_loop at h ⊢
      rcases hd : sr_copy_gpb_to_tree A st g (.mk { _sr_mem := sr_mem } none []) with ⟨rc, tree, st1⟩
      rw [hd] at h
      cases rc
      case SR_ERR_OK =>
        dsimp only at h ⊢
        have := ih st1 h
        simp [this]
      all_goals exact sr_error_t.noConfusion h

/-- The parts of `reports_input_count`, from the array handed back. -/
theorem reports_input_count_of {α β : Type} (input : Option (List α)) (cnt : Nat)
    (r : Outcome (CArray β)) (arr : CArray β) (hout : r.out = some arr) (hcnt : arr.cnt = cnt)
    (hptr : arr.ptr = none ↔ (input = none ∨ cnt = 0))
    (hlen : ∀ l, arr.ptr = some l → l.length = cnt) :
    ∃ arr, r.out = some arr ∧ arr.cnt = cnt ∧
      (arr.ptr = none ↔ (input = none ∨ cnt = 0)) ∧
      (∀ l, arr.ptr = some l → l.length = cnt) ∧
      ((input ≠ none ∨ cnt = 0) → arr.cnt = arr.allocated) := by
  refine ⟨arr, hout, hcnt, hptr, hlen, ?_⟩
  intro h
  unfold CArray.allocated
  rcases hp : arr.ptr with _ | l
  · have := hptr.mp hp
    rcases h with h | h
    · rcases this with h1 | h1
      · exact absurd h1 h
      · rw [hcnt, h1]
    · rw [hcnt, h]
  · dsimp only
    rw [hcnt, hlen l hp]

/-- The converter `sr_values_sr_to_gpb` reports the count it was given. -/
theorem sr_values_sr_to_gpb_reports (A : Nat → Bool) (st : MemState)
    (sr_values : Option (List sr_val_t)) (cnt : Nat) (hc : holds_count sr_values cnt) :
    reports_input_count sr_values cnt (sr_values_sr_to_gpb A st sr_values cnt) := by
  intro hok
  cases sr_values with
  | none => exact reports_input_count_of _ _ _ _ rfl rfl (by simp) (by intro l hl; cases hl)
  | some vals =>
    have hlen : cnt ≤ vals.length := hc vals rfl
    unfold sr_values_sr_to_gpb at hok ⊢
    dsimp only at hok ⊢
    by_cases hpos : cnt > 0
    · rw [if_pos hpos] at hok ⊢
      rcases hcal : sr_calloc A st (vals.headD {})._sr_mem cnt with ⟨b, st1⟩
      rw [hcal] at hok
      cases b
      · exact sr_error_t.noConfusion hok
      · dsimp only at hok ⊢
        have hl := sr_values_sr_to_gpb_loop_length A (vals.take cnt) st1
        rcases hloop : sr_values_sr_to_gpb_loop A st1 (vals.take cnt) with ⟨rc, gpbs, st2⟩
        rw [hloop] at hok hl
        cases rc <;> first | exact sr_error_t.noConfusion hok | skip
        have hg : gpbs.length = cnt := by
          have := hl rfl
          simpa [List.length_take, hlen] using this
        refine reports_input_count_of _ _ _ _ rfl rfl ?_ ?_
        · simp; omega
        · intro l hl1
          cases hl1
          exact hg
    · rw [if_neg hpos]
      exact reports_input_count_of _ _ _ _ rfl rfl (by simp; omega) (by intro l hl; cases hl)

/-- The converter `sr_values_gpb_to_sr` reports the count it was given. -/
theorem sr_values_gpb_to_sr_reports (A : Nat → Bool) (st : MemState) (sr_mem : Option Nat)
    (gpb_values : Option (List (Option Sr__Value))) (cnt : Nat)
    (hc : holds_count gpb_values cnt) :
    reports_input_count gpb_values cnt (sr_values_gpb_to_sr A st sr_mem gpb_values cnt) := by
  intro hok
  cases gpb_values with
  | none => exact reports_input_count_of _ _ _ _ rfl rfl (by simp) (by intro l hl; cases hl)
  | some vals =>
    have hlen : cnt ≤ vals.length := hc vals rfl
    unfold sr_values_gpb_to_sr at hok ⊢
    dsimp only at hok ⊢
    by_cases hpos : cnt > 0
    · rw [if_pos hpos] at hok ⊢
      rcases hcal : sr_calloc A st sr_mem cnt with ⟨b, st1⟩
      rw [hcal] at hok
      cases b
      · exact sr_error_t.noConfusion hok
      · dsimp only at hok ⊢
        have hl := sr_values_gpb_to_sr_loop_length A sr_mem (vals.take cnt) st1
        rcases hloop : sr_values_gpb_to_sr_loop A st1 sr_mem (vals.take cnt) with ⟨rc, gpbs, st2⟩
        rw [hloop] at hok hl
        cases rc <;> first | exact sr_error_t.noConfusion hok | skip
        have hg : gpbs.length = cnt := by
          have := hl rfl
          simpa [List.length_take, hlen] using this
        refine reports_input_count_of _ _ _ _ rfl rfl ?_ ?_
        · simp; omega
        · intro l hl1
          cases hl1
          exact hg
    · rw [if_neg hpos]
      exact reports_input_count_of _ _ _ _ rfl rfl (by simp; omega) (by intro l hl; cases hl)

/-- The converter `sr_trees_sr_to_gpb` reports the count it was given. -/
theorem sr_trees_sr_to_gpb_reports (A : Nat → Bool) (st : MemState)
    (sr_trees : Option (List sr_node_t)) (cnt : Nat) (hc : holds_count sr_trees cnt) :
    reports_input_count sr_trees cnt (sr_trees_sr_to_gpb A st sr_trees cnt) := by
  intro hok
  cases sr_trees with
  | none => exact reports_input_count_of _ _ _ _ rfl rfl (by simp) (by intro l hl; cases hl)
  | some vals =>
    have hlen : cnt ≤ vals.length := hc vals rfl
    unfold sr_trees_sr_to_gpb at hok ⊢
    dsimp only at hok ⊢
    by_cases hpos : cnt > 0
    · rw [if_pos hpos] at hok ⊢
      rcases hcal : sr_calloc A st (vals.headD (.mk {} none [])).val._sr_mem cnt with ⟨b, st1⟩
      rw [hcal] at hok
      cases b
      · exact sr_error_t.noConfusion hok
      · dsimp only at hok ⊢
        have hl := sr_trees_sr_to_gpb_loop_length A (vals.take cnt) st1
        rcases hloop : sr_trees_sr_to_gpb_loop A st1 (vals.take cnt) with ⟨rc, gpbs, st2⟩
        rw [hloop] at hok hl
        cases rc <;> first | exact sr_error_t.noConfusion hok | skip
        have hg : gpbs.length = cnt := by
          have := hl rfl
          simpa [List.length_take, hlen] using this
        refine reports_input_count_of _ _ _ _ rfl rfl ?_ ?_
        · simp; omega
        · intro l hl1
          cases hl1
          exact hg
    · rw [if_neg hpos]
      exact reports_input_count_of _ _ _ _ rfl rfl (by simp; omega) (by intro l hl; cases hl)

/-- The converter `sr_trees_gpb_to_sr` reports the count it was given. -/
theorem sr_trees_gpb_to_sr_reports (A : Nat → Bool) (st : MemState) (sr_mem : Option Nat)
    (gpb_trees : Option (List (Option Sr__Node))) (cnt : Nat)
    (hc : holds_count gpb_trees cnt) :
    reports_input_count gpb_trees cnt (sr_trees_gpb_to_sr A st sr_mem gpb_trees cnt) := by
  intro hok
  cases gpb_trees with
  | none => exact reports_input_count_of _ _ _ _ rfl rfl (by simp) (by intro l hl; cases hl)
  | some vals =>
    have hlen : cnt ≤ vals.length := hc vals rfl
    unfold sr_trees_gpb_to_sr at hok ⊢
    dsimp only at hok ⊢
    by_cases hpos : cnt > 0
    · rw [if_pos hpos] at hok ⊢
      rcases hcal : sr_calloc A st sr_mem cnt with ⟨b, st1⟩
      rw [hcal] at hok
      cases b
      · exact sr_error_t.noConfusion hok
      · dsimp only at hok ⊢
        have hl := sr_trees_gpb_to_sr_loop_length A sr_mem (vals.take cnt) st1
        rcases hloop : sr_trees_gpb_to_sr_loop A st1 sr_mem (vals.take cnt) with ⟨rc, gpbs, st2⟩
        rw [hloop] at hok hl
        cases rc <;> first | exact sr_error_t.noConfusion hok | skip
        have hg : gpbs.length = cnt := by
          have := hl rfl
          simpa [List.length_take, hlen] using this
        refine reports_input_count_of _ _ _ _ rfl rfl ?_ ?_
        · simp; omega
        · intro l hl1
          cases hl1
          exact hg
    · rw [if_neg hpos]
      exact reports_input_count_of _ _ _ _ rfl rfl (by simp; omega) (by intro l hl; cases hl)

/-- Counterexample to claim C34 as stated: given an absent (`NULL`) array with
the count 3, each of the four converters returns `SR_ERR_OK`, hands back an
absent array, which has no elements, and reports the count 3. -/
theorem absent_array_reports_positive_count :
    ((sr_values_sr_to_gpb (fun _ => true) {} none 3).rc = SR_ERR_OK ∧
      ∃ arr, (sr_values_sr_to_gpb (fun _ => true) {} none 3).out = some arr ∧
        arr.ptr = none ∧ arr.allocated = 0 ∧ arr.cnt = 3) ∧
    ((sr_values_gpb_to_sr (fun _ => true) {} none none 3).rc = SR_ERR_OK ∧
      ∃ arr, (sr_values_gpb_to_sr (fun _ => true) {} none none 3).out = some arr ∧
        arr.ptr = none ∧ arr.allocated = 0 ∧ arr.cnt = 3) ∧
    ((sr_trees_sr_to_gpb (fun _ => true) {} none 3).rc = SR_ERR_OK ∧
      ∃ arr, (sr_trees_sr_to_gpb (fun _ => true) {} none 3).out = some arr ∧
        arr.ptr = none ∧ arr.allocated = 0 ∧ arr.cnt = 3) ∧
    ((sr_trees_gpb_to_sr (fun _ => true) {} none none 3).rc = SR_ERR_OK ∧
      ∃ arr, (sr_trees_gpb_to_sr (fun _ => true) {} none none 3).out = some arr ∧
        arr.ptr = none ∧ arr.allocated = 0 ∧ arr.cnt = 3) :=
  ⟨⟨rfl, _, rfl, rfl, rfl, rfl⟩, ⟨rfl, _, rfl, rfl, rfl, rfl⟩,
   ⟨rfl, _, rfl, rfl, rfl, rfl⟩, ⟨rfl, _, rfl, rfl, rfl, rfl⟩⟩

/-- Claim C34, amended: each of the array converters `sr_values_sr_to_gpb`,
`sr_values_gpb_to_sr`, `sr_trees_sr_to_gpb` and `sr_trees_gpb_to_sr`, given an
array that is absent or holds at least `cnt` elements, reports on `SR_ERR_OK`
the count `cnt` it was given; the array it hands back is absent exactly when
the input array is absent or `cnt` is 0 and holds exactly `cnt` elements
otherwise, so that the reported count is the number of elements of the array
handed back whenever the input array is present or `cnt` is 0. -/
theorem array_count_reported (A : Nat → Bool) (st : MemState) (sr_mem : Option Nat) (cnt : Nat)
    (sr_values : Option (List sr_val_t)) (gpb_values : Option (List (Option Sr__Value)))
    (sr_trees : Option (List sr_node_t)) (gpb_trees : Option (List (Option Sr__Node)))
    (h1 : holds_count sr_values cnt) (h2 : holds_count gpb_values cnt)
    (h3 : holds_count sr_trees cnt) (h4 : holds_count gpb_trees cnt) :
    reports_input_count sr_values cnt (sr_values_sr_to_gpb A st sr_values cnt) ∧
    reports_input_count gpb_values cnt (sr_values_gpb_to_sr A st sr_mem gpb_values cnt) ∧
    reports_input_count sr_trees cnt (sr_trees_sr_to_gpb A st sr_trees cnt) ∧
    reports_input_count gpb_trees cnt (sr_trees_gpb_to_sr A st sr_mem gpb_trees cnt) :=
  ⟨sr_values_sr_to_gpb_reports A st sr_values cnt h1,
   sr_values_gpb_to_sr_reports A st sr_mem gpb_values cnt h2,
   sr_trees_sr_to_gpb_reports A st sr_trees cnt h3,
   sr_trees_gpb_to_sr_reports A st sr_mem gpb_trees cnt h4⟩

/-- Witness for `array_count_reported`: arrays of one value, one wire value,
one tree and one wire node with the count 1, every allocation succeeding; all
four converters return `SR_ERR_OK` there. -/
theorem array_count_reported_witness :
    (holds_count (some [({ xpath := some "/m:x", type := SR_BOOL_T } : sr_val_t)]) 1 ∧
     holds_count (some [some ({ xpath := some "/m:x", type := SR__VALUE__TYPES__BOOL } : Sr__Value)]) 1 ∧
     holds_count (some [sr_node_t.mk { xpath := some "x", type := SR_BOOL_T } (some "m") []]) 1 ∧
     holds_count (some [some (Sr__Node.mk
       (some { xpath := some "x", type := SR__VALUE__TYPES__BOOL }) (some "m") 0 [])]) 1) ∧
    ((sr_values_sr_to_gpb (fun _ => true) {}
        (some [{ xpath := some "/m:x", type := SR_BOOL_T }]) 1).rc = SR_ERR_OK ∧
     (sr_values_gpb_to_sr (fun _ => true) {} none
        (some [some { xpath := some "/m:x", type := SR__VALUE__TYPES__BOOL }]) 1).rc = SR_ERR_OK ∧
     (sr_trees_sr_to_gpb (fun _ => true) {}
        (some [sr_node_t.mk { xpath := some "x", type := SR_BOOL_T } (some "m") []]) 1).rc
       = SR_ERR_OK ∧
     (sr_trees_gpb_to_sr (fun _ => true) {} none
        (some [some (Sr__Node.mk
          (some { xpath := some "x", type := SR__VALUE__TYPES__BOOL }) (some "m") 0 [])]) 1).rc
       = SR_ERR_OK) ∧
    (reports_input_count (some [({ xpath := some "/m:x", type := SR_BOOL_T } : sr_val_t)]) 1
       (sr_values_sr_to_gpb (fun _ => true) {}
         (some [{ xpath := some "/m:x", type := SR_BOOL_T }]) 1) ∧
     reports_input_count
       (some [some ({ xpath := some "/m:x", type := SR__VALUE__TYPES__BOOL } : Sr__Value)]) 1
       (sr_values_gpb_to_sr (fun _ => true) {} none
         (some [some { xpath := some "/m:x", type := SR__VALUE__TYPES__BOOL }]) 1) ∧
     reports_input_count
       (some [sr_node_t.mk { xpath := some "x", type := SR_BOOL_T } (some "m") []]) 1
       (sr_trees_sr_to_gpb (fun _ => true) {}
         (some [sr_node_t.mk { xpath := some "x", type := SR_BOOL_T } (some "m") []]) 1) ∧
     reports_input_count
       (some [some (Sr__Node.mk
         (some { xpath := some "x", type := SR__VALUE__TYPES__BOOL }) (some "m") 0 [])]) 1
       (sr_trees_gpb_to_sr (fun _ => true) {} none
         (some [some (Sr__Node.mk
           (some { xpath := some "x", type := SR__VALUE__TYPES__BOOL }) (some "m") 0 [])]) 1)) := by
  have k1 : holds_count (some [({ xpath := some "/m:x", type := SR_BOOL_T } : sr_val_t)]) 1 := by
    intro l hl; cases hl; exact Nat.le_refl _
  have k2 : holds_count
      (some [some ({ xpath := some "/m:x", type := SR__VALUE__TYPES__BOOL } : Sr__Value)]) 1 := by
    intro l hl; cases hl; exact Nat.le_refl _
  have k3 : holds_count
      (some [sr_node_t.mk { xpath := some "x", type := SR_BOOL_T } (some "m") []]) 1 := by
    intro l hl; cases hl; exact Nat.le_refl _
  have k4 : holds_count (some [some (Sr__Node.mk
      (some { xpath := some "x", type := SR__VALUE__TYPES__BOOL }) (some "m") 0 [])]) 1 := by
    intro l hl; cases hl; exact Nat.le_refl _
  exact ⟨⟨k1, k2, k3, k4⟩, ⟨by decide, by decide, by decide, by decide⟩,
    array_count_reported (fun _ => true) {} none 1 _ _ _ _ k1 k2 k3 k4⟩

/-! ## The data files of a module, visited in order -/

/-- With `continue_on_error` the loop applies the command to every file still
to visit; its code is that of the last failed application. -/
theorem apply_loop_continue (G : settings) (module_name : String)
    (command : World → String → Int × World) :
    ∀ (exts : List String) (rc : Int) (w : World),
      srctl_data_files_apply_loop G module_name command true exts rc w
        = (last_failure (applications command
              (exts.map fun ext =>
                snprintf PATH_MAX (G.srctl_data_search_dir ++ module_name ++ ext)) w) rc,
           applications_world (applications command
              (exts.map fun ext =>
                snprintf PATH_MAX (G.srctl_data_search_dir ++ module_name ++ ext)) w) w) := by
  intro exts
  induction exts with
  | nil => intro rc w; rfl
  | cons ext exts ih =>
    intro rc w
    rw [List.map_cons]
    unfold srctl_data_files_apply_loop applications last_failure applications_world
    by_cases h : (command w (snprintf PATH_MAX
        (G.srctl_data_search_dir ++ module_name ++ ext))).1 ≠ 0
    · rw [if_pos h, if_pos rfl, ih]
      dsimp only
      rw [if_pos h]
    · rw [if_neg h, ih]
      dsimp only
      rw [if_neg h]

/-- Without `continue_on_error` the loop stops at the first failed
application and returns its code and the world it left. -/
theorem apply_loop_stop (G : settings) (module_name : String)
    (command : World → String → Int × World) :
    ∀ (exts : List String) (rc : Int) (w : World),
      srctl_data_files_apply_loop G module_name command false exts rc w
        = match first_failure (applications command
              (exts.map fun ext =>
                snprintf PATH_MAX (G.srctl_data_search_dir ++ module_name ++ ext)) w) with
          | some a => (a.2.1, a.2.2)
          | none =>
            (rc, applications_world (applications command
              (exts.map fun ext =>
                snprintf PATH_MAX (G.srctl_data_search_dir ++ module_name ++ ext)) w) w) := by
  intro exts
  induction exts with
  | nil => intro rc w; rfl
  | cons ext exts ih =>
    intro rc w
    rw [List.map_cons]
    unfold srctl_data_files_apply_loop applications applications_world first_failure
    by_cases h : (command w (snprintf PATH_MAX
        (G.srctl_data_search_dir ++ module_name ++ ext))).1 ≠ 0
    · rw [if_pos h]
      simp [h]
    · rw [if_neg h, ih]
      simp [h]
      rfl

/-- The code of the last failed application is not 0 exactly when an
application failed or the starting code is not 0. -/
theorem last_failure_ne_zero (apps : List (String × Int × World)) :
    ∀ rc : Int, last_failure apps rc ≠ 0 ↔ (rc ≠ 0 ∨ ∃ a ∈ apps, a.2.1 ≠ 0) := by
  induction apps with
  | nil => intro rc; simp [last_failure]
  | cons a apps ih =>
    intro rc
    unfold last_failure
    rw [ih]
    by_cases h : a.2.1 ≠ 0
    · rw [if_pos h]
      simp [h]
    · rw [if_neg h]
      have h0 : a.2.1 = 0 := by simpa using h
      simp [h0]

/-- The sequence of applications has one entry per path, with the paths in
order. -/
theorem applications_paths (command : World → String → Int × World) :
    ∀ (ps : List String) (w : World), (applications command ps w).map (fun a => a.1) = ps := by
  intro ps
  induction ps with
  | nil => intro w; rfl
  | cons p ps ih => intro w; simp [applications, ih]

/-- The six names of the data files, when the longest of them fits into
`PATH_MAX` bytes. -/
theorem data_file_names_fit (G : settings) (module_name : String)
    (h : (G.srctl_data_search_dir ++ module_name).length + 15 < PATH_MAX) :
    data_file_names G module_name
      = [G.srctl_data_search_dir ++ module_name ++ ".startup",
         G.srctl_data_search_dir ++ module_name ++ ".running",
         G.srctl_data_search_dir ++ module_name ++ ".startup.lock",
         G.srctl_data_search_dir ++ module_name ++ ".running.lock",
         G.srctl_data_search_dir ++ module_name ++ ".persist",
         G.srctl_data_search_dir ++ module_name ++ ".candidate.lock"] := by
  have e1 : SR_STARTUP_FILE_EXT = ".startup" := rfl
  have e2 : SR_RUNNING_FILE_EXT = ".running" := rfl
  have e3 : SR_STARTUP_FILE_EXT ++ SR_LOCK_FILE_EXT = ".startup.lock" := by decide
  have e4 : SR_RUNNING_FILE_EXT ++ SR_LOCK_FILE_EXT = ".running.lock" := by decide
  have e5 : SR_PERSIST_FILE_EXT = ".persist" := rfl
  have e6 : SR_CANDIDATE_FILE_EXT ++ SR_LOCK_FILE_EXT = ".candidate.lock" := by decide
  have l1 : (".startup" : String).length = 8 := by decide
  have l2 : (".running" : String).length = 8 := by decide
  have l3 : (".startup.lock" : String).length = 13 := by decide
  have l4 : (".running.lock" : String).length = 13 := by decide
  have l5 : (".persist" : String).length = 8 := by decide
  have l6 : (".candidate.lock" : String).length = 15 := by decide
  unfold data_file_names data_files_ext
  simp only [List.map_cons, List.map_nil, e3, e4, e6]
  simp only [e1, e2, e5]
  rw [snprintf_fits PATH_MAX _ (by rw [String.length_append, l1]; omega),
    snprintf_fits PATH_MAX _ (by rw [String.length_append, l2]; omega),
    snprintf_fits PATH_MAX _ (by rw [String.length_append, l3]; omega),
    snprintf_fits PATH_MAX _ (by rw [String.length_append, l4]; omega),
    snprintf_fits PATH_MAX _ (by rw [String.length_append, l5]; omega),
    snprintf_fits PATH_MAX _ (by rw [String.length_append, l6]; omega)]

/-- Claim C32: `srctl_data_files_apply` visits the six data files of the
module in the order startup, running, startup lock, running lock, persist,
candidate lock; a file is named by `snprintf` into `PATH_MAX` bytes from data
directory, module name and extension, which is their concatenation when the
longest name fits.  With `continue_on_error` the command is applied to all six
files, each application starting in the world the one before left, and the
code returned is not 0 exactly when an application failed (it is the code of
the last failed one).  Without `continue_on_error` the call ends with the
first failed application: it returns the code of that application and the
world it left, so that the command is applied to no later file; if no
application fails, all six are made and 0 is returned. -/
theorem data_files_apply_visits (G : settings) (w : World) (module_name : String)
    (command : World → String → Int × World) :
    data_file_names G module_name
      = [snprintf PATH_MAX (G.srctl_data_search_dir ++ module_name ++ SR_STARTUP_FILE_EXT),
         snprintf PATH_MAX (G.srctl_data_search_dir ++ module_name ++ SR_RUNNING_FILE_EXT),
         snprintf PATH_MAX (G.srctl_data_search_dir ++ module_name ++
           (SR_STARTUP_FILE_EXT ++ SR_LOCK_FILE_EXT)),
         snprintf PATH_MAX (G.srctl_data_search_dir ++ module_name ++
           (SR_RUNNING_FILE_EXT ++ SR_LOCK_FILE_EXT)),
         snprintf PATH_MAX (G.srctl_data_search_dir ++ module_name ++ SR_PERSIST_FILE_EXT),
         snprintf PATH_MAX (G.srctl_data_search_dir ++ module_name ++
           (SR_CANDIDATE_FILE_EXT ++ SR_LOCK_FILE_EXT))] ∧
    ((G.srctl_data_search_dir ++ module_name).length + 15 < PATH_MAX →
      data_file_names G module_name
        = [G.srctl_data_search_dir ++ module_name ++ ".startup",
           G.srctl_data_search_dir ++ module_name ++ ".running",
           G.srctl_data_search_dir ++ module_name ++ ".startup.lock",
           G.srctl_data_search_dir ++ module_name ++ ".running.lock",
           G.srctl_data_search_dir ++ module_name ++ ".persist",
           G.srctl_data_search_dir ++ module_name ++ ".candidate.lock"]) ∧
    (applications command (data_file_names G module_name) w).map (fun a => a.1)
      = data_file_names G module_name ∧
    srctl_data_files_apply G w module_name command true
      = (last_failure (applications command (data_file_names G module_name) w) 0,
         applications_world (applications command (data_file_names G module_name) w) w) ∧
    ((srctl_data_files_apply G w module_name command true).1 ≠ 0 ↔
      ∃ a ∈ applications command (data_file_names G module_name) w, a.2.1 ≠ 0) ∧
    (∀ a, first_failure (applications command (data_file_names G module_name) w) = some a →
      a.2.1 ≠ 0 ∧
      srctl_data_files_apply G w module_name command false = (a.2.1, a.2.2) ∧
      ∃ before after,
        applications command (data_file_names G module_name) w = before ++ a :: after ∧
        ∀ b ∈ before, b.2.1 = 0) ∧
    (first_failure (applications command (data_file_names G module_name) w) = none →
      (∀ a ∈ applications command (data_file_names G module_name) w, a.2.1 = 0) ∧
      srctl_data_files_apply G w module_name command false
        = (0, applications_world (applications command (data_file_names G module_name) w) w)) := by
  have hc := apply_loop_continue G module_name command data_files_ext 0 w
  have hs := apply_loop_stop G module_name command data_files_ext 0 w
  refine ⟨rfl, data_file_names_fit G module_name, applications_paths command _ w, hc, ?_, ?_, ?_⟩
  · show (srctl_data_files_apply_loop G module_name command true data_files_ext 0 w).1 ≠ 0 ↔ _
    rw [hc]
    show last_failure (applications command (data_file_names G module_name) w) 0 ≠ 0 ↔ _
    rw [last_failure_ne_zero]
    simp
  · intro a ha
    have hs1 : srctl_data_files_apply G w module_name command false
        = match first_failure (applications command (data_file_names G module_name) w) with
          | some a => (a.2.1, a.2.2)
          | none => (0, applications_world
              (applications command (data_file_names G module_name) w) w) := hs
    rw [ha] at hs1
    unfold first_failure at ha
    rw [List.find?_eq_some] at ha
    rcases ha with ⟨hp, before, after, happ, hbefore⟩
    refine ⟨by simpa using hp, hs1, before, after, happ, ?_⟩
    intro b hb
    simpa using hbefore b hb
  · intro ha
    have hs1 : srctl_data_files_apply G w module_name command false
        = match first_failure (applications command (data_file_names G module_name) w) with
          | some a => (a.2.1, a.2.2)
          | none => (0, applications_world
              (applications command (data_file_names G module_name) w) w) := hs
    rw [ha] at hs1
    refine ⟨?_, hs1⟩
    unfold first_failure at ha
    rw [List.find?_eq_none] at ha
    intro a hmem
    simpa using ha a hmem

/-! ## The bits of a leaf as a string -/

/-- The binary search on an array whose first `number` entries ascend, with
fewer than 2^31 elements: started between `lo` and `hi` with enough fuel, it
ends, reads inside the set only, and returns an index of the node or -1 when
the node is not in the set. -/
theorem sr_ly_set_contains_loop_sorted (g : List Nat) (node number : Nat)
    (hsize : number ≤ g.length) (hnum : number < 2 ^ 31)
    (hsorted : ∀ i j : Nat, i ≤ j → j < number → g.getD i 0 ≤ g.getD j 0) :
    ∀ (fuel : Nat) (lo hi : Int) (reads : List Int),
      0 ≤ lo → lo ≤ hi + 1 → hi < (number : Int) → (hi + 1 - lo).toNat ≤ fuel →
      (∀ i : Nat, (i : Int) < lo → g.getD i 0 < node) →
      (∀ i : Nat, hi < (i : Int) → i < number → node < g.getD i 0) →
      (∀ k ∈ reads, 0 ≤ k ∧ k < (number : Int)) →
      ∃ r, sr_ly_set_contains_loop g node fuel lo hi reads = some r ∧
        (∀ k ∈ r.reads, 0 ≤ k ∧ k < (number : Int)) ∧
        ((0 ≤ r.ret ∧ r.ret < (number : Int) ∧ g.getD r.ret.toNat 0 = node) ∨
          (r.ret = -1 ∧ ∀ i : Nat, i < number → g.getD i 0 ≠ node)) := by
  intro fuel
  induction fuel with
  | zero =>
    intro lo hi reads hlo hle hhi hfuel hbelow habove hreads
    have hnot : ¬ lo ≤ hi := by
      intro h
      have : (hi + 1 - lo).toNat = 0 := by omega
      omega
    unfold sr_ly_set_contains_loop
    rw [if_neg hnot]
    refine ⟨_, rfl, hreads, Or.inr ⟨rfl, ?_⟩⟩
    intro i hi1
    by_cases h : (i : Int) < lo
    · exact Nat.ne_of_lt (hbelow i h)
    · exact (Nat.ne_of_lt (habove i (by omega) hi1)).symm
  | succ fuel ih =>
    intro lo hi reads hlo hle hhi hfuel hbelow habove hreads
    unfold sr_ly_set_contains_loop
    by_cases hcond : lo ≤ hi
    · rw [if_pos hcond]
      dsimp only
      have hnum1 : (number : Int) < 2 ^ 31 := by exact_mod_cast hnum
      have hd : wrap_signed 32 (hi - lo) = hi - lo := wrap_signed_32 _ ⟨by omega, by omega⟩
      have hmid : wrap_signed 32 (lo + wrap_signed 32 (hi - lo) / 2) = lo + (hi - lo) / 2 := by
        rw [hd]
        exact wrap_signed_32 _ ⟨by omega, by omega⟩
      simp only [hmid]
      have hm0 : 0 ≤ lo + (hi - lo) / 2 := by omega
      have hm1 : lo ≤ lo + (hi - lo) / 2 := by omega
      have hm2 : lo + (hi - lo) / 2 ≤ hi := by omega
      have hmn : (lo + (hi - lo) / 2).toNat < number := by omega
      have hmlt : lo + (hi - lo) / 2 < (number : Int) := by omega
      have hmc : ((lo + (hi - lo) / 2).toNat : Int) = lo + (hi - lo) / 2 := Int.toNat_of_nonneg hm0
      rw [if_pos ⟨hm0, by omega⟩]
      have hreads1 : ∀ k ∈ reads ++ [lo + (hi - lo) / 2], 0 ≤ k ∧ k < (number : Int) := by
        intro k hk
        rcases List.mem_append.mp hk with h | h
        · exact hreads k h
        · have : k = lo + (hi - lo) / 2 := by simpa using h
          rw [this]
          exact ⟨hm0, hmlt⟩
      by_cases heq : g.getD (lo + (hi - lo) / 2).toNat 0 = node
      · rw [if_pos heq]
        exact ⟨_, rfl, hreads1, Or.inl ⟨hm0, hmlt, heq⟩⟩
      · rw [if_neg heq]
        by_cases hlt : g.getD (lo + (hi - lo) / 2).toNat 0 < node
        · rw [if_pos hlt]
          have hw : wrap_signed 32 (lo + (hi - lo) / 2 + 1) = lo + (hi - lo) / 2 + 1 :=
            wrap_signed_32 _ ⟨by omega, by omega⟩
          rw [hw]
          apply ih _ _ _ (by omega) (by omega) hhi (by omega) _ habove hreads1
          intro i hi1
          have := hsorted i (lo + (hi - lo) / 2).toNat (by omega) hmn
          omega
        · rw [if_neg hlt]
          have hw : wrap_signed 32 (lo + (hi - lo) / 2 - 1) = lo + (hi - lo) / 2 - 1 :=
            wrap_signed_32 _ ⟨by omega, by omega⟩
          rw [hw]
          apply ih _ _ _ hlo (by omega) (by omega) (by omega) hbelow _ hreads1
          intro i hi1 hi2
          have := hsorted (lo + (hi - lo) / 2).toNat i (by omega) hi2
          omega
    · rw [if_neg hcond]
      refine ⟨_, rfl, hreads, Or.inr ⟨rfl, ?_⟩⟩
      intro i hi1
      by_cases h : (i : Int) < lo
      · exact Nat.ne_of_lt (hbelow i h)
      · exact (Nat.ne_of_lt (habove i (by omega) hi1)).symm

/-- The entries of an ascending set ascend with the index. -/
theorem ly_set_ascending_getD (set : ly_set) (hsize : set.number ≤ set.g.length)
    (hasc : set.ascending) :
    ∀ i j : Nat, i ≤ j → j < set.number → set.g.getD i 0 ≤ set.g.getD j 0 := by
  intro i j hij hj
  unfold ly_set.ascending at hasc
  have hlen : (set.g.take set.number).length = set.number := by
    rw [List.length_take]
    omega
  rcases Nat.eq_or_lt_of_le hij with h | h
  · rw [h]
  · have := List.pairwise_iff_getElem.mp hasc i j (by omega) (by omega) h
    rw [List.getElem_take, List.getElem_take] at this
    rw [List.getD_eq_getElem _ _ (by omega), List.getD_eq_getElem _ _ (by omega)]
    exact this

/-- The node occurs in the set exactly when it is the entry at an index below
`number`. -/
theorem ly_set_holds_iff (set : ly_set) (node : Nat) (hsize : set.number ≤ set.g.length) :
    set.holds node ↔ ∃ i : Nat, i < set.number ∧ set.g.getD i 0 = node := by
  unfold ly_set.holds
  have hlen : (set.g.take set.number).length = set.number := by
    rw [List.length_take]
    omega
  constructor
  · intro h
    obtain ⟨i, hi, heq⟩ := List.mem_iff_getElem.mp h
    rw [List.getElem_take] at heq
    refine ⟨i, by omega, ?_⟩
    rw [List.getD_eq_getElem _ _ (by omega)]
    exact heq
  · rintro ⟨i, hi, heq⟩
    apply List.mem_iff_getElem.mpr
    refine ⟨i, by omega, ?_⟩
    rw [List.getElem_take]
    rw [List.getD_eq_getElem _ _ (by omega)] at heq
    exact heq

/-- The initial value of `hi` for a set of fewer than 2^31 elements. -/
theorem ly_set_initial_hi (number : Nat) (hnum : number < 2 ^ 31) :
    wrap_signed 32 (wrap_unsigned 32 (number + 2 ^ 32 - 1)) = (number : Int) - 1 := by
  rcases Nat.eq_zero_or_pos number with h | h
  · subst h
    decide
  · have h1 : wrap_unsigned 32 (number + 2 ^ 32 - 1) = number - 1 := by
      unfold wrap_unsigned
      omega
    rw [h1]
    have h2 : ((number - 1 : Nat) : Int) = (number : Int) - 1 := by omega
    rw [h2]
    exact wrap_signed_32 _ ⟨by omega, by omega⟩

/-- Counterexample to claim C38 as stated: a set of 2^31 + 1 elements at the
ascending addresses 1, 2, ..., and the node at the address 1, which is its
first element.  The initial value of `hi`, `set->number-1` converted to `int`,
is -2^31, the loop is not entered, and the function returns -1 whatever the
fuel.  -/
theorem contains_misses_in_large_set :
    (ly_set.mk (2 ^ 31 + 1) (List.range' 1 (2 ^ 31 + 1))).ascending ∧
    (ly_set.mk (2 ^ 31 + 1) (List.range' 1 (2 ^ 31 + 1))).holds 1 ∧
    wrap_signed 32 (wrap_unsigned 32 (2 ^ 31 + 1 + 2 ^ 32 - 1)) = -(2 ^ 31 : Int) ∧
    ∀ fuel : Nat,
      sr_ly_set_contains fuel (some (ly_set.mk (2 ^ 31 + 1) (List.range' 1 (2 ^ 31 + 1)))) 1 true
        = some { ret := -1, reads := [] } := by
  have htake : (List.range' 1 (2 ^ 31 + 1)).take (2 ^ 31 + 1) = List.range' 1 (2 ^ 31 + 1) := by
    apply List.take_of_length_le
    rw [List.length_range']
  have hhi : wrap_signed 32 (wrap_unsigned 32 (2 ^ 31 + 1 + 2 ^ 32 - 1)) = -(2 ^ 31 : Int) := by
    decide
  refine ⟨?_, ?_, hhi, ?_⟩
  · unfold ly_set.ascending
    dsimp only
    rw [htake]
    exact (List.pairwise_lt_range' 1 (2 ^ 31 + 1)).imp (fun h => Nat.le_of_lt h)
  · unfold ly_set.holds
    dsimp only
    rw [htake, List.mem_range'_1]
    omega
  · intro fuel
    unfold sr_ly_set_contains
    dsimp only
    rw [if_neg (by decide), if_pos rfl, hhi]
    unfold sr_ly_set_contains_loop
    rw [if_neg (by decide)]

/-- Claim C38, amended: for a set of fewer than 2^31 elements in ascending
order and a non-null node, `sr_ly_set_contains(set, node, true)` ends (with a
round of fuel per element) and every index it reads lies in `0..number-1`; it
returns an index `i` with `set[i] == node` if the node occurs in the set, and
-1 if it does not, which includes the empty set. -/
theorem set_contains_sorted (fuel : Nat) (set : ly_set) (node : Nat)
    (hsize : set.number ≤ set.g.length) (hnum : set.number < 2 ^ 31) (hasc : set.ascending)
    (hnode : node ≠ 0) (hfuel : set.number ≤ fuel) :
    ∃ r, sr_ly_set_contains fuel (some set) node true = some r ∧
      (∀ k ∈ r.reads, 0 ≤ k ∧ k < (set.number : Int)) ∧
      (set.holds node →
        0 ≤ r.ret ∧ r.ret < (set.number : Int) ∧ set.g.getD r.ret.toNat 0 = node) ∧
      (¬ set.holds node → r.ret = -1) := by
  have hsorted := ly_set_ascending_getD set hsize hasc
  have hrun := sr_ly_set_contains_loop_sorted set.g node set.number hsize hnum hsorted fuel 0
    ((set.number : Int) - 1) [] (Int.le_refl 0) (by omega) (by omega) (by omega)
    (by intro i hi; omega) (by intro i hi1 hi2; omega) (by intro k hk; cases hk)
  obtain ⟨r, hr, hreads, hret⟩ := hrun
  refine ⟨r, ?_, hreads, ?_, ?_⟩
  · unfold sr_ly_set_contains
    dsimp only
    rw [if_neg hnode, if_pos rfl, ly_set_initial_hi set.number hnum]
    exact hr
  · intro hholds
    rcases hret with h | h
    · exact h
    · obtain ⟨i, hi, heq⟩ := (ly_set_holds_iff set node hsize).mp hholds
      exact absurd heq (h.2 i hi)
  · intro hnot
    rcases hret with h | h
    · exfalso
      apply hnot
      apply (ly_set_holds_iff set node hsize).mpr
      exact ⟨r.ret.toNat, by omega, h.2.2⟩
    · exact h.1

/-- Witness for `set_contains_sorted`: the set of the addresses 10, 20 and 30,
in which the node 20 is found at the index 1 after one read. -/
theorem set_contains_sorted_witness :
    sr_ly_set_contains 3 (some (ly_set.mk 3 [10, 20, 30])) 20 true
      = some { ret := 1, reads := [1] } ∧
    sr_ly_set_contains 3 (some (ly_set.mk 3 [10, 20, 30])) 25 true
      = some { ret := -1, reads := [1, 2] } ∧
    sr_ly_set_contains 0 (some (ly_set.mk 0 [])) 25 true = some { ret := -1, reads := [] } ∧
    ∃ r, sr_ly_set_contains 3 (some (ly_set.mk 3 [10, 20, 30])) 20 true = some r ∧
      (∀ k ∈ r.reads, 0 ≤ k ∧ k < (((ly_set.mk 3 [10, 20, 30]).number : Nat) : Int)) ∧
      ((ly_set.mk 3 [10, 20, 30]).holds 20 →
        0 ≤ r.ret ∧ r.ret < (((ly_set.mk 3 [10, 20, 30]).number : Nat) : Int) ∧
          (ly_set.mk 3 [10, 20, 30]).g.getD r.ret.toNat 0 = 20) ∧
      (¬ (ly_set.mk 3 [10, 20, 30]).holds 20 → r.ret = -1) :=
  ⟨by decide, by decide, by decide,
   set_contains_sorted 3 (ly_set.mk 3 [10, 20, 30]) 20 (by decide) (by decide)
    (by unfold ly_set.ascending; decide) (by decide) (by decide)⟩

/-! ## Sorting a set -/

/-- A store into the slot after a prefix, with more lists behind. -/
theorem set_after_prefix_nat (a b : List Nat) (x y : Nat) :
    (a ++ x :: b).set a.length y = a ++ y :: b := by
  induction a with
  | nil => rfl
  | cons c a ih => simp [ih]

/-- The entry after a prefix. -/
theorem getD_after_prefix (a b : List Nat) (x : Nat) : (a ++ x :: b).getD a.length 0 = x := by
  induction a with
  | nil => rfl
  | cons c a ih => simpa using ih

/-- The inner loop of the insertion sort and the store of the key after it:
with the sorted entries `a` before the free slot and the entries `b`, all
above the key, behind it, the key ends up between the entries not above it and
the entries above it. -/
theorem sort_shift_inserts (key : Nat) (rest : List Nat) :
    ∀ (a : List Nat) (junk : Nat) (b : List Nat),
      a.Pairwise (fun x y => x ≤ y) → (∀ x ∈ b, key < x) →
      ∃ a1 b1,
        (sort_shift key a.length (a ++ junk :: (b ++ rest))).2.set
            (sort_shift key a.length (a ++ junk :: (b ++ rest))).1 key
          = a1 ++ key :: (b1 ++ rest) ∧
        a1 ++ b1 = a ++ b ∧ (∀ x ∈ b1, key < x) ∧ (∀ x ∈ a1, x ≤ key) := by
  intro a
  induction a using List.reverseRecOn with
  | nil =>
    intro junk b _ hb
    exact ⟨[], b, rfl, rfl, hb, by intro x hx; cases hx⟩
  | append_singleton a x ih =>
    intro junk b ha hb
    have hlen : (a ++ [x]).length = a.length + 1 := by simp
    rw [hlen]
    have hget : (a ++ [x] ++ junk :: (b ++ rest)).getD a.length 0 = x := by
      rw [List.append_assoc]
      exact getD_after_prefix a _ x
    unfold sort_shift
    rw [hget]
    by_cases hx : x > key
    · rw [if_pos hx]
      have hset : (a ++ [x] ++ junk :: (b ++ rest)).set (a.length + 1) x
          = a ++ x :: ((x :: b) ++ rest) := by
        have h1 : a.length + 1 = (a ++ [x]).length := by simp
        rw [h1, set_after_prefix_nat]
        simp
      rw [hset]
      have ha1 : a.Pairwise (fun x y => x ≤ y) := (List.pairwise_append.mp ha).1
      obtain ⟨a1, b1, hrun, hcat, hb1, ha2⟩ := ih x (x :: b) ha1
        (by
          intro y hy
          rcases List.mem_cons.mp hy with h | h
          · rw [h]; exact hx
          · exact hb y h)
      exact ⟨a1, b1, hrun, by rw [hcat]; simp, hb1, ha2⟩
    · rw [if_neg hx]
      dsimp only
      refine ⟨a ++ [x], b, ?_, rfl, hb, ?_⟩
      · have h1 : a.length + 1 = (a ++ [x]).length := by simp
        rw [h1, set_after_prefix_nat]
      · intro y hy
        rcases List.mem_append.mp hy with h | h
        · have := (List.pairwise_append.mp ha).2.2 y h x (by simp)
          omega
        · have : y = x := by simpa using h
          omega

/-- The outer loop of the insertion sort: with the sorted entries `s` before
the index `i` and `rounds` rounds to go, it leaves the first `rounds` of the
other entries sorted into `s`, and the entries behind them as they are. -/
theorem sort_insert_sorts :
    ∀ (rounds : Nat) (s rest : List Nat),
      s.Pairwise (fun x y => x ≤ y) → rounds ≤ rest.length →
      ∃ s1, sort_insert rounds s.length (s ++ rest) = s1 ++ rest.drop rounds ∧
        s1.Pairwise (fun x y => x ≤ y) ∧ s1.Perm (s ++ rest.take rounds) := by
  intro rounds
  induction rounds with
  | zero =>
    intro s rest hs _
    exact ⟨s, by simp [sort_insert], hs, by simp⟩
  | succ rounds ih =>
    intro s rest hs hr
    cases rest with
    | nil => simp at hr
    | cons key rest =>
      have hget : (s ++ key :: rest).getD s.length 0 = key := getD_after_prefix s rest key
      obtain ⟨a1, b1, hrun, hcat, hb1, ha1⟩ := sort_shift_inserts key rest s key [] hs
        (by intro x hx; cases hx)
      simp only [List.nil_append] at hrun
      unfold sort_insert
      rw [hget, hrun]
      have hsplit : a1 ++ key :: (b1 ++ rest) = (a1 ++ key :: b1) ++ rest := by simp
      have hlen : s.length + 1 = (a1 ++ key :: b1).length := by
        have : (a1 ++ b1).length = s.length := by rw [hcat]; simp
        simp at this ⊢
        omega
      have hs1 : (a1 ++ key :: b1).Pairwise (fun x y => x ≤ y) := by
        have hsab : (a1 ++ b1).Pairwise (fun x y => x ≤ y) := by
          rw [hcat]
          simpa using hs
        rw [List.pairwise_append] at hsab ⊢
        refine ⟨hsab.1, ?_, ?_⟩
        · rw [List.pairwise_cons]
          exact ⟨fun y hy => Nat.le_of_lt (hb1 y hy), hsab.2.1⟩
        · intro x hx y hy
          rcases List.mem_cons.mp hy with h | h
          · rw [h]; exact ha1 x hx
          · exact hsab.2.2 x hx y h
      rw [hsplit, hlen]
      obtain ⟨s2, hrun2, hs2, hperm2⟩ := ih (a1 ++ key :: b1) rest hs1
        (by simp at hr; omega)
      refine ⟨s2, ?_, hs2, ?_⟩
      · rw [hrun2]
        simp
      · refine hperm2.trans ?_
        have h1 : (a1 ++ key :: b1).Perm (key :: (a1 ++ b1)) := List.perm_middle
        have h2 : (key :: (a1 ++ b1)) = key :: s := by
          rw [hcat]
          simp
        rw [h2] at h1
        have h3 : (key :: s).Perm (s ++ [key]) := by
          simpa using (List.perm_append_singleton key s).symm
        have h4 : (a1 ++ key :: b1 ++ List.take rounds rest).Perm
            (s ++ [key] ++ List.take rounds rest) :=
          List.Perm.append_right _ (h1.trans h3)
        simpa using h4

/-- The insertion sort of `sr_ly_set_sort` leaves the elements of the set
sorted, and the array behind them as it is. -/
theorem sort_insert_set (set : ly_set) (hsize : set.number ≤ set.g.length) :
    ∃ s1, sort_insert (set.number - 1) 1 set.g = s1 ++ set.g.drop set.number ∧
      s1.Pairwise (fun x y => x ≤ y) ∧ s1.Perm (set.g.take set.number) := by
  rcases Nat.eq_zero_or_pos set.number with h0 | hpos
  · rw [h0]
    exact ⟨[], by simp [sort_insert], List.Pairwise.nil, by simp⟩
  · cases hg : set.g with
    | nil =>
      rw [hg] at hsize
      simp at hsize
      omega
    | cons x rest =>
      rw [hg] at hsize
      have hsize1 : set.number - 1 ≤ rest.length := by
        simp at hsize
        omega
      obtain ⟨s1, hrun, hs1, hperm⟩ := sort_insert_sorts (set.number - 1) [x] rest
        (List.pairwise_singleton _ _) hsize1
      refine ⟨s1, ?_, hs1, ?_⟩
      · have hn : set.number = (set.number - 1) + 1 := by omega
        have : (x :: rest).drop set.number = rest.drop (set.number - 1) := by
          rw [hn]
          simp
        rw [this]
        exact hrun
      · have hn : set.number = (set.number - 1) + 1 := by omega
        have : (x :: rest).take set.number = [x] ++ rest.take (set.number - 1) := by
          rw [hn]
          simp
        rw [this]
        exact hperm

/-- The comparator answers 0 for any two addresses that are multiples of 2^34
below 18 * 2^34. -/
theorem sr_ly_set_cmp_far (x y : Nat) (hx : x ≤ 17) (hy : y ≤ 17) :
    sr_ly_set_cmp (2 ^ 34 * x) (2 ^ 34 * y) = 0 := by
  unfold sr_ly_set_cmp
  have h64 : wrap_signed 64 (((2 ^ 34 * x : Nat) : Int) - ((2 ^ 34 * y : Nat) : Int))
      = ((2 ^ 34 * x : Nat) : Int) - ((2 ^ 34 * y : Nat) : Int) := by
    apply wrap_signed_64
    push_cast
    constructor <;> omega
  rw [h64]
  have hdiv : (((2 ^ 34 * x : Nat) : Int) - ((2 ^ 34 * y : Nat) : Int)) / 4
      = 2 ^ 32 * ((x : Int) - (y : Int)) := by
    push_cast
    omega
  rw [hdiv]
  unfold wrap_signed Int.bmod
  have h : (2 ^ 32 * ((x : Int) - (y : Int))) % ((2 ^ 32 : Nat) : Int) = 0 := by
    push_cast
    exact Int.mul_emod_right _ _
  rw [h]
  decide

/-- Every entry of an array of the addresses `far_apart`, in either order, is
a multiple of 2^34 below 18 * 2^34; so is the value 0 read past its end. -/
theorem far_apart_entry (i : Nat) :
    (∃ x, x ≤ 17 ∧ far_apart.getD i 0 = 2 ^ 34 * x) ∧
    (∃ x, x ≤ 17 ∧ far_apart.reverse.getD i 0 = 2 ^ 34 * x) := by
  by_cases h : i < 17
  · have h1 : far_apart.getD i 0 = 2 ^ 34 * (i + 1) := by
      interval_cases i <;> decide
    have h2 : far_apart.reverse.getD i 0 = 2 ^ 34 * (17 - i) := by
      interval_cases i <;> decide
    exact ⟨⟨i + 1, by omega, h1⟩, ⟨17 - i, by omega, h2⟩⟩
  · have h1 : far_apart.getD i 0 = 0 := by
      apply List.getD_eq_default
      simp [far_apart]
      omega
    have h2 : far_apart.reverse.getD i 0 = 0 := by
      apply List.getD_eq_default
      simp [far_apart]
      omega
    exact ⟨⟨0, by omega, by rw [h1]; rfl⟩, ⟨0, by omega, by rw [h2]; rfl⟩⟩

/-- On an array of the addresses `far_apart`, in either order, the comparator
answers 0 for every two positions. -/
theorem far_apart_answers :
    (fun i j => sr_ly_set_cmp (far_apart.getD i 0) (far_apart.getD j 0)) = (fun _ _ => 0) ∧
    (fun i j => sr_ly_set_cmp (far_apart.reverse.getD i 0) (far_apart.reverse.getD j 0))
      = (fun _ _ => 0) := by
  constructor
  · funext i j
    obtain ⟨x, hx, hxe⟩ := (far_apart_entry i).1
    obtain ⟨y, hy, hye⟩ := (far_apart_entry j).1
    rw [hxe, hye]
    exact sr_ly_set_cmp_far x y hx hy
  · funext i j
    obtain ⟨x, hx, hxe⟩ := (far_apart_entry i).2
    obtain ⟨y, hy, hye⟩ := (far_apart_entry j).2
    rw [hxe, hye]
    exact sr_ly_set_cmp_far x y hx hy

/-- Positions whose entries of `far_apart` are the entries of `far_apart` in
order are the positions 0 to 16 in order. -/
theorem far_apart_positions (l : List Nat)
    (h : l.map (fun i => far_apart.getD i 0) = far_apart) : l = List.range 17 := by
  have hlen : l.length = 17 := by
    have := congrArg List.length h
    simpa [far_apart] using this
  apply List.ext_getElem
  · simp [hlen]
  · intro k hk1 hk2
    have hk : k < 17 := by omega
    have h0 := congrArg (fun m : List Nat => m[k]?) h
    dsimp only at h0
    rw [List.getElem?_map, List.getElem?_eq_getElem hk1] at h0
    have hk3 : far_apart[k]? = some (2 ^ 34 * (k + 1)) := by
      interval_cases k <;> decide
    rw [hk3] at h0
    have h1 : far_apart.getD l[k] 0 = 2 ^ 34 * (k + 1) := by
      simpa using h0
    rw [List.getElem_range]
    by_cases hlk : l[k] < 17
    · have : far_apart.getD l[k] 0 = 2 ^ 34 * (l[k] + 1) := by
        rw [List.getD_eq_getElem _ _ (by simp [far_apart]; omega)]
        simp [far_apart]
      rw [this] at h1
      omega
    · have : far_apart.getD l[k] 0 = 0 := by
        apply List.getD_eq_default
        simp [far_apart]
        omega
      rw [this] at h1
      omega

/-- The comparator keeps its contract for two addresses that agree modulo 4
and lie less than 2^33 bytes (8 GiB) apart. -/
theorem sr_ly_set_cmp_near (a b : Nat) (halign : a % 4 = b % 4)
    (hlow : -(2 ^ 33 : Int) ≤ (a : Int) - (b : Int)) (hhigh : (a : Int) - (b : Int) < 2 ^ 33) :
    (sr_ly_set_cmp a b < 0 ↔ a < b) ∧ (sr_ly_set_cmp a b = 0 ↔ a = b) ∧
      (0 < sr_ly_set_cmp a b ↔ b < a) := by
  unfold sr_ly_set_cmp
  rw [wrap_signed_64 _ ⟨by omega, by omega⟩, wrap_signed_32 _ ⟨by omega, by omega⟩]
  refine ⟨?_, ?_, ?_⟩ <;> constructor <;> intro h <;> omega

/-- The sort on the path of `qsort`, for a set of 17 elements whose array
holds them and nothing else. -/
theorem sr_ly_set_sort_qsort (Q : Nat → (Nat → Nat → Int) → List Nat) (g : List Nat)
    (hlen : g.length = 17) :
    sr_ly_set_sort Q (some (ly_set.mk 17 g))
      = (SR_ERR_OK, some (ly_set.mk 17
          ((Q 17 fun i j => sr_ly_set_cmp (g.getD i 0) (g.getD j 0)).map
            fun i => g.getD i 0))) := by
  unfold sr_ly_set_sort qsort
  dsimp only
  rw [if_neg (by decide), List.drop_of_length_le (by omega), List.append_nil]

/-- Claim C39, refuted by the code on the path of `qsort`.  On the path of the
insertion sort, for a set of at most 16 elements, the call returns `SR_ERR_OK`
and leaves a permutation of the elements in non-decreasing address order.  The
comparator `sr_ly_set_cmp` keeps its contract for addresses less than 2^33
bytes apart, but it truncates the pointer difference to `int`: for the address
2^33 + 8 against the address 8 it answers -2^31, a negative number for a
higher first element, and for 2^34 + 8 against 8 it answers 0.  For the 17
addresses `far_apart` it answers 0 for every pair, so whatever method `qsort`
follows, it leaves the array in ascending or in descending order unsorted: for
every `Q` one of the two sets ends up not sorted although the call returns
`SR_ERR_OK`. -/
theorem set_sort_misorders_far_apart :
    (∀ (Q : Nat → (Nat → Nat → Int) → List Nat) (set : ly_set),
      set.number ≤ 16 → set.number ≤ set.g.length →
      (sr_ly_set_sort Q (some set)).1 = SR_ERR_OK ∧
        set.sorted_from (sr_ly_set_sort Q (some set)).2) ∧
    (∀ a b : Nat, a % 4 = b % 4 →
      -(2 ^ 33 : Int) ≤ (a : Int) - (b : Int) → (a : Int) - (b : Int) < 2 ^ 33 →
      (sr_ly_set_cmp a b < 0 ↔ a < b) ∧ (sr_ly_set_cmp a b = 0 ↔ a = b) ∧
        (0 < sr_ly_set_cmp a b ↔ b < a)) ∧
    sr_ly_set_cmp (2 ^ 33 + 8) 8 = -(2 ^ 31 : Int) ∧
    sr_ly_set_cmp (2 ^ 34 + 8) 8 = 0 ∧
    (∀ Q : Nat → (Nat → Nat → Int) → List Nat,
      ∃ set : ly_set, set.number = 17 ∧ (set.g = far_apart ∨ set.g = far_apart.reverse) ∧
        (sr_ly_set_sort Q (some set)).1 = SR_ERR_OK ∧
        ¬ set.sorted_from (sr_ly_set_sort Q (some set)).2) := by
  refine ⟨?_, sr_ly_set_cmp_near, by decide, by decide, ?_⟩
  · intro Q set h16 hsize
    obtain ⟨s1, hrun, hs1, hperm⟩ := sort_insert_set set hsize
    have hl : s1.length = set.number := by
      have := hperm.length_eq
      rw [List.length_take] at this
      omega
    have hres : sr_ly_set_sort Q (some set)
        = (SR_ERR_OK, some { set with g := sort_insert (set.number - 1) 1 set.g }) := by
      unfold sr_ly_set_sort
      dsimp only
      rw [if_pos h16]
    have ht : (s1 ++ set.g.drop set.number).take set.number = s1 := by
      rw [← hl]
      exact List.take_left _ _
    rw [hres]
    refine ⟨rfl, _, rfl, rfl, ?_, ?_⟩
    · dsimp only
      rw [hrun, ht]
      exact hperm
    · unfold ly_set.ascending
      dsimp only
      rw [hrun, ht]
      exact hs1
  · intro Q
    have hfar : far_apart.length = 17 := by decide
    have hrev : far_apart.reverse.length = 17 := by decide
    by_cases hpos : (Q 17 fun _ _ => 0).take 17 = List.range 17
    · refine ⟨ly_set.mk 17 far_apart.reverse, rfl, Or.inr rfl, ?_, ?_⟩
      · rw [sr_ly_set_sort_qsort Q _ hrev]
      · rw [sr_ly_set_sort_qsort Q _ hrev, far_apart_answers.2]
        rintro ⟨s, hs, _, _, hasc⟩
        dsimp only at hs
        cases hs
        unfold ly_set.ascending at hasc
        dsimp only at hasc
        rw [← List.map_take, hpos] at hasc
        revert hasc
        decide
    · refine ⟨ly_set.mk 17 far_apart, rfl, Or.inl rfl, ?_, ?_⟩
      · rw [sr_ly_set_sort_qsort Q _ hfar]
      · rw [sr_ly_set_sort_qsort Q _ hfar, far_apart_answers.1]
        rintro ⟨s, hs, _, hperm, hasc⟩
        dsimp only at hs
        cases hs
        unfold ly_set.ascending at hasc
        dsimp only at hasc hperm
        rw [← List.map_take] at hasc hperm
        have htake : far_apart.take 17 = far_apart := by decide
        rw [htake] at hperm
        have hsorted : far_apart.Pairwise (fun a b => a ≤ b) := by decide
        have heq := List.eq_of_perm_of_sorted hperm hasc hsorted
        exact hpos (far_apart_positions _ heq)

/-! ## Copying a typed tree into a data tree -/

/-- The loop over the children returns what the conversion of the last child
returns, in the state that the children before it have left. -/
theorem sr_subtree_to_dt_children_last (L : yang_library) (output : Bool) (c : sr_node_t)
    (node : Option lyd_node) :
    ∀ (cs : List sr_node_t) (ret : sr_error_t) (s : dt_state),
      sr_subtree_to_dt_children L output (cs ++ [c]) node ret s
        = sr_subtree_to_dt L output c node none
            (sr_subtree_to_dt_children L output cs node ret s).2 := by
  intro cs
  induction cs with
  | nil =>
    intro ret s
    simp [sr_subtree_to_dt_children]
  | cons x xs ih =>
    intro ret s
    rw [List.cons_append]
    unfold sr_subtree_to_dt_children
    exact ih _ _

/-- The string leaf of the examples conforms to a leaf of type `string` and
prints as its string. -/
theorem example_string_prints (st : MemState) (name : String) :
    sr_val_to_str_with_schema (fun _ => true) st
        { xpath := some "b", type := SR_STRING_T, data := { string_val := some "x" } }
        (.mk LYS_LEAF name { name := "m" } none (.mk LY_TYPE_STRING none 0 none []))
      = { rc := SR_ERR_OK, out := some "x", st := { st with allocs := st.allocs + 1 } } := by
  simp +decide [sr_val_to_str_with_schema, sr_check_value_conform_to_schema, matching_done,
    LYS_NODE.has_bit, LYS_NODE.code, sr_val_to_str_with_schema_switch, val_to_str_text, strdup]

/-- Claim C35, refuted by the code: the conversion of a container or list
returns what the conversion of its last child returns (the loop over the
children overwrites `ret` in every round), so the failure of a child that is
not the last one is lost.  For the container `c` with the children `a`, whose
tag is `SR_UNKNOWN_T`, and `b`, a string leaf, in a library in which every
call succeeds, `sr_tree_to_dt` returns `SR_ERR_OK` although the conversion of
`a` returns `SR_ERR_UNSUPPORTED` and `a` is not created; with the children in
the order `b`, `a` it returns `SR_ERR_UNSUPPORTED`.  The result of `lyd_new`
is not examined either: for `c` with the child `d`, a container without
children whose creation fails, `sr_tree_to_dt` returns `SR_ERR_OK`. -/
theorem tree_to_dt_drops_child_failure :
    (∀ (L : yang_library) (output : Bool) (cs : List sr_node_t) (c : sr_node_t)
        (node : Option lyd_node) (ret : sr_error_t) (s : dt_state),
      sr_subtree_to_dt_children L output (cs ++ [c]) node ret s
        = sr_subtree_to_dt L output c node none
            (sr_subtree_to_dt_children L output cs node ret s).2) ∧
    (∀ (L : yang_library) (output : Bool) (node : lyd_node) (s : dt_state),
      (sr_subtree_to_dt L output example_unknown (some node) none s).1 = SR_ERR_UNSUPPORTED) ∧
    ((sr_tree_to_dt (example_library true) (some (example_container [example_unknown,
        example_string])) none false {}).1 = SR_ERR_OK ∧
     (sr_tree_to_dt (example_library true) (some (example_container [example_unknown,
        example_string])) none false {}).2.log.map dt_call.target = [some "/m:c", some "b"]) ∧
    ((sr_tree_to_dt (example_library true) (some (example_container [example_string,
        example_unknown])) none false {}).1 = SR_ERR_UNSUPPORTED ∧
     (sr_tree_to_dt (example_library true) (some (example_container [example_string,
        example_unknown])) none false {}).2.log.map dt_call.target = [some "/m:c", some "b"]) ∧
    ((example_library false).lyd_new [] (.mk (.mk LYS_CONTAINER "c" { name := "m" } none
        (.mk LY_TYPE_DER none 0 none [])) false none []) { name := "m" } (some "d") = none ∧
     (sr_tree_to_dt (example_library false) (some (example_container [example_inner]))
        none false {}).1 = SR_ERR_OK ∧
     (sr_tree_to_dt (example_library false) (some (example_container [example_inner]))
        none false {}).2.log.map dt_call.target = [some "/m:c", some "d"]) := by
  refine ⟨?_, ?_, ⟨?_, ?_⟩, ⟨?_, ?_⟩, ⟨rfl, by decide, by decide⟩⟩
  · intro L output cs c node ret s
    exact sr_subtree_to_dt_children_last L output c node cs ret s
  · intro L output node s
    simp [sr_subtree_to_dt, example_unknown, subtree_module, dt_inner_type, subtree_leaf_below]
  all_goals
    simp +decide [sr_tree_to_dt, sr_subtree_to_dt, sr_subtree_to_dt_children, subtree_leaf_below,
      subtree_module, dt_inner_type, subtree_root_node, example_library, example_container,
      example_unknown, example_string, sr_node_t.module_name, sr_node_t.val, sr_calloc,
      sr_copy_first_ns, colon_pos, strndup, sr_find_schema_node, example_string_prints,
      dt_state.created, lyd_node_module, lyd_node.schema, lys_node.module, dt_call.target]

end Sysrepo
